import Mathlib

/-!
# DNS cookies in the resolver: request and response layers, secret rotation

A shallow embedding of the cookie layer of the resolver
(`modules/cookies/cookiemonster.c`, `modules/cookies/cookiectl.c`,
`lib/cookies/nonce.c`, `lib/cookies/alg_sha.c`, `lib/cookies/alg_srvr.c`,
`lib/cookies/control.c`) together with the properties of its specification.

Conventions of the embedding:

* octet strings are `List Nat` (every element is meant to be below 256);
* a C pointer that may be `NULL` is an `Option`;
* a function that mutates its arguments returns the new values;
* a function guarded by `assert` returns `none` where the assertion fails;
* return codes are `Int`, layer states and flag words are `Nat` with the
  bitwise operators of the source.
-/

namespace KnotResolver

/-! ## Constants -/

abbrev Octets := List Nat

/-- Success code `kr_ok()` of `lib/defines.h`. -/
def kr_ok : Int := 0

/-- Error code `kr_error(x)` of `lib/defines.h`: `-abs(x)`. -/
def kr_error (x : Int) : Int := -(Int.natAbs x : Int)

/-- The errno value the source passes to `kr_error`. -/
def EINVAL : Int := 22

/-- Modelled from the spec: the libknot error codes are declared outside src/;
`KNOT_EOK` is success and `KNOT_EINVAL` is the negated errno value. -/
def KNOT_EOK : Int := 0

/-- Modelled from the spec: libknot mismatch and bad-argument code, declared outside src/. -/
def KNOT_EINVAL : Int := -22

/-- Modelled from the spec: libknot code for a too small buffer, declared outside src/. -/
def KNOT_ESPACE : Int := -995

/-- Modelled from the spec: the layer states CONSUME, DONE and FAIL of section 4 are the
bit flags of libknot's layer interface, declared outside src/. -/
def KNOT_STATE_NOOP : Nat := 0

/-- Modelled from the spec: layer state flag "consume data" (declared outside src/). -/
def KNOT_STATE_CONSUME : Nat := 1 <<< 0

/-- Modelled from the spec: layer state flag "produce data" (declared outside src/). -/
def KNOT_STATE_PRODUCE : Nat := 1 <<< 1

/-- Modelled from the spec: layer state flag "finished" (declared outside src/). -/
def KNOT_STATE_DONE : Nat := 1 <<< 2

/-- Modelled from the spec: layer state flag "error" (declared outside src/). -/
def KNOT_STATE_FAIL : Nat := 1 <<< 3

/-- Modelled from the spec: section 3 names the query flag `USE_RELIABLE_TRANSPORT`
(`QUERY_TCP` in the source); `lib/rplan.h` is not under src/, the flag is a single bit. -/
def QUERY_TCP : Nat := 1 <<< 4

/-- Modelled from the spec: section 3 names the query flag `BADCOOKIE_AGAIN`;
`lib/rplan.h` is not under src/, the flag is a single bit distinct from `QUERY_TCP`. -/
def QUERY_BADCOOKIE_AGAIN : Nat := 1 <<< 22

/-- Width of the `flags` word of a query (`uint32_t`). -/
def FLAGS_MASK : Nat := 2 ^ 32 - 1

/-- Modelled from the spec: section 6, EDNS option code `COOKIE` = 10. -/
def KNOT_EDNS_OPTION_COOKIE : Nat := 10

/-- Modelled from the spec: section 6, extended RCODE `BADCOOKIE` = 23. -/
def KNOT_RCODE_BADCOOKIE : Nat := 23

/-- Modelled from the spec: header RCODE `FORMERR` of section 4.G (value 1 of the DNS protocol). -/
def KNOT_RCODE_FORMERR : Nat := 1

/-- Modelled from the spec: section 3, the client cookie has 8 octets. -/
def KNOT_OPT_COOKIE_CLNT : Nat := 8

/-- Modelled from the spec: section 3, a server cookie has at most 32 octets. -/
def KNOT_OPT_COOKIE_SRVR_MAX : Nat := 32

/-- Modelled from the spec: an EDNS option starts with a 4-octet header (code, length). -/
def KNOT_EDNS_OPTION_HDRLEN : Nat := 4

/-- Modelled from the spec: largest COOKIE option, header included (`lib/cookies` header not under src/). -/
def KR_COOKIE_OPT_MAX_LEN : Nat :=
  KNOT_EDNS_OPTION_HDRLEN + KNOT_OPT_COOKIE_CLNT + KNOT_OPT_COOKIE_SRVR_MAX

/-- The nonce block of `lib/cookies/nonce.c` has `2 * sizeof(uint32_t)` octets
(the assertion `KR_NONCE_LEN == *buf_len` of `kr_nonce_write_wire`). -/
def KR_NONCE_LEN : Nat := 8

/-- Address family tag of IPv4 socket addresses. -/
def AF_INET : Nat := 2

/-- Address family tag of IPv6 socket addresses. -/
def AF_INET6 : Nat := 10

/-! ## Data model -/

/-- A socket address: family tag, address octets and port. -/
structure sockaddr where
  sa_family : Nat
  addr : Octets
  port : Nat
deriving DecidableEq, Repr

/-- An EDNS option: its code and its value; the length field of the option
header is the length of the value. -/
structure edns_option where
  code : Nat
  data : Octets
deriving DecidableEq, Repr

/-- The OPT record of a packet: extended RCODE octet and the options. -/
structure knot_rrset where
  ext_rcode : Nat
  options : List edns_option
deriving DecidableEq, Repr

/-- A packet as far as the cookie layer reads and writes it: the RCODE field
of the header (`pkt->wire`) and the OPT record (`pkt->opt_rr`). -/
structure knot_pkt_t where
  rcode : Nat
  opt_rr : Option knot_rrset
deriving DecidableEq, Repr

/-- A cookie secret (`struct kr_cookie_secret`): `size` is the length of `data`. -/
structure kr_cookie_secret where
  data : Octets
deriving DecidableEq, Repr

/-- Length field of a secret. -/
def kr_cookie_secret.size (s : kr_cookie_secret) : Nat := s.data.length

/-- One slot of cookie settings (`struct kr_cookie_comp`): secret pointer and algorithm id. -/
structure kr_cookie_comp where
  secr : Option kr_cookie_secret
  alg_id : Int
deriving DecidableEq, Repr

/-- Settings of one role (`struct kr_cookie_settings`). -/
structure kr_cookie_settings where
  enabled : Bool
  current : kr_cookie_comp
  recent : kr_cookie_comp
deriving DecidableEq, Repr

/-- Cookie context of the resolver (`struct kr_cookie_ctx`). -/
structure kr_cookie_ctx where
  clnt : kr_cookie_settings
  srvr : kr_cookie_settings
deriving DecidableEq, Repr

/-- The parsed cookies of an option (`struct knot_dns_cookies`): client cookie
and, when present, server cookie. -/
structure knot_dns_cookies where
  cc : Octets
  sc : Option Octets
deriving DecidableEq, Repr

/-- Input of a client cookie algorithm (`struct knot_cc_input`). -/
structure knot_cc_input where
  clnt_sockaddr : Option sockaddr
  srvr_sockaddr : Option sockaddr
  secret_data : Octets
deriving DecidableEq, Repr

/-- Private server data of a server cookie algorithm (`struct knot_sc_private`). -/
structure knot_sc_private where
  clnt_sockaddr : Option sockaddr
  secret_data : Octets
deriving DecidableEq, Repr

/-- Input of a server cookie hash function (`struct knot_sc_input`). -/
structure knot_sc_input where
  cc : Octets
  nonce : Octets
  srvr_data : knot_sc_private
deriving DecidableEq, Repr

/-- Client cookie algorithm descriptor (`struct knot_cc_alg`): `gen_func`
returns the octets it wrote, the empty list standing for the return value 0. -/
structure knot_cc_alg where
  cc_size : Nat
  gen_func : knot_cc_input → Octets

/-- Server cookie algorithm descriptor (`struct knot_sc_alg`): `hash_func`
returns the octets it wrote, the empty list standing for the return value 0. -/
structure knot_sc_alg where
  hash_size : Nat
  hash_func : knot_sc_input → Octets

/-- Input of the nonce block (`struct kr_nonce_input`). -/
structure kr_nonce_input where
  rand : Nat
  time : Nat
deriving DecidableEq, Repr

/-- A query of the resolution plan, with the fields the cookie layer uses. -/
structure kr_query where
  flags : Nat
  parent : Option Nat
  sname : Octets
  sclass : Nat
  stype : Nat
  timestamp_sec : Nat
  qdcount : Nat
deriving DecidableEq, Repr

/-- The question a call of `kr_rplan_push` enqueues. -/
structure kr_rplan_entry where
  parent : Option Nat
  sname : Octets
  sclass : Nat
  stype : Nat
deriving DecidableEq, Repr

/-- The resolution plan: the questions pushed so far, in order, and the number
of queries its memory pool (`rplan->pool`) can still allocate. -/
structure kr_rplan where
  pending : List kr_rplan_entry
  pool : Nat
deriving DecidableEq, Repr

/-- Modelled from the spec: the cookie cache of section 4.D (`lib/cookies/lru_cache.c`
is not under src/): a capacity-bounded map from upstream address to the last stored
COOKIE option, most recently stored first. -/
structure kr_cookie_lru_t where
  capacity : Nat
  entries : List (sockaddr × edns_option)
deriving DecidableEq, Repr

/-- The source of a request (`req->qsource`): OPT record and address of the client. -/
structure kr_qsource where
  opt : Option knot_rrset
  addr : Option sockaddr
deriving DecidableEq, Repr

/-- The resolver context of a request (`req->ctx`). -/
structure kr_context where
  cookie_ctx : kr_cookie_ctx
  cache_cookie : kr_cookie_lru_t
deriving DecidableEq, Repr

/-- A request (`struct kr_request`) with the fields the cookie layer uses. -/
structure kr_request where
  ctx : kr_context
  current_query : kr_query
  rplan : kr_rplan
  upstream_addr : Option sockaddr
  qsource : kr_qsource
  answer : knot_pkt_t
deriving DecidableEq, Repr

/-! ## Packet and option accessors -/

/-- Modelled from the spec: message interface `has_opt()` of section 6: the packet has an OPT record. -/
def knot_pkt_has_edns (pkt : knot_pkt_t) : Bool := pkt.opt_rr.isSome

/-- Modelled from the spec: message interface `get_option(code)` of section 6: the first
option of the OPT record with the given code. -/
def knot_edns_get_option (opt_rr : knot_rrset) (code : Nat) : Option edns_option :=
  opt_rr.options.find? (fun o => o.code == code)

/-- Modelled from the spec: message interface `remove_option(code)` of section 6: all
options with the given code are removed from the OPT record. -/
def knot_edns_remove_options (opt_rr : knot_rrset) (code : Nat) : knot_rrset :=
  { opt_rr with options := opt_rr.options.filter (fun o => o.code != code) }

/-- Length field of an option (`knot_edns_opt_get_length`). -/
def knot_edns_opt_get_length (opt : edns_option) : Nat := opt.data.length

/-- Value of an option (`knot_edns_opt_get_data`). -/
def knot_edns_opt_get_data (opt : edns_option) : Octets := opt.data

/-- Modelled from the spec: message interface `set_rcode` of section 6: writes the RCODE
field of the header. -/
def knot_wire_set_rcode (pkt : knot_pkt_t) (rcode : Nat) : knot_pkt_t :=
  { pkt with rcode := rcode }

/-- Modelled from the spec: section 6, extended RCODE: the low nibble is the header RCODE,
the remainder is the extended RCODE octet of the OPT record; a packet without OPT
record has only the header RCODE. -/
def knot_pkt_get_ext_rcode (pkt : knot_pkt_t) : Nat :=
  match pkt.opt_rr with
  | some opt => (opt.ext_rcode <<< 4) ||| pkt.rcode
  | none => pkt.rcode

/-- Modelled from the spec: message interface `set_ext_rcode` of section 6 (`lib/utils.c` is
not under src/): low nibble into the header RCODE, remainder into the OPT record;
a packet without OPT record is left as it is. -/
def kr_pkt_set_ext_rcode (pkt : knot_pkt_t) (rcode : Nat) : knot_pkt_t :=
  match pkt.opt_rr with
  | none => pkt
  | some opt =>
    { rcode := rcode &&& 0x0f, opt_rr := some { opt with ext_rcode := rcode >>> 4 } }

/-! ## Wire codec -/

/-- Modelled from the spec: `decode_option` of section 4.A (`knot_edns_opt_cookie_parse` of
libknot): fails unless the total length is 8, 16, 24 or 32; the first 8 octets
are the client cookie, the rest, when there is one, is the server cookie. -/
def knot_edns_opt_cookie_parse (data : Octets) : Option knot_dns_cookies :=
  if data.length = 8 ∨ data.length = 16 ∨ data.length = 24 ∨ data.length = 32 then
    some { cc := data.take KNOT_OPT_COOKIE_CLNT,
           sc := if data.length = KNOT_OPT_COOKIE_CLNT then none
                 else some (data.drop KNOT_OPT_COOKIE_CLNT) }
  else none

/-- Modelled from the spec: `kr_parse_cookie_opt` of `lib/cookies/helper.c` (not under src/):
section 4.G step 2, parse the value of the request's COOKIE option; `none` is
the error return. -/
def kr_parse_cookie_opt (cookie_opt : edns_option) : Option knot_dns_cookies :=
  if knot_edns_opt_get_length cookie_opt = 0 then none
  else knot_edns_opt_cookie_parse (knot_edns_opt_get_data cookie_opt)

/-- Modelled from the spec: `encode_nonce_block` of section 4.A writes in network byte order
(`wire_write_u32` of `contrib/wire.h`, not under src/): the big-endian encoding of a
`uint32_t`. -/
def wire_write_u32 (v : Nat) : Octets :=
  [(v / 2 ^ 24) % 256, (v / 2 ^ 16) % 256, (v / 2 ^ 8) % 256, v % 256]

/-- The function `kr_nonce_write_wire` of `lib/cookies/nonce.c`: `buf` and `buf_len` are the
caller's buffer (`none` for a null pointer) and its capacity, `input` the nonce
input; the result is the return code, the buffer and the new `*buf_len`. -/
def kr_nonce_write_wire (buf : Option Octets) (buf_len : Option Nat)
    (input : Option kr_nonce_input) : Int × Option Octets × Option Nat :=
  match buf, buf_len, input with
  | some b, some len, some inp =>
    if len < KR_NONCE_LEN then (kr_error EINVAL, buf, buf_len)
    else
      (kr_ok,
       some (wire_write_u32 (inp.rand % 2 ^ 32) ++ wire_write_u32 (inp.time % 2 ^ 32)
             ++ b.drop KR_NONCE_LEN),
       some 8)
  | _, _, _ => (kr_error EINVAL, buf, buf_len)

/-! ## Cookie verification and the answer cookie -/

/-- Modelled from the spec: `verify(expected, input) = equal(expected, compute(input))` of
section 4.B for the client cookie (`knot_cc_check` of libknot, not under src/). -/
def knot_cc_check (cc : Octets) (input : knot_cc_input) (cc_alg : knot_cc_alg) : Int :=
  if cc.length = 0 ∨ cc_alg.cc_size = 0 then KNOT_EINVAL
  else if cc_alg.cc_size > KNOT_OPT_COOKIE_CLNT then KNOT_ESPACE
  else if (cc_alg.gen_func input).length ≠ cc.length then KNOT_EINVAL
  else if cc = cc_alg.gen_func input then KNOT_EOK
  else KNOT_EINVAL

/-- Modelled from the spec: `verify(expected, input) = equal(expected, compute(input))` of
section 4.B for the full-shape server cookie (`knot_sc_check` of libknot, not
under src/): the server cookie is the nonce block followed by the hash, and the
hash is recomputed over client cookie, nonce block and private server data. -/
def knot_sc_check (nonce_len : Nat) (cookies : knot_dns_cookies)
    (srvr_data : knot_sc_private) (sc_alg : knot_sc_alg) : Int :=
  match cookies.sc with
  | none => KNOT_EINVAL
  | some sc =>
    if cookies.cc.length = 0 ∨ sc.length = 0 then KNOT_EINVAL
    else if srvr_data.clnt_sockaddr.isNone ∨ srvr_data.secret_data.length = 0 then KNOT_EINVAL
    else if sc_alg.hash_size = 0 then KNOT_EINVAL
    else if sc.length ≠ nonce_len + sc_alg.hash_size then KNOT_EINVAL
    else if (sc_alg.hash_func
              { cc := cookies.cc, nonce := sc.take nonce_len, srvr_data := srvr_data }).length = 0
      then KNOT_EINVAL
    else if sc.drop nonce_len =
        sc_alg.hash_func { cc := cookies.cc, nonce := sc.take nonce_len, srvr_data := srvr_data }
      then KNOT_EOK
    else KNOT_EINVAL

/-- Modelled from the spec: message interface `put_option(code, bytes)` of section 6 as used
in section 4.G step 5: the option replaces any prior option of the same code. -/
def knot_edns_put_unique_option (opt_rr : knot_rrset) (code : Nat) (data : Octets) :
    knot_rrset :=
  { opt_rr with
    options := opt_rr.options.filter (fun o => o.code != code) ++ [{ code := code, data := data }] }

/-- Modelled from the spec: `kr_answer_write_cookie` of `lib/cookies/helper.c` (not under
src/), section 4.G step 5: compute the hash over the client cookie and the nonce
block under the given secret and write client cookie, nonce, time and hash to
the OPT record of the answer, replacing any prior COOKIE option. It fails, and
leaves the packet alone, without client address, secret, client cookie, usable
algorithm or OPT record. -/
def kr_answer_write_cookie (srvr_data : knot_sc_private) (cc : Octets)
    (nonce : kr_nonce_input) (alg : knot_sc_alg) (pkt : knot_pkt_t) : Int × knot_pkt_t :=
  if srvr_data.clnt_sockaddr.isNone ∨ srvr_data.secret_data.length = 0 then
    (kr_error EINVAL, pkt)
  else if cc.length = 0 then (kr_error EINVAL, pkt)
  else if alg.hash_size = 0 then (kr_error EINVAL, pkt)
  else
    match pkt.opt_rr with
    | none => (kr_error EINVAL, pkt)
    | some opt =>
      match kr_nonce_write_wire (some (List.replicate KR_NONCE_LEN 0)) (some KR_NONCE_LEN)
              (some nonce) with
      | (_, some nonce_wire, _) =>
        if (alg.hash_func { cc := cc, nonce := nonce_wire, srvr_data := srvr_data }).length
            ≠ alg.hash_size then
          (kr_error EINVAL, pkt)
        else
          (kr_ok,
           { pkt with
             opt_rr := some (knot_edns_put_unique_option opt KNOT_EDNS_OPTION_COOKIE
               (cc ++ nonce_wire
                 ++ alg.hash_func { cc := cc, nonce := nonce_wire, srvr_data := srvr_data })) })
      | _ => (kr_error EINVAL, pkt)

/-! ## Cookie cache -/

/-- Modelled from the spec: `get(addr)` of section 4.D (`kr_cookie_lru_get`): the option
stored for the address, if any. -/
def kr_cookie_lru_get (cache : kr_cookie_lru_t) (sa : sockaddr) : Option edns_option :=
  (cache.entries.find? (fun e => e.1 == sa)).map (fun e => e.2)

/-- Modelled from the spec: `put(addr, option)` of section 4.D (`kr_cookie_lru_set`):
insert or replace, refusing an option larger than the maximum option length;
when the capacity is exceeded the least recently stored entry is dropped. -/
def kr_cookie_lru_set (cache : kr_cookie_lru_t) (sa : sockaddr) (opt : edns_option) :
    Int × kr_cookie_lru_t :=
  if KNOT_EDNS_OPTION_HDRLEN + knot_edns_opt_get_length opt > KR_COOKIE_OPT_MAX_LEN then
    (kr_error EINVAL, cache)
  else
    (kr_ok,
     { cache with
       entries := ((sa, opt) :: cache.entries.filter (fun e => e.1 != sa)).take cache.capacity })

/-! ## Resolution plan -/

/-- Modelled from the spec: resolver plan interface `enqueue_repeat` of section 6
(`kr_rplan_push` of `lib/rplan.c`, not under src/): a query with the given parent,
name, class and type is appended to the plan; `none` is the `NULL` the function
returns when the pool cannot allocate the query. -/
def kr_rplan_push (rplan : kr_rplan) (parent : Option Nat) (name : Octets)
    (cls type : Nat) : Option kr_rplan :=
  if rplan.pool = 0 then none
  else
    some { pending := rplan.pending ++
             [{ parent := parent, sname := name, sclass := cls, stype := type }],
           pool := rplan.pool - 1 }

/-! ## Client side: `modules/cookies/cookiemonster.c`, responses -/

/-- The function `passed_server_sockaddr`: the upstream address of the request when
it is an IPv4 or IPv6 address. -/
def passed_server_sockaddr (req : kr_request) : Option sockaddr :=
  match req.upstream_addr with
  | none => none
  | some a => if a.sa_family = AF_INET ∨ a.sa_family = AF_INET6 then some a else none

/-- The function `srvr_sockaddr_cc_check`: 1 when the client cookie matches the current
settings, 0 when it matches the recent settings, -1 when it matches neither,
-2 on an error; `none` where the assertions on the client cookie or the
current secret fail. `kr_cc_alg_get` is the registry of client algorithms. -/
def srvr_sockaddr_cc_check (kr_cc_alg_get : Int → Option knot_cc_alg)
    (srvr_sa : Option sockaddr) (cc : Octets) (clnt_sett : kr_cookie_settings) :
    Option Int :=
  if cc.length = 0 then none
  else
    match srvr_sa with
    | none => some (-2)
    | some sa =>
      match clnt_sett.current.secr with
      | none => none
      | some secr =>
        match kr_cc_alg_get clnt_sett.current.alg_id with
        | none => some (-2)
        | some cc_alg =>
          if knot_cc_check cc
              { clnt_sockaddr := none, srvr_sockaddr := some sa, secret_data := secr.data }
              cc_alg = KNOT_EOK then some 1
          else
            match clnt_sett.recent.secr, kr_cc_alg_get clnt_sett.recent.alg_id with
            | some rsecr, some ralg =>
              if knot_cc_check cc
                  { clnt_sockaddr := none, srvr_sockaddr := some sa, secret_data := rsecr.data }
                  ralg = KNOT_EOK then some 0
              else some (-1)
            | _, _ => some (-1)

/-- The octets of an option as they lie in memory: code and length, both
big-endian on 16 bits, then the value. -/
def edns_option_wire (opt : edns_option) : Octets :=
  [(opt.code / 256) % 256, opt.code % 256,
   (opt.data.length / 256) % 256, opt.data.length % 256] ++ opt.data

/-- The function `get_cookie_opt`: the cached option of the address, ignoring an
entry whose size exceeds `KR_COOKIE_OPT_MAX_LEN`. -/
def get_cookie_opt (cache : kr_cookie_lru_t) (sa : sockaddr) : Option edns_option :=
  match kr_cookie_lru_get cache sa with
  | none => none
  | some cached_cookie_opt =>
    if KNOT_EDNS_OPTION_HDRLEN + knot_edns_opt_get_length cached_cookie_opt
        > KR_COOKIE_OPT_MAX_LEN then none
    else some cached_cookie_opt

/-- The function `is_cookie_cached`: the option is cached under the address, compared
on its size (a `uint16_t`) and on that many octets. -/
def is_cookie_cached (cache : kr_cookie_lru_t) (sa : sockaddr) (cookie_opt : edns_option) :
    Bool :=
  match get_cookie_opt cache sa with
  | none => false
  | some cached_opt =>
    if (KNOT_EDNS_OPTION_HDRLEN + knot_edns_opt_get_length cookie_opt) % 2 ^ 16
        ≠ (KNOT_EDNS_OPTION_HDRLEN + knot_edns_opt_get_length cached_opt) % 2 ^ 16 then false
    else
      decide ((edns_option_wire cookie_opt).take
                ((KNOT_EDNS_OPTION_HDRLEN + knot_edns_opt_get_length cookie_opt) % 2 ^ 16)
              = (edns_option_wire cached_opt).take
                ((KNOT_EDNS_OPTION_HDRLEN + knot_edns_opt_get_length cookie_opt) % 2 ^ 16))

/-- The function `check_cookie_content_and_cache`: the verdict and the cache afterwards;
`none` where an assertion of the source fails. -/
def check_cookie_content_and_cache (kr_cc_alg_get : Int → Option knot_cc_alg)
    (clnt_sett : kr_cookie_settings) (req : kr_request) (pkt_cookie_opt : edns_option)
    (cache : kr_cookie_lru_t) : Option (Bool × kr_cookie_lru_t) :=
  match knot_edns_opt_cookie_parse (knot_edns_opt_get_data pkt_cookie_opt) with
  | none => some (false, cache)
  | some cookies =>
    match cookies.sc with
    | none => some (false, cache)
    | some _ =>
      match srvr_sockaddr_cc_check kr_cc_alg_get (passed_server_sockaddr req) cookies.cc
              clnt_sett with
      | none => none
      | some ret =>
        if ret < 0 then some (false, cache)
        else
          match passed_server_sockaddr req with
          | none => none
          | some srvr_sockaddr =>
            if ret = 1 ∧ is_cookie_cached cache srvr_sockaddr pkt_cookie_opt = false then
              some (true, (kr_cookie_lru_set cache srvr_sockaddr pkt_cookie_opt).2)
            else some (true, cache)

/-- The local `pkt_cookie_opt` of `check_response`: the COOKIE option of the response,
looked up when the packet has an OPT record. -/
def response_cookie_opt (pkt : knot_pkt_t) : Option edns_option :=
  match pkt.opt_rr with
  | some opt_rr => knot_edns_get_option opt_rr KNOT_EDNS_OPTION_COOKIE
  | none => none

/-- The function `check_response` of `modules/cookies/cookiemonster.c`: processes an
incoming response; the result is the returned layer state and the request
(query flags, resolution plan, cookie cache) afterwards. -/
def check_response (kr_cc_alg_get : Int → Option knot_cc_alg) (ctx_state : Nat)
    (req : kr_request) (pkt : knot_pkt_t) : Option (Nat × kr_request) :=
  if req.ctx.cookie_ctx.clnt.enabled = false ∨ req.current_query.flags &&& QUERY_TCP ≠ 0 then
    some (ctx_state, req)
  else
    match response_cookie_opt pkt with
    | none =>
      match passed_server_sockaddr req with
      | some srvr_sockaddr =>
        if (get_cookie_opt req.ctx.cache_cookie srvr_sockaddr).isSome then
          some (KNOT_STATE_FAIL, req)
        else some (ctx_state, req)
      | none => some (ctx_state, req)
    | some pkt_cookie_opt =>
      match check_cookie_content_and_cache kr_cc_alg_get req.ctx.cookie_ctx.clnt req
              pkt_cookie_opt req.ctx.cache_cookie with
      | none => none
      | some (false, _) => some (KNOT_STATE_FAIL, req)
      | some (true, cache) =>
        if knot_pkt_get_ext_rcode pkt = KNOT_RCODE_BADCOOKIE then
          match (if req.current_query.flags &&& QUERY_BADCOOKIE_AGAIN = 0 then
                   kr_rplan_push req.rplan req.current_query.parent req.current_query.sname
                     req.current_query.sclass req.current_query.stype
                 else none) with
          | some rplan =>
            some (KNOT_STATE_CONSUME,
              { req with
                ctx := { req.ctx with cache_cookie := cache },
                rplan := rplan,
                current_query := { req.current_query with
                  flags := req.current_query.flags ||| QUERY_BADCOOKIE_AGAIN } })
          | none =>
            some (KNOT_STATE_CONSUME,
              { req with
                ctx := { req.ctx with cache_cookie := cache },
                current_query := { req.current_query with
                  flags := (req.current_query.flags &&& (FLAGS_MASK ^^^ QUERY_BADCOOKIE_AGAIN))
                             ||| QUERY_TCP } })
        else some (ctx_state, { req with ctx := { req.ctx with cache_cookie := cache } })

/-! ## Server side: `modules/cookies/cookiemonster.c`, requests -/

/-- The function `req_cookie_option`: the COOKIE option of the request's OPT record. -/
def req_cookie_option (req : kr_request) : Option edns_option :=
  match req.qsource.opt with
  | none => none
  | some opt => knot_edns_get_option opt KNOT_EDNS_OPTION_COOKIE

/-- The server cookie check of `check_request` (the statements between the comments
"Check server cookie obtained in request" and "Invalid server cookie"): the
value of `ret` after the check under the current settings and, when that
returned `KNOT_EINVAL` and a recent secret and algorithm exist, the check under
the recent settings. -/
def check_request_sc_ret (kr_sc_alg_get : Int → Option knot_sc_alg)
    (srvr_sett : kr_cookie_settings) (addr : Option sockaddr) (cookies : knot_dns_cookies)
    (srvr_data : knot_sc_private) (current_sc_alg : knot_sc_alg) : Int :=
  if knot_sc_check KR_NONCE_LEN cookies srvr_data current_sc_alg = KNOT_EINVAL then
    match srvr_sett.recent.secr with
    | some rsecr =>
      match kr_sc_alg_get srvr_sett.recent.alg_id with
      | some recent_sc_alg =>
        knot_sc_check KR_NONCE_LEN cookies
          { clnt_sockaddr := addr, secret_data := rsecr.data } recent_sc_alg
      | none => knot_sc_check KR_NONCE_LEN cookies srvr_data current_sc_alg
    | none => knot_sc_check KR_NONCE_LEN cookies srvr_data current_sc_alg
  else knot_sc_check KR_NONCE_LEN cookies srvr_data current_sc_alg

/-- The label `answer_add_cookies` of `check_request`: write the server cookie into
the answer; a failing write turns the returned state into `KNOT_STATE_FAIL`. -/
def answer_add_cookies (srvr_data : knot_sc_private) (cookies : knot_dns_cookies)
    (nonce : kr_nonce_input) (current_sc_alg : knot_sc_alg) (return_state : Nat)
    (answer : knot_pkt_t) : Nat × knot_pkt_t :=
  if (kr_answer_write_cookie srvr_data cookies.cc nonce current_sc_alg answer).1 ≠ kr_ok then
    (KNOT_STATE_FAIL, (kr_answer_write_cookie srvr_data cookies.cc nonce current_sc_alg answer).2)
  else
    (return_state, (kr_answer_write_cookie srvr_data cookies.cc nonce current_sc_alg answer).2)

/-- The local `srvr_data` of `check_request`: the address of the client and the current
server secret. -/
def check_request_srvr_data (addr : sockaddr) (secr : kr_cookie_secret) : knot_sc_private :=
  { clnt_sockaddr := some addr, secret_data := secr.data }

/-- The local `nonce` of `check_request`: the random value drawn for this request and the
seconds of the timestamp of the current query, both `uint32_t`. -/
def check_request_nonce (req : kr_request) (rand : Nat) : kr_nonce_input :=
  { rand := rand, time := req.current_query.timestamp_sec % 2 ^ 32 }

/-- The function `check_request` of `modules/cookies/cookiemonster.c`: inspects an incoming
request; `kr_sc_alg_get` is the registry of server algorithms, `rand` the value
drawn by `kr_rand_uint`; the result is the returned layer state and the answer
packet afterwards. -/
def check_request (kr_sc_alg_get : Int → Option knot_sc_alg) (ctx_state : Nat)
    (req : kr_request) (rand : Nat) : Nat × knot_pkt_t :=
  if req.ctx.cookie_ctx.srvr.enabled = false then
    (ctx_state,
     match req.answer.opt_rr with
     | some opt_rr =>
       { req.answer with opt_rr := some (knot_edns_remove_options opt_rr KNOT_EDNS_OPTION_COOKIE) }
     | none => req.answer)
  else
    match req_cookie_option req with
    | none => (ctx_state, req.answer)
    | some req_cookie_opt =>
      match kr_parse_cookie_opt req_cookie_opt with
      | none =>
        (KNOT_STATE_FAIL ||| KNOT_STATE_DONE, knot_wire_set_rcode req.answer KNOT_RCODE_FORMERR)
      | some cookies =>
        let ignore_badcookie := true
        match req.qsource.addr with
        | none => (KNOT_STATE_FAIL, req.answer)
        | some addr =>
          match req.ctx.cookie_ctx.srvr.current.secr with
          | none => (KNOT_STATE_FAIL, req.answer)
          | some secr =>
            match kr_sc_alg_get req.ctx.cookie_ctx.srvr.current.alg_id with
            | none => (KNOT_STATE_FAIL, req.answer)
            | some current_sc_alg =>
              let srvr_data := check_request_srvr_data addr secr
              let nonce := check_request_nonce req rand
              match cookies.sc with
              | none =>
                if req.current_query.qdcount = 0 then
                  answer_add_cookies srvr_data cookies nonce current_sc_alg
                    KNOT_STATE_DONE req.answer
                else if ignore_badcookie = false then
                  if knot_pkt_has_edns req.answer = false then (KNOT_STATE_FAIL, req.answer)
                  else
                    answer_add_cookies srvr_data cookies nonce current_sc_alg
                      (KNOT_STATE_FAIL ||| KNOT_STATE_DONE)
                      (kr_pkt_set_ext_rcode req.answer KNOT_RCODE_BADCOOKIE)
                else
                  answer_add_cookies srvr_data cookies nonce current_sc_alg ctx_state req.answer
              | some _ =>
                if check_request_sc_ret kr_sc_alg_get req.ctx.cookie_ctx.srvr (some addr)
                    cookies srvr_data current_sc_alg ≠ KNOT_EOK then
                  if req.current_query.qdcount = 0 then
                    answer_add_cookies srvr_data cookies nonce current_sc_alg
                      (KNOT_STATE_DONE ||| KNOT_STATE_FAIL)
                      (kr_pkt_set_ext_rcode req.answer KNOT_RCODE_BADCOOKIE)
                  else if ignore_badcookie = false then
                    if knot_pkt_has_edns req.answer = false then (KNOT_STATE_FAIL, req.answer)
                    else
                      answer_add_cookies srvr_data cookies nonce current_sc_alg
                        (KNOT_STATE_FAIL ||| KNOT_STATE_DONE)
                        (kr_pkt_set_ext_rcode req.answer KNOT_RCODE_BADCOOKIE)
                  else
                    answer_add_cookies srvr_data cookies nonce current_sc_alg ctx_state
                      req.answer
                else
                  answer_add_cookies srvr_data cookies nonce current_sc_alg ctx_state req.answer

/-! ## Secret rotation: `modules/cookies/cookiectl.c` -/

/-- The function `settings_equal`: same algorithm id, same secret size and the same
octets over that size; `none` where the assertion that both secrets are
present fails. -/
def settings_equal (s1 s2 : kr_cookie_comp) : Option Bool :=
  match s1.secr, s2.secr with
  | some secr1, some secr2 =>
    if s1.alg_id ≠ s2.alg_id ∨ secr1.size ≠ secr2.size then some false
    else some (decide (secr1.data.take secr1.size = secr2.data.take secr1.size))
  | _, _ => none

/-- The function `apply_from_copy`: the running context after the candidate `shallow`
has been applied; `none` where an assertion of `settings_equal` fails. -/
def apply_from_copy (running shallow : kr_cookie_ctx) : Option kr_cookie_ctx :=
  match settings_equal running.clnt.current shallow.clnt.current,
        settings_equal running.srvr.current shallow.srvr.current with
  | some clnt_eq, some srvr_eq =>
    some
      { clnt :=
          { enabled := shallow.clnt.enabled,
            current := if clnt_eq = false then shallow.clnt.current else running.clnt.current,
            recent := if clnt_eq = false then running.clnt.current else running.clnt.recent },
        srvr :=
          { enabled := shallow.srvr.enabled,
            current := if srvr_eq = false then shallow.srvr.current else running.srvr.current,
            recent := if srvr_eq = false then running.srvr.current else running.srvr.recent } }
  | _, _ => none

/-! ## The FNV-64 server algorithm, used for the concrete instances -/

/-- Modelled from the spec: the reference FNV-1a hash on 64 bits of section 4.B (`contrib/fnv`
is not under src/): for every octet, xor it into the state and multiply by the
FNV prime modulo 2^64. -/
def fnv_64a_buf (buf : Octets) (hval : Nat) : Nat :=
  buf.foldl (fun h b => ((h ^^^ b) * 0x100000001b3) % 2 ^ 64) hval

/-- Modelled from the spec: the offset basis the reference FNV-1a hash starts from. -/
def FNV1A_64_INIT : Nat := 0xcbf29ce484222325

/-- The octets of a 64-bit value as `memcpy` lays them out on a little-endian host. -/
def u64_octets (v : Nat) : Octets :=
  (List.range 8).map (fun i => (v / 2 ^ (8 * i)) % 256)

/-- Modelled from the spec: address serialization of section 4.B (`kr_inaddr` of `lib/utils.h`,
not under src/): the 4 octets of an IPv4 or the 16 octets of an IPv6 address. -/
def kr_inaddr (sa : sockaddr) : Option Octets :=
  if sa.sa_family = AF_INET then some (sa.addr.take 4)
  else if sa.sa_family = AF_INET6 then some (sa.addr.take 16)
  else none

/-- Modelled from the spec: "Server cookie — FNV-64 full" of section 4.B (the descriptor
of the registry in `lib/cookies/alg_containers.c`, not under src/): the hash is
FNV-1a over client address, nonce and time, client cookie and secret. -/
def sc_gen_fnv64 (input : knot_sc_input) : Octets :=
  if input.cc.length = 0 ∨ input.srvr_data.secret_data.length = 0 then []
  else
    u64_octets
      (fnv_64a_buf input.srvr_data.secret_data
        (fnv_64a_buf input.cc
          (fnv_64a_buf input.nonce
            (fnv_64a_buf
              (match input.srvr_data.clnt_sockaddr with
               | some sa => (kr_inaddr sa).getD []
               | none => [])
              FNV1A_64_INIT))))

/-- Modelled from the spec: the algorithm descriptor "FNV-64" of section 3 for the server
role, with its 8-octet hash. -/
def knot_sc_alg_fnv64 : knot_sc_alg := { hash_size := 8, hash_func := sc_gen_fnv64 }

/-- Modelled from the spec: the registry of section 4.C for the server role, by-id lookup
(`kr_sc_alg_get`); only the FNV-64 descriptor, under id 0, is listed here. -/
def kr_sc_alg_get_fnv (id : Int) : Option knot_sc_alg :=
  if id = 0 then some knot_sc_alg_fnv64 else none

/-- Modelled from the spec: "Client cookie — FNV-64" of section 4.B (the descriptor of the
registry in `lib/cookies/alg_containers.c`, not under src/): FNV-1a over client
address, server address and secret; at least one address and the secret are
mandatory. -/
def cc_gen_fnv64 (input : knot_cc_input) : Octets :=
  if (input.clnt_sockaddr.isNone ∧ input.srvr_sockaddr.isNone)
      ∨ input.secret_data.length = 0 then []
  else
    u64_octets
      (fnv_64a_buf input.secret_data
        (fnv_64a_buf
          (match input.srvr_sockaddr with
           | some sa => (kr_inaddr sa).getD []
           | none => [])
          (fnv_64a_buf
            (match input.clnt_sockaddr with
             | some sa => (kr_inaddr sa).getD []
             | none => [])
            FNV1A_64_INIT)))

/-- Modelled from the spec: the algorithm descriptor "FNV-64" of section 3 for the client
role, with its 8-octet client cookie. -/
def knot_cc_alg_fnv64 : knot_cc_alg := { cc_size := 8, gen_func := cc_gen_fnv64 }

/-- Modelled from the spec: the registry of section 4.C for the client role, by-id lookup
(`kr_cc_alg_get`); only the FNV-64 descriptor, under id 0, is listed here. -/
def kr_cc_alg_get_fnv (id : Int) : Option knot_cc_alg :=
  if id = 0 then some knot_cc_alg_fnv64 else none

/-! ## The HMAC-SHA256-64 client algorithm: `lib/cookies/alg_sha.c` -/

/-- The function `update_hash` of `lib/cookies/alg_sha.c`, as the octets it appends to the
message of the HMAC context: the address octets of the socket address when
`kr_inaddr` yields some, nothing otherwise. -/
def update_hash (sa : sockaddr) : Octets :=
  match kr_inaddr sa with
  | some addr => if addr.length > 0 then addr else []
  | none => []

/-- The function `cc_gen_hmac_sha256_64` of `lib/cookies/alg_sha.c`. `hmac_sha256 key msg` is the
HMAC-SHA256 digest of the library (`hmac_sha256_set_key`, `hmac_sha256_update`,
`hmac_sha256_digest`), `input` and `cc_out` are `none` for null pointers, `cc_len`
is the capacity of `cc_out`; the result is the returned length and the buffer. -/
def cc_gen_hmac_sha256_64 (hmac_sha256 : Octets → Octets → Octets)
    (input : Option knot_cc_input) (cc_out : Option Octets) (cc_len : Nat) :
    Nat × Option Octets :=
  match input, cc_out with
  | some inp, some out =>
    if cc_len < KNOT_OPT_COOKIE_CLNT then (0, cc_out)
    else if (inp.clnt_sockaddr.isNone ∧ inp.srvr_sockaddr.isNone)
        ∨ inp.secret_data.length = 0 then (0, cc_out)
    else
      (KNOT_OPT_COOKIE_CLNT,
       some ((hmac_sha256 inp.secret_data
                ((match inp.clnt_sockaddr with
                  | some sa => update_hash sa
                  | none => [])
                 ++ (match inp.srvr_sockaddr with
                     | some sa => update_hash sa
                     | none => []))).take KNOT_OPT_COOKIE_CLNT
             ++ out.drop KNOT_OPT_COOKIE_CLNT))
  | _, _ => (0, cc_out)

/-- The descriptor `knot_cc_alg_hmac_sha256_64` of `lib/cookies/alg_sha.c`: client cookie size
`KNOT_OPT_COOKIE_CLNT` and `cc_gen_hmac_sha256_64`, called on a zeroed buffer of that
size as the cookie check does; the octets are those the function reports as written. -/
def knot_cc_alg_hmac_sha256_64 (hmac_sha256 : Octets → Octets → Octets) : knot_cc_alg :=
  { cc_size := KNOT_OPT_COOKIE_CLNT,
    gen_func := fun input =>
      match cc_gen_hmac_sha256_64 hmac_sha256 (some input)
              (some (List.replicate KNOT_OPT_COOKIE_CLNT 0)) KNOT_OPT_COOKIE_CLNT with
      | (n, some out) => out.take n
      | (_, none) => [] }

/-! ## Server cookie algorithms of `lib/cookies/alg_srvr.c` -/

/-- The byte order of the host the resolver runs on. -/
inductive byte_order where
  | little_endian
  | big_endian
deriving DecidableEq, Repr

/-- The four octets of a `uint32_t` as they lie in the memory of the host (what
`(void *) &input->nonce` points to). -/
def host_u32_octets (host : byte_order) (v : Nat) : Octets :=
  match host with
  | byte_order.big_endian => wire_write_u32 v
  | byte_order.little_endian => (wire_write_u32 v).reverse

/-- The eight octets of a 64-bit value as they lie in the memory of the host (what
`memcpy(sc_out, &hash_val, sizeof(hash_val))` copies). -/
def host_u64_octets (host : byte_order) (v : Nat) : Octets :=
  match host with
  | byte_order.little_endian => u64_octets v
  | byte_order.big_endian => (u64_octets v).reverse

/-- The value of four octets read in network byte order (`memcpy` into a `uint32_t`
followed by `ntohl`). -/
def wire_read_u32 (b : Octets) : Nat :=
  b.getD 0 0 * 2 ^ 24 + b.getD 1 0 * 2 ^ 16 + b.getD 2 0 * 2 ^ 8 + b.getD 3 0

/-- Modelled from the spec: address serialization of section 4.B (`kr_address_bytes` of
`lib/cookies/alg_clnt.c`, not under src/): the 4 octets of an IPv4 or the 16 octets of
an IPv6 address; `none` is the error return for a null or other socket address. -/
def kr_address_bytes (sa : Option sockaddr) : Option Octets :=
  match sa with
  | none => none
  | some a => kr_inaddr a

/-- Input of the server cookie algorithms (`struct kr_srvr_cookie_input`): client cookie,
nonce and time (both `uint32_t`) and the private server data. -/
structure kr_srvr_cookie_input where
  clnt_cookie : Option Octets
  nonce : Nat
  time : Nat
  srvr_data : knot_sc_private
deriving DecidableEq, Repr

/-- The parsed server cookie (`struct kr_srvr_cookie_inbound`): `clnt_cookie` stands for the
8 octets the pointer refers to, `hash_data` for the `hash_len` octets it refers to. -/
structure kr_srvr_cookie_inbound where
  clnt_cookie : Option Octets
  nonce : Nat
  time : Nat
  hash_data : Option Octets
  hash_len : Nat
deriving DecidableEq, Repr

/-- The function `srvr_cookie_parse_simple`: `cookie_data` is the option value (`data_len` is
its length), `inbound` the structure to fill; the result is the return code and
`inbound` afterwards, `none` where the assertion on the client cookie length fails.
The call `kr_error(EINVAL)` on a failed parse or a missing server cookie has no
effect on the control flow. -/
def srvr_cookie_parse_simple (cookie_data : Option Octets)
    (inbound : Option kr_srvr_cookie_inbound) : Option (Int × Option kr_srvr_cookie_inbound) :=
  match cookie_data, inbound with
  | some data, some inb =>
    match knot_edns_opt_cookie_parse data with
    | none => none
    | some cookies =>
      some (kr_ok,
        some { inb with
               clnt_cookie := some cookies.cc,
               hash_data := cookies.sc,
               hash_len := data.length - KNOT_OPT_COOKIE_CLNT })
  | _, _ => some (kr_error EINVAL, inbound)

/-- The function `srvr_cookie_parse`: as `srvr_cookie_parse_simple`, for a server cookie
that starts with nonce and time; a server cookie of at most 8 octets is an error. -/
def srvr_cookie_parse (cookie_data : Option Octets)
    (inbound : Option kr_srvr_cookie_inbound) : Option (Int × Option kr_srvr_cookie_inbound) :=
  match cookie_data, inbound with
  | some data, some _ =>
    match knot_edns_opt_cookie_parse data with
    | none => none
    | some cookies =>
      if data.length - KNOT_OPT_COOKIE_CLNT ≤ 2 * 4 then some (kr_error EINVAL, inbound)
      else
        some (kr_ok,
          some { clnt_cookie := some cookies.cc,
                 nonce := wire_read_u32 ((cookies.sc.getD []).take 4),
                 time := wire_read_u32 (((cookies.sc.getD []).drop 4).take 4),
                 hash_data := some ((cookies.sc.getD []).drop (2 * 4)),
                 hash_len := data.length - KNOT_OPT_COOKIE_CLNT - 2 * 4 })
  | _, _ => some (kr_error EINVAL, inbound)

/-- The constant `SRVR_FNV64_SIMPLE_HASH_SIZE` of `lib/cookies/alg_srvr.c`. -/
def SRVR_FNV64_SIMPLE_HASH_SIZE : Nat := 8

/-- The guards all four server cookie algorithms start with: null arguments, a capacity
below `SRVR_FNV64_SIMPLE_HASH_SIZE`, a missing client cookie or an empty secret make
the call fail with `kr_error(EINVAL)`. -/
def srvr_cookie_alg_args_ok (input : Option kr_srvr_cookie_input) (sc_out : Option Octets)
    (sc_size : Option Nat) : Option (kr_srvr_cookie_input × Octets × Nat) :=
  match input, sc_out, sc_size with
  | some inp, some out, some size =>
    if size < SRVR_FNV64_SIMPLE_HASH_SIZE then none
    else
      match inp.clnt_cookie with
      | none => none
      | some _ => if inp.srvr_data.secret_data.length = 0 then none else some (inp, out, size)
  | _, _, _ => none

/-- The function `kr_srvr_cookie_alg_fnv64_simple`: the server cookie is the FNV-64 hash over
client address, client cookie and secret. The result is the return code, the buffer
`sc_out` and `*sc_size` afterwards; `host` is the byte order of the host. -/
def kr_srvr_cookie_alg_fnv64_simple (host : byte_order) (input : Option kr_srvr_cookie_input)
    (sc_out : Option Octets) (sc_size : Option Nat) : Int × Option Octets × Option Nat :=
  match srvr_cookie_alg_args_ok input sc_out sc_size with
  | none => (kr_error EINVAL, sc_out, sc_size)
  | some (inp, out, _) =>
    (kr_ok,
     some (host_u64_octets host
             (fnv_64a_buf inp.srvr_data.secret_data
               (fnv_64a_buf ((inp.clnt_cookie.getD []).take KNOT_OPT_COOKIE_CLNT)
                 (fnv_64a_buf ((kr_address_bytes inp.srvr_data.clnt_sockaddr).getD [])
                   FNV1A_64_INIT)))
           ++ out.drop 8),
     some 8)

/-- The function `kr_srvr_cookie_alg_fnv64`: the server cookie is nonce and time in network
byte order followed by the FNV-64 hash over client address, nonce, time (both as they
lie in memory), client cookie and secret. -/
def kr_srvr_cookie_alg_fnv64 (host : byte_order) (input : Option kr_srvr_cookie_input)
    (sc_out : Option Octets) (sc_size : Option Nat) : Int × Option Octets × Option Nat :=
  match srvr_cookie_alg_args_ok input sc_out sc_size with
  | none => (kr_error EINVAL, sc_out, sc_size)
  | some (inp, out, _) =>
    (kr_ok,
     some (wire_write_u32 (inp.nonce % 2 ^ 32) ++ wire_write_u32 (inp.time % 2 ^ 32)
           ++ host_u64_octets host
             (fnv_64a_buf inp.srvr_data.secret_data
               (fnv_64a_buf ((inp.clnt_cookie.getD []).take KNOT_OPT_COOKIE_CLNT)
                 (fnv_64a_buf (host_u32_octets host (inp.time % 2 ^ 32))
                   (fnv_64a_buf (host_u32_octets host (inp.nonce % 2 ^ 32))
                     (fnv_64a_buf
                       (match inp.srvr_data.clnt_sockaddr with
                        | some sa => (kr_address_bytes (some sa)).getD []
                        | none => [])
                       FNV1A_64_INIT)))))
           ++ out.drop 16),
     some 16)

/-- The function `kr_srvr_cookie_alg_hmac_sha256_64_simple`: the server cookie is the leading 8
octets of the HMAC-SHA256 digest, keyed with the secret, over client cookie and client
address. `hmac_sha256 key msg` stands for the calls of the library (`HMAC_Init_ex`,
`HMAC_Update`, `HMAC_Final`) and is `none` when one of them fails. -/
def kr_srvr_cookie_alg_hmac_sha256_64_simple (hmac_sha256 : Octets → Octets → Option Octets)
    (input : Option kr_srvr_cookie_input) (sc_out : Option Octets) (sc_size : Option Nat) :
    Int × Option Octets × Option Nat :=
  match srvr_cookie_alg_args_ok input sc_out sc_size with
  | none => (kr_error EINVAL, sc_out, sc_size)
  | some (inp, out, _) =>
    match hmac_sha256 inp.srvr_data.secret_data
            ((inp.clnt_cookie.getD []).take KNOT_OPT_COOKIE_CLNT
             ++ (match inp.srvr_data.clnt_sockaddr with
                 | some sa => (kr_address_bytes (some sa)).getD []
                 | none => [])) with
    | none => (kr_error EINVAL, sc_out, sc_size)
    | some digest => (kr_ok, some (digest.take 8 ++ out.drop 8), some 8)

/-- The function `kr_srvr_cookie_alg_hmac_sha256_64`: the server cookie is nonce and time in
network byte order followed by the leading 8 octets of the HMAC-SHA256 digest, keyed
with the secret, over client cookie, nonce, time (both as they lie in memory) and
client address. -/
def kr_srvr_cookie_alg_hmac_sha256_64 (host : byte_order)
    (hmac_sha256 : Octets → Octets → Option Octets)
    (input : Option kr_srvr_cookie_input) (sc_out : Option Octets) (sc_size : Option Nat) :
    Int × Option Octets × Option Nat :=
  match srvr_cookie_alg_args_ok input sc_out sc_size with
  | none => (kr_error EINVAL, sc_out, sc_size)
  | some (inp, out, _) =>
    match hmac_sha256 inp.srvr_data.secret_data
            ((inp.clnt_cookie.getD []).take KNOT_OPT_COOKIE_CLNT
             ++ host_u32_octets host (inp.nonce % 2 ^ 32)
             ++ host_u32_octets host (inp.time % 2 ^ 32)
             ++ (match inp.srvr_data.clnt_sockaddr with
                 | some sa => (kr_address_bytes (some sa)).getD []
                 | none => [])) with
    | none => (kr_error EINVAL, sc_out, sc_size)
    | some digest =>
      (kr_ok,
       some (wire_write_u32 (inp.nonce % 2 ^ 32) ++ wire_write_u32 (inp.time % 2 ^ 32)
             ++ digest.take 8 ++ out.drop 16),
       some 16)

/-- The function `sc_gen_hmac_sha256_64` of `lib/cookies/alg_sha.c`: the hash is the leading 8
octets of the HMAC-SHA256 digest, keyed with the secret, over client cookie, nonce
block (when there is one) and client address; the result is the returned length and
the buffer `hash_out`. -/
def sc_gen_hmac_sha256_64 (hmac_sha256 : Octets → Octets → Octets)
    (input : Option knot_sc_input) (hash_out : Option Octets) (hash_len : Nat) :
    Nat × Option Octets :=
  match input, hash_out with
  | some inp, some out =>
    if hash_len < 8 then (0, hash_out)
    else if inp.cc.length = 0 ∨ inp.srvr_data.secret_data.length = 0 then (0, hash_out)
    else
      (8,
       some ((hmac_sha256 inp.srvr_data.secret_data
                (inp.cc ++ inp.nonce
                 ++ (match inp.srvr_data.clnt_sockaddr with
                     | some sa => update_hash sa
                     | none => []))).take 8
             ++ out.drop 8))
  | _, _ => (0, hash_out)

/-! ## Configuration: `modules/cookies/cookiectl.c` -/

/-- The tag of a JSON node (`JsonTag` of the JSON library). -/
inductive JsonTag where
  | JSON_NULL
  | JSON_BOOL
  | JSON_STRING
  | JSON_NUMBER
  | JSON_ARRAY
  | JSON_OBJECT
deriving DecidableEq, Repr

/-- An element of a JSON array as `new_sq_array` reads it: its tag and, for a number, its
value (a `double`, here the rational number it stands for). -/
structure JsonElement where
  tag : JsonTag
  number_ : ℚ
deriving DecidableEq, Repr

/-- A member of the configuration document (`JsonNode`) with the fields the module reads:
key (`none` for a node without name), tag, and the value under each tag; `string_` is
the octets of the C string, `children` the elements of an array. -/
structure JsonNode where
  key : Option String
  tag : JsonTag
  bool_ : Bool
  string_ : Octets
  number_ : ℚ
  children : List JsonElement
deriving DecidableEq, Repr

/-- The root of a decoded document: its tag and its children. -/
structure JsonRoot where
  tag : JsonTag
  children : List JsonNode
deriving DecidableEq, Repr

/-- Modelled from the spec: the configuration codec is a collaborator (section 1); the
children `json_foreach` visits are those of an array or object, and none otherwise or
for a null root. -/
def json_children (root : Option JsonRoot) : List JsonNode :=
  match root with
  | none => []
  | some r =>
    if r.tag = JsonTag.JSON_ARRAY ∨ r.tag = JsonTag.JSON_OBJECT then r.children else []

/-- Modelled from the spec: by-name lookup of the registry of section 4.C
(`knot_lookup_by_name` of libknot over a table of ids and names): the id of the first
entry with the given name. -/
def knot_lookup_by_name (table : List (Int × Octets)) (name : Octets) : Option Int :=
  (table.find? (fun e => e.2 == name)).map (fun e => e.1)

/-- The octets of the name "FNV-64". -/
def NAME_FNV64 : Octets := [70, 78, 86, 45, 54, 52]

/-- The errno value `ENOKEY`. -/
def ENOKEY : Int := 126

/-- The function `kr_cookie_ctx_init`: everything zero, the algorithm ids -1. -/
def kr_cookie_ctx_init : kr_cookie_ctx :=
  { clnt := { enabled := false, current := { secr := none, alg_id := -1 },
              recent := { secr := none, alg_id := -1 } },
    srvr := { enabled := false, current := { secr := none, alg_id := -1 },
              recent := { secr := none, alg_id := -1 } } }

/-- The function `aply_enabled`: a boolean node sets the flag. -/
def aply_enabled (enabled : Bool) (node : JsonNode) : Bool × Bool :=
  if node.tag = JsonTag.JSON_BOOL then (true, node.bool_) else (false, enabled)

/-- The function `new_cookie_secret`: a secret of the given size, `none` for size 0; the
octets are zero (with `zero = false` the caller overwrites all of them). -/
def new_cookie_secret (size : Nat) (_zero : Bool) : Option kr_cookie_secret :=
  if size = 0 then none else some { data := List.replicate size 0 }

/-- The function `new_sq_str`: the secret made of the octets of a string node. -/
def new_sq_str (node : JsonNode) : Option kr_cookie_secret :=
  match new_cookie_secret node.string_.length false with
  | none => none
  | some _ => some { data := node.string_ }

/-- The macro `holds_char`. -/
def holds_char (x : ℚ) : Bool := decide (0 ≤ x ∧ x ≤ 255)

/-- The function `new_sq_array`: the secret made of the elements of an array node, all of
which must be numbers that `holds_char` accepts; each is converted to `uint8_t`. -/
def new_sq_array (node : JsonNode) : Option kr_cookie_secret :=
  if node.children.any
      (fun element => decide (element.tag ≠ JsonTag.JSON_NUMBER) || !holds_char element.number_)
  then none
  else
    match new_cookie_secret node.children.length false with
    | none => none
    | some _ => some { data := node.children.map (fun element => ⌊element.number_⌋.toNat) }

/-- The function `apply_secret`: the result and the secret pointer afterwards. -/
def apply_secret (sec : Option kr_cookie_secret) (node : JsonNode) :
    Bool × Option kr_cookie_secret :=
  match (match node.tag with
         | JsonTag.JSON_STRING => new_sq_str node
         | JsonTag.JSON_ARRAY => new_sq_array node
         | _ => none) with
  | none => (false, sec)
  | some sq => (true, some sq)

/-- The function `apply_hash_func`: a string node that names an algorithm of the table sets
the algorithm id. -/
def apply_hash_func (alg_id : Int) (node : JsonNode) (table : List (Int × Octets)) :
    Bool × Int :=
  if node.tag = JsonTag.JSON_STRING then
    match knot_lookup_by_name table node.string_ with
    | none => (false, alg_id)
    | some id => (true, id)
  else (false, alg_id)

/-- The function `apply_configuration`: applies one member of the document to the candidate
context; `kr_cc_alg_names` and `kr_sc_alg_names` are the name tables of the registry. -/
def apply_configuration (kr_cc_alg_names kr_sc_alg_names : List (Int × Octets))
    (cntrl : kr_cookie_ctx) (node : JsonNode) : Bool × kr_cookie_ctx :=
  match node.key with
  | none => (false, cntrl)
  | some key =>
    if key = "client_enabled" then
      ((aply_enabled cntrl.clnt.enabled node).1,
       { cntrl with clnt := { cntrl.clnt with
           enabled := (aply_enabled cntrl.clnt.enabled node).2 } })
    else if key = "client_secret" then
      ((apply_secret cntrl.clnt.current.secr node).1,
       { cntrl with clnt := { cntrl.clnt with current := { cntrl.clnt.current with
           secr := (apply_secret cntrl.clnt.current.secr node).2 } } })
    else if key = "client_cookie_alg" then
      ((apply_hash_func cntrl.clnt.current.alg_id node kr_cc_alg_names).1,
       { cntrl with clnt := { cntrl.clnt with current := { cntrl.clnt.current with
           alg_id := (apply_hash_func cntrl.clnt.current.alg_id node kr_cc_alg_names).2 } } })
    else if key = "server_enabled" then
      ((aply_enabled cntrl.srvr.enabled node).1,
       { cntrl with srvr := { cntrl.srvr with
           enabled := (aply_enabled cntrl.srvr.enabled node).2 } })
    else if key = "server_secret" then
      ((apply_secret cntrl.srvr.current.secr node).1,
       { cntrl with srvr := { cntrl.srvr with current := { cntrl.srvr.current with
           secr := (apply_secret cntrl.srvr.current.secr node).2 } } })
    else if key = "server_cookie_alg" then
      ((apply_hash_func cntrl.srvr.current.alg_id node kr_sc_alg_names).1,
       { cntrl with srvr := { cntrl.srvr with current := { cntrl.srvr.current with
           alg_id := (apply_hash_func cntrl.srvr.current.alg_id node kr_sc_alg_names).2 } } })
    else (false, cntrl)

/-- The loop of `config_apply` over the members of the document: each member is applied to
the candidate, and the first failure ends the loop. -/
def config_apply_members (kr_cc_alg_names kr_sc_alg_names : List (Int × Octets)) :
    kr_cookie_ctx → List JsonNode → Bool × kr_cookie_ctx
  | shallow_copy, [] => (true, shallow_copy)
  | shallow_copy, node :: rest =>
    if (apply_configuration kr_cc_alg_names kr_sc_alg_names shallow_copy node).1 = false then
      (false, (apply_configuration kr_cc_alg_names kr_sc_alg_names shallow_copy node).2)
    else
      config_apply_members kr_cc_alg_names kr_sc_alg_names
        (apply_configuration kr_cc_alg_names kr_sc_alg_names shallow_copy node).2 rest

/-- The function `config_apply`: `json_decode` is the decoder of the JSON library, `args` the
configuration string (`none` for a null pointer). The result is the returned flag
and the running context afterwards; `none` where an assertion of `settings_equal`
fails. -/
def config_apply (json_decode : Octets → Option JsonRoot)
    (kr_cc_alg_names kr_sc_alg_names : List (Int × Octets))
    (ctx : Option kr_cookie_ctx) (args : Option Octets) : Option (Bool × Option kr_cookie_ctx) :=
  match ctx with
  | none => some (false, none)
  | some running =>
    match args with
    | none => some (true, ctx)
    | some a =>
      if a.length = 0 then some (true, ctx)
      else if (config_apply_members kr_cc_alg_names kr_sc_alg_names running
                (json_children (json_decode a))).1 = true then
        match apply_from_copy running
                (config_apply_members kr_cc_alg_names kr_sc_alg_names running
                  (json_children (json_decode a))).2 with
        | none => none
        | some running1 => some (true, some running1)
      else some (false, ctx)

/-- The function `config_init`: the context after initialisation with two secrets of 8 zero
octets and the algorithm "FNV-64" for both roles; the result is the return code and
the context. -/
def config_init (kr_cc_alg_names kr_sc_alg_names : List (Int × Octets))
    (ctx : Option kr_cookie_ctx) : Int × Option kr_cookie_ctx :=
  match ctx with
  | none => (kr_error EINVAL, none)
  | some _ =>
    match new_cookie_secret KNOT_OPT_COOKIE_CLNT true, new_cookie_secret KNOT_OPT_COOKIE_CLNT true,
          knot_lookup_by_name kr_cc_alg_names NAME_FNV64,
          knot_lookup_by_name kr_sc_alg_names NAME_FNV64 with
    | some cs, some ss, some clookup, some slookup =>
      (kr_ok,
       some { clnt := { kr_cookie_ctx_init.clnt with current := { secr := some cs, alg_id := clookup } },
              srvr := { kr_cookie_ctx_init.srvr with current := { secr := some ss, alg_id := slookup } } })
    | _, _, _, _ => (kr_error ENOKEY, some kr_cookie_ctx_init)

/-- A sequence of `config_apply` calls on a running context, one configuration string
after the other; `none` where a call hits an assertion. -/
def config_apply_all (json_decode : Octets → Option JsonRoot)
    (kr_cc_alg_names kr_sc_alg_names : List (Int × Octets)) :
    kr_cookie_ctx → List (Option Octets) → Option kr_cookie_ctx
  | ctx, [] => some ctx
  | ctx, args :: rest =>
    match config_apply json_decode kr_cc_alg_names kr_sc_alg_names (some ctx) args with
    | some (_, some ctx1) =>
      config_apply_all json_decode kr_cc_alg_names kr_sc_alg_names ctx1 rest
    | _ => none

/-- The current slot of a role holds a secret of at least one octet. -/
def current_secret_present (settings : kr_cookie_settings) : Bool :=
  match settings.current.secr with
  | some secr => decide (1 ≤ secr.size)
  | none => false

/-- Modelled from the spec: the configuration codec is a collaborator (section 1):
`json_mknumber` of the JSON library builds a number element. -/
def json_mknumber (n : ℚ) : JsonElement := { tag := JsonTag.JSON_NUMBER, number_ := n }

/-- Modelled from the spec: the configuration codec is a collaborator (section 1):
`json_append_member` of the JSON library appends an array as the member `key` of the
object `root`. -/
def json_append_member (root : JsonRoot) (key : String) (array : List JsonElement) :
    JsonRoot :=
  { root with
    children := root.children
      ++ [{ key := some key, tag := JsonTag.JSON_ARRAY, bool_ := false, string_ := [],
            number_ := 0, children := array }] }

/-- The function `read_secret`: an array with one number per octet of the secret (each a
`uint8_t`) is appended to `root` as the member `node_name`; the result is the returned
flag and `root` afterwards. The constructors of the JSON library are taken to
succeed. -/
def read_secret (root : JsonRoot) (node_name : String) (secret : kr_cookie_secret) :
    Bool × JsonRoot :=
  (true,
   json_append_member root node_name
     (secret.data.map (fun octet => json_mknumber ((octet % 256 : Nat) : ℚ))))

/-! ## Outbound cookie: `lib/cookies/control.c` -/

/-- Modelled from the spec: index of the additional section of a packet
(`KNOT_ADDITIONAL` of libknot, declared outside src/). -/
def KNOT_ADDITIONAL : Nat := 2

/-- Input of a client cookie algorithm as `kr_request_put_cookie` fills it
(`struct kr_clnt_cookie_input`): `secret_len` is the length of `secret_data`. -/
structure kr_clnt_cookie_input where
  clnt_sockaddr : Option sockaddr
  srvr_sockaddr : Option sockaddr
  secret_data : Octets
deriving DecidableEq, Repr

/-- Client cookie algorithm descriptor (`clnt_cntrl->calg`): `func input` stands for the
call `calg->func(&input, cc)` and is the return code and the array `cc` afterwards;
`none` is a null function pointer. -/
structure kr_clnt_cookie_alg_descr where
  func : Option (kr_clnt_cookie_input → Int × Octets)

/-- Client cookie settings (`struct kr_clnt_cookie_settings`) as `kr_request_put_cookie`
reads them: secret and algorithm. -/
structure kr_clnt_cookie_settings where
  csec : Option kr_cookie_secret
  calg : Option kr_clnt_cookie_alg_descr

/-- Modelled from the spec: the cookie cache of section 4.D behind `struct kr_cache`
(`lib/cookies/cache.c` is not under src/): the COOKIE option last stored for an
address. -/
structure kr_cache where
  cookies : List (sockaddr × edns_option)
deriving DecidableEq, Repr

/-- Modelled from the spec: `get(addr)` of section 4.D (`kr_cookie_cache_peek_cookie` of
`lib/cookies/cache.c`): the option stored for the address (`timed_cookie.cookie_opt`),
`none` for the error return. -/
def kr_cookie_cache_peek_cookie (cache : kr_cache) (sa : sockaddr) : Option edns_option :=
  (cache.cookies.find? (fun e => e.1 == sa)).map (fun e => e.2)

/-- A packet (`struct knot_pkt`) with the fields `kr_request_put_cookie` reads and writes:
OPT record, current section, record count of the additional section, record count of
the packet, size and maximal size of the wire, and ARCOUNT of the header. -/
structure knot_pkt where
  opt_rr : Option knot_rrset
  current : Nat
  additional_count : Nat
  rrset_count : Nat
  size : Nat
  max_size : Nat
  arcount : Nat
deriving DecidableEq, Repr

/-- Code field of an option (`knot_edns_opt_get_code`). -/
def knot_edns_opt_get_code (opt : edns_option) : Nat := opt.code

/-- Modelled from the spec: size of the OPT record on the wire (`knot_edns_wire_size` of
libknot): the 11 octets of an empty OPT record and, per option, the 4-octet option
header and the value. -/
def knot_edns_wire_size (opt_rr : knot_rrset) : Nat :=
  11 + (opt_rr.options.map
          (fun o => KNOT_EDNS_OPTION_HDRLEN + knot_edns_opt_get_length o)).sum

/-- Modelled from the spec: message interface "append option" of section 1
(`knot_edns_reserve_option` of libknot): an option with the given code and `size`
value octets is appended to the OPT record; `data` is what the caller then writes
into the reserved octets. -/
def knot_edns_reserve_option (opt_rr : knot_rrset) (code size : Nat) (data : Octets) :
    Int × knot_rrset :=
  (KNOT_EOK,
   { opt_rr with
     options := opt_rr.options
       ++ [{ code := code, data := (data ++ List.replicate size 0).take size }] })

/-- Modelled from the spec: length of the value `encode_option` of section 4.A produces
(`knot_edns_opt_cookie_data_len` of libknot), 0 for an invalid length. -/
def knot_edns_opt_cookie_data_len (sc_len : Nat) : Nat :=
  if sc_len = 0 ∨ sc_len = 8 ∨ sc_len = 16 ∨ sc_len = 24 then KNOT_OPT_COOKIE_CLNT + sc_len
  else 0

/-- Modelled from the spec: `encode_option` of section 4.A (`knot_edns_opt_cookie_create` of
libknot): the 8 octets of the client cookie followed by the server cookie, `none`
for `Malformed`. -/
def knot_edns_opt_cookie_create (cc : Octets) (sc : Option Octets) : Option Octets :=
  if knot_edns_opt_cookie_data_len (sc.getD []).length = 0 then none
  else some (cc.take KNOT_OPT_COOKIE_CLNT ++ sc.getD [])

/-- The function `opt_rr_add_cookies`: reserve a COOKIE option of the size of client and
server cookie in the OPT record and write the cookies into it. -/
def opt_rr_add_cookies (opt_rr : knot_rrset) (cc : Octets) (sc : Option Octets) :
    Int × knot_rrset :=
  let cookies_size := knot_edns_opt_cookie_data_len (sc.getD []).length
  match knot_edns_opt_cookie_create cc sc with
  | some data =>
    let r := knot_edns_reserve_option opt_rr KNOT_EDNS_OPTION_COOKIE cookies_size data
    if r.1 ≠ KNOT_EOK then r else (KNOT_EOK, r.2)
  | none =>
    let r := knot_edns_reserve_option opt_rr KNOT_EDNS_OPTION_COOKIE cookies_size []
    if r.1 ≠ KNOT_EOK then r else (KNOT_EINVAL, r.2)

/-- The function `opt_rr_add_option`: reserve an option with the code and length of
`option` in the OPT record and copy the value of `option` into it. -/
def opt_rr_add_option (opt_rr : knot_rrset) (option : edns_option) : Int × knot_rrset :=
  let r := knot_edns_reserve_option opt_rr (knot_edns_opt_get_code option)
    (knot_edns_opt_get_length option) (knot_edns_opt_get_data option)
  if r.1 ≠ KNOT_EOK then r else (KNOT_EOK, r.2)

/-- The function `peek_and_check_cc`: the cached option for the address when its first 8
value octets are the client cookie `cc`; the outer `none` is a failed assertion (null
cache or address), the inner `none` the return value `NULL`. -/
def peek_and_check_cc (cache : Option kr_cache) (sockaddr_ : Option sockaddr) (cc : Octets) :
    Option (Option edns_option) :=
  match cache, sockaddr_ with
  | some c, some sa =>
    match kr_cookie_cache_peek_cookie c sa with
    | none => some none
    | some cookie_opt =>
      if cc.take KNOT_OPT_COOKIE_CLNT
          = (knot_edns_opt_get_data cookie_opt).take KNOT_OPT_COOKIE_CLNT then
        some (some cookie_opt)
      else some none
  | _, _ => none

/-- Modelled from the spec: message builder of section 1 (`knot_pkt_put` of libknot): the
record is written to the current section when it fits into the packet, and is then
counted in the section, in the packet and in the header. -/
def knot_pkt_put (pkt : knot_pkt) (rr : knot_rrset) : Int × knot_pkt :=
  if pkt.size + knot_edns_wire_size rr > pkt.max_size then (KNOT_ESPACE, pkt)
  else
    (KNOT_EOK,
     { pkt with
       additional_count := (pkt.additional_count + 1) % 2 ^ 16,
       rrset_count := (pkt.rrset_count + 1) % 2 ^ 16,
       size := pkt.size + knot_edns_wire_size rr,
       arcount := (pkt.arcount + 1) % 2 ^ 16 })

/-- The function `kr_request_put_cookie`. The result is the return code and the packet
afterwards; `none` is a failed assertion (null function pointer of the algorithm,
null server address in `peek_and_check_cc`, current section other than the
additional one). The return value of `opt_rr_add_option` and `opt_rr_add_cookies`
is overwritten by that of `knot_pkt_put`. -/
def kr_request_put_cookie (clnt_cntrl : Option kr_clnt_cookie_settings)
    (cookie_cache : Option kr_cache) (clnt_sockaddr srvr_sockaddr : Option sockaddr)
    (pkt : Option knot_pkt) : Option (Int × Option knot_pkt) :=
  match clnt_cntrl, pkt with
  | some cntrl, some p =>
    match p.opt_rr with
    | none => some (kr_ok, pkt)
    | some opt_rr =>
      match cntrl.csec, cntrl.calg, cookie_cache with
      | some csec, some calg, some cache =>
        match calg.func with
        | none => none
        | some func =>
          let input : kr_clnt_cookie_input :=
            { clnt_sockaddr := clnt_sockaddr, srvr_sockaddr := srvr_sockaddr,
              secret_data := csec.data }
          let r := func input
          if r.1 ≠ kr_ok then some (r.1, pkt)
          else
            match peek_and_check_cc (some cache) srvr_sockaddr r.2 with
            | none => none
            | some cached_cookie =>
              if p.current ≠ KNOT_ADDITIONAL then none
              else
                let p1 : knot_pkt :=
                  { p with
                    additional_count := (p.additional_count + 2 ^ 16 - 1) % 2 ^ 16,
                    rrset_count := (p.rrset_count + 2 ^ 16 - 1) % 2 ^ 16,
                    size := (p.size + 2 ^ 64 - knot_edns_wire_size opt_rr % 2 ^ 64) % 2 ^ 64,
                    arcount := (p.arcount + 2 ^ 16 - 1) % 2 ^ 16 }
                let added :=
                  match cached_cookie with
                  | some cached => opt_rr_add_option opt_rr cached
                  | none => opt_rr_add_cookies opt_rr r.2 none
                let out := knot_pkt_put { p1 with opt_rr := some added.2 } added.2
                some (out.1, some out.2)
      | _, _, _ => some (kr_error EINVAL, pkt)
  | _, _ => some (kr_error EINVAL, pkt)

/-! ## Concrete requests and responses used to instantiate the theorems -/

/-- An IPv4 upstream address, 198.51.100.1 port 53. -/
def upstream1 : sockaddr := { sa_family := AF_INET, addr := [198, 51, 100, 1], port := 53 }

/-- An IPv4 client address, 192.0.2.1 port 5353. -/
def client1 : sockaddr := { sa_family := AF_INET, addr := [192, 0, 2, 1], port := 5353 }

/-- The secret of eight zero octets that `config_init` installs. -/
def secretA : kr_cookie_secret := { data := [0, 0, 0, 0, 0, 0, 0, 0] }

/-- A second secret. -/
def secretB : kr_cookie_secret := { data := [1, 2, 3, 4, 5, 6, 7, 8] }

/-- A third secret. -/
def secretC : kr_cookie_secret := { data := [9, 9, 9, 9, 9, 9, 9, 9, 9] }

/-- Settings of a role right after `config_init`, enabled: FNV-64 with the zero
secret, no recent secret. -/
def settingsA : kr_cookie_settings :=
  { enabled := true,
    current := { secr := some secretA, alg_id := 0 },
    recent := { secr := none, alg_id := -1 } }

/-- A cookie context with both roles enabled under `settingsA`. -/
def cookieCtxA : kr_cookie_ctx := { clnt := settingsA, srvr := settingsA }

/-- A query for a name of class IN and type A, no flag set, one question. -/
def query1 : kr_query :=
  { flags := 0, parent := none, sname := [3, 119, 119, 119, 0], sclass := 1, stype := 1,
    timestamp_sec := 1000, qdcount := 1 }

/-- A request toward `upstream1` from `client1` whose answer has an empty OPT record;
the request itself carries the given OPT record. -/
def requestWith (qry : kr_query) (opt : Option knot_rrset) (answer : knot_pkt_t) : kr_request :=
  { ctx := { cookie_ctx := cookieCtxA, cache_cookie := { capacity := 4, entries := [] } },
    current_query := qry,
    rplan := { pending := [], pool := 1 },
    upstream_addr := some upstream1,
    qsource := { opt := opt, addr := some client1 },
    answer := answer }

/-- An answer with NOERROR and an empty OPT record. -/
def answerEdns : knot_pkt_t := { rcode := 0, opt_rr := some { ext_rcode := 0, options := [] } }

/-- The client cookie FNV-64 yields for `upstream1` under `secretA`. -/
def ccUpstream1 : Octets := [125, 233, 169, 180, 77, 213, 99, 93]

/-- A response from `upstream1` with extended RCODE 23 that returns the client
cookie `ccUpstream1` and a 16-octet server cookie. -/
def responseBadcookie : knot_pkt_t :=
  { rcode := 7,
    opt_rr := some
      { ext_rcode := 1,
        options := [{ code := 10,
                      data := ccUpstream1 ++ [0, 0, 0, 7, 0, 0, 3, 232, 1, 1, 1, 1, 1, 1, 1, 1] }] } }

/-- The COOKIE option of `responseBadcookie`. -/
def responseBadcookieOpt : edns_option :=
  { code := 10,
    data := ccUpstream1 ++ [0, 0, 0, 7, 0, 0, 3, 232, 1, 1, 1, 1, 1, 1, 1, 1] }

/-- The query `query1` after a first BADCOOKIE answer: `QUERY_BADCOOKIE_AGAIN` is set. -/
def query1Again : kr_query := { query1 with flags := QUERY_BADCOOKIE_AGAIN }

/-- The COOKIE option section 4.G step 5 describes for the answer: client cookie,
then nonce and time in network byte order, then the hash the algorithm computes
over client cookie and nonce block under the given private server data. -/
def fresh_cookie_opt (srvr_data : knot_sc_private) (cc : Octets) (nonce : kr_nonce_input)
    (alg : knot_sc_alg) : edns_option :=
  { code := KNOT_EDNS_OPTION_COOKIE,
    data := cc ++ (wire_write_u32 (nonce.rand % 2 ^ 32) ++ wire_write_u32 (nonce.time % 2 ^ 32))
      ++ alg.hash_func
          { cc := cc,
            nonce := wire_write_u32 (nonce.rand % 2 ^ 32) ++ wire_write_u32 (nonce.time % 2 ^ 32),
            srvr_data := srvr_data } }

/-- A client cookie as a request carries it. -/
def ccClient : Octets := [1, 2, 3, 4, 5, 6, 7, 8]

/-- The server cookie FNV-64 yields for `client1`, `ccClient`, nonce 7 and time 1000
under `secretA`. -/
def scValidA : Octets := [0, 0, 0, 7, 0, 0, 3, 232, 162, 126, 240, 9, 219, 76, 202, 216]

/-- A server cookie of the right length whose hash matches no secret used here. -/
def scWrong : Octets := [0, 0, 0, 7, 0, 0, 3, 232, 1, 1, 1, 1, 1, 1, 1, 1]

/-- An OPT record whose only option is a COOKIE option with the given value. -/
def optWithCookie (data : Octets) : knot_rrset :=
  { ext_rcode := 0, options := [{ code := 10, data := data }] }

/-- The query `query1` of a request without question. -/
def query0 : kr_query := { query1 with qdcount := 0 }

/-- An answer with NOERROR and no OPT record. -/
def answerNoEdns : knot_pkt_t := { rcode := 0, opt_rr := none }

/-- A request from `client1` carrying a COOKIE option with the given value, under the
server settings `settingsA`. -/
def requestCookie (qry : kr_query) (data : Octets) (answer : knot_pkt_t) : kr_request :=
  requestWith qry (some (optWithCookie data)) answer

/-- The request `requestCookie` in a context whose server role has no current secret. -/
def requestNoSecret (qry : kr_query) (data : Octets) (answer : knot_pkt_t) : kr_request :=
  { requestCookie qry data answer with
    ctx := { cookie_ctx :=
               { clnt := settingsA,
                 srvr := { enabled := true,
                           current := { secr := none, alg_id := 0 },
                           recent := { secr := none, alg_id := -1 } } },
             cache_cookie := { capacity := 4, entries := [] } } }

/-- The request `requestCookie` in a resolver context with the given cookie settings. -/
def requestInCtx (cookie_ctx : kr_cookie_ctx) (qry : kr_query) (data : Octets)
    (answer : knot_pkt_t) : kr_request :=
  { requestCookie qry data answer with
    ctx := { cookie_ctx := cookie_ctx, cache_cookie := { capacity := 4, entries := [] } } }

/-- A candidate context (the shallow copy of `config_apply`) whose server role asks for
the given secret under FNV-64. -/
def candidateSrvr (secr : kr_cookie_secret) : kr_cookie_ctx :=
  { clnt := settingsA,
    srvr := { enabled := true,
              current := { secr := some secr, alg_id := 0 },
              recent := { secr := none, alg_id := -1 } } }

/-- The context `cookieCtxA` after `secretB` has been installed for the server role. -/
def rotatedAB : kr_cookie_ctx :=
  { clnt := settingsA,
    srvr := { enabled := true,
              current := { secr := some secretB, alg_id := 0 },
              recent := { secr := some secretA, alg_id := 0 } } }

/-- The context `rotatedAB` after `secretC` has been installed for the server role. -/
def rotatedABC : kr_cookie_ctx :=
  { clnt := settingsA,
    srvr := { enabled := true,
              current := { secr := some secretC, alg_id := 0 },
              recent := { secr := some secretB, alg_id := 0 } } }

/-- The context `rotatedAB` after `secretA` has been installed again for the server role. -/
def rotatedABA : kr_cookie_ctx :=
  { clnt := settingsA,
    srvr := { enabled := true,
              current := { secr := some secretA, alg_id := 0 },
              recent := { secr := some secretB, alg_id := 0 } } }

/-- The cookies of a request from `client1` whose server cookie was issued under `secretA`. -/
def cookiesValidA : knot_dns_cookies := { cc := ccClient, sc := some scValidA }

/-- A cookie context whose server role is disabled. -/
def cookieCtxSrvrOff : kr_cookie_ctx :=
  { clnt := settingsA, srvr := { settingsA with enabled := false } }

/-- An answer whose OPT record holds an option of code 8 and two COOKIE options. -/
def answerWithCookies : knot_pkt_t :=
  { rcode := 0,
    opt_rr := some
      { ext_rcode := 0,
        options := [{ code := 10, data := ccClient },
                    { code := 8, data := [0, 1, 24, 0] },
                    { code := 10, data := ccClient ++ scWrong }] } }

/-- The query `query1` once it has been switched to TCP. -/
def query1Tcp : kr_query := { query1 with flags := QUERY_TCP }

/-- The request `requestWith` with a cookie cache that holds `responseBadcookieOpt` for
`upstream1`. -/
def requestCached (qry : kr_query) : kr_request :=
  { requestWith qry none answerEdns with
    ctx := { cookie_ctx := cookieCtxA,
             cache_cookie := { capacity := 4,
                               entries := [(upstream1, responseBadcookieOpt)] } } }

/-- A response with an OPT record and no COOKIE option. -/
def responseNoCookie : knot_pkt_t :=
  { rcode := 0, opt_rr := some { ext_rcode := 0, options := [{ code := 8, data := [0, 1, 24, 0] }] } }

/-- A response from `upstream1` with NOERROR that returns the client cookie `ccUpstream1`
and a server cookie. -/
def responseOk : knot_pkt_t :=
  { rcode := 0, opt_rr := some { ext_rcode := 0, options := [responseBadcookieOpt] } }

/-- A COOKIE option whose client cookie is not the one computed for `upstream1`. -/
def responseMismatchOpt : edns_option :=
  { code := 10, data := [9, 9, 9, 9, 9, 9, 9, 9, 0, 0, 0, 7, 0, 0, 3, 232, 1, 1, 1, 1, 1, 1, 1, 1] }

/-- A response with extended RCODE 23 whose COOKIE option is `responseMismatchOpt`. -/
def responseMismatch : knot_pkt_t :=
  { rcode := 7, opt_rr := some { ext_rcode := 1, options := [responseMismatchOpt] } }

/-- A stand-in for the digest function of the library with the digest length of SHA-256. -/
def zeroDigest (_key _msg : Octets) : Octets := List.replicate 32 0

/-- The octets of the name "HMAC-SHA256-64". -/
def NAME_HMAC_SHA256_64 : Octets := [72, 77, 65, 67, 45, 83, 72, 65, 50, 53, 54, 45, 54, 52]

/-- The name table of the registry of section 4.C: "FNV-64" and "HMAC-SHA256-64". -/
def algNames : List (Int × Octets) := [(0, NAME_FNV64), (1, NAME_HMAC_SHA256_64)]

/-- A configuration document that sets the server secret to the octets 1 to 8. -/
def docServerSecretB : JsonRoot :=
  { tag := JsonTag.JSON_OBJECT,
    children := [{ key := some "server_secret", tag := JsonTag.JSON_ARRAY, bool_ := false,
                   string_ := [], number_ := 0,
                   children := [⟨JsonTag.JSON_NUMBER, 1⟩, ⟨JsonTag.JSON_NUMBER, 2⟩,
                                ⟨JsonTag.JSON_NUMBER, 3⟩, ⟨JsonTag.JSON_NUMBER, 4⟩,
                                ⟨JsonTag.JSON_NUMBER, 5⟩, ⟨JsonTag.JSON_NUMBER, 6⟩,
                                ⟨JsonTag.JSON_NUMBER, 7⟩, ⟨JsonTag.JSON_NUMBER, 8⟩] }] }

/-- A configuration document whose second member has an unknown key. -/
def docUnknownKey : JsonRoot :=
  { tag := JsonTag.JSON_OBJECT,
    children := [{ key := some "server_enabled", tag := JsonTag.JSON_BOOL, bool_ := true,
                   string_ := [], number_ := 0, children := [] },
                 { key := some "no_such_key", tag := JsonTag.JSON_BOOL, bool_ := true,
                   string_ := [], number_ := 0, children := [] }] }

/-- A decoder that knows two configuration strings: "1" is `docServerSecretB` and "2" is
`docUnknownKey`; every other string fails to decode. -/
def decodeTable (args : Octets) : Option JsonRoot :=
  if args = [49] then some docServerSecretB
  else if args = [50] then some docUnknownKey
  else none

/-- The context `config_init` leaves: both roles disabled, FNV-64 with the zero secret. -/
def cookieCtxInit : kr_cookie_ctx :=
  { clnt := { enabled := false, current := { secr := some secretA, alg_id := 0 },
              recent := { secr := none, alg_id := -1 } },
    srvr := { enabled := false, current := { secr := some secretA, alg_id := 0 },
              recent := { secr := none, alg_id := -1 } } }

/-- A stand-in for the HMAC-SHA256 calls of the library that always succeeds: 32 octets
that depend on key and message. -/
def digestStandIn (key msg : Octets) : Option Octets :=
  some ((key ++ msg ++ List.replicate 32 0).take 32)

/-- An input of the server cookie algorithms: client cookie 1..8, the client `client1` and
the secret `secretB`. -/
def srvrInput1 : kr_srvr_cookie_input :=
  { clnt_cookie := some [1, 2, 3, 4, 5, 6, 7, 8], nonce := 1, time := 1480000000,
    srvr_data := { clnt_sockaddr := some client1, secret_data := secretB.data } }

/-- A parsed server cookie before parsing: everything zero. -/
def inbound0 : kr_srvr_cookie_inbound :=
  { clnt_cookie := none, nonce := 0, time := 0, hash_data := none, hash_len := 0 }

/-- A stand-in for the digest function of the library with the digest length of SHA-256:
32 octets that depend on key and message. -/
def digestTotal (key msg : Octets) : Octets := (key ++ msg ++ List.replicate 32 0).take 32

/-- An input of the client cookie algorithms: no client address, the upstream `upstream1`
and the secret `secretB`. -/
def ccInput1 : knot_cc_input :=
  { clnt_sockaddr := none, srvr_sockaddr := some upstream1, secret_data := secretB.data }

/-- A client cookie function for `kr_request_put_cookie`: the FNV-64 client cookie; the
call fails when no cookie can be computed. -/
def clntFuncFnv (input : kr_clnt_cookie_input) : Int × Octets :=
  if (cc_gen_fnv64 { clnt_sockaddr := input.clnt_sockaddr,
                     srvr_sockaddr := input.srvr_sockaddr,
                     secret_data := input.secret_data }).length = 8 then
    (kr_ok, cc_gen_fnv64 { clnt_sockaddr := input.clnt_sockaddr,
                           srvr_sockaddr := input.srvr_sockaddr,
                           secret_data := input.secret_data })
  else (kr_error EINVAL, List.replicate 8 0)

/-- The algorithm descriptor with the function `clntFuncFnv`. -/
def clntAlgFnv : kr_clnt_cookie_alg_descr := { func := some clntFuncFnv }

/-- Client settings with the secret `secretA` and the FNV-64 algorithm. -/
def clntSettingsFnv : kr_clnt_cookie_settings :=
  { csec := some secretA, calg := some clntAlgFnv }

/-- A cookie cache that holds `responseBadcookieOpt` for `upstream1`. -/
def cacheUpstream1 : kr_cache := { cookies := [(upstream1, responseBadcookieOpt)] }

/-- Client settings without secret. -/
def clntSettingsNoSecret : kr_clnt_cookie_settings :=
  { csec := none, calg := some clntAlgFnv }

/-- An outbound packet with an empty OPT record, being written in the additional section. -/
def pktOutOpt : knot_pkt :=
  { opt_rr := some { ext_rcode := 0, options := [] }, current := KNOT_ADDITIONAL,
    additional_count := 1, rrset_count := 1, size := 40, max_size := 512, arcount := 1 }

/-- An outbound packet without OPT record. -/
def pktOutNoOpt : knot_pkt :=
  { opt_rr := none, current := KNOT_ADDITIONAL,
    additional_count := 0, rrset_count := 0, size := 29, max_size := 512, arcount := 0 }

/-- An empty cookie cache. -/
def cacheEmpty : kr_cache := { cookies := [] }

/-- An empty cookie cache with room for four entries. -/
def lruEmpty : kr_cookie_lru_t := { capacity := 4, entries := [] }

/-- The cookie cache after `responseBadcookieOpt` was stored for `upstream1`. -/
def lruUpstream1 : kr_cookie_lru_t :=
  { capacity := 4, entries := [(upstream1, responseBadcookieOpt)] }

/-- A response from `upstream1` with extended RCODE 23 whose COOKIE option holds only the
client cookie `ccUpstream1`. -/
def responseClientOnly : knot_pkt_t :=
  { rcode := 7,
    opt_rr := some { ext_rcode := 1, options := [{ code := 10, data := ccUpstream1 }] } }

/-- The array node of `docServerSecretB`: the numbers 1 to 8. -/
def nodeSecretB : JsonNode :=
  { key := some "server_secret", tag := JsonTag.JSON_ARRAY, bool_ := false,
    string_ := [], number_ := 0,
    children := [⟨JsonTag.JSON_NUMBER, 1⟩, ⟨JsonTag.JSON_NUMBER, 2⟩,
                 ⟨JsonTag.JSON_NUMBER, 3⟩, ⟨JsonTag.JSON_NUMBER, 4⟩,
                 ⟨JsonTag.JSON_NUMBER, 5⟩, ⟨JsonTag.JSON_NUMBER, 6⟩,
                 ⟨JsonTag.JSON_NUMBER, 7⟩, ⟨JsonTag.JSON_NUMBER, 8⟩] }

/-- An empty JSON object. -/
def jsonEmptyObject : JsonRoot := { tag := JsonTag.JSON_OBJECT, children := [] }

/-! # Properties -/

/-! ## Flag arithmetic -/

theorem query_tcp_eq : QUERY_TCP = 2 ^ 4 := by decide

theorem query_badcookie_again_eq : QUERY_BADCOOKIE_AGAIN = 2 ^ 22 := by decide

theorem flags_mask_eq : FLAGS_MASK = 2 ^ 32 - 1 := rfl

/-- Testing a single-bit flag with `&&&` is reading that bit. -/
theorem and_two_pow_eq_zero_iff (f i : Nat) : f &&& 2 ^ i = 0 ↔ f.testBit i = false := by
  rw [Nat.and_two_pow]
  cases h : f.testBit i <;> simp

theorem or_two_pow_and_self (f i : Nat) : (f ||| 2 ^ i) &&& 2 ^ i ≠ 0 := by
  rw [Ne, and_two_pow_eq_zero_iff]
  simp [Nat.testBit_or, Nat.testBit_two_pow]

theorem or_two_pow_and_other (f i j : Nat) (h : i ≠ j) :
    (f ||| 2 ^ i) &&& 2 ^ j = f &&& 2 ^ j := by
  apply Nat.eq_of_testBit_eq
  intro k
  simp only [Nat.testBit_and, Nat.testBit_or, Nat.testBit_two_pow]
  by_cases hj : j = k
  · subst hj; simp [h]
  · simp [hj]

theorem clear_then_set_and_cleared (f n i j : Nat) (hi : i < n) (h : j ≠ i) :
    ((f &&& ((2 ^ n - 1) ^^^ 2 ^ i)) ||| 2 ^ j) &&& 2 ^ i = 0 := by
  rw [and_two_pow_eq_zero_iff]
  simp [Nat.testBit_or, Nat.testBit_and, Nat.testBit_xor, Nat.testBit_two_pow,
    Nat.testBit_two_pow_sub_one, hi, h]

theorem flags_or_again_set (f : Nat) :
    (f ||| QUERY_BADCOOKIE_AGAIN) &&& QUERY_BADCOOKIE_AGAIN ≠ 0 := by
  rw [query_badcookie_again_eq]; exact or_two_pow_and_self f 22

theorem flags_or_again_tcp (f : Nat) :
    (f ||| QUERY_BADCOOKIE_AGAIN) &&& QUERY_TCP = f &&& QUERY_TCP := by
  rw [query_badcookie_again_eq, query_tcp_eq]; exact or_two_pow_and_other f 22 4 (by decide)

theorem flags_fallback_again_clear (f : Nat) :
    ((f &&& (FLAGS_MASK ^^^ QUERY_BADCOOKIE_AGAIN)) ||| QUERY_TCP) &&& QUERY_BADCOOKIE_AGAIN
      = 0 := by
  rw [query_badcookie_again_eq, query_tcp_eq, flags_mask_eq]
  exact clear_then_set_and_cleared f 32 22 4 (by decide) (by decide)

theorem flags_fallback_tcp_set (f : Nat) :
    ((f &&& (FLAGS_MASK ^^^ QUERY_BADCOOKIE_AGAIN)) ||| QUERY_TCP) &&& QUERY_TCP ≠ 0 := by
  rw [query_tcp_eq]; exact or_two_pow_and_self _ 4

/-! ## Client side: BADCOOKIE recovery -/

/-- C1. BADCOOKIE, first time: with client cookies enabled and `QUERY_TCP` clear, for a
response whose COOKIE option passes `check_cookie_content_and_cache` and whose extended
RCODE is BADCOOKIE (23), if `QUERY_BADCOOKIE_AGAIN` is not set and `kr_rplan_push`
succeeds, then `check_response` returns `KNOT_STATE_CONSUME`, exactly one query with the
parent, name, class and type of the current query is appended to the plan,
`QUERY_BADCOOKIE_AGAIN` is set on the current query and `QUERY_TCP` stays clear. -/
theorem check_response_badcookie_first (kr_cc_alg_get : Int → Option knot_cc_alg)
    (ctx_state : Nat) (req : kr_request) (pkt : knot_pkt_t) (pkt_cookie_opt : edns_option)
    (cache : kr_cookie_lru_t) (rplan : kr_rplan)
    (h_enabled : req.ctx.cookie_ctx.clnt.enabled = true)
    (h_udp : req.current_query.flags &&& QUERY_TCP = 0)
    (h_opt : response_cookie_opt pkt = some pkt_cookie_opt)
    (h_valid : check_cookie_content_and_cache kr_cc_alg_get req.ctx.cookie_ctx.clnt req
        pkt_cookie_opt req.ctx.cache_cookie = some (true, cache))
    (h_rcode : knot_pkt_get_ext_rcode pkt = KNOT_RCODE_BADCOOKIE)
    (h_first : req.current_query.flags &&& QUERY_BADCOOKIE_AGAIN = 0)
    (h_push : kr_rplan_push req.rplan req.current_query.parent req.current_query.sname
        req.current_query.sclass req.current_query.stype = some rplan) :
    ∃ req1 : kr_request,
      check_response kr_cc_alg_get ctx_state req pkt = some (KNOT_STATE_CONSUME, req1)
      ∧ req1.rplan = rplan
      ∧ req1.rplan.pending = req.rplan.pending ++
          [{ parent := req.current_query.parent, sname := req.current_query.sname,
             sclass := req.current_query.sclass, stype := req.current_query.stype }]
      ∧ req1.current_query.flags &&& QUERY_BADCOOKIE_AGAIN ≠ 0
      ∧ req1.current_query.flags &&& QUERY_TCP = 0 := by
  have h_pending : rplan.pending = req.rplan.pending ++
      [{ parent := req.current_query.parent, sname := req.current_query.sname,
         sclass := req.current_query.sclass, stype := req.current_query.stype }] := by
    unfold kr_rplan_push at h_push
    split at h_push
    · exact absurd h_push (by simp)
    · cases h_push; rfl
  refine ⟨{ req with
              ctx := { req.ctx with cache_cookie := cache },
              rplan := rplan,
              current_query := { req.current_query with
                flags := req.current_query.flags ||| QUERY_BADCOOKIE_AGAIN } },
          ?_, rfl, h_pending, flags_or_again_set _, ?_⟩
  · simp only [check_response, h_enabled, h_udp, h_opt, h_valid, h_rcode, h_first, h_push]
    simp
  · show (req.current_query.flags ||| QUERY_BADCOOKIE_AGAIN) &&& QUERY_TCP = 0
    rw [flags_or_again_tcp]; exact h_udp

theorem check_response_badcookie_first_witness :
    ∃ req1 : kr_request,
      check_response kr_cc_alg_get_fnv KNOT_STATE_PRODUCE (requestWith query1 none answerEdns)
          responseBadcookie = some (KNOT_STATE_CONSUME, req1)
      ∧ req1.rplan = { pending := [{ parent := none, sname := [3, 119, 119, 119, 0],
                                     sclass := 1, stype := 1 }], pool := 0 }
      ∧ req1.rplan.pending = (requestWith query1 none answerEdns).rplan.pending ++
          [{ parent := query1.parent, sname := query1.sname,
             sclass := query1.sclass, stype := query1.stype }]
      ∧ req1.current_query.flags &&& QUERY_BADCOOKIE_AGAIN ≠ 0
      ∧ req1.current_query.flags &&& QUERY_TCP = 0 :=
  check_response_badcookie_first kr_cc_alg_get_fnv KNOT_STATE_PRODUCE
    (requestWith query1 none answerEdns) responseBadcookie responseBadcookieOpt
    { capacity := 4, entries := [(upstream1, responseBadcookieOpt)] }
    { pending := [{ parent := none, sname := [3, 119, 119, 119, 0], sclass := 1, stype := 1 }],
      pool := 0 }
    (by decide) (by decide) (by decide) (by decide) (by decide) (by decide) (by decide)

/-- C2. BADCOOKIE, second time: with client cookies enabled and `QUERY_TCP` clear, for a
response whose COOKIE option passes `check_cookie_content_and_cache` and whose extended
RCODE is BADCOOKIE (23), if `QUERY_BADCOOKIE_AGAIN` is already set on the current query,
then `check_response` returns `KNOT_STATE_CONSUME`, pushes no query (the plan is
unchanged), clears `QUERY_BADCOOKIE_AGAIN` and sets `QUERY_TCP`. -/
theorem check_response_badcookie_second (kr_cc_alg_get : Int → Option knot_cc_alg)
    (ctx_state : Nat) (req : kr_request) (pkt : knot_pkt_t) (pkt_cookie_opt : edns_option)
    (cache : kr_cookie_lru_t)
    (h_enabled : req.ctx.cookie_ctx.clnt.enabled = true)
    (h_udp : req.current_query.flags &&& QUERY_TCP = 0)
    (h_opt : response_cookie_opt pkt = some pkt_cookie_opt)
    (h_valid : check_cookie_content_and_cache kr_cc_alg_get req.ctx.cookie_ctx.clnt req
        pkt_cookie_opt req.ctx.cache_cookie = some (true, cache))
    (h_rcode : knot_pkt_get_ext_rcode pkt = KNOT_RCODE_BADCOOKIE)
    (h_again : req.current_query.flags &&& QUERY_BADCOOKIE_AGAIN ≠ 0) :
    ∃ req1 : kr_request,
      check_response kr_cc_alg_get ctx_state req pkt = some (KNOT_STATE_CONSUME, req1)
      ∧ req1.rplan = req.rplan
      ∧ req1.current_query.flags &&& QUERY_BADCOOKIE_AGAIN = 0
      ∧ req1.current_query.flags &&& QUERY_TCP ≠ 0 := by
  refine ⟨{ req with
              ctx := { req.ctx with cache_cookie := cache },
              current_query := { req.current_query with
                flags := (req.current_query.flags &&& (FLAGS_MASK ^^^ QUERY_BADCOOKIE_AGAIN))
                           ||| QUERY_TCP } },
          ?_, rfl, flags_fallback_again_clear _, flags_fallback_tcp_set _⟩
  simp only [check_response, h_enabled, h_udp, h_opt, h_valid, h_rcode, h_again]
  simp

theorem check_response_badcookie_second_witness :
    ∃ req1 : kr_request,
      check_response kr_cc_alg_get_fnv KNOT_STATE_PRODUCE
          (requestWith query1Again none answerEdns) responseBadcookie
        = some (KNOT_STATE_CONSUME, req1)
      ∧ req1.rplan = (requestWith query1Again none answerEdns).rplan
      ∧ req1.current_query.flags &&& QUERY_BADCOOKIE_AGAIN = 0
      ∧ req1.current_query.flags &&& QUERY_TCP ≠ 0 :=
  check_response_badcookie_second kr_cc_alg_get_fnv KNOT_STATE_PRODUCE
    (requestWith query1Again none answerEdns) responseBadcookie responseBadcookieOpt
    { capacity := 4, entries := [(upstream1, responseBadcookieOpt)] }
    (by decide) (by decide) (by decide) (by decide) (by decide) (by decide)

/-! ## The answer cookie -/

theorem kr_nonce_write_wire_fresh (nonce : kr_nonce_input) :
    kr_nonce_write_wire (some (List.replicate KR_NONCE_LEN 0)) (some KR_NONCE_LEN) (some nonce)
      = (kr_ok,
         some (wire_write_u32 (nonce.rand % 2 ^ 32) ++ wire_write_u32 (nonce.time % 2 ^ 32)),
         some 8) := by
  simp [kr_nonce_write_wire, KR_NONCE_LEN]

/-- The writer of the answer cookie, with the nonce block written out. -/
theorem kr_answer_write_cookie_eq (srvr_data : knot_sc_private) (cc : Octets)
    (nonce : kr_nonce_input) (alg : knot_sc_alg) (pkt : knot_pkt_t) :
    kr_answer_write_cookie srvr_data cc nonce alg pkt =
      if srvr_data.clnt_sockaddr.isNone ∨ srvr_data.secret_data.length = 0 then
        (kr_error EINVAL, pkt)
      else if cc.length = 0 then (kr_error EINVAL, pkt)
      else if alg.hash_size = 0 then (kr_error EINVAL, pkt)
      else
        match pkt.opt_rr with
        | none => (kr_error EINVAL, pkt)
        | some opt =>
          if (fresh_cookie_opt srvr_data cc nonce alg).data.length
              ≠ cc.length + 8 + alg.hash_size then
            (kr_error EINVAL, pkt)
          else
            (kr_ok,
             { pkt with
               opt_rr := some (knot_edns_put_unique_option opt KNOT_EDNS_OPTION_COOKIE
                 (fresh_cookie_opt srvr_data cc nonce alg).data) }) := by
  unfold kr_answer_write_cookie
  rw [kr_nonce_write_wire_fresh]
  simp only [fresh_cookie_opt, List.length_append, wire_write_u32, List.length_cons,
    List.length_nil]
  have e : ∀ n : Nat, (cc.length + (0 + 1 + 1 + 1 + 1 + (0 + 1 + 1 + 1 + 1)) + n
      ≠ cc.length + 8 + alg.hash_size) ↔ n ≠ alg.hash_size := by
    intro n; omega
  simp only [e]

/-- Writing the answer cookie never touches the RCODE field of the header. -/
theorem kr_answer_write_cookie_rcode (srvr_data : knot_sc_private) (cc : Octets)
    (nonce : kr_nonce_input) (alg : knot_sc_alg) (pkt : knot_pkt_t) :
    (kr_answer_write_cookie srvr_data cc nonce alg pkt).2.rcode = pkt.rcode := by
  rw [kr_answer_write_cookie_eq]
  cases hopt : pkt.opt_rr <;> simp only [] <;> repeat' split
  all_goals rfl

/-- Writing the answer cookie never touches the extended RCODE. -/
theorem kr_answer_write_cookie_ext_rcode (srvr_data : knot_sc_private) (cc : Octets)
    (nonce : kr_nonce_input) (alg : knot_sc_alg) (pkt : knot_pkt_t) :
    knot_pkt_get_ext_rcode (kr_answer_write_cookie srvr_data cc nonce alg pkt).2
      = knot_pkt_get_ext_rcode pkt := by
  rw [kr_answer_write_cookie_eq]
  cases hopt : pkt.opt_rr <;> simp only [] <;> repeat' split
  all_goals first
    | rfl
    | simp [knot_pkt_get_ext_rcode, knot_edns_put_unique_option, hopt]

/-- A failing write leaves the packet as it was. -/
theorem kr_answer_write_cookie_fail (srvr_data : knot_sc_private) (cc : Octets)
    (nonce : kr_nonce_input) (alg : knot_sc_alg) (pkt : knot_pkt_t)
    (h : (kr_answer_write_cookie srvr_data cc nonce alg pkt).1 ≠ kr_ok) :
    (kr_answer_write_cookie srvr_data cc nonce alg pkt).2 = pkt := by
  rw [kr_answer_write_cookie_eq] at h ⊢
  cases hopt : pkt.opt_rr <;> rw [hopt] at h <;> simp only [] at h ⊢ <;> repeat' split
  all_goals first
    | rfl
    | (exfalso; revert h; simp_all)

theorem find_cookie_after_put (options : List edns_option) (code : Nat) (data : Octets) :
    (options.filter (fun o : edns_option => o.code != code)
        ++ [({ code := code, data := data } : edns_option)]).find?
        (fun o : edns_option => o.code == code) = some { code := code, data := data } := by
  induction options with
  | nil => simp
  | cons o os ih =>
    by_cases h : o.code = code
    · rw [List.filter_cons_of_neg (by simp [h])]
      exact ih
    · rw [List.filter_cons_of_pos (by simp [h]), List.cons_append,
        List.find?_cons_of_neg _ (by simp [h])]
      exact ih

/-- A successful write needs an OPT record in the packet and leaves exactly one
COOKIE option there: the fresh cookie of section 4.G step 5. -/
theorem kr_answer_write_cookie_ok (srvr_data : knot_sc_private) (cc : Octets)
    (nonce : kr_nonce_input) (alg : knot_sc_alg) (pkt : knot_pkt_t)
    (h : (kr_answer_write_cookie srvr_data cc nonce alg pkt).1 = kr_ok) :
    pkt.opt_rr ≠ none
    ∧ response_cookie_opt (kr_answer_write_cookie srvr_data cc nonce alg pkt).2
        = some (fresh_cookie_opt srvr_data cc nonce alg) := by
  have hne : kr_error EINVAL ≠ kr_ok := by decide
  rw [kr_answer_write_cookie_eq] at h ⊢
  by_cases h1 : srvr_data.clnt_sockaddr.isNone ∨ srvr_data.secret_data.length = 0
  · rw [if_pos h1] at h; exact absurd h hne
  rw [if_neg h1] at h ⊢
  by_cases h2 : cc.length = 0
  · rw [if_pos h2] at h; exact absurd h hne
  rw [if_neg h2] at h ⊢
  by_cases h3 : alg.hash_size = 0
  · rw [if_pos h3] at h; exact absurd h hne
  rw [if_neg h3] at h ⊢
  cases hopt : pkt.opt_rr with
  | none => rw [hopt] at h; exact absurd h hne
  | some opt =>
    rw [hopt] at h
    simp only [] at h ⊢
    by_cases h4 : (fresh_cookie_opt srvr_data cc nonce alg).data.length
        ≠ cc.length + 8 + alg.hash_size
    · rw [if_pos h4] at h; exact absurd h hne
    rw [if_neg h4]
    refine ⟨by simp, ?_⟩
    simp only [response_cookie_opt, knot_edns_get_option, knot_edns_put_unique_option]
    exact find_cookie_after_put _ _ _

/-! ## Server side: `check_request` -/

theorem answer_add_cookies_answer (srvr_data : knot_sc_private) (cookies : knot_dns_cookies)
    (nonce : kr_nonce_input) (alg : knot_sc_alg) (st : Nat) (pkt : knot_pkt_t) :
    (answer_add_cookies srvr_data cookies nonce alg st pkt).2
      = (kr_answer_write_cookie srvr_data cookies.cc nonce alg pkt).2 := by
  unfold answer_add_cookies; split <;> rfl

theorem answer_add_cookies_state_ok (srvr_data : knot_sc_private) (cookies : knot_dns_cookies)
    (nonce : kr_nonce_input) (alg : knot_sc_alg) (st : Nat) (pkt : knot_pkt_t)
    (h : (kr_answer_write_cookie srvr_data cookies.cc nonce alg pkt).1 = kr_ok) :
    (answer_add_cookies srvr_data cookies nonce alg st pkt).1 = st := by
  unfold answer_add_cookies; simp [h]

theorem answer_add_cookies_state_fail (srvr_data : knot_sc_private) (cookies : knot_dns_cookies)
    (nonce : kr_nonce_input) (alg : knot_sc_alg) (st : Nat) (pkt : knot_pkt_t)
    (h : (kr_answer_write_cookie srvr_data cookies.cc nonce alg pkt).1 ≠ kr_ok) :
    (answer_add_cookies srvr_data cookies nonce alg st pkt).1 = KNOT_STATE_FAIL := by
  unfold answer_add_cookies; simp [h]

/-- The accept path of `check_request`: what `answer_add_cookies` does to an answer it
receives untouched. The answer is the one `kr_answer_write_cookie` leaves, RCODE and
extended RCODE are those of the input, a failing write yields `KNOT_STATE_FAIL`, and
a successful write yields the given state and the fresh COOKIE option. -/
theorem answer_add_cookies_accept (srvr_data : knot_sc_private) (cookies : knot_dns_cookies)
    (nonce : kr_nonce_input) (alg : knot_sc_alg) (st : Nat) (pkt : knot_pkt_t) :
    (answer_add_cookies srvr_data cookies nonce alg st pkt).2
        = (kr_answer_write_cookie srvr_data cookies.cc nonce alg pkt).2
    ∧ (answer_add_cookies srvr_data cookies nonce alg st pkt).2.rcode = pkt.rcode
    ∧ knot_pkt_get_ext_rcode (answer_add_cookies srvr_data cookies nonce alg st pkt).2
        = knot_pkt_get_ext_rcode pkt
    ∧ ((kr_answer_write_cookie srvr_data cookies.cc nonce alg pkt).1 ≠ kr_ok →
        (answer_add_cookies srvr_data cookies nonce alg st pkt).1 = KNOT_STATE_FAIL)
    ∧ ((kr_answer_write_cookie srvr_data cookies.cc nonce alg pkt).1 = kr_ok →
        (answer_add_cookies srvr_data cookies nonce alg st pkt).1 = st
        ∧ response_cookie_opt (answer_add_cookies srvr_data cookies nonce alg st pkt).2
            = some (fresh_cookie_opt srvr_data cookies.cc nonce alg)) := by
  refine ⟨answer_add_cookies_answer _ _ _ _ _ _, ?_, ?_, ?_, ?_⟩
  · rw [answer_add_cookies_answer]; exact kr_answer_write_cookie_rcode _ _ _ _ _
  · rw [answer_add_cookies_answer]; exact kr_answer_write_cookie_ext_rcode _ _ _ _ _
  · exact answer_add_cookies_state_fail _ _ _ _ _ _
  · intro h
    refine ⟨answer_add_cookies_state_ok _ _ _ _ _ _ h, ?_⟩
    rw [answer_add_cookies_answer]
    exact (kr_answer_write_cookie_ok _ _ _ _ _ h).2

/-- Setting the extended RCODE 23 on a packet with an OPT record makes the packet carry it. -/
theorem get_ext_rcode_set_badcookie (pkt : knot_pkt_t) (h : pkt.opt_rr ≠ none) :
    knot_pkt_get_ext_rcode (kr_pkt_set_ext_rcode pkt KNOT_RCODE_BADCOOKIE)
      = KNOT_RCODE_BADCOOKIE := by
  cases hopt : pkt.opt_rr with
  | none => exact absurd hopt h
  | some opt =>
    simp only [kr_pkt_set_ext_rcode, hopt, knot_pkt_get_ext_rcode]
    decide

theorem set_ext_rcode_opt_rr_none (pkt : knot_pkt_t) (rcode : Nat) :
    (kr_pkt_set_ext_rcode pkt rcode).opt_rr = none ↔ pkt.opt_rr = none := by
  cases hopt : pkt.opt_rr <;> simp [kr_pkt_set_ext_rcode, hopt]

/-- The function `check_request` on a request that passes the guards (server cookies
enabled, COOKIE option present and parsed, client address, current secret and
algorithm available) and carries no server cookie. -/
theorem check_request_no_sc (kr_sc_alg_get : Int → Option knot_sc_alg) (ctx_state : Nat)
    (req : kr_request) (rand : Nat) (req_cookie_opt : edns_option) (cookies : knot_dns_cookies)
    (addr : sockaddr) (secr : kr_cookie_secret) (alg : knot_sc_alg)
    (h_enabled : req.ctx.cookie_ctx.srvr.enabled = true)
    (h_opt : req_cookie_option req = some req_cookie_opt)
    (h_parse : kr_parse_cookie_opt req_cookie_opt = some cookies)
    (h_addr : req.qsource.addr = some addr)
    (h_secr : req.ctx.cookie_ctx.srvr.current.secr = some secr)
    (h_alg : kr_sc_alg_get req.ctx.cookie_ctx.srvr.current.alg_id = some alg)
    (h_nosc : cookies.sc = none) :
    check_request kr_sc_alg_get ctx_state req rand =
      answer_add_cookies (check_request_srvr_data addr secr) cookies
        (check_request_nonce req rand) alg
        (if req.current_query.qdcount = 0 then KNOT_STATE_DONE else ctx_state) req.answer := by
  simp only [check_request, h_enabled, h_opt, h_parse, h_addr, h_secr, h_alg, h_nosc]
  by_cases hq : req.current_query.qdcount = 0 <;> simp [hq]

/-- The function `check_request` on a request that passes the guards and carries a server
cookie: the outcome depends on the server cookie check and the question count. -/
theorem check_request_with_sc (kr_sc_alg_get : Int → Option knot_sc_alg) (ctx_state : Nat)
    (req : kr_request) (rand : Nat) (req_cookie_opt : edns_option) (cookies : knot_dns_cookies)
    (addr : sockaddr) (secr : kr_cookie_secret) (alg : knot_sc_alg) (sc : Octets)
    (h_enabled : req.ctx.cookie_ctx.srvr.enabled = true)
    (h_opt : req_cookie_option req = some req_cookie_opt)
    (h_parse : kr_parse_cookie_opt req_cookie_opt = some cookies)
    (h_addr : req.qsource.addr = some addr)
    (h_secr : req.ctx.cookie_ctx.srvr.current.secr = some secr)
    (h_alg : kr_sc_alg_get req.ctx.cookie_ctx.srvr.current.alg_id = some alg)
    (h_sc : cookies.sc = some sc) :
    check_request kr_sc_alg_get ctx_state req rand =
      if check_request_sc_ret kr_sc_alg_get req.ctx.cookie_ctx.srvr (some addr) cookies
          (check_request_srvr_data addr secr) alg ≠ KNOT_EOK
          ∧ req.current_query.qdcount = 0 then
        answer_add_cookies (check_request_srvr_data addr secr) cookies
          (check_request_nonce req rand) alg (KNOT_STATE_DONE ||| KNOT_STATE_FAIL)
          (kr_pkt_set_ext_rcode req.answer KNOT_RCODE_BADCOOKIE)
      else
        answer_add_cookies (check_request_srvr_data addr secr) cookies
          (check_request_nonce req rand) alg ctx_state req.answer := by
  simp only [check_request, h_enabled, h_opt, h_parse, h_addr, h_secr, h_alg, h_sc]
  by_cases hq : req.current_query.qdcount = 0 <;>
    by_cases hr : check_request_sc_ret kr_sc_alg_get req.ctx.cookie_ctx.srvr (some addr) cookies
      (check_request_srvr_data addr secr) alg = KNOT_EOK <;> simp [hq, hr]

/-! ### Wrong server cookie -/

/-- C3, as the code has it. A request with a wrong server cookie and at least one question:
`check_request` runs with `ignore_badcookie = true`, so for every request whose COOKIE
option parses, whose server cookie verifies under neither the current nor the recent
settings and whose `qdcount` is not zero, it sets no RCODE and no extended RCODE,
hands the untouched answer to `kr_answer_write_cookie` with the current settings and,
when that write succeeds, returns the incoming layer state with the fresh cookie
attached. -/
theorem check_request_wrong_sc_question (kr_sc_alg_get : Int → Option knot_sc_alg) (ctx_state : Nat)
    (req : kr_request) (rand : Nat) (req_cookie_opt : edns_option) (cookies : knot_dns_cookies)
    (addr : sockaddr) (secr : kr_cookie_secret) (alg : knot_sc_alg) (sc : Octets)
    (h_enabled : req.ctx.cookie_ctx.srvr.enabled = true)
    (h_opt : req_cookie_option req = some req_cookie_opt)
    (h_parse : kr_parse_cookie_opt req_cookie_opt = some cookies)
    (h_addr : req.qsource.addr = some addr)
    (h_secr : req.ctx.cookie_ctx.srvr.current.secr = some secr)
    (h_alg : kr_sc_alg_get req.ctx.cookie_ctx.srvr.current.alg_id = some alg)
    (h_sc : cookies.sc = some sc)
    (h_bad : check_request_sc_ret kr_sc_alg_get req.ctx.cookie_ctx.srvr (some addr) cookies
        (check_request_srvr_data addr secr) alg ≠ KNOT_EOK)
    (h_qd : req.current_query.qdcount ≠ 0) :
    (check_request kr_sc_alg_get ctx_state req rand).2
        = (kr_answer_write_cookie (check_request_srvr_data addr secr) cookies.cc
            (check_request_nonce req rand) alg req.answer).2
    ∧ (check_request kr_sc_alg_get ctx_state req rand).2.rcode = req.answer.rcode
    ∧ knot_pkt_get_ext_rcode (check_request kr_sc_alg_get ctx_state req rand).2
        = knot_pkt_get_ext_rcode req.answer
    ∧ ((kr_answer_write_cookie (check_request_srvr_data addr secr) cookies.cc (check_request_nonce
        req rand) alg req.answer).1 = kr_ok →
        (check_request kr_sc_alg_get ctx_state req rand).1 = ctx_state
        ∧ response_cookie_opt (check_request kr_sc_alg_get ctx_state req rand).2
            = some (fresh_cookie_opt (check_request_srvr_data addr secr) cookies.cc
                (check_request_nonce req rand) alg)) := by
  rw [check_request_with_sc kr_sc_alg_get ctx_state req rand req_cookie_opt cookies addr secr alg
    sc h_enabled h_opt h_parse h_addr h_secr h_alg h_sc]
  have _ := h_bad
  rw [if_neg (by simp [h_qd])]
  have h := answer_add_cookies_accept (check_request_srvr_data addr secr) cookies
    (check_request_nonce req rand) alg ctx_state req.answer
  exact ⟨h.1, h.2.1, h.2.2.1, h.2.2.2.2⟩

theorem check_request_wrong_sc_question_witness :
    (check_request kr_sc_alg_get_fnv KNOT_STATE_CONSUME (requestCookie query1 (ccClient ++ scWrong)
        answerEdns) 7).2
        = (kr_answer_write_cookie (check_request_srvr_data client1 secretA) ccClient
            (check_request_nonce (requestCookie query1 (ccClient ++ scWrong) answerEdns) 7)
                knot_sc_alg_fnv64 (requestCookie query1 (ccClient ++ scWrong) answerEdns).answer).2
    ∧ (check_request kr_sc_alg_get_fnv KNOT_STATE_CONSUME (requestCookie query1 (ccClient ++
        scWrong) answerEdns) 7).2.rcode = (requestCookie query1 (ccClient ++ scWrong)
            answerEdns).answer.rcode
    ∧ knot_pkt_get_ext_rcode (check_request kr_sc_alg_get_fnv KNOT_STATE_CONSUME (requestCookie
        query1 (ccClient ++ scWrong) answerEdns) 7).2
        = knot_pkt_get_ext_rcode (requestCookie query1 (ccClient ++ scWrong) answerEdns).answer
    ∧ ((kr_answer_write_cookie (check_request_srvr_data client1 secretA) ccClient
        (check_request_nonce (requestCookie query1 (ccClient ++ scWrong) answerEdns) 7)
            knot_sc_alg_fnv64 (requestCookie query1 (ccClient ++ scWrong) answerEdns).answer).1 =
                kr_ok →
        (check_request kr_sc_alg_get_fnv KNOT_STATE_CONSUME (requestCookie query1 (ccClient ++
            scWrong) answerEdns) 7).1 = KNOT_STATE_CONSUME
        ∧ response_cookie_opt (check_request kr_sc_alg_get_fnv KNOT_STATE_CONSUME (requestCookie
            query1 (ccClient ++ scWrong) answerEdns) 7).2
            = some (fresh_cookie_opt (check_request_srvr_data client1 secretA) ccClient
                (check_request_nonce (requestCookie query1 (ccClient ++ scWrong) answerEdns) 7)
                    knot_sc_alg_fnv64)) :=
  check_request_wrong_sc_question kr_sc_alg_get_fnv KNOT_STATE_CONSUME
    (requestCookie query1 (ccClient ++ scWrong) answerEdns) 7
    { code := 10, data := ccClient ++ scWrong } { cc := ccClient, sc := some scWrong }
    client1 secretA knot_sc_alg_fnv64 scWrong
    (by decide) (by decide) (by decide) (by decide) (by decide) rfl (by decide)
    (by decide) (by decide)

/-- C3, the claim as stated fails. The request from `client1` carries a COOKIE option that
parses, its server cookie verifies under neither secret (there is no recent one), and
`qdcount` is 1; `check_request` returns the incoming state `KNOT_STATE_CONSUME`, not
`KNOT_STATE_FAIL | KNOT_STATE_DONE`, and the extended RCODE of the answer is 0, not 23. -/
theorem check_request_wrong_sc_question_counterexample :
    kr_parse_cookie_opt { code := 10, data := ccClient ++ scWrong }
        = some { cc := ccClient, sc := some scWrong }
    ∧ check_request_sc_ret kr_sc_alg_get_fnv settingsA (some client1)
        { cc := ccClient, sc := some scWrong } (check_request_srvr_data client1 secretA)
        knot_sc_alg_fnv64 ≠ KNOT_EOK
    ∧ (requestCookie query1 (ccClient ++ scWrong) answerEdns).current_query.qdcount = 1
    ∧ (check_request kr_sc_alg_get_fnv KNOT_STATE_CONSUME
        (requestCookie query1 (ccClient ++ scWrong) answerEdns) 7).1 = KNOT_STATE_CONSUME
    ∧ (check_request kr_sc_alg_get_fnv KNOT_STATE_CONSUME
        (requestCookie query1 (ccClient ++ scWrong) answerEdns) 7).1
        ≠ KNOT_STATE_FAIL ||| KNOT_STATE_DONE
    ∧ knot_pkt_get_ext_rcode (check_request kr_sc_alg_get_fnv KNOT_STATE_CONSUME
        (requestCookie query1 (ccClient ++ scWrong) answerEdns) 7).2 = 0
    ∧ knot_pkt_get_ext_rcode (check_request kr_sc_alg_get_fnv KNOT_STATE_CONSUME
        (requestCookie query1 (ccClient ++ scWrong) answerEdns) 7).2 ≠ KNOT_RCODE_BADCOOKIE := by
  decide

/-- C4. A request with a wrong server cookie and no question: for every request whose COOKIE
option parses, whose server cookie verifies under neither the current nor the recent
settings and whose `qdcount` is zero, `check_request` sets the extended RCODE of the
answer to BADCOOKIE (23) before it writes the answer cookie (the answer it returns is
the one `kr_answer_write_cookie` leaves of that packet, and it carries extended RCODE 23
whenever the answer has an OPT record) and, provided the write succeeds, returns
`KNOT_STATE_DONE | KNOT_STATE_FAIL`. -/
theorem check_request_wrong_sc_probe (kr_sc_alg_get : Int → Option knot_sc_alg) (ctx_state : Nat)
    (req : kr_request) (rand : Nat) (req_cookie_opt : edns_option) (cookies : knot_dns_cookies)
    (addr : sockaddr) (secr : kr_cookie_secret) (alg : knot_sc_alg) (sc : Octets)
    (h_enabled : req.ctx.cookie_ctx.srvr.enabled = true)
    (h_opt : req_cookie_option req = some req_cookie_opt)
    (h_parse : kr_parse_cookie_opt req_cookie_opt = some cookies)
    (h_addr : req.qsource.addr = some addr)
    (h_secr : req.ctx.cookie_ctx.srvr.current.secr = some secr)
    (h_alg : kr_sc_alg_get req.ctx.cookie_ctx.srvr.current.alg_id = some alg)
    (h_sc : cookies.sc = some sc)
    (h_bad : check_request_sc_ret kr_sc_alg_get req.ctx.cookie_ctx.srvr (some addr) cookies
        (check_request_srvr_data addr secr) alg ≠ KNOT_EOK)
    (h_qd : req.current_query.qdcount = 0) :
    (check_request kr_sc_alg_get ctx_state req rand).2
        = (kr_answer_write_cookie (check_request_srvr_data addr secr) cookies.cc
            (check_request_nonce req rand) alg (kr_pkt_set_ext_rcode req.answer
                KNOT_RCODE_BADCOOKIE)).2
    ∧ (req.answer.opt_rr ≠ none →
        knot_pkt_get_ext_rcode (check_request kr_sc_alg_get ctx_state req rand).2 =
            KNOT_RCODE_BADCOOKIE)
    ∧ ((kr_answer_write_cookie (check_request_srvr_data addr secr) cookies.cc (check_request_nonce
        req rand) alg (kr_pkt_set_ext_rcode req.answer KNOT_RCODE_BADCOOKIE)).1 = kr_ok →
        knot_pkt_get_ext_rcode (check_request kr_sc_alg_get ctx_state req rand).2 =
            KNOT_RCODE_BADCOOKIE
        ∧ (check_request kr_sc_alg_get ctx_state req rand).1 = KNOT_STATE_DONE ||| KNOT_STATE_FAIL) := by
  rw [check_request_with_sc kr_sc_alg_get ctx_state req rand req_cookie_opt cookies addr secr alg
    sc h_enabled h_opt h_parse h_addr h_secr h_alg h_sc]
  rw [if_pos ⟨h_bad, h_qd⟩]
  have h := answer_add_cookies_accept (check_request_srvr_data addr secr) cookies
    (check_request_nonce req rand) alg (KNOT_STATE_DONE ||| KNOT_STATE_FAIL)
    (kr_pkt_set_ext_rcode req.answer KNOT_RCODE_BADCOOKIE)
  refine ⟨h.1, ?_, ?_⟩
  · intro hopt
    rw [h.2.2.1]; exact get_ext_rcode_set_badcookie _ hopt
  · intro hw
    refine ⟨?_, (h.2.2.2.2 hw).1⟩
    rw [h.2.2.1]
    apply get_ext_rcode_set_badcookie
    intro hnone
    exact (kr_answer_write_cookie_ok _ _ _ _ _ hw).1
      ((set_ext_rcode_opt_rr_none _ _).2 hnone)

theorem check_request_wrong_sc_probe_witness :
    (check_request kr_sc_alg_get_fnv KNOT_STATE_CONSUME (requestCookie query0 (ccClient ++ scWrong)
        answerEdns) 7).2
        = (kr_answer_write_cookie (check_request_srvr_data client1 secretA) ccClient
            (check_request_nonce (requestCookie query0 (ccClient ++ scWrong) answerEdns) 7)
                knot_sc_alg_fnv64 (kr_pkt_set_ext_rcode (requestCookie query0 (ccClient ++ scWrong)
                    answerEdns).answer KNOT_RCODE_BADCOOKIE)).2
    ∧ ((requestCookie query0 (ccClient ++ scWrong) answerEdns).answer.opt_rr ≠ none →
        knot_pkt_get_ext_rcode (check_request kr_sc_alg_get_fnv KNOT_STATE_CONSUME (requestCookie
            query0 (ccClient ++ scWrong) answerEdns) 7).2 = KNOT_RCODE_BADCOOKIE)
    ∧ ((kr_answer_write_cookie (check_request_srvr_data client1 secretA) ccClient
        (check_request_nonce (requestCookie query0 (ccClient ++ scWrong) answerEdns) 7)
            knot_sc_alg_fnv64 (kr_pkt_set_ext_rcode (requestCookie query0 (ccClient ++ scWrong)
                answerEdns).answer KNOT_RCODE_BADCOOKIE)).1 = kr_ok →
        knot_pkt_get_ext_rcode (check_request kr_sc_alg_get_fnv KNOT_STATE_CONSUME (requestCookie
            query0 (ccClient ++ scWrong) answerEdns) 7).2 = KNOT_RCODE_BADCOOKIE
        ∧ (check_request kr_sc_alg_get_fnv KNOT_STATE_CONSUME (requestCookie query0 (ccClient ++
            scWrong) answerEdns) 7).1 = KNOT_STATE_DONE ||| KNOT_STATE_FAIL) :=
  check_request_wrong_sc_probe kr_sc_alg_get_fnv KNOT_STATE_CONSUME
    (requestCookie query0 (ccClient ++ scWrong) answerEdns) 7
    { code := 10, data := ccClient ++ scWrong } { cc := ccClient, sc := some scWrong }
    client1 secretA knot_sc_alg_fnv64 scWrong
    (by decide) (by decide) (by decide) (by decide) (by decide) rfl (by decide)
    (by decide) (by decide)

/-! ### No server cookie -/

/-- C5. A request with a client cookie, no server cookie and no question: `check_request`
accepts it. It sets neither RCODE nor extended RCODE (so no FORMERR and no BADCOOKIE),
hands the untouched answer to `kr_answer_write_cookie` with the client cookie of the
request and, provided the write succeeds, returns `KNOT_STATE_DONE` with the fresh
server cookie attached. -/
theorem check_request_no_sc_probe (kr_sc_alg_get : Int → Option knot_sc_alg) (ctx_state : Nat)
    (req : kr_request) (rand : Nat) (req_cookie_opt : edns_option) (cookies : knot_dns_cookies)
    (addr : sockaddr) (secr : kr_cookie_secret) (alg : knot_sc_alg)
    (h_enabled : req.ctx.cookie_ctx.srvr.enabled = true)
    (h_opt : req_cookie_option req = some req_cookie_opt)
    (h_parse : kr_parse_cookie_opt req_cookie_opt = some cookies)
    (h_addr : req.qsource.addr = some addr)
    (h_secr : req.ctx.cookie_ctx.srvr.current.secr = some secr)
    (h_alg : kr_sc_alg_get req.ctx.cookie_ctx.srvr.current.alg_id = some alg)
    (h_nosc : cookies.sc = none)
    (h_qd : req.current_query.qdcount = 0) :
    (check_request kr_sc_alg_get ctx_state req rand).2
        = (kr_answer_write_cookie (check_request_srvr_data addr secr) cookies.cc
            (check_request_nonce req rand) alg req.answer).2
    ∧ (check_request kr_sc_alg_get ctx_state req rand).2.rcode = req.answer.rcode
    ∧ knot_pkt_get_ext_rcode (check_request kr_sc_alg_get ctx_state req rand).2
        = knot_pkt_get_ext_rcode req.answer
    ∧ ((kr_answer_write_cookie (check_request_srvr_data addr secr) cookies.cc (check_request_nonce
        req rand) alg req.answer).1 = kr_ok →
        (check_request kr_sc_alg_get ctx_state req rand).1 = KNOT_STATE_DONE
        ∧ response_cookie_opt (check_request kr_sc_alg_get ctx_state req rand).2
            = some (fresh_cookie_opt (check_request_srvr_data addr secr) cookies.cc
                (check_request_nonce req rand) alg)) := by
  rw [check_request_no_sc kr_sc_alg_get ctx_state req rand req_cookie_opt cookies addr secr alg
    h_enabled h_opt h_parse h_addr h_secr h_alg h_nosc]
  simp only [h_qd, if_true, if_false]
  have h := answer_add_cookies_accept (check_request_srvr_data addr secr) cookies
    (check_request_nonce req rand) alg KNOT_STATE_DONE req.answer
  exact ⟨h.1, h.2.1, h.2.2.1, h.2.2.2.2⟩

theorem check_request_no_sc_probe_witness :
    (check_request kr_sc_alg_get_fnv KNOT_STATE_CONSUME (requestCookie query0 ccClient answerEdns)
        7).2
        = (kr_answer_write_cookie (check_request_srvr_data client1 secretA) ccClient
            (check_request_nonce (requestCookie query0 ccClient answerEdns) 7) knot_sc_alg_fnv64
                (requestCookie query0 ccClient answerEdns).answer).2
    ∧ (check_request kr_sc_alg_get_fnv KNOT_STATE_CONSUME (requestCookie query0 ccClient
        answerEdns) 7).2.rcode = (requestCookie query0 ccClient answerEdns).answer.rcode
    ∧ knot_pkt_get_ext_rcode (check_request kr_sc_alg_get_fnv KNOT_STATE_CONSUME (requestCookie
        query0 ccClient answerEdns) 7).2
        = knot_pkt_get_ext_rcode (requestCookie query0 ccClient answerEdns).answer
    ∧ ((kr_answer_write_cookie (check_request_srvr_data client1 secretA) ccClient
        (check_request_nonce (requestCookie query0 ccClient answerEdns) 7) knot_sc_alg_fnv64
            (requestCookie query0 ccClient answerEdns).answer).1 = kr_ok →
        (check_request kr_sc_alg_get_fnv KNOT_STATE_CONSUME (requestCookie query0 ccClient
            answerEdns) 7).1 = KNOT_STATE_DONE
        ∧ response_cookie_opt (check_request kr_sc_alg_get_fnv KNOT_STATE_CONSUME (requestCookie
            query0 ccClient answerEdns) 7).2
            = some (fresh_cookie_opt (check_request_srvr_data client1 secretA) ccClient
                (check_request_nonce (requestCookie query0 ccClient answerEdns) 7)
                    knot_sc_alg_fnv64)) :=
  check_request_no_sc_probe kr_sc_alg_get_fnv KNOT_STATE_CONSUME
    (requestCookie query0 ccClient answerEdns) 7
    { code := 10, data := ccClient } { cc := ccClient, sc := none }
    client1 secretA knot_sc_alg_fnv64
    (by decide) (by decide) (by decide) (by decide) (by decide) rfl (by decide)
    (by decide)

/-- C6. A request with a client cookie, no server cookie and at least one question, under
the policy of the code (`ignore_badcookie = true`): `check_request` accepts it. It sets
neither RCODE nor extended RCODE, hands the untouched answer to
`kr_answer_write_cookie` and, when the write succeeds, returns the incoming layer state
unchanged with the fresh server cookie attached. -/
theorem check_request_no_sc_question (kr_sc_alg_get : Int → Option knot_sc_alg) (ctx_state : Nat)
    (req : kr_request) (rand : Nat) (req_cookie_opt : edns_option) (cookies : knot_dns_cookies)
    (addr : sockaddr) (secr : kr_cookie_secret) (alg : knot_sc_alg)
    (h_enabled : req.ctx.cookie_ctx.srvr.enabled = true)
    (h_opt : req_cookie_option req = some req_cookie_opt)
    (h_parse : kr_parse_cookie_opt req_cookie_opt = some cookies)
    (h_addr : req.qsource.addr = some addr)
    (h_secr : req.ctx.cookie_ctx.srvr.current.secr = some secr)
    (h_alg : kr_sc_alg_get req.ctx.cookie_ctx.srvr.current.alg_id = some alg)
    (h_nosc : cookies.sc = none)
    (h_qd : req.current_query.qdcount ≠ 0) :
    (check_request kr_sc_alg_get ctx_state req rand).2
        = (kr_answer_write_cookie (check_request_srvr_data addr secr) cookies.cc
            (check_request_nonce req rand) alg req.answer).2
    ∧ (check_request kr_sc_alg_get ctx_state req rand).2.rcode = req.answer.rcode
    ∧ knot_pkt_get_ext_rcode (check_request kr_sc_alg_get ctx_state req rand).2
        = knot_pkt_get_ext_rcode req.answer
    ∧ ((kr_answer_write_cookie (check_request_srvr_data addr secr) cookies.cc (check_request_nonce
        req rand) alg req.answer).1 = kr_ok →
        (check_request kr_sc_alg_get ctx_state req rand).1 = ctx_state
        ∧ response_cookie_opt (check_request kr_sc_alg_get ctx_state req rand).2
            = some (fresh_cookie_opt (check_request_srvr_data addr secr) cookies.cc
                (check_request_nonce req rand) alg)) := by
  rw [check_request_no_sc kr_sc_alg_get ctx_state req rand req_cookie_opt cookies addr secr alg
    h_enabled h_opt h_parse h_addr h_secr h_alg h_nosc]
  simp only [h_qd, if_true, if_false]
  have h := answer_add_cookies_accept (check_request_srvr_data addr secr) cookies
    (check_request_nonce req rand) alg ctx_state req.answer
  exact ⟨h.1, h.2.1, h.2.2.1, h.2.2.2.2⟩

theorem check_request_no_sc_question_witness :
    (check_request kr_sc_alg_get_fnv KNOT_STATE_CONSUME (requestCookie query1 ccClient answerEdns)
        7).2
        = (kr_answer_write_cookie (check_request_srvr_data client1 secretA) ccClient
            (check_request_nonce (requestCookie query1 ccClient answerEdns) 7) knot_sc_alg_fnv64
                (requestCookie query1 ccClient answerEdns).answer).2
    ∧ (check_request kr_sc_alg_get_fnv KNOT_STATE_CONSUME (requestCookie query1 ccClient
        answerEdns) 7).2.rcode = (requestCookie query1 ccClient answerEdns).answer.rcode
    ∧ knot_pkt_get_ext_rcode (check_request kr_sc_alg_get_fnv KNOT_STATE_CONSUME (requestCookie
        query1 ccClient answerEdns) 7).2
        = knot_pkt_get_ext_rcode (requestCookie query1 ccClient answerEdns).answer
    ∧ ((kr_answer_write_cookie (check_request_srvr_data client1 secretA) ccClient
        (check_request_nonce (requestCookie query1 ccClient answerEdns) 7) knot_sc_alg_fnv64
            (requestCookie query1 ccClient answerEdns).answer).1 = kr_ok →
        (check_request kr_sc_alg_get_fnv KNOT_STATE_CONSUME (requestCookie query1 ccClient
            answerEdns) 7).1 = KNOT_STATE_CONSUME
        ∧ response_cookie_opt (check_request kr_sc_alg_get_fnv KNOT_STATE_CONSUME (requestCookie
            query1 ccClient answerEdns) 7).2
            = some (fresh_cookie_opt (check_request_srvr_data client1 secretA) ccClient
                (check_request_nonce (requestCookie query1 ccClient answerEdns) 7)
                    knot_sc_alg_fnv64)) :=
  check_request_no_sc_question kr_sc_alg_get_fnv KNOT_STATE_CONSUME
    (requestCookie query1 ccClient answerEdns) 7
    { code := 10, data := ccClient } { cc := ccClient, sc := none }
    client1 secretA knot_sc_alg_fnv64
    (by decide) (by decide) (by decide) (by decide) (by decide) rfl (by decide)
    (by decide)

/-! ### Verification of the server cookie -/

/-- The check of the server cookie answers only "equal" or "not equal". -/
theorem knot_sc_check_codes (nonce_len : Nat) (cookies : knot_dns_cookies)
    (srvr_data : knot_sc_private) (sc_alg : knot_sc_alg) :
    knot_sc_check nonce_len cookies srvr_data sc_alg = KNOT_EOK
    ∨ knot_sc_check nonce_len cookies srvr_data sc_alg = KNOT_EINVAL := by
  unfold knot_sc_check
  repeat' split
  all_goals first
    | exact Or.inl rfl
    | exact Or.inr rfl

/-- The server cookie check of `check_request` succeeds exactly when the check under the
current settings succeeds, or it returned `KNOT_EINVAL`, a recent secret and a recent
algorithm exist and the check under the recent settings succeeds. -/
theorem check_request_sc_ret_eok_iff (kr_sc_alg_get : Int → Option knot_sc_alg)
    (srvr_sett : kr_cookie_settings) (addr : Option sockaddr) (cookies : knot_dns_cookies)
    (srvr_data : knot_sc_private) (alg : knot_sc_alg) :
    check_request_sc_ret kr_sc_alg_get srvr_sett addr cookies srvr_data alg = KNOT_EOK ↔
      (knot_sc_check KR_NONCE_LEN cookies srvr_data alg = KNOT_EOK
        ∨ (knot_sc_check KR_NONCE_LEN cookies srvr_data alg = KNOT_EINVAL
            ∧ ∃ (rsecr : kr_cookie_secret) (ralg : knot_sc_alg),
                srvr_sett.recent.secr = some rsecr
                ∧ kr_sc_alg_get srvr_sett.recent.alg_id = some ralg
                ∧ knot_sc_check KR_NONCE_LEN cookies
                    { clnt_sockaddr := addr, secret_data := rsecr.data } ralg = KNOT_EOK)) := by
  have hne : KNOT_EINVAL ≠ KNOT_EOK := by decide
  unfold check_request_sc_ret
  by_cases h1 : knot_sc_check KR_NONCE_LEN cookies srvr_data alg = KNOT_EINVAL
  · rw [if_pos h1]
    cases hs : srvr_sett.recent.secr with
    | none => simp [h1, hne]
    | some rsecr =>
      cases ha : kr_sc_alg_get srvr_sett.recent.alg_id with
      | none => simp [h1, hne]
      | some ralg => simp [h1, hne]
  · rw [if_neg h1]
    simp [h1]

/-- C7, as the code has it. Verification order: for every request that passes the guards and
carries a server cookie, the check of `check_request` accepts the cookie exactly when
it verifies under the current secret and algorithm, or that first check failed with
`KNOT_EINVAL`, a recent secret and a recent algorithm are installed and it verifies
under those. If the check succeeds, `check_request` sets neither RCODE nor extended
RCODE, hands the untouched answer to `kr_answer_write_cookie` and, when the write
succeeds, returns the incoming layer state unchanged with the fresh cookie attached. -/
theorem check_request_verification_order (kr_sc_alg_get : Int → Option knot_sc_alg) (ctx_state : Nat)
    (req : kr_request) (rand : Nat) (req_cookie_opt : edns_option) (cookies : knot_dns_cookies)
    (addr : sockaddr) (secr : kr_cookie_secret) (alg : knot_sc_alg) (sc : Octets)
    (h_enabled : req.ctx.cookie_ctx.srvr.enabled = true)
    (h_opt : req_cookie_option req = some req_cookie_opt)
    (h_parse : kr_parse_cookie_opt req_cookie_opt = some cookies)
    (h_addr : req.qsource.addr = some addr)
    (h_secr : req.ctx.cookie_ctx.srvr.current.secr = some secr)
    (h_alg : kr_sc_alg_get req.ctx.cookie_ctx.srvr.current.alg_id = some alg)
    (h_sc : cookies.sc = some sc) :
    (check_request_sc_ret kr_sc_alg_get req.ctx.cookie_ctx.srvr (some addr) cookies
        (check_request_srvr_data addr secr) alg = KNOT_EOK ↔
      (knot_sc_check KR_NONCE_LEN cookies (check_request_srvr_data addr secr) alg = KNOT_EOK
        ∨ (knot_sc_check KR_NONCE_LEN cookies (check_request_srvr_data addr secr) alg = KNOT_EINVAL
            ∧ ∃ (rsecr : kr_cookie_secret) (ralg : knot_sc_alg),
                req.ctx.cookie_ctx.srvr.recent.secr = some rsecr
                ∧ kr_sc_alg_get req.ctx.cookie_ctx.srvr.recent.alg_id = some ralg
                ∧ knot_sc_check KR_NONCE_LEN cookies
                    { clnt_sockaddr := some addr, secret_data := rsecr.data } ralg = KNOT_EOK)))
    ∧ (check_request_sc_ret kr_sc_alg_get req.ctx.cookie_ctx.srvr (some addr) cookies
        (check_request_srvr_data addr secr) alg = KNOT_EOK →
        (check_request kr_sc_alg_get ctx_state req rand).2
            = (kr_answer_write_cookie (check_request_srvr_data addr secr) cookies.cc
                (check_request_nonce req rand) alg req.answer).2
        ∧ (check_request kr_sc_alg_get ctx_state req rand).2.rcode = req.answer.rcode
        ∧ knot_pkt_get_ext_rcode (check_request kr_sc_alg_get ctx_state req rand).2
            = knot_pkt_get_ext_rcode req.answer
        ∧ ((kr_answer_write_cookie (check_request_srvr_data addr secr) cookies.cc
            (check_request_nonce req rand) alg req.answer).1 = kr_ok →
            (check_request kr_sc_alg_get ctx_state req rand).1 = ctx_state
            ∧ response_cookie_opt (check_request kr_sc_alg_get ctx_state req rand).2
                = some (fresh_cookie_opt (check_request_srvr_data addr secr) cookies.cc
                    (check_request_nonce req rand) alg))) := by
  refine ⟨check_request_sc_ret_eok_iff _ _ _ _ _ _, ?_⟩
  intro h_ok
  rw [check_request_with_sc kr_sc_alg_get ctx_state req rand req_cookie_opt cookies addr secr alg
    sc h_enabled h_opt h_parse h_addr h_secr h_alg h_sc]
  rw [if_neg (by simp [h_ok])]
  have h := answer_add_cookies_accept (check_request_srvr_data addr secr) cookies
    (check_request_nonce req rand) alg ctx_state req.answer
  exact ⟨h.1, h.2.1, h.2.2.1, h.2.2.2.2⟩

theorem check_request_verification_order_witness :
    (check_request_sc_ret kr_sc_alg_get_fnv (requestCookie query1 (ccClient ++ scValidA) answerEdns).ctx.cookie_ctx.srvr
        (some client1) cookiesValidA (check_request_srvr_data client1 secretA)
        knot_sc_alg_fnv64 = KNOT_EOK ↔
      (knot_sc_check KR_NONCE_LEN cookiesValidA (check_request_srvr_data client1 secretA) knot_sc_alg_fnv64 = KNOT_EOK
        ∨ (knot_sc_check KR_NONCE_LEN cookiesValidA (check_request_srvr_data client1 secretA) knot_sc_alg_fnv64 = KNOT_EINVAL
            ∧ ∃ (rsecr : kr_cookie_secret) (ralg : knot_sc_alg),
                (requestCookie query1 (ccClient ++ scValidA) answerEdns).ctx.cookie_ctx.srvr.recent.secr = some rsecr
                ∧ kr_sc_alg_get_fnv (requestCookie query1 (ccClient ++ scValidA) answerEdns).ctx.cookie_ctx.srvr.recent.alg_id = some ralg
                ∧ knot_sc_check KR_NONCE_LEN cookiesValidA
                    { clnt_sockaddr := some client1, secret_data := rsecr.data } ralg = KNOT_EOK)))
    ∧ (check_request_sc_ret kr_sc_alg_get_fnv (requestCookie query1 (ccClient ++ scValidA) answerEdns).ctx.cookie_ctx.srvr
        (some client1) cookiesValidA (check_request_srvr_data client1 secretA)
        knot_sc_alg_fnv64 = KNOT_EOK →
        (check_request kr_sc_alg_get_fnv KNOT_STATE_CONSUME (requestCookie query1 (ccClient ++
            scValidA) answerEdns) 7).2
            = (kr_answer_write_cookie (check_request_srvr_data client1 secretA) cookiesValidA.cc
                (check_request_nonce (requestCookie query1 (ccClient ++ scValidA) answerEdns) 7)
                    knot_sc_alg_fnv64 (requestCookie query1 (ccClient ++ scValidA)
                        answerEdns).answer).2
        ∧ (check_request kr_sc_alg_get_fnv KNOT_STATE_CONSUME (requestCookie query1 (ccClient ++
            scValidA) answerEdns) 7).2.rcode = (requestCookie query1 (ccClient ++ scValidA)
                answerEdns).answer.rcode
        ∧ knot_pkt_get_ext_rcode (check_request kr_sc_alg_get_fnv KNOT_STATE_CONSUME (requestCookie
            query1 (ccClient ++ scValidA) answerEdns) 7).2
            = knot_pkt_get_ext_rcode (requestCookie query1 (ccClient ++ scValidA) answerEdns).answer
        ∧ ((kr_answer_write_cookie (check_request_srvr_data client1 secretA) cookiesValidA.cc
            (check_request_nonce (requestCookie query1 (ccClient ++ scValidA) answerEdns) 7)
                knot_sc_alg_fnv64 (requestCookie query1 (ccClient ++ scValidA)
                    answerEdns).answer).1 = kr_ok →
            (check_request kr_sc_alg_get_fnv KNOT_STATE_CONSUME (requestCookie query1 (ccClient ++
                scValidA) answerEdns) 7).1 = KNOT_STATE_CONSUME
            ∧ response_cookie_opt (check_request kr_sc_alg_get_fnv KNOT_STATE_CONSUME
                (requestCookie query1 (ccClient ++ scValidA) answerEdns) 7).2
                = some (fresh_cookie_opt (check_request_srvr_data client1 secretA) cookiesValidA.cc
                    (check_request_nonce (requestCookie query1 (ccClient ++ scValidA) answerEdns)
                        7) knot_sc_alg_fnv64))) :=
  check_request_verification_order kr_sc_alg_get_fnv KNOT_STATE_CONSUME
    (requestCookie query1 (ccClient ++ scValidA) answerEdns) 7
    { code := 10, data := ccClient ++ scValidA } cookiesValidA
    client1 secretA knot_sc_alg_fnv64 scValidA
    (by decide) (by decide) (by decide) (by decide) (by decide) rfl (by decide)

/-- C7, the claim as stated fails. The request from `client1` carries a server cookie that
verifies under the current secret, but its answer has no OPT record, so the write of
the answer cookie fails: `check_request` returns `KNOT_STATE_FAIL`, not the incoming
state `KNOT_STATE_CONSUME`, and no cookie is attached. -/
theorem check_request_verification_order_counterexample :
    kr_parse_cookie_opt { code := 10, data := ccClient ++ scValidA } = some cookiesValidA
    ∧ knot_sc_check KR_NONCE_LEN cookiesValidA (check_request_srvr_data client1 secretA)
        knot_sc_alg_fnv64 = KNOT_EOK
    ∧ (check_request kr_sc_alg_get_fnv KNOT_STATE_CONSUME
        (requestCookie query1 (ccClient ++ scValidA) answerNoEdns) 7).1 = KNOT_STATE_FAIL
    ∧ (check_request kr_sc_alg_get_fnv KNOT_STATE_CONSUME
        (requestCookie query1 (ccClient ++ scValidA) answerNoEdns) 7).1 ≠ KNOT_STATE_CONSUME
    ∧ response_cookie_opt (check_request kr_sc_alg_get_fnv KNOT_STATE_CONSUME
        (requestCookie query1 (ccClient ++ scValidA) answerNoEdns) 7).2 = none := by
  decide

/-! ### Missing server context and malformed cookies -/

/-- C9, as the code has it. With server cookies enabled and a COOKIE option that parses, if
the request has no source address, or no current server secret is installed, or the
current algorithm is not registered, `check_request` returns `KNOT_STATE_FAIL` and
leaves the answer untouched. -/
theorem check_request_missing_context (kr_sc_alg_get : Int → Option knot_sc_alg)
    (ctx_state : Nat) (req : kr_request) (rand : Nat) (req_cookie_opt : edns_option)
    (cookies : knot_dns_cookies)
    (h_enabled : req.ctx.cookie_ctx.srvr.enabled = true)
    (h_opt : req_cookie_option req = some req_cookie_opt)
    (h_parse : kr_parse_cookie_opt req_cookie_opt = some cookies)
    (h_missing : req.qsource.addr = none ∨ req.ctx.cookie_ctx.srvr.current.secr = none
      ∨ kr_sc_alg_get req.ctx.cookie_ctx.srvr.current.alg_id = none) :
    check_request kr_sc_alg_get ctx_state req rand = (KNOT_STATE_FAIL, req.answer) := by
  simp only [check_request, h_enabled, h_opt, h_parse]
  cases ha : req.qsource.addr with
  | none => simp
  | some addr =>
    cases hs : req.ctx.cookie_ctx.srvr.current.secr with
    | none => simp
    | some secr =>
      cases hg : kr_sc_alg_get req.ctx.cookie_ctx.srvr.current.alg_id with
      | none => simp
      | some alg => simp [ha, hs, hg] at h_missing

theorem check_request_missing_context_witness :
    check_request kr_sc_alg_get_fnv KNOT_STATE_CONSUME
        (requestNoSecret query1 ccClient answerEdns) 7
      = (KNOT_STATE_FAIL, (requestNoSecret query1 ccClient answerEdns).answer) :=
  check_request_missing_context kr_sc_alg_get_fnv KNOT_STATE_CONSUME
    (requestNoSecret query1 ccClient answerEdns) 7 { code := 10, data := ccClient }
    { cc := ccClient, sc := none } (by decide) (by decide) (by decide)
    (Or.inr (Or.inl (by decide)))

/-- C9, the claim as stated fails. Server cookies are enabled, the request carries a
well-formed COOKIE option and no current server secret is installed; `check_request`
returns `KNOT_STATE_FAIL`, a failure state, and not the incoming state
`KNOT_STATE_CONSUME`. -/
theorem check_request_missing_context_counterexample :
    (requestNoSecret query1 ccClient answerEdns).ctx.cookie_ctx.srvr.enabled = true
    ∧ kr_parse_cookie_opt { code := 10, data := ccClient } = some { cc := ccClient, sc := none }
    ∧ (requestNoSecret query1 ccClient answerEdns).ctx.cookie_ctx.srvr.current.secr = none
    ∧ (check_request kr_sc_alg_get_fnv KNOT_STATE_CONSUME
        (requestNoSecret query1 ccClient answerEdns) 7).1 = KNOT_STATE_FAIL
    ∧ (check_request kr_sc_alg_get_fnv KNOT_STATE_CONSUME
        (requestNoSecret query1 ccClient answerEdns) 7).1 ≠ KNOT_STATE_CONSUME
    ∧ (check_request kr_sc_alg_get_fnv KNOT_STATE_CONSUME
        (requestNoSecret query1 ccClient answerEdns) 7).1 &&& KNOT_STATE_FAIL ≠ 0 := by
  decide

/-- C10. Malformed request cookie: with server cookies enabled, for every request whose
COOKIE option fails `kr_parse_cookie_opt`, `check_request` sets the RCODE of the answer
header to FORMERR and returns `KNOT_STATE_FAIL | KNOT_STATE_DONE`; the OPT record of
the answer is untouched, so no extended RCODE is set and no server cookie is attached. -/
theorem check_request_malformed (kr_sc_alg_get : Int → Option knot_sc_alg)
    (ctx_state : Nat) (req : kr_request) (rand : Nat) (req_cookie_opt : edns_option)
    (h_enabled : req.ctx.cookie_ctx.srvr.enabled = true)
    (h_opt : req_cookie_option req = some req_cookie_opt)
    (h_parse : kr_parse_cookie_opt req_cookie_opt = none) :
    (check_request kr_sc_alg_get ctx_state req rand).1 = KNOT_STATE_FAIL ||| KNOT_STATE_DONE
    ∧ (check_request kr_sc_alg_get ctx_state req rand).2
        = knot_wire_set_rcode req.answer KNOT_RCODE_FORMERR
    ∧ (check_request kr_sc_alg_get ctx_state req rand).2.rcode = KNOT_RCODE_FORMERR
    ∧ (check_request kr_sc_alg_get ctx_state req rand).2.opt_rr = req.answer.opt_rr := by
  simp only [check_request, h_enabled, h_opt, h_parse]
  simp [knot_wire_set_rcode]

theorem check_request_malformed_witness :
    (check_request kr_sc_alg_get_fnv KNOT_STATE_CONSUME
        (requestCookie query1 [1, 2, 3, 4, 5] answerEdns) 7).1
      = KNOT_STATE_FAIL ||| KNOT_STATE_DONE
    ∧ (check_request kr_sc_alg_get_fnv KNOT_STATE_CONSUME
        (requestCookie query1 [1, 2, 3, 4, 5] answerEdns) 7).2
        = knot_wire_set_rcode (requestCookie query1 [1, 2, 3, 4, 5] answerEdns).answer
            KNOT_RCODE_FORMERR
    ∧ (check_request kr_sc_alg_get_fnv KNOT_STATE_CONSUME
        (requestCookie query1 [1, 2, 3, 4, 5] answerEdns) 7).2.rcode = KNOT_RCODE_FORMERR
    ∧ (check_request kr_sc_alg_get_fnv KNOT_STATE_CONSUME
        (requestCookie query1 [1, 2, 3, 4, 5] answerEdns) 7).2.opt_rr
        = (requestCookie query1 [1, 2, 3, 4, 5] answerEdns).answer.opt_rr :=
  check_request_malformed kr_sc_alg_get_fnv KNOT_STATE_CONSUME
    (requestCookie query1 [1, 2, 3, 4, 5] answerEdns) 7 { code := 10, data := [1, 2, 3, 4, 5] }
    (by decide) (by decide) (by decide)

/-! ### Secret rotation and the server cookie -/

/-- When the candidate settings of the server role differ from the running current ones,
`apply_from_copy` moves the running current slot to recent and installs the candidate. -/
theorem apply_from_copy_srvr_swap (running shallow running1 : kr_cookie_ctx)
    (h_apply : apply_from_copy running shallow = some running1)
    (h_new : settings_equal running.srvr.current shallow.srvr.current = some false) :
    running1.srvr.current = shallow.srvr.current
    ∧ running1.srvr.recent = running.srvr.current := by
  unfold apply_from_copy at h_apply
  rw [h_new] at h_apply
  cases hc : settings_equal running.clnt.current shallow.clnt.current with
  | none => rw [hc] at h_apply; simp at h_apply
  | some clnt_eq =>
    rw [hc] at h_apply
    simp only [Option.some.injEq] at h_apply
    subst h_apply
    simp

/-- C8, as the code has it. Rotation tolerance of the server role. Take a server cookie that
verifies under the running current settings. After one `apply_from_copy` that installs
different settings, the check of `check_request` still accepts it (the old settings are
now the recent ones). After a second `apply_from_copy` that installs settings different
from the then current ones, the old settings are no longer consulted: the cookie is
accepted exactly when it verifies under one of the two newer settings. -/
theorem rotation_tolerance (kr_sc_alg_get : Int → Option knot_sc_alg)
    (running shallow1 running1 shallow2 running2 : kr_cookie_ctx) (addr : sockaddr)
    (cookies : knot_dns_cookies) (secr0 secr1 secr2 : kr_cookie_secret)
    (alg0 alg1 alg2 : knot_sc_alg)
    (h_secr0 : running.srvr.current.secr = some secr0)
    (h_alg0 : kr_sc_alg_get running.srvr.current.alg_id = some alg0)
    (h_accepted : knot_sc_check KR_NONCE_LEN cookies (check_request_srvr_data addr secr0) alg0
        = KNOT_EOK)
    (h_apply1 : apply_from_copy running shallow1 = some running1)
    (h_new1 : settings_equal running.srvr.current shallow1.srvr.current = some false)
    (h_secr1 : shallow1.srvr.current.secr = some secr1)
    (h_alg1 : kr_sc_alg_get shallow1.srvr.current.alg_id = some alg1)
    (h_apply2 : apply_from_copy running1 shallow2 = some running2)
    (h_new2 : settings_equal running1.srvr.current shallow2.srvr.current = some false)
    (h_secr2 : shallow2.srvr.current.secr = some secr2)
    (h_alg2 : kr_sc_alg_get shallow2.srvr.current.alg_id = some alg2) :
    (running1.srvr.current = shallow1.srvr.current
      ∧ running1.srvr.recent = running.srvr.current
      ∧ check_request_sc_ret kr_sc_alg_get running1.srvr (some addr) cookies
          (check_request_srvr_data addr secr1) alg1 = KNOT_EOK)
    ∧ (running2.srvr.current = shallow2.srvr.current
      ∧ running2.srvr.recent = shallow1.srvr.current
      ∧ (check_request_sc_ret kr_sc_alg_get running2.srvr (some addr) cookies
            (check_request_srvr_data addr secr2) alg2 = KNOT_EOK ↔
          (knot_sc_check KR_NONCE_LEN cookies (check_request_srvr_data addr secr2) alg2
              = KNOT_EOK
            ∨ knot_sc_check KR_NONCE_LEN cookies (check_request_srvr_data addr secr1) alg1
              = KNOT_EOK))) := by
  have _ := h_secr2
  have _ := h_alg2
  obtain ⟨hc1, hr1⟩ := apply_from_copy_srvr_swap running shallow1 running1 h_apply1 h_new1
  obtain ⟨hc2, hr2⟩ := apply_from_copy_srvr_swap running1 shallow2 running2 h_apply2 h_new2
  have hne : KNOT_EOK ≠ KNOT_EINVAL := by decide
  refine ⟨⟨hc1, hr1, ?_⟩, hc2, by rw [hr2, hc1], ?_⟩
  · rw [check_request_sc_ret_eok_iff]
    rcases knot_sc_check_codes KR_NONCE_LEN cookies (check_request_srvr_data addr secr1) alg1
      with h | h
    · exact Or.inl h
    · refine Or.inr ⟨h, secr0, alg0, ?_, ?_, h_accepted⟩
      · rw [hr1]; exact h_secr0
      · rw [hr1]; exact h_alg0
  · rw [check_request_sc_ret_eok_iff]
    constructor
    · rintro (h | ⟨_, rsecr, ralg, hs, ha, hk⟩)
      · exact Or.inl h
      · rw [hr2, hc1, h_secr1] at hs
        rw [hr2, hc1, h_alg1] at ha
        cases hs; cases ha
        exact Or.inr hk
    · rintro (h | h)
      · exact Or.inl h
      · rcases knot_sc_check_codes KR_NONCE_LEN cookies (check_request_srvr_data addr secr2)
          alg2 with h2 | h2
        · exact Or.inl h2
        · refine Or.inr ⟨h2, secr1, alg1, ?_, ?_, h⟩
          · rw [hr2, hc1]; exact h_secr1
          · rw [hr2, hc1]; exact h_alg1

theorem rotation_tolerance_witness :
    (rotatedAB.srvr.current = (candidateSrvr secretB).srvr.current
      ∧ rotatedAB.srvr.recent = cookieCtxA.srvr.current
      ∧ check_request_sc_ret kr_sc_alg_get_fnv rotatedAB.srvr (some client1) cookiesValidA
          (check_request_srvr_data client1 secretB) knot_sc_alg_fnv64 = KNOT_EOK)
    ∧ (rotatedABC.srvr.current = (candidateSrvr secretC).srvr.current
      ∧ rotatedABC.srvr.recent = (candidateSrvr secretB).srvr.current
      ∧ (check_request_sc_ret kr_sc_alg_get_fnv rotatedABC.srvr (some client1) cookiesValidA
            (check_request_srvr_data client1 secretC) knot_sc_alg_fnv64 = KNOT_EOK ↔
          (knot_sc_check KR_NONCE_LEN cookiesValidA (check_request_srvr_data client1 secretC)
              knot_sc_alg_fnv64 = KNOT_EOK
            ∨ knot_sc_check KR_NONCE_LEN cookiesValidA
              (check_request_srvr_data client1 secretB) knot_sc_alg_fnv64 = KNOT_EOK))) :=
  rotation_tolerance kr_sc_alg_get_fnv cookieCtxA (candidateSrvr secretB) rotatedAB
    (candidateSrvr secretC) rotatedABC client1 cookiesValidA secretA secretB secretC
    knot_sc_alg_fnv64 knot_sc_alg_fnv64 knot_sc_alg_fnv64
    (by decide) rfl (by decide) (by decide) (by decide) (by decide) rfl
    (by decide) (by decide) (by decide) rfl

/-- C8, the claim as stated fails. The server role starts with `secretA`; a first
`apply_from_copy` installs the distinct `secretB`, a second one installs `secretA`
again, which is distinct from the then current `secretB`. The server cookie issued
under `secretA` verified at the start and is still accepted after the second install:
the check of `check_request` returns `KNOT_EOK`, and `check_request` on a request
without question answers with the incoming state and extended RCODE 0 instead of
BADCOOKIE. -/
theorem rotation_tolerance_counterexample :
    knot_sc_check KR_NONCE_LEN cookiesValidA (check_request_srvr_data client1 secretA)
        knot_sc_alg_fnv64 = KNOT_EOK
    ∧ settings_equal cookieCtxA.srvr.current (candidateSrvr secretB).srvr.current = some false
    ∧ apply_from_copy cookieCtxA (candidateSrvr secretB) = some rotatedAB
    ∧ settings_equal rotatedAB.srvr.current (candidateSrvr secretA).srvr.current = some false
    ∧ apply_from_copy rotatedAB (candidateSrvr secretA) = some rotatedABA
    ∧ check_request_sc_ret kr_sc_alg_get_fnv rotatedABA.srvr (some client1) cookiesValidA
        (check_request_srvr_data client1 secretA) knot_sc_alg_fnv64 = KNOT_EOK
    ∧ (check_request kr_sc_alg_get_fnv KNOT_STATE_CONSUME
        (requestInCtx rotatedABA query0 (ccClient ++ scValidA) answerEdns) 7).1
        = KNOT_STATE_CONSUME
    ∧ knot_pkt_get_ext_rcode (check_request kr_sc_alg_get_fnv KNOT_STATE_CONSUME
        (requestInCtx rotatedABA query0 (ccClient ++ scValidA) answerEdns) 7).2 = 0 := by
  decide

/-! ### The answer cookie is minted under the current settings -/

theorem knot_edns_opt_cookie_parse_cc (data : Octets) (cookies : knot_dns_cookies)
    (h : knot_edns_opt_cookie_parse data = some cookies) :
    cookies.cc = data.take KNOT_OPT_COOKIE_CLNT := by
  unfold knot_edns_opt_cookie_parse at h
  split at h
  · cases h; rfl
  · exact absurd h (by simp)

theorem kr_parse_cookie_opt_cc (cookie_opt : edns_option) (cookies : knot_dns_cookies)
    (h : kr_parse_cookie_opt cookie_opt = some cookies) :
    cookies.cc = cookie_opt.data.take KNOT_OPT_COOKIE_CLNT := by
  unfold kr_parse_cookie_opt at h
  split at h
  · exact absurd h (by simp)
  · exact knot_edns_opt_cookie_parse_cc _ _ h

/-- C11. Every path of `check_request` that reaches `answer_add_cookies`: for every request
that passes the guards (server cookies enabled, COOKIE option parsed, client address,
current secret and current algorithm available), whatever the server cookie (absent,
verified under current or recent, or rejected) and the question count,
`kr_answer_write_cookie` is called with the client address and the current server
secret, the client cookie parsed from the request (the first 8 octets of its COOKIE
option), the current algorithm and a nonce whose time field is the seconds of the
timestamp of the current query (as a `uint32_t`); the packet written is the answer,
with or without the extended RCODE BADCOOKIE, and a successful write leaves the fresh
cookie of the current settings in the answer. -/
theorem check_request_writes_current (kr_sc_alg_get : Int → Option knot_sc_alg)
    (ctx_state : Nat) (req : kr_request) (rand : Nat) (req_cookie_opt : edns_option)
    (cookies : knot_dns_cookies) (addr : sockaddr) (secr : kr_cookie_secret)
    (alg : knot_sc_alg)
    (h_enabled : req.ctx.cookie_ctx.srvr.enabled = true)
    (h_opt : req_cookie_option req = some req_cookie_opt)
    (h_parse : kr_parse_cookie_opt req_cookie_opt = some cookies)
    (h_addr : req.qsource.addr = some addr)
    (h_secr : req.ctx.cookie_ctx.srvr.current.secr = some secr)
    (h_alg : kr_sc_alg_get req.ctx.cookie_ctx.srvr.current.alg_id = some alg) :
    cookies.cc = req_cookie_opt.data.take 8
    ∧ (req.current_query.timestamp_sec < 2 ^ 32 →
        (check_request_nonce req rand).time = req.current_query.timestamp_sec)
    ∧ ∃ (return_state : Nat) (pkt : knot_pkt_t),
        (pkt = req.answer ∨ pkt = kr_pkt_set_ext_rcode req.answer KNOT_RCODE_BADCOOKIE)
        ∧ (check_request kr_sc_alg_get ctx_state req rand).2
            = (kr_answer_write_cookie
                { clnt_sockaddr := some addr, secret_data := secr.data } cookies.cc
                { rand := rand, time := req.current_query.timestamp_sec % 2 ^ 32 } alg pkt).2
        ∧ ((kr_answer_write_cookie
                { clnt_sockaddr := some addr, secret_data := secr.data } cookies.cc
                { rand := rand, time := req.current_query.timestamp_sec % 2 ^ 32 } alg pkt).1
              = kr_ok →
            (check_request kr_sc_alg_get ctx_state req rand).1 = return_state
            ∧ response_cookie_opt (check_request kr_sc_alg_get ctx_state req rand).2
                = some (fresh_cookie_opt
                    { clnt_sockaddr := some addr, secret_data := secr.data } cookies.cc
                    { rand := rand, time := req.current_query.timestamp_sec % 2 ^ 32 } alg)) := by
  refine ⟨kr_parse_cookie_opt_cc _ _ h_parse, ?_, ?_⟩
  · intro hlt
    exact Nat.mod_eq_of_lt hlt
  · cases h_sc : cookies.sc with
    | none =>
      refine ⟨if req.current_query.qdcount = 0 then KNOT_STATE_DONE else ctx_state, req.answer,
        Or.inl rfl, ?_⟩
      rw [check_request_no_sc kr_sc_alg_get ctx_state req rand req_cookie_opt cookies addr secr
        alg h_enabled h_opt h_parse h_addr h_secr h_alg h_sc]
      have h := answer_add_cookies_accept (check_request_srvr_data addr secr) cookies
        (check_request_nonce req rand) alg
        (if req.current_query.qdcount = 0 then KNOT_STATE_DONE else ctx_state) req.answer
      exact ⟨h.1, h.2.2.2.2⟩
    | some sc =>
      rw [check_request_with_sc kr_sc_alg_get ctx_state req rand req_cookie_opt cookies addr secr
        alg sc h_enabled h_opt h_parse h_addr h_secr h_alg h_sc]
      by_cases hb : check_request_sc_ret kr_sc_alg_get req.ctx.cookie_ctx.srvr (some addr)
          cookies (check_request_srvr_data addr secr) alg ≠ KNOT_EOK
          ∧ req.current_query.qdcount = 0
      · rw [if_pos hb]
        have h := answer_add_cookies_accept (check_request_srvr_data addr secr) cookies
          (check_request_nonce req rand) alg (KNOT_STATE_DONE ||| KNOT_STATE_FAIL)
          (kr_pkt_set_ext_rcode req.answer KNOT_RCODE_BADCOOKIE)
        exact ⟨KNOT_STATE_DONE ||| KNOT_STATE_FAIL, _, Or.inr rfl, h.1, h.2.2.2.2⟩
      · rw [if_neg hb]
        have h := answer_add_cookies_accept (check_request_srvr_data addr secr) cookies
          (check_request_nonce req rand) alg ctx_state req.answer
        exact ⟨ctx_state, _, Or.inl rfl, h.1, h.2.2.2.2⟩

theorem check_request_writes_current_witness :
    cookiesValidA.cc = ({ code := 10, data := ccClient ++ scValidA } : edns_option).data.take 8
    ∧ ((requestInCtx rotatedAB query1 (ccClient ++ scValidA) answerEdns).current_query.timestamp_sec
          < 2 ^ 32 →
        (check_request_nonce
          (requestInCtx rotatedAB query1 (ccClient ++ scValidA) answerEdns) 7).time
          = (requestInCtx rotatedAB query1 (ccClient ++ scValidA)
              answerEdns).current_query.timestamp_sec)
    ∧ ∃ (return_state : Nat) (pkt : knot_pkt_t),
        (pkt = (requestInCtx rotatedAB query1 (ccClient ++ scValidA) answerEdns).answer
          ∨ pkt = kr_pkt_set_ext_rcode
              (requestInCtx rotatedAB query1 (ccClient ++ scValidA) answerEdns).answer
              KNOT_RCODE_BADCOOKIE)
        ∧ (check_request kr_sc_alg_get_fnv KNOT_STATE_CONSUME
            (requestInCtx rotatedAB query1 (ccClient ++ scValidA) answerEdns) 7).2
            = (kr_answer_write_cookie
                { clnt_sockaddr := some client1, secret_data := secretB.data } cookiesValidA.cc
                { rand := 7,
                  time := (requestInCtx rotatedAB query1 (ccClient ++ scValidA)
                    answerEdns).current_query.timestamp_sec % 2 ^ 32 }
                knot_sc_alg_fnv64 pkt).2
        ∧ ((kr_answer_write_cookie
                { clnt_sockaddr := some client1, secret_data := secretB.data } cookiesValidA.cc
                { rand := 7,
                  time := (requestInCtx rotatedAB query1 (ccClient ++ scValidA)
                    answerEdns).current_query.timestamp_sec % 2 ^ 32 }
                knot_sc_alg_fnv64 pkt).1 = kr_ok →
            (check_request kr_sc_alg_get_fnv KNOT_STATE_CONSUME
              (requestInCtx rotatedAB query1 (ccClient ++ scValidA) answerEdns) 7).1
              = return_state
            ∧ response_cookie_opt (check_request kr_sc_alg_get_fnv KNOT_STATE_CONSUME
                (requestInCtx rotatedAB query1 (ccClient ++ scValidA) answerEdns) 7).2
                = some (fresh_cookie_opt
                    { clnt_sockaddr := some client1, secret_data := secretB.data }
                    cookiesValidA.cc
                    { rand := 7,
                      time := (requestInCtx rotatedAB query1 (ccClient ++ scValidA)
                        answerEdns).current_query.timestamp_sec % 2 ^ 32 }
                    knot_sc_alg_fnv64)) :=
  check_request_writes_current kr_sc_alg_get_fnv KNOT_STATE_CONSUME
    (requestInCtx rotatedAB query1 (ccClient ++ scValidA) answerEdns) 7
    { code := 10, data := ccClient ++ scValidA } cookiesValidA client1 secretB
    knot_sc_alg_fnv64 (by decide) (by decide) (by decide) (by decide) (by decide) rfl

/-! ### Requests the server side leaves alone -/

theorem find_cookie_after_remove (options : List edns_option) (code : Nat) :
    (options.filter (fun o : edns_option => o.code != code)).find?
        (fun o : edns_option => o.code == code) = none := by
  rw [List.find?_eq_none]
  intro o ho
  have := (List.mem_filter.mp ho).2
  simpa using this

/-- C12. Server cookies disabled: whatever the request contains, `check_request` returns the
incoming layer state; an answer without OPT record is returned as it is, and from the
OPT record of an answer with EDNS every COOKIE option is removed while the other
options, the RCODE and the extended RCODE stay as they were; no COOKIE option is left
in the answer. -/
theorem check_request_disabled (kr_sc_alg_get : Int → Option knot_sc_alg) (ctx_state : Nat)
    (req : kr_request) (rand : Nat)
    (h_disabled : req.ctx.cookie_ctx.srvr.enabled = false) :
    (check_request kr_sc_alg_get ctx_state req rand).1 = ctx_state
    ∧ (check_request kr_sc_alg_get ctx_state req rand).2.rcode = req.answer.rcode
    ∧ knot_pkt_get_ext_rcode (check_request kr_sc_alg_get ctx_state req rand).2
        = knot_pkt_get_ext_rcode req.answer
    ∧ (req.answer.opt_rr = none →
        (check_request kr_sc_alg_get ctx_state req rand).2 = req.answer)
    ∧ (∀ opt_rr : knot_rrset, req.answer.opt_rr = some opt_rr →
        (check_request kr_sc_alg_get ctx_state req rand).2.opt_rr
          = some { ext_rcode := opt_rr.ext_rcode,
                   options := opt_rr.options.filter
                     (fun o => o.code != KNOT_EDNS_OPTION_COOKIE) })
    ∧ response_cookie_opt (check_request kr_sc_alg_get ctx_state req rand).2 = none := by
  simp only [check_request, h_disabled, if_true]
  cases hopt : req.answer.opt_rr with
  | none => simp [knot_pkt_get_ext_rcode, response_cookie_opt, hopt]
  | some opt_rr =>
    simp only [knot_pkt_get_ext_rcode, response_cookie_opt, knot_edns_remove_options,
      knot_edns_get_option, hopt]
    refine ⟨trivial, trivial, trivial, by simp, ?_, find_cookie_after_remove _ _⟩
    intro o ho
    cases ho
    rfl

theorem check_request_disabled_witness :
    (check_request kr_sc_alg_get_fnv KNOT_STATE_CONSUME
        (requestInCtx cookieCtxSrvrOff query1 (ccClient ++ scWrong) answerWithCookies) 7).1
      = KNOT_STATE_CONSUME
    ∧ (check_request kr_sc_alg_get_fnv KNOT_STATE_CONSUME
        (requestInCtx cookieCtxSrvrOff query1 (ccClient ++ scWrong) answerWithCookies) 7).2.rcode
        = (requestInCtx cookieCtxSrvrOff query1 (ccClient ++ scWrong)
            answerWithCookies).answer.rcode
    ∧ knot_pkt_get_ext_rcode (check_request kr_sc_alg_get_fnv KNOT_STATE_CONSUME
        (requestInCtx cookieCtxSrvrOff query1 (ccClient ++ scWrong) answerWithCookies) 7).2
        = knot_pkt_get_ext_rcode
            (requestInCtx cookieCtxSrvrOff query1 (ccClient ++ scWrong) answerWithCookies).answer
    ∧ ((requestInCtx cookieCtxSrvrOff query1 (ccClient ++ scWrong)
          answerWithCookies).answer.opt_rr = none →
        (check_request kr_sc_alg_get_fnv KNOT_STATE_CONSUME
          (requestInCtx cookieCtxSrvrOff query1 (ccClient ++ scWrong) answerWithCookies) 7).2
          = (requestInCtx cookieCtxSrvrOff query1 (ccClient ++ scWrong)
              answerWithCookies).answer)
    ∧ (∀ opt_rr : knot_rrset,
        (requestInCtx cookieCtxSrvrOff query1 (ccClient ++ scWrong)
          answerWithCookies).answer.opt_rr = some opt_rr →
        (check_request kr_sc_alg_get_fnv KNOT_STATE_CONSUME
          (requestInCtx cookieCtxSrvrOff query1 (ccClient ++ scWrong)
            answerWithCookies) 7).2.opt_rr
          = some { ext_rcode := opt_rr.ext_rcode,
                   options := opt_rr.options.filter
                     (fun o => o.code != KNOT_EDNS_OPTION_COOKIE) })
    ∧ response_cookie_opt (check_request kr_sc_alg_get_fnv KNOT_STATE_CONSUME
        (requestInCtx cookieCtxSrvrOff query1 (ccClient ++ scWrong) answerWithCookies) 7).2
        = none :=
  check_request_disabled kr_sc_alg_get_fnv KNOT_STATE_CONSUME
    (requestInCtx cookieCtxSrvrOff query1 (ccClient ++ scWrong) answerWithCookies) 7
    (by decide)

theorem find_cookie_absent (options : List edns_option) (code : Nat)
    (h : ∀ o ∈ options, o.code ≠ code) :
    options.find? (fun o : edns_option => o.code == code) = none := by
  rw [List.find?_eq_none]
  intro o ho
  simpa using h o ho

/-- C13. Request without a cookie: with server cookies enabled, when the request has no OPT
record, or its OPT record holds no COOKIE option, `check_request` returns the incoming
layer state and the answer exactly as it was (no RCODE, no extended RCODE, no cookie). -/
theorem check_request_no_cookie (kr_sc_alg_get : Int → Option knot_sc_alg) (ctx_state : Nat)
    (req : kr_request) (rand : Nat)
    (h_enabled : req.ctx.cookie_ctx.srvr.enabled = true)
    (h_none : req.qsource.opt = none
      ∨ ∃ opt : knot_rrset, req.qsource.opt = some opt
          ∧ ∀ o ∈ opt.options, o.code ≠ KNOT_EDNS_OPTION_COOKIE) :
    req_cookie_option req = none
    ∧ check_request kr_sc_alg_get ctx_state req rand = (ctx_state, req.answer) := by
  have h : req_cookie_option req = none := by
    unfold req_cookie_option
    rcases h_none with h | ⟨opt, h, hall⟩
    · rw [h]
    · rw [h]
      exact find_cookie_absent _ _ hall
  refine ⟨h, ?_⟩
  simp only [check_request, h_enabled, h]
  simp

theorem check_request_no_cookie_witness :
    (req_cookie_option (requestWith query1 none answerWithCookies) = none
      ∧ check_request kr_sc_alg_get_fnv KNOT_STATE_CONSUME
          (requestWith query1 none answerWithCookies) 7
        = (KNOT_STATE_CONSUME, (requestWith query1 none answerWithCookies).answer))
    ∧ (req_cookie_option
          (requestWith query1 (some { ext_rcode := 0, options := [{ code := 8, data := [0] }] })
            answerWithCookies) = none
      ∧ check_request kr_sc_alg_get_fnv KNOT_STATE_CONSUME
          (requestWith query1 (some { ext_rcode := 0, options := [{ code := 8, data := [0] }] })
            answerWithCookies) 7
        = (KNOT_STATE_CONSUME,
           (requestWith query1 (some { ext_rcode := 0, options := [{ code := 8, data := [0] }] })
             answerWithCookies).answer)) :=
  ⟨check_request_no_cookie kr_sc_alg_get_fnv KNOT_STATE_CONSUME
      (requestWith query1 none answerWithCookies) 7 (by decide) (Or.inl (by decide)),
   check_request_no_cookie kr_sc_alg_get_fnv KNOT_STATE_CONSUME
      (requestWith query1 (some { ext_rcode := 0, options := [{ code := 8, data := [0] }] })
        answerWithCookies) 7 (by decide)
      (Or.inr ⟨{ ext_rcode := 0, options := [{ code := 8, data := [0] }] }, by decide,
        by decide⟩)⟩

/-! ## Client side: `check_response` outside the BADCOOKIE recovery -/

/-- C14. Client inbound gate: if client cookies are disabled or `QUERY_TCP` is set on the
current query, `check_response` returns the incoming layer state and the request as it
was (query flags, resolution plan and cookie cache unchanged), for every response. -/
theorem check_response_gate (kr_cc_alg_get : Int → Option knot_cc_alg) (ctx_state : Nat)
    (req : kr_request) (pkt : knot_pkt_t)
    (h_gate : req.ctx.cookie_ctx.clnt.enabled = false
      ∨ req.current_query.flags &&& QUERY_TCP ≠ 0) :
    check_response kr_cc_alg_get ctx_state req pkt = some (ctx_state, req) := by
  unfold check_response
  rw [if_pos h_gate]

theorem check_response_gate_witness :
    check_response kr_cc_alg_get_fnv KNOT_STATE_PRODUCE (requestWith query1Tcp none answerEdns)
        responseBadcookie
      = some (KNOT_STATE_PRODUCE, requestWith query1Tcp none answerEdns) :=
  check_response_gate kr_cc_alg_get_fnv KNOT_STATE_PRODUCE
    (requestWith query1Tcp none answerEdns) responseBadcookie (Or.inr (by decide))

/-- C15. CookieExpected: with client cookies enabled and `QUERY_TCP` clear, for a response
without COOKIE option, `check_response` returns `KNOT_STATE_FAIL` when `get_cookie_opt`
finds an entry (of valid size) for the upstream address in the cache, and returns the
incoming layer state when the upstream address is unknown or `get_cookie_opt` finds
nothing for it; the request is unchanged in both cases. -/
theorem check_response_cookie_expected (kr_cc_alg_get : Int → Option knot_cc_alg)
    (ctx_state : Nat) (req : kr_request) (pkt : knot_pkt_t)
    (h_enabled : req.ctx.cookie_ctx.clnt.enabled = true)
    (h_udp : req.current_query.flags &&& QUERY_TCP = 0)
    (h_noopt : response_cookie_opt pkt = none) :
    (∀ (sa : sockaddr) (cached : edns_option),
        passed_server_sockaddr req = some sa →
        get_cookie_opt req.ctx.cache_cookie sa = some cached →
        check_response kr_cc_alg_get ctx_state req pkt = some (KNOT_STATE_FAIL, req))
    ∧ ((passed_server_sockaddr req = none
          ∨ ∃ sa : sockaddr, passed_server_sockaddr req = some sa
              ∧ get_cookie_opt req.ctx.cache_cookie sa = none) →
        check_response kr_cc_alg_get ctx_state req pkt = some (ctx_state, req)) := by
  constructor
  · intro sa cached hsa hc
    simp only [check_response, h_enabled, h_udp, h_noopt, hsa, hc]
    simp
  · rintro (hsa | ⟨sa, hsa, hc⟩)
    · simp only [check_response, h_enabled, h_udp, h_noopt, hsa]
      simp
    · simp only [check_response, h_enabled, h_udp, h_noopt, hsa, hc]
      simp

theorem check_response_cookie_expected_witness :
    check_response kr_cc_alg_get_fnv KNOT_STATE_PRODUCE (requestCached query1) responseNoCookie
        = some (KNOT_STATE_FAIL, requestCached query1)
    ∧ check_response kr_cc_alg_get_fnv KNOT_STATE_PRODUCE (requestWith query1 none answerEdns)
        responseNoCookie
        = some (KNOT_STATE_PRODUCE, requestWith query1 none answerEdns) :=
  ⟨(check_response_cookie_expected kr_cc_alg_get_fnv KNOT_STATE_PRODUCE (requestCached query1)
      responseNoCookie (by decide) (by decide) (by decide)).1 upstream1 responseBadcookieOpt
      (by decide) (by decide),
   (check_response_cookie_expected kr_cc_alg_get_fnv KNOT_STATE_PRODUCE
      (requestWith query1 none answerEdns) responseNoCookie (by decide) (by decide)
      (by decide)).2 (Or.inr ⟨upstream1, by decide, by decide⟩)⟩

/-- The check of the client cookie answers -1 when the cookie matches neither the current
nor, where a recent secret and algorithm exist, the recent settings. -/
theorem srvr_sockaddr_cc_check_mismatch (kr_cc_alg_get : Int → Option knot_cc_alg)
    (sa : sockaddr) (cc : Octets) (clnt_sett : kr_cookie_settings) (secr : kr_cookie_secret)
    (cc_alg : knot_cc_alg)
    (h_cc : cc.length ≠ 0)
    (h_secr : clnt_sett.current.secr = some secr)
    (h_alg : kr_cc_alg_get clnt_sett.current.alg_id = some cc_alg)
    (h_current : knot_cc_check cc
        { clnt_sockaddr := none, srvr_sockaddr := some sa, secret_data := secr.data } cc_alg
        ≠ KNOT_EOK)
    (h_recent : ∀ (rsecr : kr_cookie_secret) (ralg : knot_cc_alg),
        clnt_sett.recent.secr = some rsecr →
        kr_cc_alg_get clnt_sett.recent.alg_id = some ralg →
        knot_cc_check cc
          { clnt_sockaddr := none, srvr_sockaddr := some sa, secret_data := rsecr.data } ralg
          ≠ KNOT_EOK) :
    srvr_sockaddr_cc_check kr_cc_alg_get (some sa) cc clnt_sett = some (-1) := by
  simp only [srvr_sockaddr_cc_check, h_cc, h_secr, h_alg, h_current, if_false]
  cases hs : clnt_sett.recent.secr with
  | none => simp
  | some rsecr =>
    cases ha : kr_cc_alg_get clnt_sett.recent.alg_id with
    | none => simp
    | some ralg => simp [h_recent rsecr ralg hs ha]

theorem knot_edns_opt_cookie_parse_cc_length (data : Octets) (cookies : knot_dns_cookies)
    (h : knot_edns_opt_cookie_parse data = some cookies) :
    cookies.cc.length = 8 := by
  unfold knot_edns_opt_cookie_parse at h
  split at h
  · rename_i hlen
    cases h
    simp only [KNOT_OPT_COOKIE_CLNT, List.length_take]
    omega
  · exact absurd h (by simp)

/-- C16. CookieMismatch: with client cookies enabled and `QUERY_TCP` clear, for every response
from an IPv4 or IPv6 upstream whose COOKIE option parses with a server cookie and whose
returned client cookie matches neither the cookie recomputed under the current secret
nor, when a recent secret and algorithm exist, the one recomputed under the recent
secret, `check_response` returns `KNOT_STATE_FAIL` and leaves the request (cache, query
flags, plan) unchanged, whatever the extended RCODE of the response. -/
theorem check_response_cookie_mismatch (kr_cc_alg_get : Int → Option knot_cc_alg)
    (ctx_state : Nat) (req : kr_request) (pkt : knot_pkt_t) (pkt_cookie_opt : edns_option)
    (cookies : knot_dns_cookies) (sc : Octets) (sa : sockaddr) (secr : kr_cookie_secret)
    (cc_alg : knot_cc_alg)
    (h_enabled : req.ctx.cookie_ctx.clnt.enabled = true)
    (h_udp : req.current_query.flags &&& QUERY_TCP = 0)
    (h_opt : response_cookie_opt pkt = some pkt_cookie_opt)
    (h_parse : knot_edns_opt_cookie_parse (knot_edns_opt_get_data pkt_cookie_opt) = some cookies)
    (h_sc : cookies.sc = some sc)
    (h_sa : passed_server_sockaddr req = some sa)
    (h_secr : req.ctx.cookie_ctx.clnt.current.secr = some secr)
    (h_alg : kr_cc_alg_get req.ctx.cookie_ctx.clnt.current.alg_id = some cc_alg)
    (h_current : knot_cc_check cookies.cc
        { clnt_sockaddr := none, srvr_sockaddr := some sa, secret_data := secr.data } cc_alg
        ≠ KNOT_EOK)
    (h_recent : ∀ (rsecr : kr_cookie_secret) (ralg : knot_cc_alg),
        req.ctx.cookie_ctx.clnt.recent.secr = some rsecr →
        kr_cc_alg_get req.ctx.cookie_ctx.clnt.recent.alg_id = some ralg →
        knot_cc_check cookies.cc
          { clnt_sockaddr := none, srvr_sockaddr := some sa, secret_data := rsecr.data } ralg
          ≠ KNOT_EOK) :
    check_cookie_content_and_cache kr_cc_alg_get req.ctx.cookie_ctx.clnt req pkt_cookie_opt
        req.ctx.cache_cookie = some (false, req.ctx.cache_cookie)
    ∧ check_response kr_cc_alg_get ctx_state req pkt = some (KNOT_STATE_FAIL, req) := by
  have hlen : cookies.cc.length ≠ 0 := by
    rw [knot_edns_opt_cookie_parse_cc_length _ _ h_parse]; decide
  have hret := srvr_sockaddr_cc_check_mismatch kr_cc_alg_get sa cookies.cc
    req.ctx.cookie_ctx.clnt secr cc_alg hlen h_secr h_alg h_current h_recent
  have hfalse : check_cookie_content_and_cache kr_cc_alg_get req.ctx.cookie_ctx.clnt req
      pkt_cookie_opt req.ctx.cache_cookie = some (false, req.ctx.cache_cookie) := by
    simp only [check_cookie_content_and_cache, h_parse, h_sc, h_sa, hret]
    simp
  refine ⟨hfalse, ?_⟩
  simp only [check_response, h_enabled, h_udp, h_opt, hfalse]
  simp

theorem check_response_cookie_mismatch_witness :
    check_cookie_content_and_cache kr_cc_alg_get_fnv
        (requestCached query1).ctx.cookie_ctx.clnt (requestCached query1) responseMismatchOpt
        (requestCached query1).ctx.cache_cookie
      = some (false, (requestCached query1).ctx.cache_cookie)
    ∧ check_response kr_cc_alg_get_fnv KNOT_STATE_PRODUCE (requestCached query1)
        responseMismatch = some (KNOT_STATE_FAIL, requestCached query1) :=
  check_response_cookie_mismatch kr_cc_alg_get_fnv KNOT_STATE_PRODUCE (requestCached query1)
    responseMismatch responseMismatchOpt
    { cc := [9, 9, 9, 9, 9, 9, 9, 9],
      sc := some [0, 0, 0, 7, 0, 0, 3, 232, 1, 1, 1, 1, 1, 1, 1, 1] }
    [0, 0, 0, 7, 0, 0, 3, 232, 1, 1, 1, 1, 1, 1, 1, 1] upstream1 secretA knot_cc_alg_fnv64
    (by decide) (by decide) (by decide) (by decide) (by decide) (by decide) (by decide) rfl
    (by decide)
    (by intro rsecr ralg h; simp [requestCached, cookieCtxA, settingsA] at h)

/-- C18. Matching cookie and no BADCOOKIE: with client cookies enabled and `QUERY_TCP` clear,
for every response whose COOKIE option passes `check_cookie_content_and_cache` and whose
extended RCODE is not 23, `check_response` returns the incoming layer state, pushes no
query (the plan is unchanged) and leaves the current query with all its flags as it
was; only the cookie cache may have been updated by the validation. -/
theorem check_response_no_badcookie (kr_cc_alg_get : Int → Option knot_cc_alg)
    (ctx_state : Nat) (req : kr_request) (pkt : knot_pkt_t) (pkt_cookie_opt : edns_option)
    (cache : kr_cookie_lru_t)
    (h_enabled : req.ctx.cookie_ctx.clnt.enabled = true)
    (h_udp : req.current_query.flags &&& QUERY_TCP = 0)
    (h_opt : response_cookie_opt pkt = some pkt_cookie_opt)
    (h_valid : check_cookie_content_and_cache kr_cc_alg_get req.ctx.cookie_ctx.clnt req
        pkt_cookie_opt req.ctx.cache_cookie = some (true, cache))
    (h_rcode : knot_pkt_get_ext_rcode pkt ≠ KNOT_RCODE_BADCOOKIE) :
    ∃ req1 : kr_request,
      check_response kr_cc_alg_get ctx_state req pkt = some (ctx_state, req1)
      ∧ req1.rplan = req.rplan
      ∧ req1.current_query = req.current_query
      ∧ req1.current_query.flags = req.current_query.flags
      ∧ req1 = { req with ctx := { req.ctx with cache_cookie := cache } } := by
  refine ⟨{ req with ctx := { req.ctx with cache_cookie := cache } }, ?_, rfl, rfl, rfl, rfl⟩
  simp only [check_response, h_enabled, h_udp, h_opt, h_valid, h_rcode]
  simp

theorem check_response_no_badcookie_witness :
    ∃ req1 : kr_request,
      check_response kr_cc_alg_get_fnv KNOT_STATE_PRODUCE (requestWith query1Again none answerEdns)
          responseOk = some (KNOT_STATE_PRODUCE, req1)
      ∧ req1.rplan = (requestWith query1Again none answerEdns).rplan
      ∧ req1.current_query = (requestWith query1Again none answerEdns).current_query
      ∧ req1.current_query.flags = (requestWith query1Again none answerEdns).current_query.flags
      ∧ req1 = { requestWith query1Again none answerEdns with
                 ctx := { (requestWith query1Again none answerEdns).ctx with
                          cache_cookie :=
                            { capacity := 4, entries := [(upstream1, responseBadcookieOpt)] } } } :=
  check_response_no_badcookie kr_cc_alg_get_fnv KNOT_STATE_PRODUCE
    (requestWith query1Again none answerEdns) responseOk responseBadcookieOpt
    { capacity := 4, entries := [(upstream1, responseBadcookieOpt)] }
    (by decide) (by decide) (by decide) (by decide) (by decide)

/-! ## Client side: what reaches the cookie cache -/

/-- The check of the client cookie answers 1 only when the cookie verifies for the given
address under the current secret and algorithm. -/
theorem srvr_sockaddr_cc_check_eq_one (kr_cc_alg_get : Int → Option knot_cc_alg)
    (srvr_sa : Option sockaddr) (cc : Octets) (clnt_sett : kr_cookie_settings)
    (h : srvr_sockaddr_cc_check kr_cc_alg_get srvr_sa cc clnt_sett = some 1) :
    ∃ (sa : sockaddr) (secr : kr_cookie_secret) (cc_alg : knot_cc_alg),
      srvr_sa = some sa
      ∧ clnt_sett.current.secr = some secr
      ∧ kr_cc_alg_get clnt_sett.current.alg_id = some cc_alg
      ∧ knot_cc_check cc
          { clnt_sockaddr := none, srvr_sockaddr := some sa, secret_data := secr.data } cc_alg
          = KNOT_EOK := by
  unfold srvr_sockaddr_cc_check at h
  by_cases hcc : cc.length = 0
  · rw [if_pos hcc] at h; exact absurd h (by simp)
  rw [if_neg hcc] at h
  cases hsa : srvr_sa with
  | none => rw [hsa] at h; simp at h
  | some sa =>
    cases hs : clnt_sett.current.secr with
    | none => rw [hsa, hs] at h; simp at h
    | some secr =>
      cases ha : kr_cc_alg_get clnt_sett.current.alg_id with
      | none => rw [hsa, hs, ha] at h; simp at h
      | some cc_alg =>
        rw [hsa, hs, ha] at h
        simp only [] at h
        by_cases hk : knot_cc_check cc
            { clnt_sockaddr := none, srvr_sockaddr := some sa, secret_data := secr.data } cc_alg
            = KNOT_EOK
        · exact ⟨sa, secr, cc_alg, rfl, rfl, rfl, hk⟩
        · rw [if_neg hk] at h
          exfalso
          revert h
          cases clnt_sett.recent.secr <;> cases kr_cc_alg_get clnt_sett.recent.alg_id <;>
            simp only [] <;> try split
          all_goals simp

/-- The check of the client cookie answers 0 when the cookie fails under the current
settings and verifies under the recent ones. -/
theorem srvr_sockaddr_cc_check_recent (kr_cc_alg_get : Int → Option knot_cc_alg)
    (sa : sockaddr) (cc : Octets) (clnt_sett : kr_cookie_settings)
    (secr rsecr : kr_cookie_secret) (cc_alg ralg : knot_cc_alg)
    (h_cc : cc.length ≠ 0)
    (h_secr : clnt_sett.current.secr = some secr)
    (h_alg : kr_cc_alg_get clnt_sett.current.alg_id = some cc_alg)
    (h_current : knot_cc_check cc
        { clnt_sockaddr := none, srvr_sockaddr := some sa, secret_data := secr.data } cc_alg
        ≠ KNOT_EOK)
    (h_rsecr : clnt_sett.recent.secr = some rsecr)
    (h_ralg : kr_cc_alg_get clnt_sett.recent.alg_id = some ralg)
    (h_recent : knot_cc_check cc
        { clnt_sockaddr := none, srvr_sockaddr := some sa, secret_data := rsecr.data } ralg
        = KNOT_EOK) :
    srvr_sockaddr_cc_check kr_cc_alg_get (some sa) cc clnt_sett = some 0 := by
  simp only [srvr_sockaddr_cc_check, h_cc, h_secr, h_alg, h_current, h_rsecr, h_ralg, h_recent,
    if_false, if_true]

/-- Reading the cache after a store returns the stored option, for a cache that can hold
an entry and an option that is not too long. -/
theorem kr_cookie_lru_get_set (cache : kr_cookie_lru_t) (sa : sockaddr) (opt : edns_option)
    (h_size : KNOT_EDNS_OPTION_HDRLEN + knot_edns_opt_get_length opt ≤ KR_COOKIE_OPT_MAX_LEN)
    (h_cap : 0 < cache.capacity) :
    kr_cookie_lru_get (kr_cookie_lru_set cache sa opt).2 sa = some opt := by
  unfold kr_cookie_lru_set
  rw [if_neg (by omega)]
  obtain ⟨n, hn⟩ : ∃ n, cache.capacity = n + 1 := ⟨cache.capacity - 1, by omega⟩
  simp [kr_cookie_lru_get, hn, List.take_succ_cons]

theorem knot_edns_opt_cookie_parse_length (data : Octets) (cookies : knot_dns_cookies)
    (h : knot_edns_opt_cookie_parse data = some cookies) : data.length ≤ 32 := by
  unfold knot_edns_opt_cookie_parse at h
  split at h
  · rename_i hlen; omega
  · exact absurd h (by simp)

/-- The outcomes of `check_cookie_content_and_cache`: rejected with the cache untouched,
accepted with the cache untouched, or accepted after the check of the client cookie
answered 1, with the option stored under the upstream address. -/
theorem check_cookie_content_and_cache_cases (kr_cc_alg_get : Int → Option knot_cc_alg)
    (clnt_sett : kr_cookie_settings) (req : kr_request) (pkt_cookie_opt : edns_option)
    (cache cache1 : kr_cookie_lru_t) (b : Bool)
    (h : check_cookie_content_and_cache kr_cc_alg_get clnt_sett req pkt_cookie_opt cache
        = some (b, cache1)) :
    (b = false ∧ cache1 = cache)
    ∨ (b = true ∧ cache1 = cache)
    ∨ (b = true ∧ ∃ (cookies : knot_dns_cookies) (sa : sockaddr),
        knot_edns_opt_cookie_parse (knot_edns_opt_get_data pkt_cookie_opt) = some cookies
        ∧ passed_server_sockaddr req = some sa
        ∧ srvr_sockaddr_cc_check kr_cc_alg_get (some sa) cookies.cc clnt_sett = some 1
        ∧ cache1 = (kr_cookie_lru_set cache sa pkt_cookie_opt).2) := by
  unfold check_cookie_content_and_cache at h
  cases hp : knot_edns_opt_cookie_parse (knot_edns_opt_get_data pkt_cookie_opt) with
  | none =>
    rw [hp] at h; simp only [Option.some.injEq, Prod.mk.injEq] at h
    exact Or.inl ⟨h.1.symm, h.2.symm⟩
  | some cookies =>
    rw [hp] at h
    simp only [] at h
    cases hsc : cookies.sc with
    | none =>
      rw [hsc] at h; simp only [Option.some.injEq, Prod.mk.injEq] at h
      exact Or.inl ⟨h.1.symm, h.2.symm⟩
    | some sc =>
      rw [hsc] at h
      simp only [] at h
      cases hr : srvr_sockaddr_cc_check kr_cc_alg_get (passed_server_sockaddr req) cookies.cc
          clnt_sett with
      | none => rw [hr] at h; simp at h
      | some ret =>
        rw [hr] at h
        simp only [] at h
        by_cases hneg : ret < 0
        · rw [if_pos hneg] at h; simp only [Option.some.injEq, Prod.mk.injEq] at h
          exact Or.inl ⟨h.1.symm, h.2.symm⟩
        · rw [if_neg hneg] at h
          cases hsa : passed_server_sockaddr req with
          | none => rw [hsa] at h; simp at h
          | some sa =>
            rw [hsa] at h hr
            simp only [] at h
            by_cases hc : ret = 1 ∧ is_cookie_cached cache sa pkt_cookie_opt = false
            · rw [if_pos hc] at h; simp only [Option.some.injEq, Prod.mk.injEq] at h
              refine Or.inr (Or.inr ⟨h.1.symm, cookies, sa, rfl, rfl, ?_, h.2.symm⟩)
              rw [hr, hc.1]
            · rw [if_neg hc] at h; simp only [Option.some.injEq, Prod.mk.injEq] at h
              exact Or.inr (Or.inl ⟨h.1.symm, h.2.symm⟩)

/-- C17. Only validated cookies are cached. Whenever `check_cookie_content_and_cache` returns:
a rejected response leaves the cache unchanged; the cache changes only when the
returned client cookie verified for the upstream address under the current client
secret and algorithm, and then the cache is the one `kr_cookie_lru_set` leaves after
storing the received option under that address (a cache with room returns exactly that
option for the address); and a response with a server cookie whose client cookie
fails under the current settings and verifies under the recent ones is accepted with
the cache unchanged. -/
theorem check_cookie_content_and_cache_validated (kr_cc_alg_get : Int → Option knot_cc_alg)
    (clnt_sett : kr_cookie_settings) (req : kr_request) (pkt_cookie_opt : edns_option)
    (cache cache1 : kr_cookie_lru_t) (b : Bool)
    (h : check_cookie_content_and_cache kr_cc_alg_get clnt_sett req pkt_cookie_opt cache
        = some (b, cache1)) :
    (b = false → cache1 = cache)
    ∧ (cache1 ≠ cache →
        b = true
        ∧ ∃ (cookies : knot_dns_cookies) (sa : sockaddr) (secr : kr_cookie_secret)
            (cc_alg : knot_cc_alg),
            knot_edns_opt_cookie_parse (knot_edns_opt_get_data pkt_cookie_opt) = some cookies
            ∧ passed_server_sockaddr req = some sa
            ∧ clnt_sett.current.secr = some secr
            ∧ kr_cc_alg_get clnt_sett.current.alg_id = some cc_alg
            ∧ knot_cc_check cookies.cc
                { clnt_sockaddr := none, srvr_sockaddr := some sa, secret_data := secr.data }
                cc_alg = KNOT_EOK
            ∧ cache1 = (kr_cookie_lru_set cache sa pkt_cookie_opt).2
            ∧ (0 < cache.capacity → kr_cookie_lru_get cache1 sa = some pkt_cookie_opt))
    ∧ (∀ (cookies : knot_dns_cookies) (sc : Octets) (sa : sockaddr)
          (secr rsecr : kr_cookie_secret) (cc_alg ralg : knot_cc_alg),
        knot_edns_opt_cookie_parse (knot_edns_opt_get_data pkt_cookie_opt) = some cookies →
        cookies.sc = some sc →
        passed_server_sockaddr req = some sa →
        clnt_sett.current.secr = some secr →
        kr_cc_alg_get clnt_sett.current.alg_id = some cc_alg →
        knot_cc_check cookies.cc
          { clnt_sockaddr := none, srvr_sockaddr := some sa, secret_data := secr.data } cc_alg
          ≠ KNOT_EOK →
        clnt_sett.recent.secr = some rsecr →
        kr_cc_alg_get clnt_sett.recent.alg_id = some ralg →
        knot_cc_check cookies.cc
          { clnt_sockaddr := none, srvr_sockaddr := some sa, secret_data := rsecr.data } ralg
          = KNOT_EOK →
        b = true ∧ cache1 = cache) := by
  refine ⟨?_, ?_, ?_⟩
  · intro hb
    rcases check_cookie_content_and_cache_cases _ _ _ _ _ _ _ h with h1 | h1 | h1
    · exact h1.2
    · exact h1.2
    · rw [hb] at h1; exact absurd h1.1 (by simp)
  · intro hne
    rcases check_cookie_content_and_cache_cases _ _ _ _ _ _ _ h with h1 | h1 | h1
    · exact absurd h1.2 hne
    · exact absurd h1.2 hne
    · obtain ⟨hb, cookies, sa, hp, hsa, hone, hc⟩ := h1
      obtain ⟨sa1, secr, cc_alg, e1, e2, e3, e4⟩ :=
        srvr_sockaddr_cc_check_eq_one _ _ _ _ hone
      cases e1
      refine ⟨hb, cookies, sa, secr, cc_alg, hp, hsa, e2, e3, e4, hc, ?_⟩
      intro hcap
      rw [hc]
      apply kr_cookie_lru_get_set _ _ _ _ hcap
      have := knot_edns_opt_cookie_parse_length _ _ hp
      simp only [knot_edns_opt_get_data] at this
      simp only [KNOT_EDNS_OPTION_HDRLEN, knot_edns_opt_get_length, KR_COOKIE_OPT_MAX_LEN,
        KNOT_OPT_COOKIE_CLNT, KNOT_OPT_COOKIE_SRVR_MAX]
      omega
  · intro cookies sc sa secr rsecr cc_alg ralg hp hsc hsa hs ha hcur hrs hra hrec
    have hlen : cookies.cc.length ≠ 0 := by
      rw [knot_edns_opt_cookie_parse_cc_length _ _ hp]; decide
    have hzero := srvr_sockaddr_cc_check_recent kr_cc_alg_get sa cookies.cc clnt_sett secr rsecr
      cc_alg ralg hlen hs ha hcur hrs hra hrec
    simp only [check_cookie_content_and_cache, hp, hsc, hsa, hzero] at h
    simp at h
    obtain ⟨h1, h2⟩ := h
    exact ⟨by rw [h1], by rw [h2]⟩

theorem check_cookie_content_and_cache_validated_witness :
    (true = false → (⟨4, [(upstream1, responseBadcookieOpt)]⟩ : kr_cookie_lru_t) = (⟨4, []⟩ : kr_cookie_lru_t))
    ∧ ((⟨4, [(upstream1, responseBadcookieOpt)]⟩ : kr_cookie_lru_t) ≠ (⟨4, []⟩ : kr_cookie_lru_t) →
        true = true
        ∧ ∃ (cookies : knot_dns_cookies) (sa : sockaddr) (secr : kr_cookie_secret)
            (cc_alg : knot_cc_alg),
            knot_edns_opt_cookie_parse (knot_edns_opt_get_data responseBadcookieOpt) = some cookies
            ∧ passed_server_sockaddr (requestWith query1 none answerEdns) = some sa
            ∧ settingsA.current.secr = some secr
            ∧ kr_cc_alg_get_fnv settingsA.current.alg_id = some cc_alg
            ∧ knot_cc_check cookies.cc
                { clnt_sockaddr := none, srvr_sockaddr := some sa, secret_data := secr.data }
                cc_alg = KNOT_EOK
            ∧ (⟨4, [(upstream1, responseBadcookieOpt)]⟩ : kr_cookie_lru_t) = (kr_cookie_lru_set (⟨4, []⟩ : kr_cookie_lru_t) sa responseBadcookieOpt).2
            ∧ (0 < (⟨4, []⟩ : kr_cookie_lru_t).capacity → kr_cookie_lru_get (⟨4, [(upstream1, responseBadcookieOpt)]⟩ : kr_cookie_lru_t) sa = some responseBadcookieOpt))
    ∧ (∀ (cookies : knot_dns_cookies) (sc : Octets) (sa : sockaddr)
          (secr rsecr : kr_cookie_secret) (cc_alg ralg : knot_cc_alg),
        knot_edns_opt_cookie_parse (knot_edns_opt_get_data responseBadcookieOpt) = some cookies →
        cookies.sc = some sc →
        passed_server_sockaddr (requestWith query1 none answerEdns) = some sa →
        settingsA.current.secr = some secr →
        kr_cc_alg_get_fnv settingsA.current.alg_id = some cc_alg →
        knot_cc_check cookies.cc
          { clnt_sockaddr := none, srvr_sockaddr := some sa, secret_data := secr.data } cc_alg
          ≠ KNOT_EOK →
        settingsA.recent.secr = some rsecr →
        kr_cc_alg_get_fnv settingsA.recent.alg_id = some ralg →
        knot_cc_check cookies.cc
          { clnt_sockaddr := none, srvr_sockaddr := some sa, secret_data := rsecr.data } ralg
          = KNOT_EOK →
        true = true ∧ (⟨4, [(upstream1, responseBadcookieOpt)]⟩ : kr_cookie_lru_t) = (⟨4, []⟩ : kr_cookie_lru_t)) :=
  check_cookie_content_and_cache_validated kr_cc_alg_get_fnv settingsA
    (requestWith query1 none answerEdns) responseBadcookieOpt ⟨4, []⟩
    ⟨4, [(upstream1, responseBadcookieOpt)]⟩ true (by decide)

/-! ## Round trip of the client cookie -/

/-- A cookie an algorithm with a client cookie size between 1 and 8 has just computed,
and that is not empty, passes the check against the same input. -/
theorem knot_cc_check_round_trip (input : knot_cc_input) (cc_alg : knot_cc_alg)
    (h_size : 0 < cc_alg.cc_size ∧ cc_alg.cc_size ≤ KNOT_OPT_COOKIE_CLNT)
    (h_len : (cc_alg.gen_func input).length ≠ 0) :
    knot_cc_check (cc_alg.gen_func input) input cc_alg = KNOT_EOK := by
  unfold knot_cc_check
  rw [if_neg (by omega), if_neg (by omega), if_neg (by simp), if_pos rfl]

theorem u64_octets_length (v : Nat) : (u64_octets v).length = 8 := by
  simp [u64_octets]

theorem cc_gen_fnv64_length (input : knot_cc_input)
    (h_addr : input.srvr_sockaddr ≠ none) (h_secr : input.secret_data.length ≠ 0) :
    (cc_gen_fnv64 input).length = 8 := by
  unfold cc_gen_fnv64
  rw [if_neg]
  · exact u64_octets_length _
  · intro h
    rcases h with ⟨_, h⟩ | h
    · cases hs : input.srvr_sockaddr with
      | none => exact h_addr hs
      | some sa => rw [hs] at h; simp at h
    · exact h_secr h

theorem cc_gen_hmac_sha256_64_length (hmac_sha256 : Octets → Octets → Octets)
    (input : knot_cc_input)
    (h_digest : ∀ key msg : Octets, (hmac_sha256 key msg).length = 32)
    (h_addr : input.srvr_sockaddr ≠ none) (h_secr : input.secret_data.length ≠ 0) :
    ((knot_cc_alg_hmac_sha256_64 hmac_sha256).gen_func input).length = 8 := by
  have hcond : ¬((input.clnt_sockaddr.isNone ∧ input.srvr_sockaddr.isNone)
      ∨ input.secret_data.length = 0) := by
    intro h
    rcases h with ⟨_, h⟩ | h
    · cases hs : input.srvr_sockaddr with
      | none => exact h_addr hs
      | some sa => rw [hs] at h; simp at h
    · exact h_secr h
  simp only [knot_cc_alg_hmac_sha256_64, cc_gen_hmac_sha256_64, KNOT_OPT_COOKIE_CLNT,
    Nat.lt_irrefl, if_false, hcond]
  simp [h_digest]

/-- C19. Round trip verify(compute): for every request whose upstream address is an IPv4 or
IPv6 address, every non-empty current client secret and each of the two registered
client-cookie algorithms (FNV-64, and HMAC-SHA256-64 over a digest function with
32-octet digests), the client cookie the algorithm computes over server address =
upstream and secret = current makes `srvr_sockaddr_cc_check` return 1. -/
theorem srvr_sockaddr_cc_check_round_trip (hmac_sha256 : Octets → Octets → Octets)
    (kr_cc_alg_get : Int → Option knot_cc_alg) (req : kr_request) (sa : sockaddr)
    (secr : kr_cookie_secret) (cc_alg : knot_cc_alg)
    (h_digest : ∀ key msg : Octets, (hmac_sha256 key msg).length = 32)
    (h_upstream : req.upstream_addr = some sa)
    (h_family : sa.sa_family = AF_INET ∨ sa.sa_family = AF_INET6)
    (h_secr : req.ctx.cookie_ctx.clnt.current.secr = some secr)
    (h_nonempty : secr.size ≠ 0)
    (h_alg : kr_cc_alg_get req.ctx.cookie_ctx.clnt.current.alg_id = some cc_alg)
    (h_registered : cc_alg = knot_cc_alg_fnv64
      ∨ cc_alg = knot_cc_alg_hmac_sha256_64 hmac_sha256) :
    passed_server_sockaddr req = some sa
    ∧ srvr_sockaddr_cc_check kr_cc_alg_get (passed_server_sockaddr req)
        (cc_alg.gen_func
          { clnt_sockaddr := none, srvr_sockaddr := some sa, secret_data := secr.data })
        req.ctx.cookie_ctx.clnt = some 1 := by
  have hsa : passed_server_sockaddr req = some sa := by
    simp only [passed_server_sockaddr, h_upstream, h_family, if_true]
  have hlen : (cc_alg.gen_func
      { clnt_sockaddr := none, srvr_sockaddr := some sa, secret_data := secr.data }).length
      = 8 := by
    rcases h_registered with h | h
    · rw [h]; exact cc_gen_fnv64_length _ (by simp) h_nonempty
    · rw [h]; exact cc_gen_hmac_sha256_64_length _ _ h_digest (by simp) h_nonempty
  have hsize : 0 < cc_alg.cc_size ∧ cc_alg.cc_size ≤ KNOT_OPT_COOKIE_CLNT := by
    rcases h_registered with h | h
    · rw [h]; decide
    · rw [h]; simp [knot_cc_alg_hmac_sha256_64, KNOT_OPT_COOKIE_CLNT]
  have hk := knot_cc_check_round_trip
    { clnt_sockaddr := none, srvr_sockaddr := some sa, secret_data := secr.data } cc_alg hsize
    (by rw [hlen]; decide)
  refine ⟨hsa, ?_⟩
  rw [hsa]
  simp only [srvr_sockaddr_cc_check, hlen, h_secr, h_alg, hk, if_true]
  simp

theorem srvr_sockaddr_cc_check_round_trip_witness :
    passed_server_sockaddr (requestWith query1 none answerEdns) = some upstream1
    ∧ srvr_sockaddr_cc_check kr_cc_alg_get_fnv
        (passed_server_sockaddr (requestWith query1 none answerEdns))
        (knot_cc_alg_fnv64.gen_func
          { clnt_sockaddr := none, srvr_sockaddr := some upstream1,
            secret_data := secretA.data })
        (requestWith query1 none answerEdns).ctx.cookie_ctx.clnt = some 1 :=
  srvr_sockaddr_cc_check_round_trip zeroDigest kr_cc_alg_get_fnv
    (requestWith query1 none answerEdns) upstream1 secretA knot_cc_alg_fnv64
    (by intro key msg; simp [zeroDigest]) (by decide) (by decide) (by decide) (by decide) rfl
    (Or.inl rfl)

/-! ## Secret rotation: equal settings -/

/-- Two slots with the same algorithm id and secrets of the same octets are equal
settings. -/
theorem settings_equal_of_eq (s1 s2 : kr_cookie_comp) (secr1 secr2 : kr_cookie_secret)
    (h1 : s1.secr = some secr1) (h2 : s2.secr = some secr2)
    (h_alg : s1.alg_id = s2.alg_id) (h_data : secr1.data = secr2.data) :
    settings_equal s1 s2 = some true := by
  simp [settings_equal, h1, h2, h_alg, h_data, kr_cookie_secret.size]

/-- C20. Secret install is a no-op on equal settings: when the secrets of both roles are
present in the running context and in the candidate (as after `config_init` and a
successful `config_apply`), `apply_from_copy` returns, and for each role whose candidate
has the algorithm id and the secret octets (same length, same bytes) of the running
current slot, the current and the recent slot of that role are unchanged. -/
theorem apply_from_copy_equal_noop (running shallow : kr_cookie_ctx)
    (clnt_r clnt_s srvr_r srvr_s : kr_cookie_secret)
    (h_clnt_r : running.clnt.current.secr = some clnt_r)
    (h_clnt_s : shallow.clnt.current.secr = some clnt_s)
    (h_srvr_r : running.srvr.current.secr = some srvr_r)
    (h_srvr_s : shallow.srvr.current.secr = some srvr_s) :
    ∃ running1 : kr_cookie_ctx,
      apply_from_copy running shallow = some running1
      ∧ (running.clnt.current.alg_id = shallow.clnt.current.alg_id
          ∧ clnt_r.size = clnt_s.size ∧ clnt_r.data = clnt_s.data →
          running1.clnt.current = running.clnt.current
          ∧ running1.clnt.recent = running.clnt.recent)
      ∧ (running.srvr.current.alg_id = shallow.srvr.current.alg_id
          ∧ srvr_r.size = srvr_s.size ∧ srvr_r.data = srvr_s.data →
          running1.srvr.current = running.srvr.current
          ∧ running1.srvr.recent = running.srvr.recent) := by
  obtain ⟨ceq, hc⟩ : ∃ ceq, settings_equal running.clnt.current shallow.clnt.current
      = some ceq := by
    simp only [settings_equal, h_clnt_r, h_clnt_s]
    split <;> simp
  obtain ⟨seq, hs⟩ : ∃ seq, settings_equal running.srvr.current shallow.srvr.current
      = some seq := by
    simp only [settings_equal, h_srvr_r, h_srvr_s]
    split <;> simp
  refine ⟨{ clnt :=
              { enabled := shallow.clnt.enabled,
                current := if ceq = false then shallow.clnt.current else running.clnt.current,
                recent := if ceq = false then running.clnt.current else running.clnt.recent },
            srvr :=
              { enabled := shallow.srvr.enabled,
                current := if seq = false then shallow.srvr.current else running.srvr.current,
                recent := if seq = false then running.srvr.current else running.srvr.recent } },
          by simp only [apply_from_copy, hc, hs], ?_, ?_⟩
  · rintro ⟨ha, _, hd⟩
    have := settings_equal_of_eq _ _ _ _ h_clnt_r h_clnt_s ha hd
    rw [hc] at this
    cases this
    simp
  · rintro ⟨ha, _, hd⟩
    have := settings_equal_of_eq _ _ _ _ h_srvr_r h_srvr_s ha hd
    rw [hs] at this
    cases this
    simp

theorem apply_from_copy_equal_noop_witness :
    ∃ running1 : kr_cookie_ctx,
      apply_from_copy rotatedAB (candidateSrvr secretB) = some running1
      ∧ (rotatedAB.clnt.current.alg_id = (candidateSrvr secretB).clnt.current.alg_id
          ∧ secretA.size = secretA.size ∧ secretA.data = secretA.data →
          running1.clnt.current = rotatedAB.clnt.current
          ∧ running1.clnt.recent = rotatedAB.clnt.recent)
      ∧ (rotatedAB.srvr.current.alg_id = (candidateSrvr secretB).srvr.current.alg_id
          ∧ secretB.size = secretB.size ∧ secretB.data = secretB.data →
          running1.srvr.current = rotatedAB.srvr.current
          ∧ running1.srvr.recent = rotatedAB.srvr.recent) :=
  apply_from_copy_equal_noop rotatedAB (candidateSrvr secretB) secretA secretA secretB secretB
    (by decide) (by decide) (by decide) (by decide)

/-! ## Secret rotation: different settings -/

/-- The comparison of two slots whose secrets are present: true exactly for equal
algorithm ids, equal sizes and equal octets. -/
theorem settings_equal_eq_true_iff (s1 s2 : kr_cookie_comp) (secr1 secr2 : kr_cookie_secret)
    (h1 : s1.secr = some secr1) (h2 : s2.secr = some secr2) :
    settings_equal s1 s2 = some true ↔
      s1.alg_id = s2.alg_id ∧ secr1.size = secr2.size ∧ secr1.data = secr2.data := by
  simp only [settings_equal, h1, h2, kr_cookie_secret.size]
  by_cases ha : s1.alg_id = s2.alg_id
  · by_cases hl : secr1.data.length = secr2.data.length
    · have ht1 : secr1.data.take secr1.data.length = secr1.data := List.take_length _
      have ht2 : secr2.data.take secr1.data.length = secr2.data := by
        rw [hl]; exact List.take_length _
      simp [ha, hl, ht1, ht2]
      rw [← hl, ht1]
    · simp [ha, hl]
  · simp [ha]

theorem settings_equal_some (s1 s2 : kr_cookie_comp) (secr1 secr2 : kr_cookie_secret)
    (h1 : s1.secr = some secr1) (h2 : s2.secr = some secr2) :
    ∃ b : Bool, settings_equal s1 s2 = some b := by
  simp only [settings_equal, h1, h2]
  split <;> simp

theorem settings_equal_of_ne (s1 s2 : kr_cookie_comp) (secr1 secr2 : kr_cookie_secret)
    (h1 : s1.secr = some secr1) (h2 : s2.secr = some secr2)
    (h : s1.alg_id ≠ s2.alg_id ∨ secr1.data ≠ secr2.data) :
    settings_equal s1 s2 = some false := by
  obtain ⟨b, hb⟩ := settings_equal_some s1 s2 secr1 secr2 h1 h2
  cases b with
  | false => exact hb
  | true =>
    have := (settings_equal_eq_true_iff s1 s2 secr1 secr2 h1 h2).mp hb
    rcases h with h | h
    · exact absurd this.1 h
    · exact absurd this.2.2 h

/-- The result of `apply_from_copy` in terms of the two comparisons. -/
theorem apply_from_copy_eq (running shallow : kr_cookie_ctx) (clnt_eq srvr_eq : Bool)
    (hc : settings_equal running.clnt.current shallow.clnt.current = some clnt_eq)
    (hs : settings_equal running.srvr.current shallow.srvr.current = some srvr_eq) :
    apply_from_copy running shallow = some
      { clnt :=
          { enabled := shallow.clnt.enabled,
            current := if clnt_eq = false then shallow.clnt.current else running.clnt.current,
            recent := if clnt_eq = false then running.clnt.current else running.clnt.recent },
        srvr :=
          { enabled := shallow.srvr.enabled,
            current := if srvr_eq = false then shallow.srvr.current else running.srvr.current,
            recent := if srvr_eq = false then running.srvr.current else running.srvr.recent } } := by
  simp only [apply_from_copy, hc, hs]

/-- C21. Secret install swaps on different settings: when the current secrets of both roles
are present in the running context and in the candidate, `apply_from_copy` returns, and
for each role whose candidate differs from the running current slot in the algorithm
id or in the secret octets, the recent slot afterwards is exactly the previous current
slot (algorithm id and secret) and the current slot is the candidate. The slots of a
role depend only on the candidate of that role: whatever the candidate of the other
role is, they come out the same. -/
theorem apply_from_copy_swap (running shallow : kr_cookie_ctx)
    (clnt_r clnt_s srvr_r srvr_s : kr_cookie_secret)
    (h_clnt_r : running.clnt.current.secr = some clnt_r)
    (h_clnt_s : shallow.clnt.current.secr = some clnt_s)
    (h_srvr_r : running.srvr.current.secr = some srvr_r)
    (h_srvr_s : shallow.srvr.current.secr = some srvr_s) :
    ∃ running1 : kr_cookie_ctx,
      apply_from_copy running shallow = some running1
      ∧ (running.clnt.current.alg_id ≠ shallow.clnt.current.alg_id
            ∨ clnt_r.data ≠ clnt_s.data →
          running1.clnt.recent = running.clnt.current
          ∧ running1.clnt.current = shallow.clnt.current)
      ∧ (running.srvr.current.alg_id ≠ shallow.srvr.current.alg_id
            ∨ srvr_r.data ≠ srvr_s.data →
          running1.srvr.recent = running.srvr.current
          ∧ running1.srvr.current = shallow.srvr.current)
      ∧ (∀ other other1 : kr_cookie_ctx,
          apply_from_copy running other = some other1 →
          (other.clnt.current = shallow.clnt.current →
            other1.clnt.current = running1.clnt.current
            ∧ other1.clnt.recent = running1.clnt.recent)
          ∧ (other.srvr.current = shallow.srvr.current →
            other1.srvr.current = running1.srvr.current
            ∧ other1.srvr.recent = running1.srvr.recent)) := by
  obtain ⟨ceq, hc⟩ := settings_equal_some _ _ _ _ h_clnt_r h_clnt_s
  obtain ⟨seq, hs⟩ := settings_equal_some _ _ _ _ h_srvr_r h_srvr_s
  refine ⟨_, apply_from_copy_eq running shallow ceq seq hc hs, ?_, ?_, ?_⟩
  · intro hne
    have := settings_equal_of_ne _ _ _ _ h_clnt_r h_clnt_s hne
    rw [hc] at this
    cases this
    simp
  · intro hne
    have := settings_equal_of_ne _ _ _ _ h_srvr_r h_srvr_s hne
    rw [hs] at this
    cases this
    simp
  · intro other other1 ho
    unfold apply_from_copy at ho
    cases hoc : settings_equal running.clnt.current other.clnt.current with
    | none => rw [hoc] at ho; simp at ho
    | some oc =>
      cases hos : settings_equal running.srvr.current other.srvr.current with
      | none => rw [hoc, hos] at ho; simp at ho
      | some os =>
        rw [hoc, hos] at ho
        simp only [Option.some.injEq] at ho
        subst ho
        constructor
        · intro heq
          rw [heq, hc] at hoc
          cases hoc
          simp [heq]
        · intro heq
          rw [heq, hs] at hos
          cases hos
          simp [heq]

theorem apply_from_copy_swap_witness :
    ∃ running1 : kr_cookie_ctx,
      apply_from_copy cookieCtxA (candidateSrvr secretB) = some running1
      ∧ (cookieCtxA.clnt.current.alg_id ≠ (candidateSrvr secretB).clnt.current.alg_id
            ∨ secretA.data ≠ secretA.data →
          running1.clnt.recent = cookieCtxA.clnt.current
          ∧ running1.clnt.current = (candidateSrvr secretB).clnt.current)
      ∧ (cookieCtxA.srvr.current.alg_id ≠ (candidateSrvr secretB).srvr.current.alg_id
            ∨ secretA.data ≠ secretB.data →
          running1.srvr.recent = cookieCtxA.srvr.current
          ∧ running1.srvr.current = (candidateSrvr secretB).srvr.current)
      ∧ (∀ other other1 : kr_cookie_ctx,
          apply_from_copy cookieCtxA other = some other1 →
          (other.clnt.current = (candidateSrvr secretB).clnt.current →
            other1.clnt.current = running1.clnt.current
            ∧ other1.clnt.recent = running1.clnt.recent)
          ∧ (other.srvr.current = (candidateSrvr secretB).srvr.current →
            other1.srvr.current = running1.srvr.current
            ∧ other1.srvr.recent = running1.srvr.recent)) :=
  apply_from_copy_swap cookieCtxA (candidateSrvr secretB) secretA secretA secretA secretB
    (by decide) (by decide) (by decide) (by decide)

/-- C22. Settings equality: for two slots whose secrets are present, `settings_equal` is true
if and only if the algorithm ids are equal, the secrets have the same length and the
secrets are bytewise equal; in particular a secret that is a strict prefix of the
other is never equal to it, whichever of the two is the longer. -/
theorem settings_equal_spec (s1 s2 : kr_cookie_comp) (secr1 secr2 : kr_cookie_secret)
    (h1 : s1.secr = some secr1) (h2 : s2.secr = some secr2) :
    (settings_equal s1 s2 = some true ↔
      s1.alg_id = s2.alg_id ∧ secr1.size = secr2.size
        ∧ ∀ i : Nat, i < secr1.size → secr1.data.get? i = secr2.data.get? i)
    ∧ (settings_equal s1 s2 = some true ∨ settings_equal s1 s2 = some false)
    ∧ (∀ more : Octets, more ≠ [] → secr2.data = secr1.data ++ more →
        settings_equal s1 s2 = some false)
    ∧ (∀ more : Octets, more ≠ [] → secr1.data = secr2.data ++ more →
        settings_equal s1 s2 = some false) := by
  have hiff := settings_equal_eq_true_iff s1 s2 secr1 secr2 h1 h2
  refine ⟨?_, ?_, ?_, ?_⟩
  · rw [hiff]
    constructor
    · rintro ⟨ha, hl, hd⟩
      exact ⟨ha, hl, fun i _ => by rw [hd]⟩
    · rintro ⟨ha, hl, hd⟩
      refine ⟨ha, hl, ?_⟩
      apply List.ext_get?
      intro i
      by_cases hi : i < secr1.size
      · exact hd i hi
      · simp only [kr_cookie_secret.size] at hi hl
        rw [List.get?_eq_none.mpr (by omega), List.get?_eq_none.mpr (by omega)]
  · obtain ⟨b, hb⟩ := settings_equal_some s1 s2 secr1 secr2 h1 h2
    cases b with
    | true => exact Or.inl hb
    | false => exact Or.inr hb
  · intro more hmore hd
    apply settings_equal_of_ne s1 s2 secr1 secr2 h1 h2
    right
    intro heq
    rw [heq] at hd
    have : more = [] := by simpa using hd.symm
    exact hmore this
  · intro more hmore hd
    apply settings_equal_of_ne s1 s2 secr1 secr2 h1 h2
    right
    intro heq
    rw [← heq] at hd
    have : more = [] := by simpa using hd.symm
    exact hmore this

theorem settings_equal_spec_witness :
    (settings_equal { secr := some secretA, alg_id := 0 }
        { secr := some secretC, alg_id := 0 } = some true ↔
      (0 : Int) = 0 ∧ secretA.size = secretC.size
        ∧ ∀ i : Nat, i < secretA.size → secretA.data.get? i = secretC.data.get? i)
    ∧ (settings_equal { secr := some secretA, alg_id := 0 }
          { secr := some secretC, alg_id := 0 } = some true
        ∨ settings_equal { secr := some secretA, alg_id := 0 }
          { secr := some secretC, alg_id := 0 } = some false)
    ∧ (∀ more : Octets, more ≠ [] → secretC.data = secretA.data ++ more →
        settings_equal { secr := some secretA, alg_id := 0 }
          { secr := some secretC, alg_id := 0 } = some false)
    ∧ (∀ more : Octets, more ≠ [] → secretA.data = secretC.data ++ more →
        settings_equal { secr := some secretA, alg_id := 0 }
          { secr := some secretC, alg_id := 0 } = some false) :=
  settings_equal_spec { secr := some secretA, alg_id := 0 } { secr := some secretC, alg_id := 0 }
    secretA secretC rfl rfl

/-! ## The secret slots under `config_init` and `config_apply` -/

theorem current_secret_present_iff (settings : kr_cookie_settings) :
    current_secret_present settings = true ↔
      ∃ secr : kr_cookie_secret, settings.current.secr = some secr ∧ 1 ≤ secr.size := by
  unfold current_secret_present
  cases h : settings.current.secr with
  | none => simp
  | some secr => simp

theorem new_sq_str_size (node : JsonNode) (sq : kr_cookie_secret)
    (h : new_sq_str node = some sq) : 1 ≤ sq.size := by
  unfold new_sq_str new_cookie_secret at h
  by_cases hl : node.string_.length = 0
  · simp [hl] at h
  · simp only [hl, if_false, Option.some.injEq] at h
    subst h
    simp only [kr_cookie_secret.size]
    omega

theorem new_sq_array_size (node : JsonNode) (sq : kr_cookie_secret)
    (h : new_sq_array node = some sq) : 1 ≤ sq.size := by
  unfold new_sq_array new_cookie_secret at h
  split at h
  · exact absurd h (by simp)
  · by_cases hl : node.children.length = 0
    · simp [hl] at h
    · simp only [hl, if_false, Option.some.injEq] at h
      subst h
      simp only [kr_cookie_secret.size, List.length_map]
      omega

/-- A secret `apply_secret` installs has at least one octet; a failing call leaves the
pointer alone. -/
theorem apply_secret_result (sec : Option kr_cookie_secret) (node : JsonNode) :
    ((apply_secret sec node).1 = false ∧ (apply_secret sec node).2 = sec)
    ∨ ((apply_secret sec node).1 = true
        ∧ ∃ sq : kr_cookie_secret, (apply_secret sec node).2 = some sq ∧ 1 ≤ sq.size) := by
  have key : ∀ r : Option kr_cookie_secret, (∀ sq, r = some sq → 1 ≤ sq.size) →
      (((match r with
          | none => (false, sec)
          | some sq => (true, some sq) : Bool × Option kr_cookie_secret).1 = false
        ∧ (match r with
          | none => (false, sec)
          | some sq => (true, some sq) : Bool × Option kr_cookie_secret).2 = sec)
      ∨ ((match r with
          | none => (false, sec)
          | some sq => (true, some sq) : Bool × Option kr_cookie_secret).1 = true
        ∧ ∃ sq : kr_cookie_secret,
            (match r with
              | none => (false, sec)
              | some sq => (true, some sq) : Bool × Option kr_cookie_secret).2 = some sq
            ∧ 1 ≤ sq.size)) := by
    intro r hr
    cases r with
    | none => exact Or.inl ⟨rfl, rfl⟩
    | some sq => exact Or.inr ⟨rfl, sq, rfl, hr sq rfl⟩
  unfold apply_secret
  apply key
  intro sq hsq
  cases htag : node.tag <;> rw [htag] at hsq <;> simp only [] at hsq
  all_goals first
    | exact new_sq_str_size node sq hsq
    | exact new_sq_array_size node sq hsq
    | exact absurd hsq (by simp)

/-- One member of the document never removes the current secret of a role. -/
theorem apply_configuration_present (kr_cc_alg_names kr_sc_alg_names : List (Int × Octets))
    (cntrl : kr_cookie_ctx) (node : JsonNode)
    (hc : current_secret_present cntrl.clnt = true)
    (hs : current_secret_present cntrl.srvr = true) :
    current_secret_present
        (apply_configuration kr_cc_alg_names kr_sc_alg_names cntrl node).2.clnt = true
    ∧ current_secret_present
        (apply_configuration kr_cc_alg_names kr_sc_alg_names cntrl node).2.srvr = true := by
  unfold apply_configuration
  cases hk : node.key with
  | none => exact ⟨hc, hs⟩
  | some key =>
    simp only []
    split_ifs
    · exact ⟨hc, hs⟩
    · refine ⟨?_, hs⟩
      rcases apply_secret_result cntrl.clnt.current.secr node with ⟨_, h⟩ | ⟨_, sq, h, hsz⟩
      · simp only [current_secret_present, h]; exact hc
      · simp only [current_secret_present, h]; simpa using hsz
    · exact ⟨hc, hs⟩
    · exact ⟨hc, hs⟩
    · refine ⟨hc, ?_⟩
      rcases apply_secret_result cntrl.srvr.current.secr node with ⟨_, h⟩ | ⟨_, sq, h, hsz⟩
      · simp only [current_secret_present, h]; exact hs
      · simp only [current_secret_present, h]; simpa using hsz
    · exact ⟨hc, hs⟩
    · exact ⟨hc, hs⟩

theorem config_apply_members_present (kr_cc_alg_names kr_sc_alg_names : List (Int × Octets))
    (nodes : List JsonNode) (shallow_copy : kr_cookie_ctx)
    (hc : current_secret_present shallow_copy.clnt = true)
    (hs : current_secret_present shallow_copy.srvr = true) :
    current_secret_present
        (config_apply_members kr_cc_alg_names kr_sc_alg_names shallow_copy nodes).2.clnt = true
    ∧ current_secret_present
        (config_apply_members kr_cc_alg_names kr_sc_alg_names shallow_copy nodes).2.srvr
        = true := by
  induction nodes generalizing shallow_copy with
  | nil => exact ⟨hc, hs⟩
  | cons node rest ih =>
    have h := apply_configuration_present kr_cc_alg_names kr_sc_alg_names shallow_copy node hc hs
    unfold config_apply_members
    split
    · exact h
    · exact ih _ h.1 h.2

/-- What `apply_from_copy` does to one role, in terms of the comparison of that role. -/
theorem role_after_apply (current_r recent_r current_s : kr_cookie_comp) (eq : Bool)
    (h_eq : settings_equal current_r current_s = some eq)
    (hp_r : ∃ secr : kr_cookie_secret, current_r.secr = some secr ∧ 1 ≤ secr.size)
    (hp_s : ∃ secr : kr_cookie_secret, current_s.secr = some secr ∧ 1 ≤ secr.size) :
    (∃ secr : kr_cookie_secret,
        (if eq = false then current_s else current_r).secr = some secr ∧ 1 ≤ secr.size)
    ∧ (((if eq = false then current_s else current_r) = current_r
          ∧ (if eq = false then current_r else recent_r) = recent_r)
        ∨ (settings_equal current_r (if eq = false then current_s else current_r) = some false
          ∧ (if eq = false then current_r else recent_r) = current_r)) := by
  cases eq with
  | true => exact ⟨by simpa using hp_r, Or.inl ⟨by simp, by simp⟩⟩
  | false => exact ⟨by simpa using hp_s, Or.inr ⟨by simpa using h_eq, by simp⟩⟩

/-- One call of `config_apply` on a context whose current secrets are present returns, keeps
them present, and for each role either leaves both slots as they were or changes the
pair of the role and moves the previous current slot to recent. -/
theorem config_apply_step (json_decode : Octets → Option JsonRoot)
    (kr_cc_alg_names kr_sc_alg_names : List (Int × Octets)) (ctx : kr_cookie_ctx)
    (args : Option Octets)
    (hc : current_secret_present ctx.clnt = true)
    (hs : current_secret_present ctx.srvr = true) :
    ∃ (b : Bool) (ctx1 : kr_cookie_ctx),
      config_apply json_decode kr_cc_alg_names kr_sc_alg_names (some ctx) args
        = some (b, some ctx1)
      ∧ current_secret_present ctx1.clnt = true
      ∧ current_secret_present ctx1.srvr = true
      ∧ ((ctx1.clnt.current = ctx.clnt.current ∧ ctx1.clnt.recent = ctx.clnt.recent)
          ∨ (settings_equal ctx.clnt.current ctx1.clnt.current = some false
              ∧ ctx1.clnt.recent = ctx.clnt.current))
      ∧ ((ctx1.srvr.current = ctx.srvr.current ∧ ctx1.srvr.recent = ctx.srvr.recent)
          ∨ (settings_equal ctx.srvr.current ctx1.srvr.current = some false
              ∧ ctx1.srvr.recent = ctx.srvr.current)) := by
  have same : ∀ b : Bool, ∃ (b1 : Bool) (ctx1 : kr_cookie_ctx),
      some (b, some ctx) = some (b1, some ctx1)
      ∧ current_secret_present ctx1.clnt = true
      ∧ current_secret_present ctx1.srvr = true
      ∧ ((ctx1.clnt.current = ctx.clnt.current ∧ ctx1.clnt.recent = ctx.clnt.recent)
          ∨ (settings_equal ctx.clnt.current ctx1.clnt.current = some false
              ∧ ctx1.clnt.recent = ctx.clnt.current))
      ∧ ((ctx1.srvr.current = ctx.srvr.current ∧ ctx1.srvr.recent = ctx.srvr.recent)
          ∨ (settings_equal ctx.srvr.current ctx1.srvr.current = some false
              ∧ ctx1.srvr.recent = ctx.srvr.current)) :=
    fun b => ⟨b, ctx, rfl, hc, hs, Or.inl ⟨rfl, rfl⟩, Or.inl ⟨rfl, rfl⟩⟩
  unfold config_apply
  simp only []
  cases args with
  | none => exact same true
  | some a =>
    simp only []
    by_cases ha : a.length = 0
    · rw [if_pos ha]; exact same true
    rw [if_neg ha]
    by_cases hok : (config_apply_members kr_cc_alg_names kr_sc_alg_names ctx
        (json_children (json_decode a))).1 = true
    · rw [if_pos hok]
      have hp := config_apply_members_present kr_cc_alg_names kr_sc_alg_names
        (json_children (json_decode a)) ctx hc hs
      obtain ⟨c_r, hcr, hcr1⟩ := (current_secret_present_iff _).mp hc
      obtain ⟨s_r, hsr, hsr1⟩ := (current_secret_present_iff _).mp hs
      obtain ⟨c_s, hcs, hcs1⟩ := (current_secret_present_iff _).mp hp.1
      obtain ⟨s_s, hss, hss1⟩ := (current_secret_present_iff _).mp hp.2
      obtain ⟨ceq, hceq⟩ := settings_equal_some _ _ _ _ hcr hcs
      obtain ⟨seq, hseq⟩ := settings_equal_some _ _ _ _ hsr hss
      rw [apply_from_copy_eq ctx _ ceq seq hceq hseq]
      have rc := role_after_apply ctx.clnt.current ctx.clnt.recent _ ceq hceq
        ⟨c_r, hcr, hcr1⟩ ⟨c_s, hcs, hcs1⟩
      have rs := role_after_apply ctx.srvr.current ctx.srvr.recent _ seq hseq
        ⟨s_r, hsr, hsr1⟩ ⟨s_s, hss, hss1⟩
      exact ⟨true, _, rfl, (current_secret_present_iff _).mpr rc.1,
        (current_secret_present_iff _).mpr rs.1, rc.2, rs.2⟩
    · rw [if_neg hok]; exact same false

/-- A sequence of `config_apply` calls on a context whose current secrets are present
returns, keeps them present, and leaves the recent slot of a role as it was unless
one of the calls changed the pair of that role. -/
theorem config_apply_all_invariant (json_decode : Octets → Option JsonRoot)
    (kr_cc_alg_names kr_sc_alg_names : List (Int × Octets)) (docs : List (Option Octets))
    (ctx : kr_cookie_ctx)
    (hc : current_secret_present ctx.clnt = true)
    (hs : current_secret_present ctx.srvr = true) :
    ∃ ctx_n : kr_cookie_ctx,
      config_apply_all json_decode kr_cc_alg_names kr_sc_alg_names ctx docs = some ctx_n
      ∧ current_secret_present ctx_n.clnt = true
      ∧ current_secret_present ctx_n.srvr = true
      ∧ (ctx_n.clnt.recent = ctx.clnt.recent
          ∨ (∃ (pre : List (Option Octets)) (args : Option Octets) (post : List (Option Octets))
            (ctx_a ctx_b : kr_cookie_ctx) (b : Bool),
            docs = pre ++ args :: post
            ∧ config_apply_all json_decode kr_cc_alg_names kr_sc_alg_names ctx pre = some ctx_a
            ∧ config_apply json_decode kr_cc_alg_names kr_sc_alg_names (some ctx_a) args
                = some (b, some ctx_b)
            ∧ settings_equal ctx_a.clnt.current ctx_b.clnt.current = some false))
      ∧ (ctx_n.srvr.recent = ctx.srvr.recent
          ∨ (∃ (pre : List (Option Octets)) (args : Option Octets) (post : List (Option Octets))
            (ctx_a ctx_b : kr_cookie_ctx) (b : Bool),
            docs = pre ++ args :: post
            ∧ config_apply_all json_decode kr_cc_alg_names kr_sc_alg_names ctx pre = some ctx_a
            ∧ config_apply json_decode kr_cc_alg_names kr_sc_alg_names (some ctx_a) args
                = some (b, some ctx_b)
            ∧ settings_equal ctx_a.srvr.current ctx_b.srvr.current = some false)) := by
  induction docs generalizing ctx with
  | nil => exact ⟨ctx, rfl, hc, hs, Or.inl rfl, Or.inl rfl⟩
  | cons args rest ih =>
    obtain ⟨b, ctx1, h1, hc1, hs1, hstep_c, hstep_s⟩ :=
      config_apply_step json_decode kr_cc_alg_names kr_sc_alg_names ctx args hc hs
    obtain ⟨ctx_n, hn, hcn, hsn, ihc, ihs⟩ := ih ctx1 hc1 hs1
    refine ⟨ctx_n, ?_, hcn, hsn, ?_, ?_⟩
    · simp only [config_apply_all, h1]
      exact hn
    · rcases hstep_c with ⟨hcur, hrec⟩ | ⟨hchg, _⟩
      · rcases ihc with hsame | ⟨pre, a, post, ctx_a, ctx_b, b2, hd, hpre, hcall, hne⟩
        · exact Or.inl (by rw [hsame, hrec])
        · refine Or.inr ⟨args :: pre, a, post, ctx_a, ctx_b, b2, by rw [hd]; rfl, ?_, hcall, hne⟩
          simp only [config_apply_all, h1]
          exact hpre
      · exact Or.inr ⟨[], args, rest, ctx, ctx1, b, rfl, rfl, h1, hchg⟩
    · rcases hstep_s with ⟨hcur, hrec⟩ | ⟨hchg, _⟩
      · rcases ihs with hsame | ⟨pre, a, post, ctx_a, ctx_b, b2, hd, hpre, hcall, hne⟩
        · exact Or.inl (by rw [hsame, hrec])
        · refine Or.inr ⟨args :: pre, a, post, ctx_a, ctx_b, b2, by rw [hd]; rfl, ?_, hcall, hne⟩
          simp only [config_apply_all, h1]
          exact hpre
      · exact Or.inr ⟨[], args, rest, ctx, ctx1, b, rfl, rfl, h1, hchg⟩

theorem config_init_ok (kr_cc_alg_names kr_sc_alg_names : List (Int × Octets))
    (ctx0 : Option kr_cookie_ctx) (ctx : kr_cookie_ctx)
    (h_init : config_init kr_cc_alg_names kr_sc_alg_names ctx0 = (kr_ok, some ctx)) :
    current_secret_present ctx.clnt = true ∧ current_secret_present ctx.srvr = true
    ∧ ctx.clnt.recent.secr = none ∧ ctx.srvr.recent.secr = none := by
  unfold config_init at h_init
  cases ctx0 with
  | none => simp at h_init
  | some c0 =>
    simp only [] at h_init
    cases hcl : knot_lookup_by_name kr_cc_alg_names NAME_FNV64 with
    | none =>
      rw [hcl] at h_init
      simp [new_cookie_secret, KNOT_OPT_COOKIE_CLNT, kr_error, kr_ok, ENOKEY] at h_init
    | some clookup =>
      cases hsl : knot_lookup_by_name kr_sc_alg_names NAME_FNV64 with
      | none =>
        rw [hcl, hsl] at h_init
        simp [new_cookie_secret, KNOT_OPT_COOKIE_CLNT, kr_error, kr_ok, ENOKEY] at h_init
      | some slookup =>
        rw [hcl, hsl] at h_init
        simp only [new_cookie_secret, KNOT_OPT_COOKIE_CLNT, Prod.mk.injEq, Option.some.injEq]
          at h_init
        simp at h_init
        subst h_init
        simp [current_secret_present, kr_cookie_secret.size, kr_cookie_ctx_init]

/-- C23. Secret-slot invariant: after a successful `config_init` the current secret of both
roles is present with at least one octet and both recent slots are absent; after any
sequence of `config_apply` calls on that context, successful or failing, every call
returns, the current secret of both roles is still present with at least one octet,
and the recent slot of a role is still absent unless one of the calls changed the
(algorithm, secret) pair of that role. -/
theorem secret_slot_invariant (json_decode : Octets → Option JsonRoot)
    (kr_cc_alg_names kr_sc_alg_names : List (Int × Octets))
    (ctx0 : Option kr_cookie_ctx) (ctx : kr_cookie_ctx) (docs : List (Option Octets))
    (h_init : config_init kr_cc_alg_names kr_sc_alg_names ctx0 = (kr_ok, some ctx)) :
    (current_secret_present ctx.clnt = true ∧ current_secret_present ctx.srvr = true
      ∧ ctx.clnt.recent.secr = none ∧ ctx.srvr.recent.secr = none)
    ∧ ∃ ctx_n : kr_cookie_ctx,
      config_apply_all json_decode kr_cc_alg_names kr_sc_alg_names ctx docs = some ctx_n
      ∧ (∃ secr : kr_cookie_secret, ctx_n.clnt.current.secr = some secr ∧ 1 ≤ secr.size)
      ∧ (∃ secr : kr_cookie_secret, ctx_n.srvr.current.secr = some secr ∧ 1 ≤ secr.size)
      ∧ (ctx_n.clnt.recent.secr = none
          ∨ (∃ (pre : List (Option Octets)) (args : Option Octets) (post : List (Option Octets))
            (ctx_a ctx_b : kr_cookie_ctx) (b : Bool),
            docs = pre ++ args :: post
            ∧ config_apply_all json_decode kr_cc_alg_names kr_sc_alg_names ctx pre = some ctx_a
            ∧ config_apply json_decode kr_cc_alg_names kr_sc_alg_names (some ctx_a) args
                = some (b, some ctx_b)
            ∧ settings_equal ctx_a.clnt.current ctx_b.clnt.current = some false))
      ∧ (ctx_n.srvr.recent.secr = none
          ∨ (∃ (pre : List (Option Octets)) (args : Option Octets) (post : List (Option Octets))
            (ctx_a ctx_b : kr_cookie_ctx) (b : Bool),
            docs = pre ++ args :: post
            ∧ config_apply_all json_decode kr_cc_alg_names kr_sc_alg_names ctx pre = some ctx_a
            ∧ config_apply json_decode kr_cc_alg_names kr_sc_alg_names (some ctx_a) args
                = some (b, some ctx_b)
            ∧ settings_equal ctx_a.srvr.current ctx_b.srvr.current = some false)) := by
  have hi := config_init_ok kr_cc_alg_names kr_sc_alg_names ctx0 ctx h_init
  refine ⟨hi, ?_⟩
  obtain ⟨ctx_n, hn, hcn, hsn, hrc, hrs⟩ :=
    config_apply_all_invariant json_decode kr_cc_alg_names kr_sc_alg_names docs ctx hi.1 hi.2.1
  refine ⟨ctx_n, hn, (current_secret_present_iff _).mp hcn,
    (current_secret_present_iff _).mp hsn, ?_, ?_⟩
  · rcases hrc with h | h
    · exact Or.inl (by rw [h]; exact hi.2.2.1)
    · exact Or.inr h
  · rcases hrs with h | h
    · exact Or.inl (by rw [h]; exact hi.2.2.2)
    · exact Or.inr h

theorem secret_slot_invariant_witness :
    (current_secret_present cookieCtxInit.clnt = true
      ∧ current_secret_present cookieCtxInit.srvr = true
      ∧ cookieCtxInit.clnt.recent.secr = none ∧ cookieCtxInit.srvr.recent.secr = none)
    ∧ ∃ ctx_n : kr_cookie_ctx,
      config_apply_all decodeTable algNames algNames cookieCtxInit
          [some [49], some [50], none, some [51]] = some ctx_n
      ∧ (∃ secr : kr_cookie_secret, ctx_n.clnt.current.secr = some secr ∧ 1 ≤ secr.size)
      ∧ (∃ secr : kr_cookie_secret, ctx_n.srvr.current.secr = some secr ∧ 1 ≤ secr.size)
      ∧ (ctx_n.clnt.recent.secr = none
          ∨ (∃ (pre : List (Option Octets)) (args : Option Octets) (post : List (Option Octets))
            (ctx_a ctx_b : kr_cookie_ctx) (b : Bool),
            [some [49], some [50], none, some [51]] = pre ++ args :: post
            ∧ config_apply_all decodeTable algNames algNames cookieCtxInit pre = some ctx_a
            ∧ config_apply decodeTable algNames algNames (some ctx_a) args
                = some (b, some ctx_b)
            ∧ settings_equal ctx_a.clnt.current ctx_b.clnt.current = some false))
      ∧ (ctx_n.srvr.recent.secr = none
          ∨ (∃ (pre : List (Option Octets)) (args : Option Octets) (post : List (Option Octets))
            (ctx_a ctx_b : kr_cookie_ctx) (b : Bool),
            [some [49], some [50], none, some [51]] = pre ++ args :: post
            ∧ config_apply_all decodeTable algNames algNames cookieCtxInit pre = some ctx_a
            ∧ config_apply decodeTable algNames algNames (some ctx_a) args
                = some (b, some ctx_b)
            ∧ settings_equal ctx_a.srvr.current ctx_b.srvr.current = some false)) :=
  secret_slot_invariant decodeTable algNames algNames (some kr_cookie_ctx_init) cookieCtxInit
    [some [49], some [50], none, some [51]] (by decide)

/-! ## The nonce block and the server cookie codec -/

theorem wire_write_u32_length (v : Nat) : (wire_write_u32 v).length = 4 := by
  simp [wire_write_u32]

theorem wire_write_u32_octets (v : Nat) : ∀ x ∈ wire_write_u32 v, x < 256 := by
  intro x hx
  simp only [wire_write_u32, List.mem_cons, List.mem_singleton, List.not_mem_nil, or_false]
    at hx
  rcases hx with h | h | h | h <;> subst h <;> omega

theorem wire_read_write_u32 (v : Nat) (hv : v < 2 ^ 32) :
    wire_read_u32 (wire_write_u32 v) = v := by
  simp only [wire_read_u32, wire_write_u32, List.getD_cons_zero, List.getD_cons_succ]
  norm_num at hv ⊢
  omega

/-- C24. Nonce block encoding: for every buffer with capacity `*buf_len >= 8` and every input
(rand, time), `kr_nonce_write_wire` returns 0, sets `*buf_len` to 8 and writes exactly 8
octets, `rand` as a big-endian u32 followed by `time` as a big-endian u32, leaving the
octets of the buffer behind them as they were; when `buf`, `buf_len` or `input` is null
or `*buf_len < 8` it returns the negative `kr_error(EINVAL)` and writes nothing. -/
theorem kr_nonce_write_wire_spec (b : Octets) (len : Nat) (inp : kr_nonce_input)
    (h_len : KR_NONCE_LEN ≤ len) :
    (∃ out : Octets,
      kr_nonce_write_wire (some b) (some len) (some inp) = (0, some out, some 8)
      ∧ out.take 8 = wire_write_u32 (inp.rand % 2 ^ 32) ++ wire_write_u32 (inp.time % 2 ^ 32)
      ∧ (out.take 8).length = 8
      ∧ (∀ x ∈ out.take 8, x < 256)
      ∧ wire_read_u32 (out.take 4) = inp.rand % 2 ^ 32
      ∧ wire_read_u32 ((out.drop 4).take 4) = inp.time % 2 ^ 32
      ∧ out.drop 8 = b.drop 8)
    ∧ ∀ (buf : Option Octets) (buf_len : Option Nat) (input : Option kr_nonce_input),
        (buf = none ∨ buf_len = none ∨ input = none ∨ ∃ l, buf_len = some l ∧ l < 8) →
        kr_nonce_write_wire buf buf_len input = (kr_error EINVAL, buf, buf_len)
        ∧ kr_error EINVAL = -22 := by
  have hw : ∀ v : Nat, ∃ a0 a1 a2 a3, wire_write_u32 v = [a0, a1, a2, a3] :=
    fun v => ⟨_, _, _, _, rfl⟩
  constructor
  · refine ⟨wire_write_u32 (inp.rand % 2 ^ 32) ++ wire_write_u32 (inp.time % 2 ^ 32)
        ++ b.drop KR_NONCE_LEN, ?_, ?_, ?_, ?_, ?_, ?_, ?_⟩
    · have : ¬ len < KR_NONCE_LEN := by omega
      simp [kr_nonce_write_wire, this, kr_ok]
    · obtain ⟨a0, a1, a2, a3, ha⟩ := hw (inp.rand % 2 ^ 32)
      obtain ⟨c0, c1, c2, c3, hc⟩ := hw (inp.time % 2 ^ 32)
      rw [ha, hc]
      rfl
    · obtain ⟨a0, a1, a2, a3, ha⟩ := hw (inp.rand % 2 ^ 32)
      obtain ⟨c0, c1, c2, c3, hc⟩ := hw (inp.time % 2 ^ 32)
      rw [ha, hc]
      rfl
    · intro x hx
      have hx2 : x ∈ wire_write_u32 (inp.rand % 2 ^ 32)
          ++ wire_write_u32 (inp.time % 2 ^ 32) := by
        obtain ⟨a0, a1, a2, a3, ha⟩ := hw (inp.rand % 2 ^ 32)
        obtain ⟨c0, c1, c2, c3, hc⟩ := hw (inp.time % 2 ^ 32)
        rw [ha, hc] at hx ⊢
        exact hx
      rcases List.mem_append.mp hx2 with h | h
      · exact wire_write_u32_octets _ x h
      · exact wire_write_u32_octets _ x h
    · have hr := wire_read_write_u32 (inp.rand % 2 ^ 32) (Nat.mod_lt _ (by norm_num))
      obtain ⟨a0, a1, a2, a3, ha⟩ := hw (inp.rand % 2 ^ 32)
      obtain ⟨c0, c1, c2, c3, hc⟩ := hw (inp.time % 2 ^ 32)
      rw [ha] at hr
      rw [ha, hc]
      exact hr
    · have hr := wire_read_write_u32 (inp.time % 2 ^ 32) (Nat.mod_lt _ (by norm_num))
      obtain ⟨a0, a1, a2, a3, ha⟩ := hw (inp.rand % 2 ^ 32)
      obtain ⟨c0, c1, c2, c3, hc⟩ := hw (inp.time % 2 ^ 32)
      rw [hc] at hr
      rw [ha, hc]
      exact hr
    · obtain ⟨a0, a1, a2, a3, ha⟩ := hw (inp.rand % 2 ^ 32)
      obtain ⟨c0, c1, c2, c3, hc⟩ := hw (inp.time % 2 ^ 32)
      rw [ha, hc]
      rfl
  · intro buf buf_len input h
    refine ⟨?_, by decide⟩
    rcases h with h | h | h | ⟨l, h, hl⟩
    · subst h
      simp [kr_nonce_write_wire]
    · subst h
      cases buf <;> simp [kr_nonce_write_wire]
    · subst h
      cases buf <;> cases buf_len <;> simp [kr_nonce_write_wire]
    · subst h
      cases buf <;> cases input <;> simp [kr_nonce_write_wire, KR_NONCE_LEN, hl]

theorem kr_nonce_write_wire_spec_witness :
    KR_NONCE_LEN ≤ 10
    ∧ (∃ out : Octets,
      kr_nonce_write_wire (some [1, 2, 3, 4, 5, 6, 7, 8, 9, 10]) (some 10)
          (some { rand := 305419896, time := 1 }) = (0, some out, some 8)
      ∧ out.take 8 = wire_write_u32 (305419896 % 2 ^ 32) ++ wire_write_u32 (1 % 2 ^ 32)
      ∧ (out.take 8).length = 8
      ∧ (∀ x ∈ out.take 8, x < 256)
      ∧ wire_read_u32 (out.take 4) = 305419896 % 2 ^ 32
      ∧ wire_read_u32 ((out.drop 4).take 4) = 1 % 2 ^ 32
      ∧ out.drop 8 = [1, 2, 3, 4, 5, 6, 7, 8, 9, 10].drop 8)
    ∧ ∀ (buf : Option Octets) (buf_len : Option Nat) (input : Option kr_nonce_input),
        (buf = none ∨ buf_len = none ∨ input = none ∨ ∃ l, buf_len = some l ∧ l < 8) →
        kr_nonce_write_wire buf buf_len input = (kr_error EINVAL, buf, buf_len)
        ∧ kr_error EINVAL = -22 :=
  ⟨by decide,
   kr_nonce_write_wire_spec [1, 2, 3, 4, 5, 6, 7, 8, 9, 10] 10
     { rand := 305419896, time := 1 } (by decide)⟩

theorem host_u64_octets_length (host : byte_order) (v : Nat) :
    (host_u64_octets host v).length = 8 := by
  cases host <;> simp [host_u64_octets, u64_octets_length]

theorem host_u32_octets_length (host : byte_order) (v : Nat) :
    (host_u32_octets host v).length = 4 := by
  cases host <;> simp [host_u32_octets, wire_write_u32_length]

theorem srvr_cookie_alg_args_ok_some (inp : kr_srvr_cookie_input) (out : Octets) (size : Nat)
    (cc : Octets) (h_size : SRVR_FNV64_SIMPLE_HASH_SIZE ≤ size)
    (h_cc : inp.clnt_cookie = some cc) (h_secret : inp.srvr_data.secret_data.length ≠ 0) :
    srvr_cookie_alg_args_ok (some inp) (some out) (some size) = some (inp, out, size) := by
  have h1 : ¬ size < SRVR_FNV64_SIMPLE_HASH_SIZE := by omega
  simp [srvr_cookie_alg_args_ok, h1, h_cc, h_secret]

/-- The first 16 octets of a buffer that starts with two blocks of 4 and one of 8. -/
theorem take_16_blocks (w1 w2 h rest : Octets) (h1 : w1.length = 4) (h2 : w2.length = 4)
    (h3 : h.length = 8) : (w1 ++ w2 ++ h ++ rest).take 16 = w1 ++ w2 ++ h := by
  apply List.take_left'
  simp [h1, h2, h3]

/-- What `srvr_cookie_parse` reads from a client cookie followed by two blocks of 4 octets and
a hash of 8. -/
theorem srvr_cookie_parse_blocks (cc w1 w2 h : Octets) (inb : kr_srvr_cookie_inbound)
    (hcc : cc.length = 8) (h1 : w1.length = 4) (h2 : w2.length = 4) (h3 : h.length = 8) :
    srvr_cookie_parse (some (cc ++ (w1 ++ w2 ++ h))) (some inb)
      = some (kr_ok, some { clnt_cookie := some cc, nonce := wire_read_u32 w1,
                            time := wire_read_u32 w2, hash_data := some h, hash_len := 8 }) := by
  have hlen : (cc ++ (w1 ++ w2 ++ h)).length = 24 := by simp [hcc, h1, h2, h3]
  have hd : (cc ++ (w1 ++ w2 ++ h)).drop 8 = w1 ++ w2 ++ h := List.drop_left' hcc
  have ht : (cc ++ (w1 ++ w2 ++ h)).take 8 = cc := List.take_left' hcc
  have ha : w1 ++ w2 ++ h = w1 ++ (w2 ++ h) := List.append_assoc _ _ _
  have hw1 : (w1 ++ (w2 ++ h)).take 4 = w1 := List.take_left' h1
  have hw2 : ((w1 ++ (w2 ++ h)).drop 4).take 4 = w2 := by
    rw [List.drop_left' h1]; exact List.take_left' h2
  have hh : (w1 ++ (w2 ++ h)).drop 8 = h := by
    rw [← ha]; exact List.drop_left' (by simp [h1, h2])
  unfold srvr_cookie_parse
  simp only [knot_edns_opt_cookie_parse, hlen, KNOT_OPT_COOKIE_CLNT, hd, ht]
  simp [hw1, hw2, hh]

/-- C25. Codec symmetry for the full server cookie: for every 8-octet client cookie `cc`,
nonce, time (both `uint32_t`), client address and non-empty secret, and a buffer of
capacity at least 16, `kr_srvr_cookie_alg_fnv64` and (when the calls of the digest
library succeed with a 32-octet digest) `kr_srvr_cookie_alg_hmac_sha256_64` return ok
with a 16-octet server cookie `sc`, and `srvr_cookie_parse` applied to the option value
`cc ++ sc` succeeds and yields `clnt_cookie = cc`, nonce and time equal to the inputs,
and an 8-octet hash equal to the last 8 octets of `sc`. -/
theorem srvr_cookie_codec_symmetry (host : byte_order)
    (hmac_sha256 : Octets → Octets → Option Octets)
    (cc : Octets) (nonce time : Nat) (srvr_data : knot_sc_private) (out : Octets) (size : Nat)
    (inb : kr_srvr_cookie_inbound)
    (h_cc : cc.length = 8) (h_nonce : nonce < 2 ^ 32) (h_time : time < 2 ^ 32)
    (h_secret : srvr_data.secret_data.length ≠ 0) (h_size : 16 ≤ size)
    (h_hmac : ∀ key msg, ∃ d, hmac_sha256 key msg = some d ∧ d.length = 32) :
    (∃ buf : Octets,
      kr_srvr_cookie_alg_fnv64 host
          (some { clnt_cookie := some cc, nonce := nonce, time := time,
                  srvr_data := srvr_data }) (some out) (some size)
        = (kr_ok, some buf, some 16)
      ∧ (buf.take 16).length = 16
      ∧ srvr_cookie_parse (some (cc ++ buf.take 16)) (some inb)
          = some (kr_ok, some { clnt_cookie := some cc, nonce := nonce, time := time,
                                hash_data := some ((buf.take 16).drop 8), hash_len := 8 })
      ∧ ((buf.take 16).drop 8).length = 8)
    ∧ (∃ buf : Octets,
      kr_srvr_cookie_alg_hmac_sha256_64 host hmac_sha256
          (some { clnt_cookie := some cc, nonce := nonce, time := time,
                  srvr_data := srvr_data }) (some out) (some size)
        = (kr_ok, some buf, some 16)
      ∧ (buf.take 16).length = 16
      ∧ srvr_cookie_parse (some (cc ++ buf.take 16)) (some inb)
          = some (kr_ok, some { clnt_cookie := some cc, nonce := nonce, time := time,
                                hash_data := some ((buf.take 16).drop 8), hash_len := 8 })
      ∧ ((buf.take 16).drop 8).length = 8) := by
  have hargs := srvr_cookie_alg_args_ok_some
    { clnt_cookie := some cc, nonce := nonce, time := time, srvr_data := srvr_data }
    out size cc (by simp only [SRVR_FNV64_SIMPLE_HASH_SIZE]; omega) rfl h_secret
  have hn : nonce % 2 ^ 32 = nonce := Nat.mod_eq_of_lt h_nonce
  have ht : time % 2 ^ 32 = time := Nat.mod_eq_of_lt h_time
  have key : ∀ (h rest : Octets), h.length = 8 →
      ((wire_write_u32 nonce ++ wire_write_u32 time ++ h ++ rest).take 16).length = 16
      ∧ srvr_cookie_parse
          (some (cc ++ (wire_write_u32 nonce ++ wire_write_u32 time ++ h ++ rest).take 16))
          (some inb)
          = some (kr_ok, some {
              clnt_cookie := some cc, nonce := nonce, time := time,
              hash_data := some
                (((wire_write_u32 nonce ++ wire_write_u32 time ++ h ++ rest).take 16).drop 8),
              hash_len := 8 })
      ∧ (((wire_write_u32 nonce ++ wire_write_u32 time ++ h ++ rest).take 16).drop 8).length
          = 8 := by
    intro h rest hh
    have h16 := take_16_blocks (wire_write_u32 nonce) (wire_write_u32 time) h rest
      (wire_write_u32_length _) (wire_write_u32_length _) hh
    have hdrop : (wire_write_u32 nonce ++ wire_write_u32 time ++ h).drop 8 = h :=
      List.drop_left' (by simp [wire_write_u32_length])
    rw [h16, hdrop]
    refine ⟨by simp [wire_write_u32_length, hh], ?_, hh⟩
    rw [srvr_cookie_parse_blocks cc _ _ h inb h_cc (wire_write_u32_length _)
      (wire_write_u32_length _) hh, wire_read_write_u32 nonce h_nonce,
      wire_read_write_u32 time h_time]
  constructor
  · simp only [kr_srvr_cookie_alg_fnv64, hargs, hn, ht]
    exact ⟨_, rfl, key _ _ (host_u64_octets_length host _)⟩
  · obtain ⟨d, hd, hdl⟩ := h_hmac srvr_data.secret_data
      ((Option.getD (some cc) []).take KNOT_OPT_COOKIE_CLNT
        ++ host_u32_octets host (nonce % 2 ^ 32) ++ host_u32_octets host (time % 2 ^ 32)
        ++ (match srvr_data.clnt_sockaddr with
            | some sa => (kr_address_bytes (some sa)).getD []
            | none => []))
    simp only [kr_srvr_cookie_alg_hmac_sha256_64, hargs]
    simp only [Option.getD_some] at hd ⊢
    rw [hd]
    simp only [hn, ht]
    exact ⟨_, rfl, key (d.take 8) (out.drop 16) (by simp [hdl])⟩

theorem srvr_cookie_codec_symmetry_witness :
    ([1, 2, 3, 4, 5, 6, 7, 8] : Octets).length = 8 ∧ 1 < 2 ^ 32 ∧ 1480000000 < 2 ^ 32
    ∧ srvrInput1.srvr_data.secret_data.length ≠ 0 ∧ 16 ≤ 32
    ∧ (∀ key msg, ∃ d, digestStandIn key msg = some d ∧ d.length = 32)
    ∧ (∃ buf : Octets,
      kr_srvr_cookie_alg_fnv64 byte_order.little_endian
          (some { clnt_cookie := some [1, 2, 3, 4, 5, 6, 7, 8], nonce := 1,
                  time := 1480000000, srvr_data := srvrInput1.srvr_data })
          (some (List.replicate 32 0)) (some 32)
        = (kr_ok, some buf, some 16)
      ∧ (buf.take 16).length = 16
      ∧ srvr_cookie_parse (some ([1, 2, 3, 4, 5, 6, 7, 8] ++ buf.take 16)) (some inbound0)
          = some (kr_ok, some { clnt_cookie := some [1, 2, 3, 4, 5, 6, 7, 8], nonce := 1,
                                time := 1480000000,
                                hash_data := some ((buf.take 16).drop 8), hash_len := 8 })
      ∧ ((buf.take 16).drop 8).length = 8)
    ∧ (∃ buf : Octets,
      kr_srvr_cookie_alg_hmac_sha256_64 byte_order.little_endian digestStandIn
          (some { clnt_cookie := some [1, 2, 3, 4, 5, 6, 7, 8], nonce := 1,
                  time := 1480000000, srvr_data := srvrInput1.srvr_data })
          (some (List.replicate 32 0)) (some 32)
        = (kr_ok, some buf, some 16)
      ∧ (buf.take 16).length = 16
      ∧ srvr_cookie_parse (some ([1, 2, 3, 4, 5, 6, 7, 8] ++ buf.take 16)) (some inbound0)
          = some (kr_ok, some { clnt_cookie := some [1, 2, 3, 4, 5, 6, 7, 8], nonce := 1,
                                time := 1480000000,
                                hash_data := some ((buf.take 16).drop 8), hash_len := 8 })
      ∧ ((buf.take 16).drop 8).length = 8) :=
  ⟨by decide, by decide, by decide, by decide, by decide,
   fun key msg => ⟨_, rfl, by simp; omega⟩,
   srvr_cookie_codec_symmetry byte_order.little_endian digestStandIn [1, 2, 3, 4, 5, 6, 7, 8]
     1 1480000000 srvrInput1.srvr_data (List.replicate 32 0) 32 inbound0
     (by decide) (by decide) (by decide) (by decide) (by decide)
     (fun key msg => ⟨_, rfl, by simp; omega⟩)⟩

/-- C26. Decode of a bad option value in `srvr_cookie_parse_simple`: the call `kr_error(EINVAL)`
for a failed parse or a missing server cookie is not returned, so for non-null
arguments the function never returns an error: whenever it returns, it returns
`kr_ok()`. An 8-octet option value, which carries no server cookie, is accepted with
a null hash of length 0 (`srvr_cookie_parse` rejects the same value), and an option
value of a rejected length runs into the assertion on the client cookie length. -/
theorem srvr_cookie_parse_simple_no_error :
    (∀ (data : Octets) (inb : kr_srvr_cookie_inbound)
        (r : Int × Option kr_srvr_cookie_inbound),
        srvr_cookie_parse_simple (some data) (some inb) = some r → r.1 = kr_ok)
    ∧ srvr_cookie_parse_simple (some [1, 2, 3, 4, 5, 6, 7, 8]) (some inbound0)
        = some (kr_ok, some { clnt_cookie := some [1, 2, 3, 4, 5, 6, 7, 8], nonce := 0,
                              time := 0, hash_data := none, hash_len := 0 })
    ∧ kr_ok = 0
    ∧ knot_edns_opt_cookie_parse [1, 2, 3, 4, 5, 6, 7, 8]
        = some { cc := [1, 2, 3, 4, 5, 6, 7, 8], sc := none }
    ∧ srvr_cookie_parse (some [1, 2, 3, 4, 5, 6, 7, 8]) (some inbound0)
        = some (kr_error EINVAL, some inbound0)
    ∧ knot_edns_opt_cookie_parse [1, 2, 3, 4, 5, 6, 7, 8, 9] = none
    ∧ srvr_cookie_parse_simple (some [1, 2, 3, 4, 5, 6, 7, 8, 9]) (some inbound0) = none := by
  refine ⟨?_, by decide, by decide, by decide, by decide, by decide, by decide⟩
  intro data inb r h
  unfold srvr_cookie_parse_simple at h
  simp only [] at h
  cases hp : knot_edns_opt_cookie_parse data with
  | none => rw [hp] at h; simp at h
  | some cookies =>
    rw [hp] at h
    simp only [Option.some.injEq] at h
    rw [← h]

/-! ## The server cookie algorithms of `lib/cookies/alg_srvr.c` -/

theorem fnv_64a_buf_append (a b : Octets) (hval : Nat) :
    fnv_64a_buf (a ++ b) hval = fnv_64a_buf b (fnv_64a_buf a hval) := by
  simp [fnv_64a_buf, List.foldl_append]

/-- The address octets the full algorithms hash are those `kr_address_bytes` yields. -/
theorem clnt_address_octets (sa : Option sockaddr) :
    (match sa with
     | some a => (kr_address_bytes (some a)).getD []
     | none => []) = (kr_address_bytes sa).getD [] := by
  cases sa <;> rfl

/-- The result of `kr_srvr_cookie_alg_fnv64` when the guards pass, with the hash written as
one fold over the concatenated input. -/
theorem kr_srvr_cookie_alg_fnv64_eq (host : byte_order) (inp : kr_srvr_cookie_input)
    (cc out : Octets) (size : Nat)
    (h_cc : inp.clnt_cookie = some cc) (h_secret : inp.srvr_data.secret_data.length ≠ 0)
    (h_size : SRVR_FNV64_SIMPLE_HASH_SIZE ≤ size) :
    kr_srvr_cookie_alg_fnv64 host (some inp) (some out) (some size)
      = (kr_ok,
         some (wire_write_u32 (inp.nonce % 2 ^ 32) ++ wire_write_u32 (inp.time % 2 ^ 32)
               ++ host_u64_octets host
                 (fnv_64a_buf
                   ((kr_address_bytes inp.srvr_data.clnt_sockaddr).getD []
                    ++ host_u32_octets host (inp.nonce % 2 ^ 32)
                    ++ host_u32_octets host (inp.time % 2 ^ 32)
                    ++ cc.take 8 ++ inp.srvr_data.secret_data)
                   FNV1A_64_INIT)
               ++ out.drop 16),
         some 16) := by
  have hargs := srvr_cookie_alg_args_ok_some inp out size cc h_size h_cc h_secret
  simp only [kr_srvr_cookie_alg_fnv64, hargs, fnv_64a_buf_append, clnt_address_octets, h_cc,
    Option.getD_some, KNOT_OPT_COOKIE_CLNT]

/-- The result of `kr_srvr_cookie_alg_fnv64_simple` when the guards pass. -/
theorem kr_srvr_cookie_alg_fnv64_simple_eq (host : byte_order) (inp : kr_srvr_cookie_input)
    (cc out : Octets) (size : Nat)
    (h_cc : inp.clnt_cookie = some cc) (h_secret : inp.srvr_data.secret_data.length ≠ 0)
    (h_size : SRVR_FNV64_SIMPLE_HASH_SIZE ≤ size) :
    kr_srvr_cookie_alg_fnv64_simple host (some inp) (some out) (some size)
      = (kr_ok,
         some (host_u64_octets host
                 (fnv_64a_buf
                   ((kr_address_bytes inp.srvr_data.clnt_sockaddr).getD []
                    ++ cc.take 8 ++ inp.srvr_data.secret_data)
                   FNV1A_64_INIT)
               ++ out.drop 8),
         some 8) := by
  have hargs := srvr_cookie_alg_args_ok_some inp out size cc h_size h_cc h_secret
  simp only [kr_srvr_cookie_alg_fnv64_simple, hargs, fnv_64a_buf_append, h_cc,
    Option.getD_some, KNOT_OPT_COOKIE_CLNT]

/-- C27. FNV-64 full server cookie: for every input with a client cookie and a non-empty secret
and capacity at least 16, `kr_srvr_cookie_alg_fnv64` returns ok, sets `*sc_size` to 16
and writes nonce (u32 big-endian), time (u32 big-endian) and H, 16 octets in all, where
H is the 8 octets of the FNV-1a 64-bit hash started from `FNV1A_64_INIT` and folded
over the client address bytes (when an address is available), the 4 nonce octets,
the 4 time octets (both as they lie in the memory of the host), the 8 client-cookie
octets and the secret, in that order. -/
theorem kr_srvr_cookie_alg_fnv64_spec (host : byte_order) (inp : kr_srvr_cookie_input)
    (cc out : Octets) (size : Nat)
    (h_cc : inp.clnt_cookie = some cc) (h_secret : inp.srvr_data.secret_data.length ≠ 0)
    (h_size : 16 ≤ size) :
    ∃ H : Octets,
      kr_srvr_cookie_alg_fnv64 host (some inp) (some out) (some size)
        = (0,
           some (wire_write_u32 (inp.nonce % 2 ^ 32) ++ wire_write_u32 (inp.time % 2 ^ 32)
                 ++ H ++ out.drop 16),
           some 16)
      ∧ H = host_u64_octets host
              (fnv_64a_buf
                ((kr_address_bytes inp.srvr_data.clnt_sockaddr).getD []
                 ++ host_u32_octets host (inp.nonce % 2 ^ 32)
                 ++ host_u32_octets host (inp.time % 2 ^ 32)
                 ++ cc.take 8 ++ inp.srvr_data.secret_data)
                FNV1A_64_INIT)
      ∧ H.length = 8
      ∧ (wire_write_u32 (inp.nonce % 2 ^ 32) ++ wire_write_u32 (inp.time % 2 ^ 32)
          ++ H).length = 16
      ∧ wire_read_u32 (wire_write_u32 (inp.nonce % 2 ^ 32)) = inp.nonce % 2 ^ 32
      ∧ wire_read_u32 (wire_write_u32 (inp.time % 2 ^ 32)) = inp.time % 2 ^ 32
      ∧ (host_u32_octets host (inp.nonce % 2 ^ 32)).length = 4
      ∧ (host_u32_octets host (inp.time % 2 ^ 32)).length = 4
      ∧ (inp.srvr_data.clnt_sockaddr = none →
          (kr_address_bytes inp.srvr_data.clnt_sockaddr).getD [] = []) := by
  refine ⟨_, ?_, rfl, host_u64_octets_length _ _, ?_,
    wire_read_write_u32 _ (Nat.mod_lt _ (by norm_num)),
    wire_read_write_u32 _ (Nat.mod_lt _ (by norm_num)),
    host_u32_octets_length _ _, host_u32_octets_length _ _, ?_⟩
  · exact kr_srvr_cookie_alg_fnv64_eq host inp cc out size h_cc h_secret
      (by simp only [SRVR_FNV64_SIMPLE_HASH_SIZE]; omega)
  · simp [wire_write_u32_length, host_u64_octets_length]
  · intro h
    rw [h]
    rfl

theorem kr_srvr_cookie_alg_fnv64_spec_witness :
    srvrInput1.clnt_cookie = some [1, 2, 3, 4, 5, 6, 7, 8]
    ∧ srvrInput1.srvr_data.secret_data.length ≠ 0 ∧ 16 ≤ 32
    ∧ ∃ H : Octets,
      kr_srvr_cookie_alg_fnv64 byte_order.little_endian (some srvrInput1)
          (some (List.replicate 32 0)) (some 32)
        = (0,
           some (wire_write_u32 (srvrInput1.nonce % 2 ^ 32)
                 ++ wire_write_u32 (srvrInput1.time % 2 ^ 32)
                 ++ H ++ (List.replicate 32 0).drop 16),
           some 16)
      ∧ H = host_u64_octets byte_order.little_endian
              (fnv_64a_buf
                ((kr_address_bytes srvrInput1.srvr_data.clnt_sockaddr).getD []
                 ++ host_u32_octets byte_order.little_endian (srvrInput1.nonce % 2 ^ 32)
                 ++ host_u32_octets byte_order.little_endian (srvrInput1.time % 2 ^ 32)
                 ++ [1, 2, 3, 4, 5, 6, 7, 8].take 8 ++ srvrInput1.srvr_data.secret_data)
                FNV1A_64_INIT)
      ∧ H.length = 8
      ∧ (wire_write_u32 (srvrInput1.nonce % 2 ^ 32)
          ++ wire_write_u32 (srvrInput1.time % 2 ^ 32) ++ H).length = 16
      ∧ wire_read_u32 (wire_write_u32 (srvrInput1.nonce % 2 ^ 32)) = srvrInput1.nonce % 2 ^ 32
      ∧ wire_read_u32 (wire_write_u32 (srvrInput1.time % 2 ^ 32)) = srvrInput1.time % 2 ^ 32
      ∧ (host_u32_octets byte_order.little_endian (srvrInput1.nonce % 2 ^ 32)).length = 4
      ∧ (host_u32_octets byte_order.little_endian (srvrInput1.time % 2 ^ 32)).length = 4
      ∧ (srvrInput1.srvr_data.clnt_sockaddr = none →
          (kr_address_bytes srvrInput1.srvr_data.clnt_sockaddr).getD [] = []) :=
  ⟨by decide, by decide, by decide,
   kr_srvr_cookie_alg_fnv64_spec byte_order.little_endian srvrInput1 [1, 2, 3, 4, 5, 6, 7, 8]
     (List.replicate 32 0) 32 (by decide) (by decide) (by decide)⟩

/-- The result of `kr_srvr_cookie_alg_hmac_sha256_64` when the guards pass and the calls of the
digest library succeed with the digest `d`. -/
theorem kr_srvr_cookie_alg_hmac_sha256_64_eq (host : byte_order)
    (hmac_sha256 : Octets → Octets → Option Octets) (inp : kr_srvr_cookie_input)
    (cc out d : Octets) (size : Nat)
    (h_cc : inp.clnt_cookie = some cc) (h_secret : inp.srvr_data.secret_data.length ≠ 0)
    (h_size : SRVR_FNV64_SIMPLE_HASH_SIZE ≤ size)
    (h_hmac : hmac_sha256 inp.srvr_data.secret_data
        (cc.take 8 ++ host_u32_octets host (inp.nonce % 2 ^ 32)
         ++ host_u32_octets host (inp.time % 2 ^ 32)
         ++ (kr_address_bytes inp.srvr_data.clnt_sockaddr).getD []) = some d) :
    kr_srvr_cookie_alg_hmac_sha256_64 host hmac_sha256 (some inp) (some out) (some size)
      = (kr_ok,
         some (wire_write_u32 (inp.nonce % 2 ^ 32) ++ wire_write_u32 (inp.time % 2 ^ 32)
               ++ d.take 8 ++ out.drop 16),
         some 16) := by
  have hargs := srvr_cookie_alg_args_ok_some inp out size cc h_size h_cc h_secret
  simp only [kr_srvr_cookie_alg_hmac_sha256_64, hargs, clnt_address_octets, h_cc,
    Option.getD_some, KNOT_OPT_COOKIE_CLNT, h_hmac]

/-- The result of `kr_srvr_cookie_alg_hmac_sha256_64_simple` when the guards pass and the calls
of the digest library succeed with the digest `d`. -/
theorem kr_srvr_cookie_alg_hmac_sha256_64_simple_eq
    (hmac_sha256 : Octets → Octets → Option Octets) (inp : kr_srvr_cookie_input)
    (cc out d : Octets) (size : Nat)
    (h_cc : inp.clnt_cookie = some cc) (h_secret : inp.srvr_data.secret_data.length ≠ 0)
    (h_size : SRVR_FNV64_SIMPLE_HASH_SIZE ≤ size)
    (h_hmac : hmac_sha256 inp.srvr_data.secret_data
        (cc.take 8 ++ (kr_address_bytes inp.srvr_data.clnt_sockaddr).getD []) = some d) :
    kr_srvr_cookie_alg_hmac_sha256_64_simple hmac_sha256 (some inp) (some out) (some size)
      = (kr_ok, some (d.take 8 ++ out.drop 8), some 8) := by
  have hargs := srvr_cookie_alg_args_ok_some inp out size cc h_size h_cc h_secret
  simp only [kr_srvr_cookie_alg_hmac_sha256_64_simple, hargs, clnt_address_octets, h_cc,
    Option.getD_some, KNOT_OPT_COOKIE_CLNT, h_hmac]

/-- The blocks of a buffer that starts with two blocks of 4 octets and one of 8. -/
theorem written_blocks (w1 w2 h rest : Octets) (h1 : w1.length = 4) (h2 : w2.length = 4)
    (h3 : h.length = 8) :
    (w1 ++ w2 ++ h ++ rest).take 4 = w1
    ∧ ((w1 ++ w2 ++ h ++ rest).drop 4).take 4 = w2
    ∧ (w1 ++ w2 ++ h ++ rest).take 16 = w1 ++ w2 ++ h
    ∧ ((w1 ++ w2 ++ h ++ rest).take 16).drop 8 = h := by
  have h16 := take_16_blocks w1 w2 h rest h1 h2 h3
  have ha : w1 ++ w2 ++ h ++ rest = w1 ++ (w2 ++ (h ++ rest)) := by
    simp only [List.append_assoc]
  refine ⟨?_, ?_, h16, ?_⟩
  · rw [ha]; exact List.take_left' h1
  · rw [ha, List.drop_left' h1]; exact List.take_left' h2
  · rw [h16]; exact List.drop_left' (by simp [h1, h2])

/-- What `srvr_cookie_parse` reads from a client cookie followed by the first 16 octets of a
buffer holding nonce and time in network byte order and a hash of 8 octets. -/
theorem srvr_cookie_parse_written (cc h rest : Octets) (nonce time : Nat)
    (inb : kr_srvr_cookie_inbound) (h_cc : cc.length = 8) (h_nonce : nonce < 2 ^ 32)
    (h_time : time < 2 ^ 32) (hh : h.length = 8) :
    srvr_cookie_parse
        (some (cc ++ (wire_write_u32 nonce ++ wire_write_u32 time ++ h ++ rest).take 16))
        (some inb)
      = some (kr_ok, some { clnt_cookie := some cc, nonce := nonce, time := time,
                            hash_data := some h, hash_len := 8 }) := by
  rw [take_16_blocks _ _ h rest (wire_write_u32_length _) (wire_write_u32_length _) hh,
    srvr_cookie_parse_blocks cc _ _ h inb h_cc (wire_write_u32_length _)
      (wire_write_u32_length _) hh, wire_read_write_u32 nonce h_nonce,
    wire_read_write_u32 time h_time]

/-- C28. Hashed and emitted nonce and time: on a little-endian host `kr_srvr_cookie_alg_fnv64`
with nonce 1 and time 1480000000 writes the octets [0, 0, 0, 1, 88, 55, 2, 0] but hashes the octets
[1, 0, 0, 0, 0, 2, 55, 88] for nonce and time, and the hash it emits is not
the hash over the written octets. -/
theorem hashed_nonce_time_differ_little_endian :
    ∃ buf : Octets,
      kr_srvr_cookie_alg_fnv64 byte_order.little_endian (some srvrInput1)
          (some (List.replicate 32 0)) (some 32) = (kr_ok, some buf, some 16)
      ∧ srvrInput1.nonce = 1 ∧ srvrInput1.time = 1480000000
      ∧ buf.take 8 = [0, 0, 0, 1, 88, 55, 2, 0]
      ∧ host_u32_octets byte_order.little_endian 1
          ++ host_u32_octets byte_order.little_endian 1480000000
          = [1, 0, 0, 0, 0, 2, 55, 88]
      ∧ (buf.take 16).drop 8
          = host_u64_octets byte_order.little_endian
              (fnv_64a_buf
                ([192, 0, 2, 1] ++ [1, 0, 0, 0, 0, 2, 55, 88]
                 ++ [1, 2, 3, 4, 5, 6, 7, 8] ++ secretB.data)
                FNV1A_64_INIT)
      ∧ (buf.take 16).drop 8
          ≠ host_u64_octets byte_order.little_endian
              (fnv_64a_buf
                ([192, 0, 2, 1] ++ buf.take 8 ++ [1, 2, 3, 4, 5, 6, 7, 8] ++ secretB.data)
                FNV1A_64_INIT) :=
  ⟨_, rfl, rfl, rfl, by decide, by decide, by decide, by decide⟩

/-- Hashed nonce and time are the emitted nonce and time values: in both full
server-cookie algorithms, for every 8-octet client cookie, nonce and time (both
`uint32_t`), non-empty secret and capacity at least 16, the 8 octets written at the
start of the server cookie are nonce then time, each big-endian, and the octets fed
into the hash are the same two values as they lie in the memory of the host (equal to
the written octets on a big-endian host, their reverses on a little-endian host); a
verifier on a host of the same byte order that decodes the wire bytes with
`srvr_cookie_parse` and reruns the algorithm with the decoded nonce and time
recomputes the same 16 octets. -/
theorem hashed_nonce_time_spec (host : byte_order)
    (hmac_sha256 : Octets → Octets → Option Octets)
    (cc : Octets) (nonce time : Nat) (srvr_data : knot_sc_private)
    (out out2 : Octets) (size size2 : Nat) (inb : kr_srvr_cookie_inbound)
    (h_cc : cc.length = 8) (h_nonce : nonce < 2 ^ 32) (h_time : time < 2 ^ 32)
    (h_secret : srvr_data.secret_data.length ≠ 0) (h_size : 16 ≤ size) (h_size2 : 16 ≤ size2)
    (h_hmac : ∀ key msg, ∃ d, hmac_sha256 key msg = some d ∧ d.length = 32) :
    (∃ buf : Octets,
      kr_srvr_cookie_alg_fnv64 host (some { clnt_cookie := some cc, nonce := nonce, time := time, srvr_data := srvr_data })
          (some out) (some size) = (kr_ok, some buf, some 16)
      ∧ buf.take 4 = wire_write_u32 nonce
      ∧ (buf.drop 4).take 4 = wire_write_u32 time
      ∧ (buf.take 16).drop 8 = host_u64_octets host
            (fnv_64a_buf
              ((kr_address_bytes srvr_data.clnt_sockaddr).getD []
               ++ host_u32_octets host nonce ++ host_u32_octets host time
               ++ cc ++ srvr_data.secret_data)
              FNV1A_64_INIT)
      ∧ ∃ (inb1 : kr_srvr_cookie_inbound) (buf2 : Octets),
          srvr_cookie_parse (some (cc ++ buf.take 16)) (some inb) = some (kr_ok, some inb1)
          ∧ inb1.nonce = nonce ∧ inb1.time = time
          ∧ kr_srvr_cookie_alg_fnv64 host
              (some { clnt_cookie := inb1.clnt_cookie, nonce := inb1.nonce,
                      time := inb1.time, srvr_data := srvr_data })
              (some out2) (some size2) = (kr_ok, some buf2, some 16)
          ∧ buf2.take 16 = buf.take 16
          ∧ inb1.hash_data = some ((buf2.take 16).drop 8))
    ∧ (∃ buf : Octets,
      kr_srvr_cookie_alg_hmac_sha256_64 host hmac_sha256 (some { clnt_cookie := some cc, nonce := nonce, time := time, srvr_data := srvr_data })
          (some out) (some size) = (kr_ok, some buf, some 16)
      ∧ buf.take 4 = wire_write_u32 nonce
      ∧ (buf.drop 4).take 4 = wire_write_u32 time
      ∧ (buf.take 16).drop 8 = ((hmac_sha256 srvr_data.secret_data
              (cc ++ host_u32_octets host nonce ++ host_u32_octets host time
               ++ (kr_address_bytes srvr_data.clnt_sockaddr).getD [])).getD []).take 8
      ∧ ∃ (inb1 : kr_srvr_cookie_inbound) (buf2 : Octets),
          srvr_cookie_parse (some (cc ++ buf.take 16)) (some inb) = some (kr_ok, some inb1)
          ∧ inb1.nonce = nonce ∧ inb1.time = time
          ∧ kr_srvr_cookie_alg_hmac_sha256_64 host hmac_sha256
              (some { clnt_cookie := inb1.clnt_cookie, nonce := inb1.nonce,
                      time := inb1.time, srvr_data := srvr_data })
              (some out2) (some size2) = (kr_ok, some buf2, some 16)
          ∧ buf2.take 16 = buf.take 16
          ∧ inb1.hash_data = some ((buf2.take 16).drop 8))
    ∧ (host = byte_order.big_endian →
        host_u32_octets host nonce = wire_write_u32 nonce
        ∧ host_u32_octets host time = wire_write_u32 time)
    ∧ (host = byte_order.little_endian →
        host_u32_octets host nonce = (wire_write_u32 nonce).reverse
        ∧ host_u32_octets host time = (wire_write_u32 time).reverse) := by
  have hn : nonce % 2 ^ 32 = nonce := Nat.mod_eq_of_lt h_nonce
  have ht : time % 2 ^ 32 = time := Nat.mod_eq_of_lt h_time
  have hcc8 : cc.take 8 = cc := by rw [← h_cc]; exact List.take_length _
  have hs1 : SRVR_FNV64_SIMPLE_HASH_SIZE ≤ size := by
    simp only [SRVR_FNV64_SIMPLE_HASH_SIZE]; omega
  have hs2 : SRVR_FNV64_SIMPLE_HASH_SIZE ≤ size2 := by
    simp only [SRVR_FNV64_SIMPLE_HASH_SIZE]; omega
  have key : ∀ (alg : Option kr_srvr_cookie_input → Option Octets → Option Nat →
        Int × Option Octets × Option Nat) (h : Octets), h.length = 8 →
      (∀ (o : Octets) (sz : Nat), SRVR_FNV64_SIMPLE_HASH_SIZE ≤ sz →
        alg (some { clnt_cookie := some cc, nonce := nonce, time := time,
                    srvr_data := srvr_data }) (some o) (some sz)
          = (kr_ok, some (wire_write_u32 nonce ++ wire_write_u32 time ++ h ++ o.drop 16),
             some 16)) →
      ∃ buf : Octets,
        alg (some { clnt_cookie := some cc, nonce := nonce, time := time,
                    srvr_data := srvr_data }) (some out) (some size)
          = (kr_ok, some buf, some 16)
        ∧ buf.take 4 = wire_write_u32 nonce
        ∧ (buf.drop 4).take 4 = wire_write_u32 time
        ∧ (buf.take 16).drop 8 = h
        ∧ ∃ (inb1 : kr_srvr_cookie_inbound) (buf2 : Octets),
            srvr_cookie_parse (some (cc ++ buf.take 16)) (some inb) = some (kr_ok, some inb1)
            ∧ inb1.nonce = nonce ∧ inb1.time = time
            ∧ alg (some { clnt_cookie := inb1.clnt_cookie, nonce := inb1.nonce,
                          time := inb1.time, srvr_data := srvr_data })
                (some out2) (some size2) = (kr_ok, some buf2, some 16)
            ∧ buf2.take 16 = buf.take 16
            ∧ inb1.hash_data = some ((buf2.take 16).drop 8) := by
    intro alg h hh halg
    have hb := written_blocks (wire_write_u32 nonce) (wire_write_u32 time) h (out.drop 16)
      (wire_write_u32_length _) (wire_write_u32_length _) hh
    have hb2 := written_blocks (wire_write_u32 nonce) (wire_write_u32 time) h (out2.drop 16)
      (wire_write_u32_length _) (wire_write_u32_length _) hh
    refine ⟨_, halg out size hs1, hb.1, hb.2.1, hb.2.2.2, _, _,
      srvr_cookie_parse_written cc h (out.drop 16) nonce time inb h_cc h_nonce h_time hh,
      rfl, rfl, halg out2 size2 hs2, ?_, ?_⟩
    · rw [hb.2.2.1, hb2.2.2.1]
    · rw [hb2.2.2.2]
  refine ⟨?_, ?_, ?_, ?_⟩
  · refine key (kr_srvr_cookie_alg_fnv64 host) _ (host_u64_octets_length host _) ?_
    intro o sz hsz
    have := kr_srvr_cookie_alg_fnv64_eq host
      { clnt_cookie := some cc, nonce := nonce, time := time, srvr_data := srvr_data }
      cc o sz rfl h_secret hsz
    simp only [hn, ht, hcc8] at this
    exact this
  · obtain ⟨d, hd, hdl⟩ := h_hmac srvr_data.secret_data
      (cc ++ host_u32_octets host nonce ++ host_u32_octets host time
        ++ (kr_address_bytes srvr_data.clnt_sockaddr).getD [])
    rw [hd]
    refine key (kr_srvr_cookie_alg_hmac_sha256_64 host hmac_sha256) _ (by simp [hdl]) ?_
    intro o sz hsz
    have := kr_srvr_cookie_alg_hmac_sha256_64_eq host hmac_sha256
      { clnt_cookie := some cc, nonce := nonce, time := time, srvr_data := srvr_data }
      cc o d sz rfl h_secret hsz (by simp only [hn, ht, hcc8]; exact hd)
    simp only [hn, ht] at this
    exact this
  · intro h
    subst h
    exact ⟨rfl, rfl⟩
  · intro h
    subst h
    exact ⟨rfl, rfl⟩

theorem hashed_nonce_time_spec_witness :
    ([1, 2, 3, 4, 5, 6, 7, 8] : Octets).length = 8 ∧ 1 < 2 ^ 32 ∧ 1480000000 < 2 ^ 32
    ∧ srvrInput1.srvr_data.secret_data.length ≠ 0 ∧ 16 ≤ 32 ∧ 16 ≤ 16
    ∧ (∀ key msg, ∃ d, digestStandIn key msg = some d ∧ d.length = 32)
    ∧ (
    (∃ buf : Octets,
      kr_srvr_cookie_alg_fnv64 byte_order.little_endian (some { clnt_cookie := some [1, 2, 3, 4, 5, 6, 7, 8], nonce := 1, time := 1480000000, srvr_data := srvrInput1.srvr_data })
          (some (List.replicate 32 0)) (some 32) = (kr_ok, some buf, some 16)
      ∧ buf.take 4 = wire_write_u32 1
      ∧ (buf.drop 4).take 4 = wire_write_u32 1480000000
      ∧ (buf.take 16).drop 8 = host_u64_octets byte_order.little_endian
            (fnv_64a_buf
              ((kr_address_bytes srvrInput1.srvr_data.clnt_sockaddr).getD []
               ++ host_u32_octets byte_order.little_endian 1 ++ host_u32_octets byte_order.little_endian 1480000000
               ++ [1, 2, 3, 4, 5, 6, 7, 8] ++ srvrInput1.srvr_data.secret_data)
              FNV1A_64_INIT)
      ∧ ∃ (inb1 : kr_srvr_cookie_inbound) (buf2 : Octets),
          srvr_cookie_parse (some ([1, 2, 3, 4, 5, 6, 7, 8] ++ buf.take 16)) (some inbound0) = some (kr_ok, some inb1)
          ∧ inb1.nonce = 1 ∧ inb1.time = 1480000000
          ∧ kr_srvr_cookie_alg_fnv64 byte_order.little_endian
              (some { clnt_cookie := inb1.clnt_cookie, nonce := inb1.nonce,
                      time := inb1.time, srvr_data := srvrInput1.srvr_data })
              (some (List.replicate 16 255)) (some 16) = (kr_ok, some buf2, some 16)
          ∧ buf2.take 16 = buf.take 16
          ∧ inb1.hash_data = some ((buf2.take 16).drop 8))
    ∧ (∃ buf : Octets,
      kr_srvr_cookie_alg_hmac_sha256_64 byte_order.little_endian digestStandIn (some { clnt_cookie := some [1, 2, 3, 4, 5, 6, 7, 8], nonce := 1, time := 1480000000, srvr_data := srvrInput1.srvr_data })
          (some (List.replicate 32 0)) (some 32) = (kr_ok, some buf, some 16)
      ∧ buf.take 4 = wire_write_u32 1
      ∧ (buf.drop 4).take 4 = wire_write_u32 1480000000
      ∧ (buf.take 16).drop 8 = ((digestStandIn srvrInput1.srvr_data.secret_data
              ([1, 2, 3, 4, 5, 6, 7, 8] ++ host_u32_octets byte_order.little_endian 1 ++ host_u32_octets byte_order.little_endian 1480000000
               ++ (kr_address_bytes srvrInput1.srvr_data.clnt_sockaddr).getD [])).getD []).take 8
      ∧ ∃ (inb1 : kr_srvr_cookie_inbound) (buf2 : Octets),
          srvr_cookie_parse (some ([1, 2, 3, 4, 5, 6, 7, 8] ++ buf.take 16)) (some inbound0) = some (kr_ok, some inb1)
          ∧ inb1.nonce = 1 ∧ inb1.time = 1480000000
          ∧ kr_srvr_cookie_alg_hmac_sha256_64 byte_order.little_endian digestStandIn
              (some { clnt_cookie := inb1.clnt_cookie, nonce := inb1.nonce,
                      time := inb1.time, srvr_data := srvrInput1.srvr_data })
              (some (List.replicate 16 255)) (some 16) = (kr_ok, some buf2, some 16)
          ∧ buf2.take 16 = buf.take 16
          ∧ inb1.hash_data = some ((buf2.take 16).drop 8))
    ∧ (byte_order.little_endian = byte_order.big_endian →
        host_u32_octets byte_order.little_endian 1 = wire_write_u32 1
        ∧ host_u32_octets byte_order.little_endian 1480000000 = wire_write_u32 1480000000)
    ∧ (byte_order.little_endian = byte_order.little_endian →
        host_u32_octets byte_order.little_endian 1 = (wire_write_u32 1).reverse
        ∧ host_u32_octets byte_order.little_endian 1480000000 = (wire_write_u32 1480000000).reverse)) :=
  ⟨by decide, by decide, by decide, by decide, by decide, by decide,
   fun key msg => ⟨_, rfl, by simp; omega⟩,
   hashed_nonce_time_spec byte_order.little_endian digestStandIn [1, 2, 3, 4, 5, 6, 7, 8]
     1 1480000000 srvrInput1.srvr_data (List.replicate 32 0) (List.replicate 16 255) 32 16
     inbound0 (by decide) (by decide) (by decide) (by decide) (by decide) (by decide)
     (fun key msg => ⟨_, rfl, by simp; omega⟩)⟩

/-- C29, counterexample: with a client cookie and a non-empty secret but a capacity of 4
octets `kr_srvr_cookie_alg_fnv64_simple` returns `kr_error(EINVAL)` and leaves buffer
and `*sc_size` as they were. -/
theorem kr_srvr_cookie_alg_fnv64_simple_small_capacity :
    srvrInput1.clnt_cookie = some [1, 2, 3, 4, 5, 6, 7, 8]
    ∧ srvrInput1.srvr_data.secret_data.length = 8
    ∧ kr_srvr_cookie_alg_fnv64_simple byte_order.little_endian (some srvrInput1)
        (some [0, 0, 0, 0]) (some 4) = (kr_error EINVAL, some [0, 0, 0, 0], some 4)
    ∧ kr_error EINVAL = -22 ∧ kr_ok = 0 := by
  decide

/-- C29, amended. FNV-64 simple server cookie: for every input with a client cookie and a
non-empty secret and capacity `*sc_size` at least 8, `kr_srvr_cookie_alg_fnv64_simple`
returns ok, sets `*sc_size` to 8, and writes the 8 octets of the FNV-1a 64-bit hash
folded over client address bytes, 8 client-cookie octets and secret; the result does
not depend on the input's nonce or time fields. -/
theorem kr_srvr_cookie_alg_fnv64_simple_spec (host : byte_order) (inp : kr_srvr_cookie_input)
    (cc out : Octets) (size : Nat)
    (h_cc : inp.clnt_cookie = some cc) (h_secret : inp.srvr_data.secret_data.length ≠ 0)
    (h_size : 8 ≤ size) :
    ∃ H : Octets,
      kr_srvr_cookie_alg_fnv64_simple host (some inp) (some out) (some size)
        = (0, some (H ++ out.drop 8), some 8)
      ∧ H = host_u64_octets host
              (fnv_64a_buf
                ((kr_address_bytes inp.srvr_data.clnt_sockaddr).getD []
                 ++ cc.take 8 ++ inp.srvr_data.secret_data)
                FNV1A_64_INIT)
      ∧ H.length = 8
      ∧ ∀ nonce time : Nat,
          kr_srvr_cookie_alg_fnv64_simple host
              (some { inp with nonce := nonce, time := time }) (some out) (some size)
            = kr_srvr_cookie_alg_fnv64_simple host (some inp) (some out) (some size) := by
  refine ⟨_, ?_, rfl, host_u64_octets_length _ _, ?_⟩
  · exact kr_srvr_cookie_alg_fnv64_simple_eq host inp cc out size h_cc h_secret h_size
  · intro nonce time
    rw [kr_srvr_cookie_alg_fnv64_simple_eq host inp cc out size h_cc h_secret h_size,
      kr_srvr_cookie_alg_fnv64_simple_eq host { inp with nonce := nonce, time := time }
        cc out size h_cc h_secret h_size]

theorem kr_srvr_cookie_alg_fnv64_simple_spec_witness :
    srvrInput1.clnt_cookie = some [1, 2, 3, 4, 5, 6, 7, 8]
    ∧ srvrInput1.srvr_data.secret_data.length ≠ 0 ∧ 8 ≤ 8
    ∧ ∃ H : Octets,
      kr_srvr_cookie_alg_fnv64_simple byte_order.little_endian (some srvrInput1)
          (some (List.replicate 32 0)) (some 8)
        = (0, some (H ++ (List.replicate 32 0).drop 8), some 8)
      ∧ H = host_u64_octets byte_order.little_endian
              (fnv_64a_buf
                ((kr_address_bytes srvrInput1.srvr_data.clnt_sockaddr).getD []
                 ++ [1, 2, 3, 4, 5, 6, 7, 8].take 8 ++ srvrInput1.srvr_data.secret_data)
                FNV1A_64_INIT)
      ∧ H.length = 8
      ∧ ∀ nonce time : Nat,
          kr_srvr_cookie_alg_fnv64_simple byte_order.little_endian
              (some { srvrInput1 with nonce := nonce, time := time })
              (some (List.replicate 32 0)) (some 8)
            = kr_srvr_cookie_alg_fnv64_simple byte_order.little_endian (some srvrInput1)
                (some (List.replicate 32 0)) (some 8) :=
  ⟨by decide, by decide, by decide,
   kr_srvr_cookie_alg_fnv64_simple_spec byte_order.little_endian srvrInput1
     [1, 2, 3, 4, 5, 6, 7, 8] (List.replicate 32 0) 8 (by decide) (by decide) (by decide)⟩

/-- C30. HMAC-SHA256-64 server cookie: when the guards pass and the digest library succeeds
with a 32-octet digest, the hash part produced by `kr_srvr_cookie_alg_hmac_sha256_64`
is the leading 8 octets of HMAC-SHA256 keyed with the server secret over client
cookie (8), nonce (4), time (4) (both as they lie in the memory of the host) and
client address bytes, emitted after the 8-octet nonce/time block for a total of 16
octets; the simple variant emits only the leading 8 octets of HMAC-SHA256 keyed with
the secret over client cookie and client address bytes; and `sc_gen_hmac_sha256_64` of
`lib/cookies/alg_sha.c` returns 8 and writes the leading 8 octets of the digest over
client cookie, nonce block and client address bytes. -/
theorem kr_srvr_cookie_alg_hmac_sha256_64_spec (host : byte_order)
    (hmac_sha256 : Octets → Octets → Option Octets) (inp : kr_srvr_cookie_input)
    (cc out d ds : Octets) (size : Nat)
    (h_cc : inp.clnt_cookie = some cc) (h_secret : inp.srvr_data.secret_data.length ≠ 0)
    (h_size : 16 ≤ size)
    (h_full : hmac_sha256 inp.srvr_data.secret_data
        (cc.take 8 ++ host_u32_octets host (inp.nonce % 2 ^ 32)
         ++ host_u32_octets host (inp.time % 2 ^ 32)
         ++ (kr_address_bytes inp.srvr_data.clnt_sockaddr).getD []) = some d)
    (h_simple : hmac_sha256 inp.srvr_data.secret_data
        (cc.take 8 ++ (kr_address_bytes inp.srvr_data.clnt_sockaddr).getD []) = some ds)
    (h_d : d.length = 32) (h_ds : ds.length = 32) :
    kr_srvr_cookie_alg_hmac_sha256_64 host hmac_sha256 (some inp) (some out) (some size)
      = (0,
         some (wire_write_u32 (inp.nonce % 2 ^ 32) ++ wire_write_u32 (inp.time % 2 ^ 32)
               ++ d.take 8 ++ out.drop 16),
         some 16)
    ∧ (d.take 8).length = 8
    ∧ (wire_write_u32 (inp.nonce % 2 ^ 32) ++ wire_write_u32 (inp.time % 2 ^ 32)).length = 8
    ∧ (wire_write_u32 (inp.nonce % 2 ^ 32) ++ wire_write_u32 (inp.time % 2 ^ 32)
        ++ d.take 8).length = 16
    ∧ kr_srvr_cookie_alg_hmac_sha256_64_simple hmac_sha256 (some inp) (some out) (some size)
        = (0, some (ds.take 8 ++ out.drop 8), some 8)
    ∧ (ds.take 8).length = 8
    ∧ ∀ (digest : Octets → Octets → Octets) (input : knot_sc_input) (hash_out : Octets)
        (hash_len : Nat), input.cc.length ≠ 0 → input.srvr_data.secret_data.length ≠ 0 →
        8 ≤ hash_len →
        sc_gen_hmac_sha256_64 digest (some input) (some hash_out) hash_len
          = (8,
             some ((digest input.srvr_data.secret_data
                      (input.cc ++ input.nonce
                       ++ (match input.srvr_data.clnt_sockaddr with
                           | some sa => update_hash sa
                           | none => []))).take 8
                   ++ hash_out.drop 8)) := by
  have hs : SRVR_FNV64_SIMPLE_HASH_SIZE ≤ size := by
    simp only [SRVR_FNV64_SIMPLE_HASH_SIZE]; omega
  refine ⟨kr_srvr_cookie_alg_hmac_sha256_64_eq host hmac_sha256 inp cc out d size h_cc
      h_secret hs h_full, by simp [h_d], by simp [wire_write_u32_length],
    by simp [wire_write_u32_length, h_d],
    kr_srvr_cookie_alg_hmac_sha256_64_simple_eq hmac_sha256 inp cc out ds size h_cc
      h_secret hs h_simple, by simp [h_ds], ?_⟩
  intro digest input hash_out hash_len hcc hsec hlen
  have h1 : ¬ hash_len < 8 := by omega
  simp [sc_gen_hmac_sha256_64, h1, hcc, hsec]

theorem kr_srvr_cookie_alg_hmac_sha256_64_spec_witness :
    srvrInput1.clnt_cookie = some [1, 2, 3, 4, 5, 6, 7, 8]
    ∧ srvrInput1.srvr_data.secret_data.length ≠ 0 ∧ 16 ≤ 32
    ∧ digestStandIn srvrInput1.srvr_data.secret_data
        ([1, 2, 3, 4, 5, 6, 7, 8].take 8 ++ host_u32_octets byte_order.little_endian (srvrInput1.nonce % 2 ^ 32)
         ++ host_u32_octets byte_order.little_endian (srvrInput1.time % 2 ^ 32)
         ++ (kr_address_bytes srvrInput1.srvr_data.clnt_sockaddr).getD [])
        = some [1, 2, 3, 4, 5, 6, 7, 8, 1, 2, 3, 4, 5, 6, 7, 8, 1, 0, 0, 0, 0, 2, 55, 88,
          192, 0, 2, 1, 0, 0, 0, 0]
    ∧ digestStandIn srvrInput1.srvr_data.secret_data
        ([1, 2, 3, 4, 5, 6, 7, 8].take 8
         ++ (kr_address_bytes srvrInput1.srvr_data.clnt_sockaddr).getD [])
        = some [1, 2, 3, 4, 5, 6, 7, 8, 1, 2, 3, 4, 5, 6, 7, 8, 192, 0, 2, 1, 0, 0, 0, 0, 0, 0, 0, 0,
          0, 0, 0, 0]
    ∧ ([1, 2, 3, 4, 5, 6, 7, 8, 1, 2, 3, 4, 5, 6, 7, 8, 1, 0, 0, 0, 0, 2, 55, 88,
          192, 0, 2, 1, 0, 0, 0, 0] : Octets).length = 32
    ∧ ([1, 2, 3, 4, 5, 6, 7, 8, 1, 2, 3, 4, 5, 6, 7, 8, 192, 0, 2, 1, 0, 0, 0, 0, 0, 0, 0, 0,
          0, 0, 0, 0] : Octets).length = 32
    ∧ kr_srvr_cookie_alg_hmac_sha256_64 byte_order.little_endian digestStandIn
        (some srvrInput1) (some (List.replicate 32 0)) (some 32)
      = (0,
         some (wire_write_u32 (srvrInput1.nonce % 2 ^ 32)
               ++ wire_write_u32 (srvrInput1.time % 2 ^ 32)
               ++ ([1, 2, 3, 4, 5, 6, 7, 8, 1, 2, 3, 4, 5, 6, 7, 8, 1, 0, 0, 0, 0, 2, 55, 88,
          192, 0, 2, 1, 0, 0, 0, 0] : Octets).take 8 ++ (List.replicate 32 0).drop 16),
         some 16)
    ∧ (([1, 2, 3, 4, 5, 6, 7, 8, 1, 2, 3, 4, 5, 6, 7, 8, 1, 0, 0, 0, 0, 2, 55, 88,
          192, 0, 2, 1, 0, 0, 0, 0] : Octets).take 8).length = 8
    ∧ (wire_write_u32 (srvrInput1.nonce % 2 ^ 32)
        ++ wire_write_u32 (srvrInput1.time % 2 ^ 32)).length = 8
    ∧ (wire_write_u32 (srvrInput1.nonce % 2 ^ 32)
        ++ wire_write_u32 (srvrInput1.time % 2 ^ 32)
        ++ ([1, 2, 3, 4, 5, 6, 7, 8, 1, 2, 3, 4, 5, 6, 7, 8, 1, 0, 0, 0, 0, 2, 55, 88,
          192, 0, 2, 1, 0, 0, 0, 0] : Octets).take 8).length = 16
    ∧ kr_srvr_cookie_alg_hmac_sha256_64_simple digestStandIn (some srvrInput1)
        (some (List.replicate 32 0)) (some 32)
        = (0, some (([1, 2, 3, 4, 5, 6, 7, 8, 1, 2, 3, 4, 5, 6, 7, 8, 192, 0, 2, 1, 0, 0, 0, 0, 0, 0, 0, 0,
          0, 0, 0, 0] : Octets).take 8 ++ (List.replicate 32 0).drop 8), some 8)
    ∧ (([1, 2, 3, 4, 5, 6, 7, 8, 1, 2, 3, 4, 5, 6, 7, 8, 192, 0, 2, 1, 0, 0, 0, 0, 0, 0, 0, 0,
          0, 0, 0, 0] : Octets).take 8).length = 8
    ∧ ∀ (digest : Octets → Octets → Octets) (input : knot_sc_input) (hash_out : Octets)
        (hash_len : Nat), input.cc.length ≠ 0 → input.srvr_data.secret_data.length ≠ 0 →
        8 ≤ hash_len →
        sc_gen_hmac_sha256_64 digest (some input) (some hash_out) hash_len
          = (8,
             some ((digest input.srvr_data.secret_data
                      (input.cc ++ input.nonce
                       ++ (match input.srvr_data.clnt_sockaddr with
                           | some sa => update_hash sa
                           | none => []))).take 8
                   ++ hash_out.drop 8)) :=
  ⟨by decide, by decide, by decide, by decide, by decide, by decide, by decide,
   kr_srvr_cookie_alg_hmac_sha256_64_spec byte_order.little_endian digestStandIn
     srvrInput1 [1, 2, 3, 4, 5, 6, 7, 8] (List.replicate 32 0)
     [1, 2, 3, 4, 5, 6, 7, 8, 1, 2, 3, 4, 5, 6, 7, 8, 1, 0, 0, 0, 0, 2, 55, 88,
          192, 0, 2, 1, 0, 0, 0, 0]
     [1, 2, 3, 4, 5, 6, 7, 8, 1, 2, 3, 4, 5, 6, 7, 8, 192, 0, 2, 1, 0, 0, 0, 0, 0, 0, 0, 0,
          0, 0, 0, 0]
     32 (by decide) (by decide) (by decide) (by decide) (by decide) (by decide) (by decide)⟩

/-! ## The HMAC-SHA256-64 client cookie -/

/-- What `cc_gen_hmac_sha256_64` does when no guard fires. -/
theorem cc_gen_hmac_sha256_64_eq (hmac_sha256 : Octets → Octets → Octets)
    (inp : knot_cc_input) (out : Octets) (cc_len : Nat) (h_len : 8 ≤ cc_len)
    (h_addr : inp.clnt_sockaddr ≠ none ∨ inp.srvr_sockaddr ≠ none)
    (h_secret : inp.secret_data.length ≠ 0) :
    cc_gen_hmac_sha256_64 hmac_sha256 (some inp) (some out) cc_len
      = (8,
         some ((hmac_sha256 inp.secret_data
                  ((match inp.clnt_sockaddr with
                    | some sa => update_hash sa
                    | none => [])
                   ++ (match inp.srvr_sockaddr with
                       | some sa => update_hash sa
                       | none => []))).take 8
               ++ out.drop 8)) := by
  have h1 : ¬ cc_len < 8 := by omega
  have h2 : ¬ ((inp.clnt_sockaddr.isNone = true ∧ inp.srvr_sockaddr.isNone = true)
      ∨ inp.secret_data.length = 0) := by
    rintro (⟨hc, hs⟩ | h)
    · rcases h_addr with h | h
      · exact h (Option.isNone_iff_eq_none.mp hc)
      · exact h (Option.isNone_iff_eq_none.mp hs)
    · exact h_secret h
  simp only [cc_gen_hmac_sha256_64, KNOT_OPT_COOKIE_CLNT, h1, h2, if_false]

/-- When a guard of `cc_gen_hmac_sha256_64` fires it returns 0 and leaves the buffer. -/
theorem cc_gen_hmac_sha256_64_zero (hmac_sha256 : Octets → Octets → Octets)
    (input : Option knot_cc_input) (cc_out : Option Octets) (cc_len : Nat)
    (h : input = none ∨ cc_out = none ∨ cc_len < 8
          ∨ ∃ inp, input = some inp
              ∧ ((inp.clnt_sockaddr = none ∧ inp.srvr_sockaddr = none)
                  ∨ inp.secret_data.length = 0)) :
    cc_gen_hmac_sha256_64 hmac_sha256 input cc_out cc_len = (0, cc_out) := by
  cases input with
  | none => simp [cc_gen_hmac_sha256_64]
  | some inp =>
    cases cc_out with
    | none => simp [cc_gen_hmac_sha256_64]
    | some out =>
      by_cases h1 : cc_len < 8
      · simp [cc_gen_hmac_sha256_64, KNOT_OPT_COOKIE_CLNT, h1]
      · rcases h with h | h | h | ⟨inp1, hi, h⟩
        · exact absurd h (by simp)
        · exact absurd h (by simp)
        · exact absurd h h1
        · simp only [Option.some.injEq] at hi
          subst hi
          have h2 : (inp.clnt_sockaddr.isNone = true ∧ inp.srvr_sockaddr.isNone = true)
              ∨ inp.secret_data.length = 0 := by
            rcases h with ⟨hc, hs⟩ | h
            · exact Or.inl ⟨by rw [hc]; rfl, by rw [hs]; rfl⟩
            · exact Or.inr h
          simp only [cc_gen_hmac_sha256_64, KNOT_OPT_COOKIE_CLNT, h1, h2, if_false, if_true]

/-- C31. HMAC-SHA256-64 client cookie: `cc_gen_hmac_sha256_64` returns 8 and writes the leading
8 octets of HMAC-SHA256 keyed with the secret over client address bytes (if present)
followed by server address bytes (if present) exactly when the input and the output
buffer are non-null, `cc_len >= 8`, at least one of the two addresses is present and
the secret is non-empty; in every other case it returns 0 (and leaves the buffer). -/
theorem cc_gen_hmac_sha256_64_spec (hmac_sha256 : Octets → Octets → Octets)
    (input : Option knot_cc_input) (cc_out : Option Octets) (cc_len : Nat)
    (h_digest : ∀ key msg, (hmac_sha256 key msg).length = 32) :
    (∀ (inp : knot_cc_input) (out : Octets), input = some inp → cc_out = some out →
        8 ≤ cc_len → (inp.clnt_sockaddr ≠ none ∨ inp.srvr_sockaddr ≠ none) →
        inp.secret_data.length ≠ 0 →
        cc_gen_hmac_sha256_64 hmac_sha256 input cc_out cc_len
          = (8,
             some ((hmac_sha256 inp.secret_data
                      ((match inp.clnt_sockaddr with
                        | some sa => update_hash sa
                        | none => [])
                       ++ (match inp.srvr_sockaddr with
                           | some sa => update_hash sa
                           | none => []))).take 8
                   ++ out.drop 8))
        ∧ ((hmac_sha256 inp.secret_data
              ((match inp.clnt_sockaddr with
                | some sa => update_hash sa
                | none => [])
               ++ (match inp.srvr_sockaddr with
                   | some sa => update_hash sa
                   | none => []))).take 8).length = 8)
    ∧ ((input = none ∨ cc_out = none ∨ cc_len < 8
          ∨ ∃ inp, input = some inp
              ∧ ((inp.clnt_sockaddr = none ∧ inp.srvr_sockaddr = none)
                  ∨ inp.secret_data.length = 0)) →
        cc_gen_hmac_sha256_64 hmac_sha256 input cc_out cc_len = (0, cc_out))
    ∧ ((cc_gen_hmac_sha256_64 hmac_sha256 input cc_out cc_len).1 = 8 ↔
        ∃ (inp : knot_cc_input) (out : Octets), input = some inp ∧ cc_out = some out
          ∧ 8 ≤ cc_len ∧ (inp.clnt_sockaddr ≠ none ∨ inp.srvr_sockaddr ≠ none)
          ∧ inp.secret_data.length ≠ 0)
    ∧ ((cc_gen_hmac_sha256_64 hmac_sha256 input cc_out cc_len).1 = 8
        ∨ (cc_gen_hmac_sha256_64 hmac_sha256 input cc_out cc_len).1 = 0) := by
  have hA : ∀ (inp : knot_cc_input) (out : Octets), input = some inp → cc_out = some out →
      8 ≤ cc_len → (inp.clnt_sockaddr ≠ none ∨ inp.srvr_sockaddr ≠ none) →
      inp.secret_data.length ≠ 0 →
      cc_gen_hmac_sha256_64 hmac_sha256 input cc_out cc_len
        = (8,
           some ((hmac_sha256 inp.secret_data
                    ((match inp.clnt_sockaddr with
                      | some sa => update_hash sa
                      | none => [])
                     ++ (match inp.srvr_sockaddr with
                         | some sa => update_hash sa
                         | none => []))).take 8
                 ++ out.drop 8)) := by
    intro inp out hi ho hl ha hs
    rw [hi, ho]
    exact cc_gen_hmac_sha256_64_eq hmac_sha256 inp out cc_len hl ha hs
  have hB := cc_gen_hmac_sha256_64_zero hmac_sha256 input cc_out cc_len
  have hC : (cc_gen_hmac_sha256_64 hmac_sha256 input cc_out cc_len).1 = 8 ↔
      ∃ (inp : knot_cc_input) (out : Octets), input = some inp ∧ cc_out = some out
        ∧ 8 ≤ cc_len ∧ (inp.clnt_sockaddr ≠ none ∨ inp.srvr_sockaddr ≠ none)
        ∧ inp.secret_data.length ≠ 0 := by
    constructor
    · intro h8
      by_contra hne
      have hz : cc_gen_hmac_sha256_64 hmac_sha256 input cc_out cc_len = (0, cc_out) := by
        apply hB
        cases input with
        | none => exact Or.inl rfl
        | some inp =>
          cases cc_out with
          | none => exact Or.inr (Or.inl rfl)
          | some out =>
            by_cases hl : cc_len < 8
            · exact Or.inr (Or.inr (Or.inl hl))
            · refine Or.inr (Or.inr (Or.inr ⟨inp, rfl, ?_⟩))
              by_contra hcon
              apply hne
              refine ⟨inp, out, rfl, rfl, by omega, ?_, ?_⟩
              · by_contra hboth
                exact hcon (Or.inl ⟨by_contra (fun h => hboth (Or.inl h)),
                  by_contra (fun h => hboth (Or.inr h))⟩)
              · exact fun h => hcon (Or.inr h)
      rw [hz] at h8
      simp at h8
    · rintro ⟨inp, out, hi, ho, hl, ha, hs⟩
      rw [hA inp out hi ho hl ha hs]
  refine ⟨?_, hB, hC, ?_⟩
  · intro inp out hi ho hl ha hs
    refine ⟨hA inp out hi ho hl ha hs, ?_⟩
    simp [h_digest]
  · by_cases h8 : (cc_gen_hmac_sha256_64 hmac_sha256 input cc_out cc_len).1 = 8
    · exact Or.inl h8
    · right
      have hne := mt hC.mpr h8
      have hz : cc_gen_hmac_sha256_64 hmac_sha256 input cc_out cc_len = (0, cc_out) := by
        apply hB
        cases input with
        | none => exact Or.inl rfl
        | some inp =>
          cases cc_out with
          | none => exact Or.inr (Or.inl rfl)
          | some out =>
            by_cases hl : cc_len < 8
            · exact Or.inr (Or.inr (Or.inl hl))
            · refine Or.inr (Or.inr (Or.inr ⟨inp, rfl, ?_⟩))
              by_contra hcon
              apply hne
              refine ⟨inp, out, rfl, rfl, by omega, ?_, ?_⟩
              · by_contra hboth
                exact hcon (Or.inl ⟨by_contra (fun h => hboth (Or.inl h)),
                  by_contra (fun h => hboth (Or.inr h))⟩)
              · exact fun h => hcon (Or.inr h)
      rw [hz]

theorem cc_gen_hmac_sha256_64_spec_witness :
    (∀ key msg, (digestTotal key msg).length = 32)
    ∧ (
    (∀ (inp : knot_cc_input) (out : Octets), (some ccInput1) = some inp → (some (List.replicate 8 0)) = some out →
        8 ≤ 8 → (inp.clnt_sockaddr ≠ none ∨ inp.srvr_sockaddr ≠ none) →
        inp.secret_data.length ≠ 0 →
        cc_gen_hmac_sha256_64 digestTotal (some ccInput1) (some (List.replicate 8 0)) 8
          = (8,
             some ((digestTotal inp.secret_data
                      ((match inp.clnt_sockaddr with
                        | some sa => update_hash sa
                        | none => [])
                       ++ (match inp.srvr_sockaddr with
                           | some sa => update_hash sa
                           | none => []))).take 8
                   ++ out.drop 8))
        ∧ ((digestTotal inp.secret_data
              ((match inp.clnt_sockaddr with
                | some sa => update_hash sa
                | none => [])
               ++ (match inp.srvr_sockaddr with
                   | some sa => update_hash sa
                   | none => []))).take 8).length = 8)
    ∧ (((some ccInput1) = none ∨ (some (List.replicate 8 0)) = none ∨ 8 < 8
          ∨ ∃ inp, (some ccInput1) = some inp
              ∧ ((inp.clnt_sockaddr = none ∧ inp.srvr_sockaddr = none)
                  ∨ inp.secret_data.length = 0)) →
        cc_gen_hmac_sha256_64 digestTotal (some ccInput1) (some (List.replicate 8 0)) 8 = (0, (some (List.replicate 8 0))))
    ∧ ((cc_gen_hmac_sha256_64 digestTotal (some ccInput1) (some (List.replicate 8 0)) 8).1 = 8 ↔
        ∃ (inp : knot_cc_input) (out : Octets), (some ccInput1) = some inp ∧ (some (List.replicate 8 0)) = some out
          ∧ 8 ≤ 8 ∧ (inp.clnt_sockaddr ≠ none ∨ inp.srvr_sockaddr ≠ none)
          ∧ inp.secret_data.length ≠ 0)
    ∧ ((cc_gen_hmac_sha256_64 digestTotal (some ccInput1) (some (List.replicate 8 0)) 8).1 = 8
        ∨ (cc_gen_hmac_sha256_64 digestTotal (some ccInput1) (some (List.replicate 8 0)) 8).1 = 0)) :=
  ⟨fun key msg => by simp [digestTotal]; omega,
   cc_gen_hmac_sha256_64_spec digestTotal (some ccInput1) (some (List.replicate 8 0)) 8
     (fun key msg => by simp [digestTotal]; omega)⟩

/-! ## Capacity of the output buffer of the server cookie algorithms -/

/-- The guards of the server cookie algorithms let a call through only with a capacity of at
least `SRVR_FNV64_SIMPLE_HASH_SIZE`. -/
theorem srvr_cookie_alg_args_ok_size (input : Option kr_srvr_cookie_input)
    (sc_out : Option Octets) (sc_size : Option Nat) (inp : kr_srvr_cookie_input)
    (out : Octets) (size : Nat)
    (h : srvr_cookie_alg_args_ok input sc_out sc_size = some (inp, out, size)) :
    sc_size = some size ∧ SRVR_FNV64_SIMPLE_HASH_SIZE ≤ size := by
  unfold srvr_cookie_alg_args_ok at h
  cases input <;> cases sc_out <;> cases sc_size <;> simp only [] at h
  all_goals try (simp at h; done)
  rename_i i o sz
  by_cases hlt : sz < SRVR_FNV64_SIMPLE_HASH_SIZE
  · simp [hlt] at h
  · simp only [hlt, if_false] at h
    cases hcc : i.clnt_cookie with
    | none => rw [hcc] at h; simp at h
    | some c =>
      rw [hcc] at h
      simp only [] at h
      by_cases hs : i.srvr_data.secret_data.length = 0
      · simp [hs] at h
      · simp only [hs, if_false, Option.some.injEq, Prod.mk.injEq] at h
        obtain ⟨_, _, h3⟩ := h
        subst h3
        exact ⟨rfl, by omega⟩

/-- The simple FNV-64 variant reports 8 octets and only with a capacity of at least 8. -/
theorem kr_srvr_cookie_alg_fnv64_simple_capacity (host : byte_order)
    (input : Option kr_srvr_cookie_input) (sc_out : Option Octets) (size : Nat)
    (buf : Option Octets) (n : Option Nat)
    (h : kr_srvr_cookie_alg_fnv64_simple host input sc_out (some size) = (kr_ok, buf, n)) :
    n = some 8 ∧ 8 ≤ size := by
  unfold kr_srvr_cookie_alg_fnv64_simple at h
  cases ha : srvr_cookie_alg_args_ok input sc_out (some size) with
  | none =>
    rw [ha] at h
    simp [kr_error, kr_ok, EINVAL] at h
  | some r =>
    obtain ⟨inp, out, sz⟩ := r
    have hs := srvr_cookie_alg_args_ok_size input sc_out (some size) inp out sz ha
    rw [ha] at h
    simp only [Prod.mk.injEq, true_and] at h
    have h1 : size = sz := by simpa using hs.1
    refine ⟨h.2.symm, ?_⟩
    have := hs.2
    simp only [SRVR_FNV64_SIMPLE_HASH_SIZE] at this
    omega

/-- C32. Writes and the caller-supplied capacity: the full server cookie algorithms check the
capacity `*sc_size` against `SRVR_FNV64_SIMPLE_HASH_SIZE` (8) and then write 16 octets.
With a capacity of 8, a client cookie and a non-empty secret, `kr_srvr_cookie_alg_fnv64`
and `kr_srvr_cookie_alg_hmac_sha256_64` return success, have written 16 octets and
report `*sc_size = 16`, more than the capacity supplied; the simple FNV-64 variant
reports 8 octets and succeeds only with a capacity of at least 8. -/
theorem kr_srvr_cookie_alg_full_exceeds_capacity :
    SRVR_FNV64_SIMPLE_HASH_SIZE = 8
    ∧ (∃ buf : Octets,
        kr_srvr_cookie_alg_fnv64 byte_order.little_endian (some srvrInput1)
            (some (List.replicate 8 0)) (some 8) = (kr_ok, some buf, some 16)
        ∧ buf.length = 16 ∧ (List.replicate 8 0 : Octets).length = 8)
    ∧ (∃ buf : Octets,
        kr_srvr_cookie_alg_hmac_sha256_64 byte_order.little_endian digestStandIn
            (some srvrInput1) (some (List.replicate 8 0)) (some 8)
          = (kr_ok, some buf, some 16)
        ∧ buf.length = 16)
    ∧ (∃ buf : Octets,
        kr_srvr_cookie_alg_fnv64_simple byte_order.little_endian (some srvrInput1)
            (some (List.replicate 8 0)) (some 8) = (kr_ok, some buf, some 8)
        ∧ buf.length = 8)
    ∧ (∀ (host : byte_order) (input : Option kr_srvr_cookie_input) (sc_out : Option Octets)
        (size : Nat) (buf : Option Octets) (n : Option Nat),
        kr_srvr_cookie_alg_fnv64_simple host input sc_out (some size) = (kr_ok, buf, n) →
        n = some 8 ∧ 8 ≤ size) :=
  ⟨rfl, ⟨_, rfl, by decide, by decide⟩, ⟨_, rfl, by decide⟩, ⟨_, rfl, by decide⟩,
   kr_srvr_cookie_alg_fnv64_simple_capacity⟩

/-! ## Outbound cookie: `kr_request_put_cookie` -/

theorem reserved_data_eq (data : Octets) :
    (data ++ List.replicate data.length 0).take data.length = data :=
  List.take_left' rfl

theorem opt_rr_add_option_eq (opt_rr : knot_rrset) (option : edns_option) :
    opt_rr_add_option opt_rr option
      = (KNOT_EOK, { opt_rr with options := opt_rr.options ++ [option] }) := by
  simp [opt_rr_add_option, knot_edns_reserve_option, knot_edns_opt_get_code,
    knot_edns_opt_get_length, knot_edns_opt_get_data, reserved_data_eq]

theorem opt_rr_add_cookies_client_only (opt_rr : knot_rrset) (cc : Octets)
    (h_cc : cc.length = 8) :
    opt_rr_add_cookies opt_rr cc none
      = (KNOT_EOK,
         { opt_rr with
           options := opt_rr.options ++ [{ code := KNOT_EDNS_OPTION_COOKIE, data := cc }] }) := by
  have h8 : cc.take 8 = cc := by rw [← h_cc]; exact List.take_length _
  have h10 : (cc ++ [0, 0, 0, 0, 0, 0, 0, 0]).take 8 = cc := List.take_left' h_cc
  simp [opt_rr_add_cookies, knot_edns_opt_cookie_create, knot_edns_opt_cookie_data_len,
    knot_edns_reserve_option, KNOT_OPT_COOKIE_CLNT, h8, h10]

/-- The function `kr_request_put_cookie` behind its guards and assertions. -/
theorem kr_request_put_cookie_eq (cntrl : kr_clnt_cookie_settings) (cache : kr_cache)
    (clnt_sockaddr : Option sockaddr) (srvr : sockaddr) (pkt : knot_pkt)
    (opt_rr : knot_rrset) (csec : kr_cookie_secret) (calg : kr_clnt_cookie_alg_descr)
    (func : kr_clnt_cookie_input → Int × Octets)
    (h_opt : pkt.opt_rr = some opt_rr) (h_csec : cntrl.csec = some csec)
    (h_calg : cntrl.calg = some calg) (h_func : calg.func = some func)
    (h_ret : (func { clnt_sockaddr := clnt_sockaddr, srvr_sockaddr := some srvr,
                     secret_data := csec.data }).1 = kr_ok)
    (h_cur : pkt.current = KNOT_ADDITIONAL) :
    kr_request_put_cookie (some cntrl) (some cache) clnt_sockaddr (some srvr) (some pkt)
      = match peek_and_check_cc (some cache) (some srvr)
                (func { clnt_sockaddr := clnt_sockaddr, srvr_sockaddr := some srvr,
                        secret_data := csec.data }).2 with
        | none => none
        | some cached_cookie =>
          some
            ((knot_pkt_put
                { pkt with
                  opt_rr := some
                    (match cached_cookie with
                     | some cached => opt_rr_add_option opt_rr cached
                     | none => opt_rr_add_cookies opt_rr
                         (func { clnt_sockaddr := clnt_sockaddr, srvr_sockaddr := some srvr,
                                 secret_data := csec.data }).2 none).2,
                  additional_count := (pkt.additional_count + 2 ^ 16 - 1) % 2 ^ 16,
                  rrset_count := (pkt.rrset_count + 2 ^ 16 - 1) % 2 ^ 16,
                  size := (pkt.size + 2 ^ 64 - knot_edns_wire_size opt_rr % 2 ^ 64) % 2 ^ 64,
                  arcount := (pkt.arcount + 2 ^ 16 - 1) % 2 ^ 16 }
                (match cached_cookie with
                 | some cached => opt_rr_add_option opt_rr cached
                 | none => opt_rr_add_cookies opt_rr
                     (func { clnt_sockaddr := clnt_sockaddr, srvr_sockaddr := some srvr,
                             secret_data := csec.data }).2 none).2).1,
             some (knot_pkt_put
                { pkt with
                  opt_rr := some
                    (match cached_cookie with
                     | some cached => opt_rr_add_option opt_rr cached
                     | none => opt_rr_add_cookies opt_rr
                         (func { clnt_sockaddr := clnt_sockaddr, srvr_sockaddr := some srvr,
                                 secret_data := csec.data }).2 none).2,
                  additional_count := (pkt.additional_count + 2 ^ 16 - 1) % 2 ^ 16,
                  rrset_count := (pkt.rrset_count + 2 ^ 16 - 1) % 2 ^ 16,
                  size := (pkt.size + 2 ^ 64 - knot_edns_wire_size opt_rr % 2 ^ 64) % 2 ^ 64,
                  arcount := (pkt.arcount + 2 ^ 16 - 1) % 2 ^ 16 }
                (match cached_cookie with
                 | some cached => opt_rr_add_option opt_rr cached
                 | none => opt_rr_add_cookies opt_rr
                     (func { clnt_sockaddr := clnt_sockaddr, srvr_sockaddr := some srvr,
                             secret_data := csec.data }).2 none).2).2) := by
  simp only [kr_request_put_cookie, h_opt, h_csec, h_calg, h_func, h_ret, h_cur, ne_eq,
    not_true_eq_false, if_false]

theorem knot_pkt_put_opt_rr (pkt : knot_pkt) (rr : knot_rrset) :
    (knot_pkt_put pkt rr).2.opt_rr = pkt.opt_rr := by
  unfold knot_pkt_put
  split <;> rfl

/-- C34. Outbound without OPT: for every packet with no OPT record `kr_request_put_cookie`
returns `kr_ok()` and leaves the packet (section counts, rrset count, size, ARCOUNT)
unchanged, whatever the settings hold and whether or not there is a cache; with a
null settings pointer or a null packet it returns the negative `kr_error(EINVAL)`. -/
theorem kr_request_put_cookie_no_opt (cntrl : kr_clnt_cookie_settings)
    (cookie_cache : Option kr_cache) (clnt_sockaddr srvr_sockaddr : Option sockaddr)
    (pkt : knot_pkt) (h_opt : pkt.opt_rr = none) :
    kr_request_put_cookie (some cntrl) cookie_cache clnt_sockaddr srvr_sockaddr (some pkt)
      = some (0, some pkt)
    ∧ (∀ (cache : Option kr_cache) (clnt srvr : Option sockaddr) (p : Option knot_pkt),
        kr_request_put_cookie none cache clnt srvr p = some (kr_error EINVAL, p))
    ∧ (∀ (settings : Option kr_clnt_cookie_settings) (cache : Option kr_cache)
        (clnt srvr : Option sockaddr),
        kr_request_put_cookie settings cache clnt srvr none = some (kr_error EINVAL, none))
    ∧ kr_error EINVAL = -22 := by
  refine ⟨?_, ?_, ?_, by decide⟩
  · simp only [kr_request_put_cookie, h_opt, kr_ok]
  · intro cache clnt srvr p
    simp only [kr_request_put_cookie]
  · intro settings cache clnt srvr
    cases settings <;> simp only [kr_request_put_cookie]

theorem kr_request_put_cookie_no_opt_witness :
    kr_request_put_cookie (some clntSettingsNoSecret) none none (some upstream1)
        (some pktOutNoOpt) = some (0, some pktOutNoOpt)
    ∧ (∀ (cache : Option kr_cache) (clnt srvr : Option sockaddr) (p : Option knot_pkt),
        kr_request_put_cookie none cache clnt srvr p = some (kr_error EINVAL, p))
    ∧ (∀ (settings : Option kr_clnt_cookie_settings) (cache : Option kr_cache)
        (clnt srvr : Option sockaddr),
        kr_request_put_cookie settings cache clnt srvr none = some (kr_error EINVAL, none))
    ∧ kr_error EINVAL = -22 :=
  kr_request_put_cookie_no_opt clntSettingsNoSecret none none (some upstream1) pktOutNoOpt rfl

/-- C33, counterexample: for a packet with an OPT record and settings without secret
`kr_request_put_cookie` returns `kr_error(EINVAL)` and adds no option to the OPT
record. -/
theorem kr_request_put_cookie_no_secret :
    pktOutOpt.opt_rr = some { ext_rcode := 0, options := [] }
    ∧ clntSettingsNoSecret.csec = none
    ∧ kr_request_put_cookie (some clntSettingsNoSecret) (some cacheEmpty) none
        (some upstream1) (some pktOutOpt) = some (kr_error EINVAL, some pktOutOpt)
    ∧ kr_error EINVAL = -22 :=
  ⟨rfl, rfl, rfl, by decide⟩

/-- C33, amended. Outbound cookie selection: for every packet that has an OPT record and is
being written in the additional section, when the settings hold a secret and an
algorithm, the cache and the server address are non-null and the algorithm call
succeeds, `kr_request_put_cookie` computes the client cookie `cc` over client address,
server address and the secret of the settings; if the cache holds an option for the
server address whose first 8 value octets equal `cc`, that cached option (code,
length and value) is added to the OPT record verbatim; otherwise an option of
exactly 8 value octets consisting of `cc` alone is added. -/
theorem kr_request_put_cookie_spec (cntrl : kr_clnt_cookie_settings) (cache : kr_cache)
    (clnt_sockaddr : Option sockaddr) (srvr : sockaddr) (pkt : knot_pkt)
    (opt_rr : knot_rrset) (csec : kr_cookie_secret) (calg : kr_clnt_cookie_alg_descr)
    (func : kr_clnt_cookie_input → Int × Octets)
    (h_opt : pkt.opt_rr = some opt_rr) (h_csec : cntrl.csec = some csec)
    (h_calg : cntrl.calg = some calg) (h_func : calg.func = some func)
    (h_ret : (func
        { clnt_sockaddr := clnt_sockaddr, srvr_sockaddr := some srvr, secret_data := csec.data }).1 = kr_ok)
    (h_cc : (func
        { clnt_sockaddr := clnt_sockaddr, srvr_sockaddr := some srvr, secret_data := csec.data }).2.length = 8)
    (h_cur : pkt.current = KNOT_ADDITIONAL) :
    ∃ (ret : Int) (pkt1 : knot_pkt),
      kr_request_put_cookie (some cntrl) (some cache) clnt_sockaddr (some srvr) (some pkt)
        = some (ret, some pkt1)
      ∧ (∀ cached : edns_option, kr_cookie_cache_peek_cookie cache srvr = some cached →
          cached.data.take 8
            = (func
                { clnt_sockaddr := clnt_sockaddr, srvr_sockaddr := some srvr, secret_data := csec.data }).2 →
          pkt1.opt_rr = some { opt_rr with options := opt_rr.options ++ [cached] })
      ∧ ((∀ cached : edns_option, kr_cookie_cache_peek_cookie cache srvr = some cached →
            cached.data.take 8
              ≠ (func
                  { clnt_sockaddr := clnt_sockaddr, srvr_sockaddr := some srvr, secret_data := csec.data }).2) →
          pkt1.opt_rr = some
            { opt_rr with
              options := opt_rr.options
                ++ [{ code := KNOT_EDNS_OPTION_COOKIE,
                      data :=
                        (func
                          { clnt_sockaddr := clnt_sockaddr, srvr_sockaddr := some srvr, secret_data := csec.data }).2 }] })
      ∧ (ret = KNOT_EOK ∨ ret = KNOT_ESPACE) := by
  have hcc8 : (func
        { clnt_sockaddr := clnt_sockaddr, srvr_sockaddr := some srvr, secret_data := csec.data }).2.take 8
      = (func
        { clnt_sockaddr := clnt_sockaddr, srvr_sockaddr := some srvr, secret_data := csec.data }).2 := by
    rw [← h_cc]; exact List.take_length _
  have hput : ∀ (p : knot_pkt) (rr : knot_rrset),
      (knot_pkt_put p rr).1 = KNOT_EOK ∨ (knot_pkt_put p rr).1 = KNOT_ESPACE := by
    intro p rr
    unfold knot_pkt_put
    split
    · exact Or.inr rfl
    · exact Or.inl rfl
  rw [kr_request_put_cookie_eq cntrl cache clnt_sockaddr srvr pkt opt_rr csec calg func
    h_opt h_csec h_calg h_func h_ret h_cur]
  cases hpeek : kr_cookie_cache_peek_cookie cache srvr with
  | none =>
    simp only [peek_and_check_cc, hpeek]
    refine ⟨_, _, rfl, ?_, ?_, hput _ _⟩
    · intro cached hc
      exact absurd hc (by simp)
    · intro _
      rw [knot_pkt_put_opt_rr, opt_rr_add_cookies_client_only _ _ h_cc]
  | some cached0 =>
    by_cases hm : cached0.data.take 8
        = (func
        { clnt_sockaddr := clnt_sockaddr, srvr_sockaddr := some srvr, secret_data := csec.data }).2
    · have hm2 : (func
        { clnt_sockaddr := clnt_sockaddr, srvr_sockaddr := some srvr, secret_data := csec.data }).2.take KNOT_OPT_COOKIE_CLNT
          = (knot_edns_opt_get_data cached0).take KNOT_OPT_COOKIE_CLNT := by
        simp only [KNOT_OPT_COOKIE_CLNT, knot_edns_opt_get_data]
        rw [hcc8, hm]
      simp only [peek_and_check_cc, hpeek, hm2, if_true]
      refine ⟨_, _, rfl, ?_, ?_, hput _ _⟩
      · intro cached hc _
        simp only [Option.some.injEq] at hc
        subst hc
        rw [knot_pkt_put_opt_rr, opt_rr_add_option_eq]
      · intro hall
        exact absurd hm (hall cached0 rfl)
    · have hm2 : ¬ (func
        { clnt_sockaddr := clnt_sockaddr, srvr_sockaddr := some srvr, secret_data := csec.data }).2.take KNOT_OPT_COOKIE_CLNT
          = (knot_edns_opt_get_data cached0).take KNOT_OPT_COOKIE_CLNT := by
        simp only [KNOT_OPT_COOKIE_CLNT, knot_edns_opt_get_data]
        rw [hcc8]
        exact fun h => hm h.symm
      simp only [peek_and_check_cc, hpeek, hm2, if_false]
      refine ⟨_, _, rfl, ?_, ?_, hput _ _⟩
      · intro cached hc hmc
        simp only [Option.some.injEq] at hc
        subst hc
        exact absurd hmc hm
      · intro _
        rw [knot_pkt_put_opt_rr, opt_rr_add_cookies_client_only _ _ h_cc]

theorem kr_request_put_cookie_spec_witness :
    ∃ (ret : Int) (pkt1 : knot_pkt),
      kr_request_put_cookie (some clntSettingsFnv) (some cacheUpstream1) none (some upstream1) (some pktOutOpt)
        = some (ret, some pkt1)
      ∧ (∀ cached : edns_option, kr_cookie_cache_peek_cookie cacheUpstream1 upstream1 = some cached →
          cached.data.take 8
            = (clntFuncFnv
                { clnt_sockaddr := none, srvr_sockaddr := some upstream1, secret_data := secretA.data }).2 →
          pkt1.opt_rr = some { ({ ext_rcode := 0, options := [] } : knot_rrset) with options := ({ ext_rcode := 0, options := [] } : knot_rrset).options ++ [cached] })
      ∧ ((∀ cached : edns_option, kr_cookie_cache_peek_cookie cacheUpstream1 upstream1 = some cached →
            cached.data.take 8
              ≠ (clntFuncFnv
                  { clnt_sockaddr := none, srvr_sockaddr := some upstream1, secret_data := secretA.data }).2) →
          pkt1.opt_rr = some
            { ({ ext_rcode := 0, options := [] } : knot_rrset) with
              options := ({ ext_rcode := 0, options := [] } : knot_rrset).options
                ++ [{ code := KNOT_EDNS_OPTION_COOKIE,
                      data :=
                        (clntFuncFnv
                          { clnt_sockaddr := none, srvr_sockaddr := some upstream1, secret_data := secretA.data }).2 }] })
      ∧ (ret = KNOT_EOK ∨ ret = KNOT_ESPACE) :=
  kr_request_put_cookie_spec clntSettingsFnv cacheUpstream1 none upstream1 pktOutOpt
    { ext_rcode := 0, options := [] } secretA clntAlgFnv clntFuncFnv rfl rfl rfl rfl
    (by decide) (by decide) rfl

/-! ## Client side: the cookie cache under repeated responses -/

theorem edns_option_wire_length (opt : edns_option) :
    (edns_option_wire opt).length = 4 + opt.data.length := by
  simp [edns_option_wire]
  omega

/-- An option that `get_cookie_opt` returns for the address counts as cached. -/
theorem is_cookie_cached_self (cache : kr_cookie_lru_t) (sa : sockaddr) (opt : edns_option)
    (h : get_cookie_opt cache sa = some opt) : is_cookie_cached cache sa opt = true := by
  simp [is_cookie_cached, h]

/-- When an option with a value of at most 32 octets counts as cached, the cache returns an
option with the same octets. -/
theorem is_cookie_cached_wire (cache : kr_cookie_lru_t) (sa : sockaddr) (opt : edns_option)
    (h_len : opt.data.length ≤ 32) (h : is_cookie_cached cache sa opt = true) :
    ∃ cached : edns_option, get_cookie_opt cache sa = some cached
      ∧ edns_option_wire cached = edns_option_wire opt := by
  unfold is_cookie_cached at h
  cases hg : get_cookie_opt cache sa with
  | none => rw [hg] at h; simp at h
  | some cached =>
    rw [hg] at h
    simp only [] at h
    have hmax : KNOT_EDNS_OPTION_HDRLEN + knot_edns_opt_get_length cached
        ≤ KR_COOKIE_OPT_MAX_LEN := by
      unfold get_cookie_opt at hg
      cases hl : kr_cookie_lru_get cache sa with
      | none => rw [hl] at hg; simp at hg
      | some c =>
        rw [hl] at hg
        simp only [] at hg
        split at hg
        · exact absurd hg (by simp)
        · rename_i hle
          simp only [Option.some.injEq] at hg
          subst hg
          omega
    simp only [KNOT_EDNS_OPTION_HDRLEN, knot_edns_opt_get_length, KR_COOKIE_OPT_MAX_LEN,
      KNOT_OPT_COOKIE_CLNT, KNOT_OPT_COOKIE_SRVR_MAX] at hmax h
    have h1 : (4 + opt.data.length) % 2 ^ 16 = 4 + opt.data.length :=
      Nat.mod_eq_of_lt (by norm_num; omega)
    have h2 : (4 + cached.data.length) % 2 ^ 16 = 4 + cached.data.length :=
      Nat.mod_eq_of_lt (by norm_num; omega)
    simp only [h1, h2] at h
    by_cases hne : 4 + opt.data.length ≠ 4 + cached.data.length
    · simp [hne] at h
    · have heq : 4 + opt.data.length = 4 + cached.data.length := by omega
      simp only [hne, if_false, decide_eq_true_eq] at h
      have t1 : (edns_option_wire opt).take (4 + opt.data.length) = edns_option_wire opt := by
        rw [← edns_option_wire_length opt]; exact List.take_length _
      have t2 : (edns_option_wire cached).take (4 + opt.data.length)
          = edns_option_wire cached := by
        rw [heq, ← edns_option_wire_length cached]; exact List.take_length _
      rw [t1, t2] at h
      exact ⟨cached, rfl, h.symm⟩

/-- Reading the cache through `get_cookie_opt` after a store returns the stored option. -/
theorem get_cookie_opt_set (cache : kr_cookie_lru_t) (sa : sockaddr) (opt : edns_option)
    (h_size : KNOT_EDNS_OPTION_HDRLEN + knot_edns_opt_get_length opt ≤ KR_COOKIE_OPT_MAX_LEN)
    (h_cap : 0 < cache.capacity) :
    get_cookie_opt (kr_cookie_lru_set cache sa opt).2 sa = some opt := by
  unfold get_cookie_opt
  rw [kr_cookie_lru_get_set cache sa opt h_size h_cap]
  simp only []
  rw [if_neg (by omega)]

/-- An option whose value the parser accepts is not larger than `KR_COOKIE_OPT_MAX_LEN`. -/
theorem parsed_option_size (opt : edns_option) (cookies : knot_dns_cookies)
    (h : knot_edns_opt_cookie_parse (knot_edns_opt_get_data opt) = some cookies) :
    KNOT_EDNS_OPTION_HDRLEN + knot_edns_opt_get_length opt ≤ KR_COOKIE_OPT_MAX_LEN := by
  have := knot_edns_opt_cookie_parse_length _ _ h
  simp only [knot_edns_opt_get_data] at this
  simp only [KNOT_EDNS_OPTION_HDRLEN, knot_edns_opt_get_length, KR_COOKIE_OPT_MAX_LEN,
    KNOT_OPT_COOKIE_CLNT, KNOT_OPT_COOKIE_SRVR_MAX]
  omega

/-- The function `check_cookie_content_and_cache` for a response whose client cookie matches
the current secret: accepted, and stored unless it is cached already. -/
theorem check_cookie_content_and_cache_current (kr_cc_alg_get : Int → Option knot_cc_alg)
    (clnt_sett : kr_cookie_settings) (req : kr_request) (pkt_cookie_opt : edns_option)
    (cache : kr_cookie_lru_t) (cookies : knot_dns_cookies) (sc : Octets) (sa : sockaddr)
    (h_parse : knot_edns_opt_cookie_parse (knot_edns_opt_get_data pkt_cookie_opt)
      = some cookies)
    (h_sc : cookies.sc = some sc)
    (h_sa : passed_server_sockaddr req = some sa)
    (h_check : srvr_sockaddr_cc_check kr_cc_alg_get (some sa) cookies.cc clnt_sett = some 1) :
    check_cookie_content_and_cache kr_cc_alg_get clnt_sett req pkt_cookie_opt cache
      = some (true,
          if is_cookie_cached cache sa pkt_cookie_opt = false then
            (kr_cookie_lru_set cache sa pkt_cookie_opt).2
          else cache) := by
  simp only [check_cookie_content_and_cache, h_parse, h_sc, h_sa, h_check]
  by_cases hc : is_cookie_cached cache sa pkt_cookie_opt = false
  · simp [hc]
  · simp [hc]

/-- C35. Cache idempotence: for a response whose COOKIE option parses with a server cookie and
whose client cookie matches the current secret, and a cache with room for an entry,
`check_cookie_content_and_cache` accepts, and run a second time on the cache it left
it accepts again and leaves that cache exactly as it is: the second pass finds the
option already cached and does not call `kr_cookie_lru_set`; after the first pass
`get_cookie_opt` for the upstream address returns the octets of the received option
(the received option itself when the first pass stored it). -/
theorem check_cookie_content_and_cache_idempotent
    (kr_cc_alg_get : Int → Option knot_cc_alg)
    (clnt_sett : kr_cookie_settings) (req : kr_request) (pkt_cookie_opt : edns_option)
    (cache : kr_cookie_lru_t) (cookies : knot_dns_cookies) (sc : Octets) (sa : sockaddr)
    (h_parse : knot_edns_opt_cookie_parse (knot_edns_opt_get_data pkt_cookie_opt)
      = some cookies)
    (h_sc : cookies.sc = some sc)
    (h_sa : passed_server_sockaddr req = some sa)
    (h_check : srvr_sockaddr_cc_check kr_cc_alg_get (some sa) cookies.cc clnt_sett = some 1)
    (h_cap : 0 < cache.capacity) :
    ∃ cache1 : kr_cookie_lru_t,
      check_cookie_content_and_cache kr_cc_alg_get clnt_sett req pkt_cookie_opt cache = some (true, cache1)
      ∧ check_cookie_content_and_cache kr_cc_alg_get clnt_sett req pkt_cookie_opt cache1 = some (true, cache1)
      ∧ is_cookie_cached cache1 sa pkt_cookie_opt = true
      ∧ (∃ cached : edns_option, get_cookie_opt cache1 sa = some cached
          ∧ edns_option_wire cached = edns_option_wire pkt_cookie_opt)
      ∧ (is_cookie_cached cache sa pkt_cookie_opt = false →
          cache1 = (kr_cookie_lru_set cache sa pkt_cookie_opt).2
          ∧ get_cookie_opt cache1 sa = some pkt_cookie_opt)
      ∧ (is_cookie_cached cache sa pkt_cookie_opt = true → cache1 = cache) := by
  have hsize := parsed_option_size pkt_cookie_opt cookies h_parse
  have hlen : pkt_cookie_opt.data.length ≤ 32 :=
    knot_edns_opt_cookie_parse_length _ _ h_parse
  have hrun := check_cookie_content_and_cache_current kr_cc_alg_get clnt_sett req
    pkt_cookie_opt
  by_cases hc : is_cookie_cached cache sa pkt_cookie_opt = false
  · have hget := get_cookie_opt_set cache sa pkt_cookie_opt hsize h_cap
    have hself := is_cookie_cached_self _ sa pkt_cookie_opt hget
    refine ⟨(kr_cookie_lru_set cache sa pkt_cookie_opt).2, ?_, ?_, hself,
      ⟨pkt_cookie_opt, hget, rfl⟩, fun _ => ⟨rfl, hget⟩, ?_⟩
    · rw [hrun cache cookies sc sa h_parse h_sc h_sa h_check, if_pos hc]
    · rw [hrun _ cookies sc sa h_parse h_sc h_sa h_check, if_neg (by simp [hself])]
    · intro ht
      rw [ht] at hc
      exact absurd hc (by simp)
  · have ht : is_cookie_cached cache sa pkt_cookie_opt = true := by
      cases h : is_cookie_cached cache sa pkt_cookie_opt
      · exact absurd h hc
      · rfl
    refine ⟨cache, ?_, ?_, ht, is_cookie_cached_wire cache sa pkt_cookie_opt hlen ht,
      fun h => absurd h hc, fun _ => rfl⟩
    · rw [hrun cache cookies sc sa h_parse h_sc h_sa h_check, if_neg hc]
    · rw [hrun cache cookies sc sa h_parse h_sc h_sa h_check, if_neg hc]

theorem check_cookie_content_and_cache_idempotent_witness :
    ∃ cache1 : kr_cookie_lru_t,
      check_cookie_content_and_cache kr_cc_alg_get_fnv settingsA (requestWith query1 none answerEdns) responseBadcookieOpt lruEmpty = some (true, cache1)
      ∧ check_cookie_content_and_cache kr_cc_alg_get_fnv settingsA (requestWith query1 none answerEdns) responseBadcookieOpt cache1 = some (true, cache1)
      ∧ is_cookie_cached cache1 upstream1 responseBadcookieOpt = true
      ∧ (∃ cached : edns_option, get_cookie_opt cache1 upstream1 = some cached
          ∧ edns_option_wire cached = edns_option_wire responseBadcookieOpt)
      ∧ (is_cookie_cached lruEmpty upstream1 responseBadcookieOpt = false →
          cache1 = (kr_cookie_lru_set lruEmpty upstream1 responseBadcookieOpt).2
          ∧ get_cookie_opt cache1 upstream1 = some responseBadcookieOpt)
      ∧ (is_cookie_cached lruEmpty upstream1 responseBadcookieOpt = true → cache1 = lruEmpty) :=
  check_cookie_content_and_cache_idempotent kr_cc_alg_get_fnv settingsA
    (requestWith query1 none answerEdns) responseBadcookieOpt lruEmpty
    { cc := ccUpstream1, sc := some [0, 0, 0, 7, 0, 0, 3, 232, 1, 1, 1, 1, 1, 1, 1, 1] }
    [0, 0, 0, 7, 0, 0, 3, 232, 1, 1, 1, 1, 1, 1, 1, 1] upstream1
    (by decide) rfl (by decide) (by decide) (by decide)

theorem kr_cookie_lru_set_entries (cache : kr_cookie_lru_t) (sa : sockaddr) (opt : edns_option)
    (e : sockaddr × edns_option) (h : e ∈ (kr_cookie_lru_set cache sa opt).2.entries) :
    e ∈ cache.entries
    ∨ (e = (sa, opt)
        ∧ KNOT_EDNS_OPTION_HDRLEN + knot_edns_opt_get_length opt ≤ KR_COOKIE_OPT_MAX_LEN) := by
  unfold kr_cookie_lru_set at h
  split at h
  · exact Or.inl h
  · rename_i hle
    have h1 := List.mem_of_mem_take h
    rcases List.mem_cons.mp h1 with h2 | h2
    · exact Or.inr ⟨h2, by omega⟩
    · exact Or.inl (List.mem_filter.mp h2).1

/-- C36. The cache never admits an oversize option: every entry of the cache after
`check_cookie_content_and_cache` was there before or is the received option, stored
only after `knot_edns_opt_cookie_parse` accepted its value, with a total size (4-octet
header plus value length) of at most `KR_COOKIE_OPT_MAX_LEN`; a cache without oversize
entries stays so; and `get_cookie_opt` returns NULL for a cached entry whose header
plus length exceeds `KR_COOKIE_OPT_MAX_LEN`, so that what it returns is never
oversize. -/
theorem check_cookie_content_and_cache_size (kr_cc_alg_get : Int → Option knot_cc_alg)
    (clnt_sett : kr_cookie_settings) (req : kr_request) (pkt_cookie_opt : edns_option)
    (cache cache1 : kr_cookie_lru_t) (b : Bool)
    (h : check_cookie_content_and_cache kr_cc_alg_get clnt_sett req pkt_cookie_opt cache
        = some (b, cache1)) :
    (∀ e ∈ cache1.entries,
        e ∈ cache.entries
        ∨ (e.2 = pkt_cookie_opt
            ∧ KNOT_EDNS_OPTION_HDRLEN + knot_edns_opt_get_length pkt_cookie_opt ≤ KR_COOKIE_OPT_MAX_LEN
            ∧ (knot_edns_opt_cookie_parse (knot_edns_opt_get_data pkt_cookie_opt)).isSome = true))
    ∧ ((∀ e ∈ cache.entries,
          KNOT_EDNS_OPTION_HDRLEN + knot_edns_opt_get_length e.2 ≤ KR_COOKIE_OPT_MAX_LEN) →
        ∀ e ∈ cache1.entries,
          KNOT_EDNS_OPTION_HDRLEN + knot_edns_opt_get_length e.2 ≤ KR_COOKIE_OPT_MAX_LEN)
    ∧ (∀ (c : kr_cookie_lru_t) (sa : sockaddr) (cached : edns_option),
        kr_cookie_lru_get c sa = some cached →
        KNOT_EDNS_OPTION_HDRLEN + knot_edns_opt_get_length cached > KR_COOKIE_OPT_MAX_LEN →
        get_cookie_opt c sa = none)
    ∧ (∀ (c : kr_cookie_lru_t) (sa : sockaddr) (r : edns_option),
        get_cookie_opt c sa = some r →
        KNOT_EDNS_OPTION_HDRLEN + knot_edns_opt_get_length r ≤ KR_COOKIE_OPT_MAX_LEN)
    ∧ KR_COOKIE_OPT_MAX_LEN = 44 := by
  have hA : ∀ e ∈ cache1.entries,
      e ∈ cache.entries
      ∨ (e.2 = pkt_cookie_opt
          ∧ KNOT_EDNS_OPTION_HDRLEN + knot_edns_opt_get_length pkt_cookie_opt
              ≤ KR_COOKIE_OPT_MAX_LEN
          ∧ (knot_edns_opt_cookie_parse (knot_edns_opt_get_data pkt_cookie_opt)).isSome
              = true) := by
    intro e he
    rcases check_cookie_content_and_cache_cases kr_cc_alg_get clnt_sett req pkt_cookie_opt
      cache cache1 b h with ⟨_, hc⟩ | ⟨_, hc⟩ | ⟨_, cookies, sa, hp, _, _, hc⟩
    · rw [hc] at he; exact Or.inl he
    · rw [hc] at he; exact Or.inl he
    · rw [hc] at he
      rcases kr_cookie_lru_set_entries cache sa pkt_cookie_opt e he with h1 | ⟨h1, h2⟩
      · exact Or.inl h1
      · exact Or.inr ⟨by rw [h1], h2, by rw [hp]; rfl⟩
  refine ⟨hA, ?_, ?_, ?_, by decide⟩
  · intro hall e he
    rcases hA e he with h1 | ⟨h1, h2, _⟩
    · exact hall e h1
    · rw [h1]; exact h2
  · intro c sa cached hg hbig
    simp only [get_cookie_opt, hg, hbig, if_true]
  · intro c sa r hg
    unfold get_cookie_opt at hg
    cases hl : kr_cookie_lru_get c sa with
    | none => rw [hl] at hg; simp at hg
    | some cached =>
      rw [hl] at hg
      simp only [] at hg
      split at hg
      · exact absurd hg (by simp)
      · simp only [Option.some.injEq] at hg
        subst hg
        omega

theorem check_cookie_content_and_cache_size_witness :
    (∀ e ∈ lruUpstream1.entries,
        e ∈ lruEmpty.entries
        ∨ (e.2 = responseBadcookieOpt
            ∧ KNOT_EDNS_OPTION_HDRLEN + knot_edns_opt_get_length responseBadcookieOpt ≤ KR_COOKIE_OPT_MAX_LEN
            ∧ (knot_edns_opt_cookie_parse (knot_edns_opt_get_data responseBadcookieOpt)).isSome = true))
    ∧ ((∀ e ∈ lruEmpty.entries,
          KNOT_EDNS_OPTION_HDRLEN + knot_edns_opt_get_length e.2 ≤ KR_COOKIE_OPT_MAX_LEN) →
        ∀ e ∈ lruUpstream1.entries,
          KNOT_EDNS_OPTION_HDRLEN + knot_edns_opt_get_length e.2 ≤ KR_COOKIE_OPT_MAX_LEN)
    ∧ (∀ (c : kr_cookie_lru_t) (sa : sockaddr) (cached : edns_option),
        kr_cookie_lru_get c sa = some cached →
        KNOT_EDNS_OPTION_HDRLEN + knot_edns_opt_get_length cached > KR_COOKIE_OPT_MAX_LEN →
        get_cookie_opt c sa = none)
    ∧ (∀ (c : kr_cookie_lru_t) (sa : sockaddr) (r : edns_option),
        get_cookie_opt c sa = some r →
        KNOT_EDNS_OPTION_HDRLEN + knot_edns_opt_get_length r ≤ KR_COOKIE_OPT_MAX_LEN)
    ∧ KR_COOKIE_OPT_MAX_LEN = 44 :=
  check_cookie_content_and_cache_size kr_cc_alg_get_fnv settingsA
    (requestWith query1 none answerEdns) responseBadcookieOpt lruEmpty lruUpstream1 true
    (by decide)

/-! ## Client side: progress of the BADCOOKIE recovery -/

theorem or_two_pow_testBit (f i k : Nat) (h : k ≠ i) :
    (f ||| 2 ^ i).testBit k = f.testBit k := by
  simp [Nat.testBit_or, Nat.testBit_two_pow, Ne.symm h]

theorem clear_then_set_testBit (f i j k : Nat) (hf : f < 2 ^ 32) (hi : k ≠ i) (hj : k ≠ j) :
    ((f &&& ((2 ^ 32 - 1) ^^^ 2 ^ i)) ||| 2 ^ j).testBit k = f.testBit k := by
  simp only [Nat.testBit_or, Nat.testBit_and, Nat.testBit_xor, Nat.testBit_two_pow,
    Nat.testBit_two_pow_sub_one]
  by_cases hk : k < 32
  · simp [hk, Ne.symm hi, Ne.symm hj]
  · have hz : f.testBit k = false :=
      Nat.testBit_lt_two_pow (Nat.lt_of_lt_of_le hf (Nat.pow_le_pow_right (by decide)
        (by omega)))
    simp [hz, Ne.symm hj]

/-- The BADCOOKIE branch of `check_response`, behind the gate and the validation. -/
theorem check_response_badcookie_eq (kr_cc_alg_get : Int → Option knot_cc_alg)
    (ctx_state : Nat) (req : kr_request) (pkt : knot_pkt_t) (pkt_cookie_opt : edns_option)
    (cache : kr_cookie_lru_t)
    (h_enabled : req.ctx.cookie_ctx.clnt.enabled = true)
    (h_udp : req.current_query.flags &&& QUERY_TCP = 0)
    (h_opt : response_cookie_opt pkt = some pkt_cookie_opt)
    (h_valid : check_cookie_content_and_cache kr_cc_alg_get req.ctx.cookie_ctx.clnt req
        pkt_cookie_opt req.ctx.cache_cookie = some (true, cache))
    (h_rcode : knot_pkt_get_ext_rcode pkt = KNOT_RCODE_BADCOOKIE) :
    check_response kr_cc_alg_get ctx_state req pkt
      = match (if req.current_query.flags &&& QUERY_BADCOOKIE_AGAIN = 0 then
                 kr_rplan_push req.rplan req.current_query.parent req.current_query.sname
                   req.current_query.sclass req.current_query.stype
               else none) with
        | some rplan =>
          some (KNOT_STATE_CONSUME,
            { req with
              ctx := { req.ctx with cache_cookie := cache },
              rplan := rplan,
              current_query := { req.current_query with
                flags := req.current_query.flags ||| QUERY_BADCOOKIE_AGAIN } })
        | none =>
          some (KNOT_STATE_CONSUME,
            { req with
              ctx := { req.ctx with cache_cookie := cache },
              current_query := { req.current_query with
                flags := (req.current_query.flags &&& (FLAGS_MASK ^^^ QUERY_BADCOOKIE_AGAIN))
                           ||| QUERY_TCP } }) := by
  simp only [check_response, h_enabled, h_udp, h_opt, h_valid, h_rcode]
  simp

/-- A second BADCOOKIE response on a query that has `QUERY_TCP` set or `QUERY_BADCOOKIE_AGAIN`
set ends with `QUERY_TCP` set and `QUERY_BADCOOKIE_AGAIN` clear. -/
theorem check_response_badcookie_after (kr_cc_alg_get : Int → Option knot_cc_alg)
    (state2 : Nat) (req1 : kr_request) (pkt2 : knot_pkt_t) (opt2 : edns_option)
    (cache2 : kr_cookie_lru_t)
    (h_enabled : req1.ctx.cookie_ctx.clnt.enabled = true)
    (h_one : (req1.current_query.flags &&& QUERY_BADCOOKIE_AGAIN ≠ 0
            ∧ req1.current_query.flags &&& QUERY_TCP = 0)
          ∨ (req1.current_query.flags &&& QUERY_BADCOOKIE_AGAIN = 0
              ∧ req1.current_query.flags &&& QUERY_TCP ≠ 0))
    (h_opt : response_cookie_opt pkt2 = some opt2)
    (h_valid : check_cookie_content_and_cache kr_cc_alg_get req1.ctx.cookie_ctx.clnt req1 opt2
        req1.ctx.cache_cookie = some (true, cache2))
    (h_rcode : knot_pkt_get_ext_rcode pkt2 = KNOT_RCODE_BADCOOKIE) :
    ∃ (s2 : Nat) (req2 : kr_request),
      check_response kr_cc_alg_get state2 req1 pkt2 = some (s2, req2)
      ∧ req2.current_query.flags &&& QUERY_TCP ≠ 0
      ∧ req2.current_query.flags &&& QUERY_BADCOOKIE_AGAIN = 0 := by
  rcases h_one with ⟨hagain, htcp⟩ | ⟨hagain, htcp⟩
  · rw [check_response_badcookie_eq kr_cc_alg_get state2 req1 pkt2 opt2 cache2 h_enabled htcp
      h_opt h_valid h_rcode, if_neg hagain]
    exact ⟨_, _, rfl, flags_fallback_tcp_set _, flags_fallback_again_clear _⟩
  · refine ⟨state2, req1, ?_, htcp, hagain⟩
    simp only [check_response, htcp, ne_eq, not_false_eq_true, or_true, if_true]

/-- C37. BADCOOKIE recovery makes progress toward the reliable transport: for every response
that passes the gate (client cookies enabled, `QUERY_TCP` clear) and the validation and
has extended RCODE 23, after `check_response` exactly one of `QUERY_BADCOOKIE_AGAIN` and
`QUERY_TCP` is set on the query, all other bits of the 32-bit flag word are unchanged,
and `QUERY_TCP` is set whenever `QUERY_BADCOOKIE_AGAIN` was already set or `kr_rplan_push`
returned no query; a second such response for the query ends with `QUERY_TCP` set and
`QUERY_BADCOOKIE_AGAIN` clear. -/
theorem check_response_badcookie_progress (kr_cc_alg_get : Int → Option knot_cc_alg)
    (ctx_state : Nat) (req : kr_request) (pkt : knot_pkt_t) (pkt_cookie_opt : edns_option)
    (cache : kr_cookie_lru_t)
    (h_enabled : req.ctx.cookie_ctx.clnt.enabled = true)
    (h_udp : req.current_query.flags &&& QUERY_TCP = 0)
    (h_opt : response_cookie_opt pkt = some pkt_cookie_opt)
    (h_valid : check_cookie_content_and_cache kr_cc_alg_get req.ctx.cookie_ctx.clnt req
        pkt_cookie_opt req.ctx.cache_cookie = some (true, cache))
    (h_rcode : knot_pkt_get_ext_rcode pkt = KNOT_RCODE_BADCOOKIE)
    (h_flags : req.current_query.flags < 2 ^ 32) :
    ∃ req1 : kr_request,
      check_response kr_cc_alg_get ctx_state req pkt = some (KNOT_STATE_CONSUME, req1)
      ∧ ((req1.current_query.flags &&& QUERY_BADCOOKIE_AGAIN ≠ 0
            ∧ req1.current_query.flags &&& QUERY_TCP = 0)
          ∨ (req1.current_query.flags &&& QUERY_BADCOOKIE_AGAIN = 0
              ∧ req1.current_query.flags &&& QUERY_TCP ≠ 0))
      ∧ QUERY_TCP = 2 ^ 4 ∧ QUERY_BADCOOKIE_AGAIN = 2 ^ 22
      ∧ (∀ k : Nat, k ≠ 4 → k ≠ 22 →
          req1.current_query.flags.testBit k = req.current_query.flags.testBit k)
      ∧ ((req.current_query.flags &&& QUERY_BADCOOKIE_AGAIN ≠ 0
            ∨ kr_rplan_push req.rplan req.current_query.parent
                req.current_query.sname req.current_query.sclass
                req.current_query.stype = none) →
          req1.current_query.flags &&& QUERY_TCP ≠ 0
          ∧ req1.current_query.flags &&& QUERY_BADCOOKIE_AGAIN = 0)
      ∧ (∀ (state2 : Nat) (pkt2 : knot_pkt_t) (opt2 : edns_option) (cache2 : kr_cookie_lru_t),
          response_cookie_opt pkt2 = some opt2 →
          check_cookie_content_and_cache kr_cc_alg_get req1.ctx.cookie_ctx.clnt req1 opt2
            req1.ctx.cache_cookie = some (true, cache2) →
          knot_pkt_get_ext_rcode pkt2 = KNOT_RCODE_BADCOOKIE →
          ∃ (s2 : Nat) (req2 : kr_request),
            check_response kr_cc_alg_get state2 req1 pkt2 = some (s2, req2)
            ∧ req2.current_query.flags &&& QUERY_TCP ≠ 0
            ∧ req2.current_query.flags &&& QUERY_BADCOOKIE_AGAIN = 0) := by
  have heq := check_response_badcookie_eq kr_cc_alg_get ctx_state req pkt pkt_cookie_opt
    cache h_enabled h_udp h_opt h_valid h_rcode
  cases hpush : (if req.current_query.flags &&& QUERY_BADCOOKIE_AGAIN = 0 then
      kr_rplan_push req.rplan req.current_query.parent req.current_query.sname
        req.current_query.sclass req.current_query.stype
    else none) with
  | some rplan =>
    rw [hpush] at heq
    have hone : ((req.current_query.flags ||| QUERY_BADCOOKIE_AGAIN)
          &&& QUERY_BADCOOKIE_AGAIN ≠ 0
        ∧ (req.current_query.flags ||| QUERY_BADCOOKIE_AGAIN) &&& QUERY_TCP = 0) :=
      ⟨flags_or_again_set _, by rw [flags_or_again_tcp]; exact h_udp⟩
    refine ⟨_, heq, Or.inl hone, query_tcp_eq, query_badcookie_again_eq, ?_, ?_, ?_⟩
    · intro k _ h22
      show (req.current_query.flags ||| QUERY_BADCOOKIE_AGAIN).testBit k = _
      rw [query_badcookie_again_eq]
      exact or_two_pow_testBit _ 22 k h22
    · intro hor
      exfalso
      by_cases hz : req.current_query.flags &&& QUERY_BADCOOKIE_AGAIN = 0
      · rw [if_pos hz] at hpush
        rcases hor with h | h
        · exact h hz
        · rw [h] at hpush; exact absurd hpush (by simp)
      · rw [if_neg hz] at hpush; exact absurd hpush (by simp)
    · intro state2 pkt2 opt2 cache2 ho hv hr
      exact check_response_badcookie_after kr_cc_alg_get state2 _ pkt2 opt2 cache2 h_enabled
        (Or.inl hone) ho hv hr
  | none =>
    rw [hpush] at heq
    have hone : (((req.current_query.flags &&& (FLAGS_MASK ^^^ QUERY_BADCOOKIE_AGAIN))
            ||| QUERY_TCP) &&& QUERY_BADCOOKIE_AGAIN = 0
        ∧ ((req.current_query.flags &&& (FLAGS_MASK ^^^ QUERY_BADCOOKIE_AGAIN))
            ||| QUERY_TCP) &&& QUERY_TCP ≠ 0) :=
      ⟨flags_fallback_again_clear _, flags_fallback_tcp_set _⟩
    refine ⟨_, heq, Or.inr hone, query_tcp_eq, query_badcookie_again_eq, ?_,
      fun _ => ⟨hone.2, hone.1⟩, ?_⟩
    · intro k h4 h22
      show ((req.current_query.flags &&& (FLAGS_MASK ^^^ QUERY_BADCOOKIE_AGAIN))
        ||| QUERY_TCP).testBit k = _
      rw [query_badcookie_again_eq, query_tcp_eq, flags_mask_eq]
      exact clear_then_set_testBit _ 22 4 k h_flags h22 h4
    · intro state2 pkt2 opt2 cache2 ho hv hr
      exact check_response_badcookie_after kr_cc_alg_get state2 _ pkt2 opt2 cache2 h_enabled
        (Or.inr hone) ho hv hr

theorem check_response_badcookie_progress_witness :
    ∃ req1 : kr_request,
      check_response kr_cc_alg_get_fnv KNOT_STATE_PRODUCE (requestWith query1 none answerEdns) responseBadcookie = some (KNOT_STATE_CONSUME, req1)
      ∧ ((req1.current_query.flags &&& QUERY_BADCOOKIE_AGAIN ≠ 0
            ∧ req1.current_query.flags &&& QUERY_TCP = 0)
          ∨ (req1.current_query.flags &&& QUERY_BADCOOKIE_AGAIN = 0
              ∧ req1.current_query.flags &&& QUERY_TCP ≠ 0))
      ∧ QUERY_TCP = 2 ^ 4 ∧ QUERY_BADCOOKIE_AGAIN = 2 ^ 22
      ∧ (∀ k : Nat, k ≠ 4 → k ≠ 22 →
          req1.current_query.flags.testBit k = (requestWith query1 none answerEdns).current_query.flags.testBit k)
      ∧ (((requestWith query1 none answerEdns).current_query.flags &&& QUERY_BADCOOKIE_AGAIN ≠ 0
            ∨ kr_rplan_push (requestWith query1 none answerEdns).rplan (requestWith query1 none answerEdns).current_query.parent
                (requestWith query1 none answerEdns).current_query.sname (requestWith query1 none answerEdns).current_query.sclass
                (requestWith query1 none answerEdns).current_query.stype = none) →
          req1.current_query.flags &&& QUERY_TCP ≠ 0
          ∧ req1.current_query.flags &&& QUERY_BADCOOKIE_AGAIN = 0)
      ∧ (∀ (state2 : Nat) (pkt2 : knot_pkt_t) (opt2 : edns_option) (cache2 : kr_cookie_lru_t),
          response_cookie_opt pkt2 = some opt2 →
          check_cookie_content_and_cache kr_cc_alg_get_fnv req1.ctx.cookie_ctx.clnt req1 opt2
            req1.ctx.cache_cookie = some (true, cache2) →
          knot_pkt_get_ext_rcode pkt2 = KNOT_RCODE_BADCOOKIE →
          ∃ (s2 : Nat) (req2 : kr_request),
            check_response kr_cc_alg_get_fnv state2 req1 pkt2 = some (s2, req2)
            ∧ req2.current_query.flags &&& QUERY_TCP ≠ 0
            ∧ req2.current_query.flags &&& QUERY_BADCOOKIE_AGAIN = 0) :=
  check_response_badcookie_progress kr_cc_alg_get_fnv KNOT_STATE_PRODUCE
    (requestWith query1 none answerEdns) responseBadcookie responseBadcookieOpt lruUpstream1
    (by decide) (by decide) (by decide) (by decide) (by decide) (by decide)

/-! ## Client side: a response cookie without server cookie -/

/-- C38. A response cookie without a server cookie is rejected: with client cookies enabled and
`QUERY_TCP` clear, for every response whose COOKIE option holds only the 8-octet client
cookie, `check_cookie_content_and_cache` returns false before the client cookie is
looked at and `check_response` returns `KNOT_STATE_FAIL` and leaves the request (cache,
query flags, plan) as it was, whatever the client cookie, the secrets and the
extended RCODE are. -/
theorem check_response_client_cookie_only (kr_cc_alg_get : Int → Option knot_cc_alg)
    (ctx_state : Nat) (req : kr_request) (pkt : knot_pkt_t) (pkt_cookie_opt : edns_option)
    (h_enabled : req.ctx.cookie_ctx.clnt.enabled = true)
    (h_udp : req.current_query.flags &&& QUERY_TCP = 0)
    (h_opt : response_cookie_opt pkt = some pkt_cookie_opt)
    (h_len : pkt_cookie_opt.data.length = 8) :
    knot_edns_opt_cookie_parse (knot_edns_opt_get_data pkt_cookie_opt)
      = some { cc := pkt_cookie_opt.data, sc := none }
    ∧ check_cookie_content_and_cache kr_cc_alg_get req.ctx.cookie_ctx.clnt req pkt_cookie_opt
        req.ctx.cache_cookie = some (false, req.ctx.cache_cookie)
    ∧ check_response kr_cc_alg_get ctx_state req pkt = some (KNOT_STATE_FAIL, req) := by
  have hparse : knot_edns_opt_cookie_parse (knot_edns_opt_get_data pkt_cookie_opt)
      = some { cc := pkt_cookie_opt.data, sc := none } := by
    have ht : pkt_cookie_opt.data.take 8 = pkt_cookie_opt.data := by
      rw [← h_len]; exact List.take_length _
    simp [knot_edns_opt_cookie_parse, knot_edns_opt_get_data, h_len, KNOT_OPT_COOKIE_CLNT, ht]
  have hcheck : check_cookie_content_and_cache kr_cc_alg_get req.ctx.cookie_ctx.clnt req
      pkt_cookie_opt req.ctx.cache_cookie = some (false, req.ctx.cache_cookie) := by
    simp only [check_cookie_content_and_cache, hparse]
  refine ⟨hparse, hcheck, ?_⟩
  simp only [check_response, h_enabled, h_udp, h_opt, hcheck]
  simp

theorem check_response_client_cookie_only_witness :
    knot_edns_opt_cookie_parse (knot_edns_opt_get_data ({ code := 10, data := ccUpstream1 } : edns_option))
      = some { cc := ({ code := 10, data := ccUpstream1 } : edns_option).data, sc := none }
    ∧ check_cookie_content_and_cache kr_cc_alg_get_fnv (requestWith query1 none answerEdns).ctx.cookie_ctx.clnt (requestWith query1 none answerEdns) ({ code := 10, data := ccUpstream1 } : edns_option)
        (requestWith query1 none answerEdns).ctx.cache_cookie = some (false, (requestWith query1 none answerEdns).ctx.cache_cookie)
    ∧ check_response kr_cc_alg_get_fnv KNOT_STATE_PRODUCE (requestWith query1 none answerEdns) responseClientOnly = some (KNOT_STATE_FAIL, (requestWith query1 none answerEdns)) :=
  check_response_client_cookie_only kr_cc_alg_get_fnv KNOT_STATE_PRODUCE
    (requestWith query1 none answerEdns) responseClientOnly
    { code := 10, data := ccUpstream1 } (by decide) (by decide) (by decide) (by decide)

/-! ## Configuration: a rejected member -/

/-- Whether `apply_configuration` accepts a member does not depend on the context it is
applied to. -/
theorem apply_configuration_flag (kr_cc_alg_names kr_sc_alg_names : List (Int × Octets))
    (c1 c2 : kr_cookie_ctx) (node : JsonNode) :
    (apply_configuration kr_cc_alg_names kr_sc_alg_names c1 node).1
      = (apply_configuration kr_cc_alg_names kr_sc_alg_names c2 node).1 := by
  have he : ∀ (b1 b2 : Bool), (aply_enabled b1 node).1 = (aply_enabled b2 node).1 := by
    intro b1 b2
    unfold aply_enabled
    split <;> rfl
  have hs : ∀ (s1 s2 : Option kr_cookie_secret),
      (apply_secret s1 node).1 = (apply_secret s2 node).1 := by
    intro s1 s2
    unfold apply_secret
    split <;> rfl
  have hh : ∀ (a1 a2 : Int) (table : List (Int × Octets)),
      (apply_hash_func a1 node table).1 = (apply_hash_func a2 node table).1 := by
    intro a1 a2 table
    unfold apply_hash_func
    split
    · split <;> rfl
    · rfl
  unfold apply_configuration
  cases node.key with
  | none => rfl
  | some key =>
    simp only []
    split
    · exact he _ _
    · split
      · exact hs _ _
      · split
        · exact hh _ _ _
        · split
          · exact he _ _
          · split
            · exact hs _ _
            · split
              · exact hh _ _ _
              · rfl

/-- The loop over the members fails when it holds a member that `apply_configuration`
rejects. -/
theorem config_apply_members_rejected (kr_cc_alg_names kr_sc_alg_names : List (Int × Octets))
    (nodes : List JsonNode) (node : JsonNode) (cntrl shallow_copy : kr_cookie_ctx)
    (h_mem : node ∈ nodes)
    (h_rej : (apply_configuration kr_cc_alg_names kr_sc_alg_names cntrl node).1 = false) :
    (config_apply_members kr_cc_alg_names kr_sc_alg_names shallow_copy nodes).1 = false := by
  induction nodes generalizing shallow_copy with
  | nil => exact absurd h_mem (by simp)
  | cons n rest ih =>
    unfold config_apply_members
    by_cases hn : (apply_configuration kr_cc_alg_names kr_sc_alg_names shallow_copy n).1 = false
    · rw [if_pos hn]
    · rw [if_neg hn]
      rcases List.mem_cons.mp h_mem with h | h
      · subst h
        rw [apply_configuration_flag kr_cc_alg_names kr_sc_alg_names shallow_copy cntrl node]
          at hn
        exact absurd h_rej hn
      · exact ih _ h

theorem apply_secret_rejected (sec : Option kr_cookie_secret) (n : JsonNode)
    (h : (n.tag ≠ JsonTag.JSON_STRING ∧ n.tag ≠ JsonTag.JSON_ARRAY)
          ∨ (n.tag = JsonTag.JSON_STRING ∧ n.string_ = [])
          ∨ (n.tag = JsonTag.JSON_ARRAY ∧ n.children = [])
          ∨ (n.tag = JsonTag.JSON_ARRAY
              ∧ ∃ e ∈ n.children, e.tag ≠ JsonTag.JSON_NUMBER ∨ e.number_ < 0
                  ∨ 255 < e.number_)) :
    (apply_secret sec n).1 = false := by
  unfold apply_secret
  rcases h with ⟨h1, h2⟩ | ⟨h1, h2⟩ | ⟨h1, h2⟩ | ⟨h1, e, he, h2⟩
  · cases ht : n.tag <;> simp_all
  · simp [h1, new_sq_str, new_cookie_secret, h2]
  · simp [h1, new_sq_array, new_cookie_secret, h2]
  · have hany : n.children.any
        (fun element => decide (element.tag ≠ JsonTag.JSON_NUMBER)
          || !holds_char element.number_) = true := by
      rw [List.any_eq_true]
      refine ⟨e, he, ?_⟩
      rcases h2 with h | h | h
      · simp [h]
      · simp only [holds_char, Bool.or_eq_true, decide_eq_true_eq, Bool.not_eq_true',
          decide_eq_false_iff_not]
        exact Or.inr (fun hc => absurd hc.1 (not_le.mpr h))
      · simp only [holds_char, Bool.or_eq_true, decide_eq_true_eq, Bool.not_eq_true',
          decide_eq_false_iff_not]
        exact Or.inr (fun hc => absurd hc.2 (not_le.mpr h))
    simp only [h1, new_sq_array, hany, if_true]

theorem apply_hash_func_rejected (alg_id : Int) (n : JsonNode) (table : List (Int × Octets))
    (h : n.tag ≠ JsonTag.JSON_STRING ∨ knot_lookup_by_name table n.string_ = none) :
    (apply_hash_func alg_id n table).1 = false := by
  unfold apply_hash_func
  by_cases ht : n.tag = JsonTag.JSON_STRING
  · rcases h with h | h
    · exact absurd ht h
    · simp [ht, h]
  · simp [ht]

/-- C39. `config_apply` is all-or-nothing: when a top-level member of the decoded document is
rejected by `apply_configuration`, `config_apply` returns false and the running context
is exactly what it was (enabled flags, current and recent algorithm ids and secrets of
both roles), whatever the other members are and wherever the member stands; with a
null or empty argument string it returns true and changes nothing. A member is
rejected when it has no key or an unknown key, when the value of an `enabled` key is
not a boolean, when the value of a secret key is neither string nor array, an empty
string, an empty array or an array with an element that is not a number in 0..255,
and when the value of an algorithm key is not a string or names no algorithm of the
table. -/
theorem config_apply_all_or_nothing (json_decode : Octets → Option JsonRoot)
    (kr_cc_alg_names kr_sc_alg_names : List (Int × Octets))
    (running cntrl : kr_cookie_ctx) (args : Octets) (node : JsonNode)
    (h_args : args.length ≠ 0)
    (h_mem : node ∈ json_children (json_decode args))
    (h_rej : (apply_configuration kr_cc_alg_names kr_sc_alg_names cntrl node).1 = false) :
    config_apply json_decode kr_cc_alg_names kr_sc_alg_names (some running) (some args) = some (false, some running)
    ∧ config_apply json_decode kr_cc_alg_names kr_sc_alg_names (some running) none = some (true, some running)
    ∧ config_apply json_decode kr_cc_alg_names kr_sc_alg_names (some running) (some []) = some (true, some running)
    ∧ (∀ (cntrl : kr_cookie_ctx) (n : JsonNode), n.key = none →
        (apply_configuration kr_cc_alg_names kr_sc_alg_names cntrl n).1 = false)
    ∧ (∀ (cntrl : kr_cookie_ctx) (n : JsonNode) (key : String), n.key = some key →
        key ≠ "client_enabled" → key ≠ "client_secret" → key ≠ "client_cookie_alg" →
        key ≠ "server_enabled" → key ≠ "server_secret" → key ≠ "server_cookie_alg" →
        (apply_configuration kr_cc_alg_names kr_sc_alg_names cntrl n).1 = false)
    ∧ (∀ (cntrl : kr_cookie_ctx) (n : JsonNode),
        (n.key = some "client_enabled" ∨ n.key = some "server_enabled") →
        n.tag ≠ JsonTag.JSON_BOOL →
        (apply_configuration kr_cc_alg_names kr_sc_alg_names cntrl n).1 = false)
    ∧ (∀ (cntrl : kr_cookie_ctx) (n : JsonNode),
        (n.key = some "client_secret" ∨ n.key = some "server_secret") →
        ((n.tag ≠ JsonTag.JSON_STRING ∧ n.tag ≠ JsonTag.JSON_ARRAY)
          ∨ (n.tag = JsonTag.JSON_STRING ∧ n.string_ = [])
          ∨ (n.tag = JsonTag.JSON_ARRAY ∧ n.children = [])
          ∨ (n.tag = JsonTag.JSON_ARRAY
              ∧ ∃ e ∈ n.children, e.tag ≠ JsonTag.JSON_NUMBER ∨ e.number_ < 0
                  ∨ 255 < e.number_)) →
        (apply_configuration kr_cc_alg_names kr_sc_alg_names cntrl n).1 = false)
    ∧ (∀ (cntrl : kr_cookie_ctx) (n : JsonNode),
        ((n.key = some "client_cookie_alg"
            ∧ (n.tag ≠ JsonTag.JSON_STRING ∨ knot_lookup_by_name kr_cc_alg_names n.string_ = none))
          ∨ (n.key = some "server_cookie_alg"
            ∧ (n.tag ≠ JsonTag.JSON_STRING ∨ knot_lookup_by_name kr_sc_alg_names n.string_ = none))) →
        (apply_configuration kr_cc_alg_names kr_sc_alg_names cntrl n).1 = false) := by
  have hm := config_apply_members_rejected kr_cc_alg_names kr_sc_alg_names
    (json_children (json_decode args)) node cntrl running h_mem h_rej
  refine ⟨?_, rfl, ?_, ?_, ?_, ?_, ?_, ?_⟩
  · simp only [config_apply, h_args, hm, if_false]
    simp
  · simp [config_apply]
  · intro c n hk
    simp only [apply_configuration, hk]
  · intro c n key hk h1 h2 h3 h4 h5 h6
    simp only [apply_configuration, hk, h1, h2, h3, h4, h5, h6, if_false]
  · intro c n hk htag
    rcases hk with hk | hk
    · simp [apply_configuration, hk, aply_enabled, htag]
    · simp [apply_configuration, hk, aply_enabled, htag]
  · intro c n hk hbad
    rcases hk with hk | hk
    · simp [apply_configuration, hk, apply_secret_rejected _ n hbad]
    · simp [apply_configuration, hk, apply_secret_rejected _ n hbad]
  · intro c n hbad
    rcases hbad with ⟨hk, hb⟩ | ⟨hk, hb⟩
    · simp [apply_configuration, hk, apply_hash_func_rejected _ n _ hb]
    · simp [apply_configuration, hk, apply_hash_func_rejected _ n _ hb]

theorem config_apply_all_or_nothing_witness :
    config_apply decodeTable algNames algNames (some cookieCtxA) (some [50]) = some (false, some cookieCtxA)
    ∧ config_apply decodeTable algNames algNames (some cookieCtxA) none = some (true, some cookieCtxA)
    ∧ config_apply decodeTable algNames algNames (some cookieCtxA) (some []) = some (true, some cookieCtxA)
    ∧ (∀ (cntrl : kr_cookie_ctx) (n : JsonNode), n.key = none →
        (apply_configuration algNames algNames cntrl n).1 = false)
    ∧ (∀ (cntrl : kr_cookie_ctx) (n : JsonNode) (key : String), n.key = some key →
        key ≠ "client_enabled" → key ≠ "client_secret" → key ≠ "client_cookie_alg" →
        key ≠ "server_enabled" → key ≠ "server_secret" → key ≠ "server_cookie_alg" →
        (apply_configuration algNames algNames cntrl n).1 = false)
    ∧ (∀ (cntrl : kr_cookie_ctx) (n : JsonNode),
        (n.key = some "client_enabled" ∨ n.key = some "server_enabled") →
        n.tag ≠ JsonTag.JSON_BOOL →
        (apply_configuration algNames algNames cntrl n).1 = false)
    ∧ (∀ (cntrl : kr_cookie_ctx) (n : JsonNode),
        (n.key = some "client_secret" ∨ n.key = some "server_secret") →
        ((n.tag ≠ JsonTag.JSON_STRING ∧ n.tag ≠ JsonTag.JSON_ARRAY)
          ∨ (n.tag = JsonTag.JSON_STRING ∧ n.string_ = [])
          ∨ (n.tag = JsonTag.JSON_ARRAY ∧ n.children = [])
          ∨ (n.tag = JsonTag.JSON_ARRAY
              ∧ ∃ e ∈ n.children, e.tag ≠ JsonTag.JSON_NUMBER ∨ e.number_ < 0
                  ∨ 255 < e.number_)) →
        (apply_configuration algNames algNames cntrl n).1 = false)
    ∧ (∀ (cntrl : kr_cookie_ctx) (n : JsonNode),
        ((n.key = some "client_cookie_alg"
            ∧ (n.tag ≠ JsonTag.JSON_STRING ∨ knot_lookup_by_name algNames n.string_ = none))
          ∨ (n.key = some "server_cookie_alg"
            ∧ (n.tag ≠ JsonTag.JSON_STRING ∨ knot_lookup_by_name algNames n.string_ = none))) →
        (apply_configuration algNames algNames cntrl n).1 = false) :=
  config_apply_all_or_nothing decodeTable algNames algNames cookieCtxA cookieCtxA [50]
    { key := some "no_such_key", tag := JsonTag.JSON_BOOL, bool_ := true,
      string_ := [], number_ := 0, children := [] }
    (by decide) (by decide) (by decide)

/-! ## Configuration: round trip of a secret -/

theorem new_sq_array_rejected (n : JsonNode)
    (h : n.children = []
      ∨ ∃ e ∈ n.children, e.tag ≠ JsonTag.JSON_NUMBER ∨ e.number_ < 0 ∨ 255 < e.number_) :
    new_sq_array n = none := by
  have := apply_secret_rejected none { n with tag := JsonTag.JSON_ARRAY }
    (by
      rcases h with h | h
      · exact Or.inr (Or.inr (Or.inl ⟨rfl, h⟩))
      · exact Or.inr (Or.inr (Or.inr ⟨rfl, h⟩)))
  unfold apply_secret at this
  simp only [] at this
  have heq : new_sq_array { n with tag := JsonTag.JSON_ARRAY } = new_sq_array n := rfl
  rw [heq] at this
  cases hn : new_sq_array n with
  | none => rfl
  | some sq => rw [hn] at this; simp at this

/-- The octet `new_sq_array` stores for an element that holds a natural number below 256,
turned into a number again by `read_secret`, is the element. -/
theorem element_round_trip (e : JsonElement) (h_tag : e.tag = JsonTag.JSON_NUMBER)
    (k : Nat) (h_le : k ≤ 255) (h_num : e.number_ = (k : ℚ)) :
    ⌊e.number_⌋.toNat = k
    ∧ json_mknumber (((⌊e.number_⌋.toNat % 256 : Nat)) : ℚ) = e := by
  have h1 : ⌊e.number_⌋.toNat = k := by
    rw [h_num]
    simp
  refine ⟨h1, ?_⟩
  rw [h1, Nat.mod_eq_of_lt (by omega)]
  cases e with
  | mk tag number_ =>
    simp only [] at h_tag h_num
    rw [h_tag, h_num]
    rfl

/-- C40. Secret configuration round trip: for every non-empty JSON array of integers each in
0..255, `new_sq_array` builds a secret whose length is the element count and whose i-th
octet is the i-th element, and `read_secret` on that secret appends an array equal to
the original; an empty array, a non-numeric element or a number outside 0..255 is
rejected (no secret is produced). -/
theorem new_sq_array_round_trip (node : JsonNode) (root : JsonRoot) (node_name : String)
    (h_nonempty : node.children ≠ [])
    (h_elements : ∀ e ∈ node.children,
      e.tag = JsonTag.JSON_NUMBER ∧ ∃ k : Nat, k ≤ 255 ∧ e.number_ = (k : ℚ)) :
    (∃ sq : kr_cookie_secret,
      new_sq_array node = some sq
      ∧ sq.size = node.children.length
      ∧ (∀ i : Nat, i < node.children.length →
          sq.data[i]?.map (fun octet : Nat => (octet : ℚ))
            = node.children[i]?.map (fun e : JsonElement => e.number_))
      ∧ (∀ octet ∈ sq.data, octet ≤ 255)
      ∧ read_secret root node_name sq
          = (true,
             { root with
               children := root.children
                 ++ [{ key := some node_name, tag := JsonTag.JSON_ARRAY, bool_ := false,
                       string_ := [], number_ := 0, children := node.children }] }))
    ∧ (∀ n : JsonNode, n.children = [] → new_sq_array n = none)
    ∧ (∀ n : JsonNode, (∃ e ∈ n.children, e.tag ≠ JsonTag.JSON_NUMBER) →
        new_sq_array n = none)
    ∧ (∀ n : JsonNode, (∃ e ∈ n.children, e.number_ < 0 ∨ 255 < e.number_) →
        new_sq_array n = none) := by
  have hany : node.children.any
      (fun element => decide (element.tag ≠ JsonTag.JSON_NUMBER)
        || !holds_char element.number_) = false := by
    rw [List.any_eq_false]
    intro e he
    obtain ⟨ht, k, hk, hn⟩ := h_elements e he
    have hk2 : (k : ℚ) ≤ 255 := by exact_mod_cast hk
    simp [ht, holds_char, hn, hk2]
  have hlen : node.children.length ≠ 0 := by
    intro h
    exact h_nonempty (List.length_eq_zero.mp h)
  have hsq : new_sq_array node
      = some { data := node.children.map (fun element => ⌊element.number_⌋.toNat) } := by
    unfold new_sq_array
    rw [hany]
    simp only [Bool.false_eq_true, if_false, new_cookie_secret, hlen]
  have hmap : (node.children.map (fun element => ⌊element.number_⌋.toNat)).map
      (fun octet => json_mknumber ((octet % 256 : Nat) : ℚ)) = node.children := by
    rw [List.map_map]
    conv_rhs => rw [← List.map_id node.children]
    apply List.map_congr_left
    intro e he
    obtain ⟨ht, k, hk, hn⟩ := h_elements e he
    exact (element_round_trip e ht k hk hn).2
  refine ⟨⟨_, hsq, by simp [kr_cookie_secret.size], ?_, ?_, ?_⟩, ?_, ?_, ?_⟩
  · intro i hi
    cases hge : node.children[i]? with
    | none =>
      rw [List.getElem?_map, hge]
      rfl
    | some e =>
      have he : e ∈ node.children := List.getElem?_mem hge
      obtain ⟨ht, k, hk, hn⟩ := h_elements e he
      have h1 := (element_round_trip e ht k hk hn).1
      rw [List.getElem?_map, hge]
      simp only [Option.map_some']
      rw [h1, hn]
  · intro octet ho
    obtain ⟨e, he, heq⟩ := List.mem_map.mp ho
    obtain ⟨ht, k, hk, hn⟩ := h_elements e he
    rw [← heq, (element_round_trip e ht k hk hn).1]
    exact hk
  · simp only [read_secret, json_append_member, hmap]
  · intro n hn
    exact new_sq_array_rejected n (Or.inl hn)
  · rintro n ⟨e, he, h⟩
    exact new_sq_array_rejected n (Or.inr ⟨e, he, Or.inl h⟩)
  · rintro n ⟨e, he, h⟩
    exact new_sq_array_rejected n (Or.inr ⟨e, he, Or.inr h⟩)

theorem new_sq_array_round_trip_witness :
    (∃ sq : kr_cookie_secret,
      new_sq_array nodeSecretB = some sq
      ∧ sq.size = nodeSecretB.children.length
      ∧ (∀ i : Nat, i < nodeSecretB.children.length →
          sq.data[i]?.map (fun octet : Nat => (octet : ℚ))
            = nodeSecretB.children[i]?.map (fun e : JsonElement => e.number_))
      ∧ (∀ octet ∈ sq.data, octet ≤ 255)
      ∧ read_secret jsonEmptyObject "server_secret" sq
          = (true,
             { jsonEmptyObject with
               children := jsonEmptyObject.children
                 ++ [{ key := some "server_secret", tag := JsonTag.JSON_ARRAY, bool_ := false,
                       string_ := [], number_ := 0, children := nodeSecretB.children }] }))
    ∧ (∀ n : JsonNode, n.children = [] → new_sq_array n = none)
    ∧ (∀ n : JsonNode, (∃ e ∈ n.children, e.tag ≠ JsonTag.JSON_NUMBER) →
        new_sq_array n = none)
    ∧ (∀ n : JsonNode, (∃ e ∈ n.children, e.number_ < 0 ∨ 255 < e.number_) →
        new_sq_array n = none) :=
  new_sq_array_round_trip nodeSecretB jsonEmptyObject "server_secret" (by decide)
    (by
      intro e he
      simp only [nodeSecretB, List.mem_cons, List.mem_singleton, List.not_mem_nil,
        or_false] at he
      rcases he with h | h | h | h | h | h | h | h <;> subst h
      · exact ⟨rfl, 1, by decide, by norm_num⟩
      · exact ⟨rfl, 2, by decide, by norm_num⟩
      · exact ⟨rfl, 3, by decide, by norm_num⟩
      · exact ⟨rfl, 4, by decide, by norm_num⟩
      · exact ⟨rfl, 5, by decide, by norm_num⟩
      · exact ⟨rfl, 6, by decide, by norm_num⟩
      · exact ⟨rfl, 7, by decide, by norm_num⟩
      · exact ⟨rfl, 8, by decide, by norm_num⟩)

end KnotResolver
